import Mathlib

/-!
# Bluetooth device layer (device/src/Bluetooth.cpp)

A shallow embedding of the Bluetooth device code: the codec plugin gateway
(getPluginPayload), the DSP pipeline configurator (configureA2dpEncoderDecoder),
the adaptive-bitrate feedback channel (startAbr, stopAbr), the A2DP session
bookkeeping (startPlayback, stopPlayback, startCapture, stopCapture) and the
SCO device: its LC3 stream-map parser (convertCodecInfo), setDeviceParameter and
stop.

Conventions of the embedding.
* A device object is a record; a member function maps a record to a record.
* Every call into a collaborator (resource manager, session, payload builder,
  codec plugin, vendor Bluetooth library, tinyalsa) takes its result from a
  record of collaborator outcomes and is appended to the field `trace` of the
  device record, a ghost field that the C++ object does not have.
* `int` members are `Int`; errno constants carry their Linux values.
* Code of the base class Device that is not in Bluetooth.cpp (Device::stop_l) is a
  parameter of the model.
-/

namespace Arpal

/-! ## Constants and enumerations -/

def ENOMEM : Int := 12

def EINVAL : Int := 22

def ENOSYS : Int := 38

def ETIMEDOUT : Int := 110

def SAMPLINGRATE_8K : Nat := 8000

def SAMPLINGRATE_16K : Nat := 16000

def SAMPLINGRATE_96K : Nat := 96000

def BITWIDTH_16 : Nat := 16

def CHANNELS_1 : Nat := 1

def PARAM_ID_RESET_PLACEHOLDER_MODULE : Nat := 0x08001173

/-- Direction of the codec: encoder (render path) or decoder (capture path). -/
inductive codec_type
  | ENC
  | DEC
  deriving DecidableEq, Repr

/-- Codec formats named in Bluetooth.cpp; `other` stands for any further value
of the 32-bit format word handed over by the Bluetooth stack. -/
inductive CodecFormat
  | CODEC_TYPE_INVALID
  | CODEC_TYPE_AAC
  | CODEC_TYPE_SBC
  | CODEC_TYPE_APTX
  | CODEC_TYPE_APTX_HD
  | CODEC_TYPE_APTX_DUAL_MONO
  | CODEC_TYPE_LDAC
  | CODEC_TYPE_CELT
  | CODEC_TYPE_APTX_AD
  | CODEC_TYPE_APTX_AD_SPEECH
  | CODEC_TYPE_LC3
  | other (raw : Nat)
  deriving DecidableEq, Repr

/-- Logical device identities used by the Bluetooth devices. -/
inductive pal_device_id_t
  | PAL_DEVICE_OUT_BLUETOOTH_A2DP
  | PAL_DEVICE_IN_BLUETOOTH_A2DP
  | PAL_DEVICE_OUT_BLUETOOTH_SCO
  | PAL_DEVICE_IN_BLUETOOTH_SCO_HEADSET
  | other (raw : Nat)
  deriving DecidableEq, Repr

/-- Audio format tags written by this file. -/
inductive pal_audio_fmt_t
  | PAL_AUDIO_FMT_DEFAULT_PCM
  | PAL_AUDIO_FMT_DEFAULT_COMPRESSED
  | other (raw : Nat)
  deriving DecidableEq, Repr

/-- Module tags resolved to module-instance ids by the session. -/
inductive ModuleTag
  | BT_PLACEHOLDER_ENCODER
  | BT_PLACEHOLDER_DECODER
  | COP_DEPACKETIZER_V2
  | COP_PACKETIZER_V2
  | COP_PACKETIZER_V0
  | RAT_RENDER
  | BT_PCM_CONVERTER
  deriving DecidableEq, Repr

/-- Graph keys of the routing metadata. -/
inductive GraphKey
  | DEVICERX
  | DEVICETX
  | BT_PROFILE
  | BT_FORMAT
  deriving DecidableEq, Repr

/-- Graph key values of the routing metadata. -/
inductive GraphValue
  | BT_RX
  | BT_TX
  | A2DP
  | SCO
  | LDAC
  | APTX_ADAPTIVE
  | LC3
  | AAC_ABR
  | GENERIC
  | SWB
  deriving DecidableEq, Repr

/-- The payload builder routine that produced a payload. -/
inductive PayloadKind
  | payloadCustomParam (param_id : Nat)
  | payloadTWSConfig
  | payloadLC3Config
  | payloadCopV2DepackConfig (isStreamMapIn : Bool)
  | payloadCopV2PackConfig
  | payloadCopPackConfig
  | payloadRATConfig
  | payloadPcmCnvConfig
  deriving DecidableEq, Repr

/-- The two out-parameters of a payload builder call: the buffer (`none` is a
null pointer) and its size. -/
structure BuilderOut where
  paramData : Option (List Nat)
  paramSize : Nat
  deriving DecidableEq, Repr

/-- Stream shape: pal_media_config restricted to the members this file uses. -/
structure pal_media_config where
  sample_rate : Nat
  bit_width : Nat
  channels : Nat
  aud_fmt_id : pal_audio_fmt_t
  deriving DecidableEq, Repr

/-- One configuration block of a codec plugin. -/
structure custom_block_t where
  param_id : Nat
  payload_sz : Nat
  payload : List Nat
  deriving DecidableEq, Repr

/-- The package a codec plugin fills in; `num_blks` is the length of `blocks`. -/
structure bt_enc_payload_t where
  sample_rate : Nat
  bit_format : Nat
  channel_count : Nat
  is_abr_enabled : Bool
  blocks : List custom_block_t
  deriving DecidableEq, Repr

/-- Number of blocks of a plugin package. -/
def bt_enc_payload_t.num_blks (p : bt_enc_payload_t) : Nat := p.blocks.length

/-- Hostless direction of the feedback front end. -/
inductive HostlessDir
  | RX_HOSTLESS
  | TX_HOSTLESS
  deriving DecidableEq, Repr

/-- The symbols that init_a2dp_source and init_a2dp_sink look up in the Bluetooth
control libraries, under the names passed to dlsym. -/
inductive BtSymbol
  | bt_audio_pre_init
  | audio_stream_open
  | audio_start_stream
  | audio_get_codec_config
  | audio_suspend_stream
  | audio_handoff_triggered
  | clear_a2dpsuspend_flag
  | audio_stop_stream
  | audio_stream_close
  | audio_check_a2dp_ready
  | audio_sink_get_a2dp_latency
  | isTwsMonomodeEnable
  | audio_sink_start_capture
  | audio_get_decoder_config
  | audio_sink_stop_capture
  | audio_sink_check_a2dp_ready
  | audio_sink_session_setup_complete
  deriving DecidableEq, Repr

/-- Calls into collaborators, in the order the code makes them. The module tag
of `updateCustomPayload` is the tag whose resolution gave the module-instance id
the payload was built for. -/
inductive Event
  | getActiveStream_l
  | dlopen (path : String)
  | dlsym_plugin_open
  | plugin_open (fmt : CodecFormat) (dir : codec_type)
  | plugin_populate_payload (status : Int)
  | close_plugin (codec : Nat)
  | dlclose (handle : Nat)
  | getMIID (tag : ModuleTag)
  | updateCustomPayload (target : ModuleTag) (kind : PayloadKind) (out : BuilderOut)
  | setDeviceMetadata (dev : pal_device_id_t) (keys : List (GraphKey × GraphValue))
  | setDeviceMediaConfig (dev : pal_device_id_t)
  | allocateFrontEndIds (ids : List Nat)
  | freeFrontEndIds (ids : List Nat)
  | getAudioMixer
  | mixer_get_ctl_connect
  | mixer_ctl_set_enum_by_string
  | mixer_get_ctl_feedback
  | mixer_ctl_set_value (value : Nat)
  | getInstance (dev : pal_device_id_t)
  | getModuleInstanceId (tag : ModuleTag)
  | setDeviceCustomPayload (out : BuilderOut)
  | pcm_open (pcm : Option Nat)
  | pcm_is_ready
  | pcm_start (status : Int)
  | pcm_stop
  | pcm_close (pcm : Option Nat)
  | audio_source_start
  | audio_source_stop
  | audio_get_enc_config
  | audio_is_tws_mono_mode_enable
  | audio_sink_start
  | audio_sink_stop
  | audio_get_dec_config
  | audio_sink_session_setup_complete
  | audio_source_open
  | audio_source_close
  | audio_source_suspend
  | clear_source_a2dpsuspend_flag
  | a2dpSuspend
  | a2dpResume
  | setParameters (tag : ModuleTag)
  | dlsym (symbol : BtSymbol)
  | bt_audio_pre_init
  deriving DecidableEq, Repr

/-- The members of the shared feedback device that startAbr and stopAbr touch. -/
structure FbDev where
  isConfigured : Bool
  deviceCount : Int
  codecConfig : pal_media_config
  deriving DecidableEq, Repr

/-- Members of class Bluetooth (with those of Device it uses), and the ghost
field `trace`. Pointers are options, `none` being the null pointer. -/
structure Bluetooth where
  deviceAttr_id : pal_device_id_t
  deviceAttr_config : pal_media_config
  customPayload : List BuilderOut
  codecFormat : CodecFormat
  codecType : codec_type
  codecInfo : Option Nat
  codecConfig : pal_media_config
  isAbrEnabled : Bool
  isConfigured : Bool
  isLC3MonoModeOn : Bool
  isTwsMonoModeOn : Bool
  isDummySink : Bool
  abrRefCnt : Int
  pluginHandler : Option Nat
  pluginCodec : Option Nat
  fbPcm : Option Nat
  fbpcmDevIds : List Nat
  fbDev : Option FbDev
  deviceCount : Int
  trace : List Event
  deriving DecidableEq, Repr

/-- Outcomes of the collaborators during one call. Builders are functions of
the arguments the code passes them. -/
structure Collab where
  getActiveStream_l : Int × Nat
  getBtCodecLib : CodecFormat → codec_type → String
  dlopen : String → Option Nat
  dlsym_plugin_open : Nat → Bool
  plugin_open : CodecFormat → codec_type → Int × Option Nat
  plugin_populate_payload : Option Nat → Option Nat → Int × bt_enc_payload_t
  getMIID : ModuleTag → Int × Nat
  payloadCustomParam : List Nat → Nat → Nat → Nat → BuilderOut
  payloadTWSConfig : Nat → Bool → CodecFormat → BuilderOut
  payloadLC3Config : Nat → Bool → BuilderOut
  payloadCopV2DepackConfig : Nat → Option Nat → Bool → BuilderOut
  payloadCopV2PackConfig : Nat → Option Nat → BuilderOut
  payloadCopPackConfig : Nat → pal_media_config → BuilderOut
  payloadRATConfig : Nat → pal_media_config → BuilderOut
  payloadPcmCnvConfig : Nat → pal_media_config → BuilderOut
  setDeviceMetadata : pal_device_id_t → List (GraphKey × GraphValue) → Int
  setDeviceMediaConfig : pal_device_id_t → Int
  allocateFrontEndIds : HostlessDir → List Nat
  getAudioMixer : Int
  mixer_get_ctl_connect : Nat → Bool
  mixer_ctl_set_enum_by_string : Int
  mixer_get_ctl_feedback : Bool
  mixer_ctl_set_value : Nat → Int
  getInstance : pal_device_id_t → Option FbDev
  getModuleInstanceId : Nat → ModuleTag → Int × Nat
  setDeviceCustomPayload : BuilderOut → Int
  pcm_open : Nat → Option Nat
  pcm_is_ready : Bool
  pcm_start : Int
  audio_source_start : Int
  audio_source_stop : Int
  audio_get_enc_config : Option Nat × CodecFormat
  audio_is_tws_mono_mode_enable : Bool
  audio_sink_start : Int
  audio_sink_stop : Int
  audio_get_dec_config : Option Nat × CodecFormat
  audio_sink_session_setup_complete : Int

/-! ## Ghost trace and custom payload -/

/-- Append a collaborator call to the trace. -/
def Bluetooth.log (d : Bluetooth) (e : Event) : Bluetooth :=
  { d with trace := d.trace ++ [e] }

/-- Device::updateCustomPayload: the payload is appended to the payload
accumulated on the owning device. -/
def Bluetooth.updateCustomPayload (d : Bluetooth) (target : ModuleTag) (kind : PayloadKind)
    (out : BuilderOut) : Bluetooth :=
  { d with customPayload := d.customPayload ++ [out],
           trace := d.trace ++ [Event.updateCustomPayload target kind out] }

/-! ## Routing metadata and device attributes -/

/-- Bluetooth::updateDeviceMetadata: the routing keys for the device id, codec
format and ABR flag are pushed to the backend; an id that is no Bluetooth
device gives -EINVAL without a push. -/
def updateDeviceMetadata (env : Collab) (d : Bluetooth) : Int × Bluetooth :=
  match d.deviceAttr_id with
  | .PAL_DEVICE_IN_BLUETOOTH_A2DP | .PAL_DEVICE_OUT_BLUETOOTH_A2DP =>
    let k1 : List (GraphKey × GraphValue) :=
      if d.deviceAttr_id = .PAL_DEVICE_OUT_BLUETOOTH_A2DP then [(.DEVICERX, .BT_RX)]
      else [(.DEVICETX, .BT_TX)]
    let k2 : List (GraphKey × GraphValue) := k1 ++ [(.BT_PROFILE, .A2DP)]
    let k3 : List (GraphKey × GraphValue) :=
      match d.codecFormat with
      | .CODEC_TYPE_LDAC => k2 ++ [(.BT_FORMAT, .LDAC)]
      | .CODEC_TYPE_APTX_AD => k2 ++ [(.BT_FORMAT, .APTX_ADAPTIVE)]
      | .CODEC_TYPE_LC3 => k2 ++ [(.BT_FORMAT, .LC3)]
      | .CODEC_TYPE_AAC =>
        if d.isAbrEnabled then k2 ++ [(.BT_FORMAT, .AAC_ABR)]
        else k2 ++ [(.BT_FORMAT, .GENERIC)]
      | _ => k2 ++ [(.BT_FORMAT, .GENERIC)]
    (env.setDeviceMetadata d.deviceAttr_id k3, d.log (.setDeviceMetadata d.deviceAttr_id k3))
  | .PAL_DEVICE_OUT_BLUETOOTH_SCO | .PAL_DEVICE_IN_BLUETOOTH_SCO_HEADSET =>
    let k1 : List (GraphKey × GraphValue) :=
      if d.deviceAttr_id = .PAL_DEVICE_OUT_BLUETOOTH_SCO then [(.DEVICERX, .BT_RX)]
      else [(.DEVICETX, .BT_TX)]
    let k2 : List (GraphKey × GraphValue) := k1 ++ [(.BT_PROFILE, .SCO)]
    let k3 : List (GraphKey × GraphValue) :=
      match d.codecFormat with
      | .CODEC_TYPE_APTX_AD_SPEECH => k2 ++ [(.BT_FORMAT, .SWB)]
      | .CODEC_TYPE_LC3 => k2 ++ [(.BT_FORMAT, .LC3)]
      | _ => k2
    (env.setDeviceMetadata d.deviceAttr_id k3, d.log (.setDeviceMetadata d.deviceAttr_id k3))
  | _ => (-EINVAL, d)

/-- Bluetooth::updateDeviceAttributes: only deviceAttr.config is written. The
sample rate is first set to the codec sample rate, then the switch on the codec
format doubles it or fixes rate and format tag. -/
def updateDeviceAttributes (d : Bluetooth) : Bluetooth :=
  let cfg : pal_media_config := { d.deviceAttr_config with sample_rate := d.codecConfig.sample_rate }
  { d with deviceAttr_config :=
      match d.codecFormat with
      | .CODEC_TYPE_AAC | .CODEC_TYPE_SBC =>
        if d.codecType = .DEC ∧ (d.codecConfig.sample_rate = 44100 ∨ d.codecConfig.sample_rate = 48000) then
          { cfg with sample_rate := (d.codecConfig.sample_rate * 2) % 2 ^ 32 }
        else cfg
      | .CODEC_TYPE_LDAC | .CODEC_TYPE_APTX_AD =>
        if d.codecType = .ENC ∧ (d.codecConfig.sample_rate = 44100 ∨ d.codecConfig.sample_rate = 48000) then
          { cfg with sample_rate := (d.codecConfig.sample_rate * 2) % 2 ^ 32 }
        else cfg
      | .CODEC_TYPE_APTX_AD_SPEECH =>
        { cfg with sample_rate := SAMPLINGRATE_96K, aud_fmt_id := .PAL_AUDIO_FMT_DEFAULT_COMPRESSED }
      | .CODEC_TYPE_LC3 =>
        { cfg with sample_rate := SAMPLINGRATE_96K, aud_fmt_id := .PAL_AUDIO_FMT_DEFAULT_COMPRESSED }
      | _ => cfg }

/-- Bluetooth::isPlaceholderEncoder. -/
def isPlaceholderEncoder (d : Bluetooth) : Bool :=
  match d.codecFormat with
  | .CODEC_TYPE_LDAC | .CODEC_TYPE_APTX_AD | .CODEC_TYPE_APTX_AD_SPEECH | .CODEC_TYPE_LC3 => false
  | .CODEC_TYPE_AAC => if d.isAbrEnabled then false else true
  | _ => true

/-! ## Codec plugin gateway -/

/-- What getPluginPayload stores through its out-pointers when it succeeds. -/
structure PluginLoaded where
  libHandle : Nat
  btCodec : Option Nat
  out_buf : bt_enc_payload_t
  deriving DecidableEq, Repr

/-- The error label of getPluginPayload: the codec is closed when it is set,
then the library handle is released. -/
def getPluginPayload_error (status : Int) (codec : Option Nat) (handle : Nat) (d : Bluetooth) :
    Int × Option PluginLoaded × Bluetooth :=
  let d1 := match codec with
    | some c => d.log (.close_plugin c)
    | none => d
  (status, none, d1.log (.dlclose handle))

/-- Bluetooth::getPluginPayload. The second component is `none` when the
out-pointers of the caller are left untouched. A plugin whose open routine
reports success is taken to hand out the codec it opened. -/
def getPluginPayload (env : Collab) (d : Bluetooth) (codecType : codec_type) :
    Int × Option PluginLoaded × Bluetooth :=
  let lib_path := env.getBtCodecLib d.codecFormat codecType
  if lib_path = "" then (-ENOSYS, none, d) else
  let d1 := d.log (.dlopen lib_path)
  match env.dlopen lib_path with
  | none => (-EINVAL, none, d1)
  | some handle =>
    let d2 := d1.log .dlsym_plugin_open
    if env.dlsym_plugin_open handle = false then getPluginPayload_error (-EINVAL) none handle d2 else
    let d3 := d2.log (.plugin_open d.codecFormat codecType)
    let opened := env.plugin_open d.codecFormat codecType
    if opened.1 ≠ 0 then getPluginPayload_error opened.1 opened.2 handle d3 else
    let populated := env.plugin_populate_payload opened.2 d.codecInfo
    let d4 := d3.log (.plugin_populate_payload populated.1)
    if populated.1 ≠ 0 then getPluginPayload_error populated.1 opened.2 handle d4 else
    (populated.1, some ⟨handle, opened.2, populated.2⟩, d4)

/-! ## DSP pipeline configurator -/

/-- The loop over the plugin blocks of configureA2dpEncoderDecoder: each block
is wrapped by payloadCustomParam for the placeholder module and pushed; a null
payload stops the loop with -ENOMEM. The result status is 0 when every block
was pushed. -/
def pushBlocks (env : Collab) (target : ModuleTag) (miid : Nat) :
    List custom_block_t → Bluetooth → Int × Bluetooth
  | [], d => (0, d)
  | blk :: rest, d =>
    let out := env.payloadCustomParam blk.payload blk.payload_sz miid blk.param_id
    match out.paramData with
    | none => (-ENOMEM, d)
    | some _ =>
      pushBlocks env target miid rest
        (d.updateCustomPayload target (.payloadCustomParam blk.param_id) out)

/-- Label `done` of configureA2dpEncoderDecoder. -/
def configure_done (status : Int) (d : Bluetooth) : Int × Bluetooth :=
  (status, { d with isConfigured := true })

/-- PCM converter stage of configureA2dpEncoderDecoder. -/
def configurePcmCnv (env : Collab) (d : Bluetooth) : Int × Bluetooth :=
  let d1 := d.log (.getMIID .BT_PCM_CONVERTER)
  let r := env.getMIID .BT_PCM_CONVERTER
  if r.1 ≠ 0 then (r.1, d1) else
  let out := env.payloadPcmCnvConfig r.2 d1.codecConfig
  if out.paramSize ≠ 0 then
    configure_done r.1 (d1.updateCustomPayload .BT_PCM_CONVERTER .payloadPcmCnvConfig out)
  else (-EINVAL, d1)

/-- RAT stage of configureA2dpEncoderDecoder, followed by the PCM converter. -/
def configureRat (env : Collab) (d : Bluetooth) : Int × Bluetooth :=
  let d1 := d.log (.getMIID .RAT_RENDER)
  let r := env.getMIID .RAT_RENDER
  if r.1 ≠ 0 then (r.1, d1) else
  let out := env.payloadRATConfig r.2 d1.codecConfig
  if out.paramSize ≠ 0 then
    configurePcmCnv env (d1.updateCustomPayload .RAT_RENDER .payloadRATConfig out)
  else (-EINVAL, d1)

/-- COP v2 depacketizer branch (LC3, DEC). -/
def configureCopV2Depack (env : Collab) (d : Bluetooth) : Int × Bluetooth :=
  let d1 := d.log (.getMIID .COP_DEPACKETIZER_V2)
  let r := env.getMIID .COP_DEPACKETIZER_V2
  if r.1 ≠ 0 then (r.1, d1) else
  let out1 := env.payloadCopV2DepackConfig r.2 d1.codecInfo false
  if out1.paramSize ≠ 0 then
    let d2 := d1.updateCustomPayload .COP_DEPACKETIZER_V2 (.payloadCopV2DepackConfig false) out1
    let out2 := env.payloadCopV2DepackConfig r.2 d2.codecInfo true
    if out2.paramSize ≠ 0 then
      configure_done r.1
        (d2.updateCustomPayload .COP_DEPACKETIZER_V2 (.payloadCopV2DepackConfig true) out2)
    else (-EINVAL, d2)
  else (-EINVAL, d1)

/-- COP v2 packetizer branch (LC3, ENC), followed by RAT and PCM converter. -/
def configureCopV2Pack (env : Collab) (d : Bluetooth) : Int × Bluetooth :=
  let d1 := d.log (.getMIID .COP_PACKETIZER_V2)
  let r := env.getMIID .COP_PACKETIZER_V2
  if r.1 ≠ 0 then (r.1, d1) else
  let out1 := env.payloadCopV2PackConfig r.2 d1.codecInfo
  if out1.paramSize ≠ 0 then
    let d2 := d1.updateCustomPayload .COP_PACKETIZER_V2 .payloadCopV2PackConfig out1
    let out2 := env.payloadCopPackConfig r.2 d2.deviceAttr_config
    if out2.paramSize ≠ 0 then
      configureRat env (d2.updateCustomPayload .COP_PACKETIZER_V2 .payloadCopPackConfig out2)
    else (-EINVAL, d2)
  else (-EINVAL, d1)

/-- COP v0 packetizer branch (not LC3, ENC), followed by RAT and PCM converter. -/
def configureCopV0Pack (env : Collab) (d : Bluetooth) : Int × Bluetooth :=
  let d1 := d.log (.getMIID .COP_PACKETIZER_V0)
  let r := env.getMIID .COP_PACKETIZER_V0
  if r.1 ≠ 0 then (r.1, d1) else
  let out := env.payloadCopPackConfig r.2 d1.deviceAttr_config
  if out.paramSize ≠ 0 then
    configureRat env (d1.updateCustomPayload .COP_PACKETIZER_V0 .payloadCopPackConfig out)
  else (-EINVAL, d1)

/-- The LC3 / non-LC3 split of configureA2dpEncoderDecoder; `status` is the
status of the last module resolution and `miid` the placeholder instance. -/
def configureCop (env : Collab) (target : ModuleTag) (miid : Nat) (status : Int) (d : Bluetooth) :
    Int × Bluetooth :=
  if d.codecFormat = .CODEC_TYPE_LC3 then
    let out := env.payloadLC3Config miid d.isLC3MonoModeOn
    if out.paramSize ≠ 0 then
      let d1 := d.updateCustomPayload target .payloadLC3Config out
      if d1.codecType = .DEC then configureCopV2Depack env d1
      else configureCopV2Pack env d1
    else (-EINVAL, d)
  else
    if d.codecType = .DEC then configure_done status d
    else configureCopV0Pack env d

/-- The stages after the plugin blocks: speech codec exit, TWS toggle, COP. -/
def configureStatic (env : Collab) (target : ModuleTag) (miid : Nat) (status : Int) (d : Bluetooth) :
    Int × Bluetooth :=
  if d.codecFormat = .CODEC_TYPE_APTX_AD_SPEECH then configure_done status d
  else if d.codecFormat = .CODEC_TYPE_APTX_DUAL_MONO ∨ d.codecFormat = .CODEC_TYPE_APTX_AD then
    let out := env.payloadTWSConfig miid d.isTwsMonoModeOn d.codecFormat
    if out.paramSize ≠ 0 then
      configureCop env target miid status (d.updateCustomPayload target .payloadTWSConfig out)
    else (-EINVAL, d)
  else configureCop env target miid status d

/-- The plugin blocks, then the static stages when every block was pushed. -/
def configureBlocks (env : Collab) (target : ModuleTag) (miid : Nat) (status : Int)
    (out_buf : bt_enc_payload_t) (d : Bluetooth) : Int × Bluetooth :=
  let r := pushBlocks env target miid out_buf.blocks d
  if r.1 ≠ 0 then r else configureStatic env target miid status r.2

/-- The placeholder stage: optional reset payload, then the plugin blocks. -/
def configurePlaceholder (env : Collab) (target : ModuleTag) (miid : Nat) (status : Int)
    (out_buf : bt_enc_payload_t) (d : Bluetooth) : Int × Bluetooth :=
  if isPlaceholderEncoder d then
    let out := env.payloadCustomParam [] 0 miid PARAM_ID_RESET_PLACEHOLDER_MODULE
    match out.paramData with
    | none => (-ENOMEM, d)
    | some _ =>
      configureBlocks env target miid status out_buf
        (d.updateCustomPayload target (.payloadCustomParam PARAM_ID_RESET_PLACEHOLDER_MODULE) out)
  else configureBlocks env target miid status out_buf d

/-- Bluetooth::configureA2dpEncoderDecoder: the returned status and the device
after the pass. -/
def configureA2dpEncoderDecoder (env : Collab) (d : Bluetooth) : Int × Bluetooth :=
  let d1 := ({ d with isConfigured := false } : Bluetooth).log .getActiveStream_l
  if env.getActiveStream_l.1 ≠ 0 ∨ env.getActiveStream_l.2 = 0 then (-EINVAL, d1) else
  match getPluginPayload env d1 d1.codecType with
  | (status, none, d2) => (status, d2)
  | (_, some pl, d2) =>
    let d3 : Bluetooth :=
      { d2 with pluginHandler := some pl.libHandle,
                pluginCodec := pl.btCodec,
                codecConfig := { d2.codecConfig with sample_rate := pl.out_buf.sample_rate,
                                                     bit_width := pl.out_buf.bit_format,
                                                     channels := pl.out_buf.channel_count },
                isAbrEnabled := pl.out_buf.is_abr_enabled }
    let d4 := updateDeviceAttributes d3
    let codecTagId : ModuleTag :=
      if d4.codecType = .ENC then .BT_PLACEHOLDER_ENCODER else .BT_PLACEHOLDER_DECODER
    let d5 := d4.log (.getMIID codecTagId)
    let r := env.getMIID codecTagId
    if r.1 ≠ 0 then (r.1, d5) else
    configurePlaceholder env codecTagId r.2 r.1 pl.out_buf d5

/-! ## Adaptive bitrate feedback channel -/

/-- The identity of the feedback device of startAbr. -/
def fbDeviceId (d : Bluetooth) : pal_device_id_t :=
  if d.codecType = .DEC then
    if d.codecFormat = .CODEC_TYPE_APTX_AD_SPEECH then .PAL_DEVICE_OUT_BLUETOOTH_SCO
    else .PAL_DEVICE_OUT_BLUETOOTH_A2DP
  else
    if d.deviceAttr_id = .PAL_DEVICE_OUT_BLUETOOTH_A2DP then .PAL_DEVICE_IN_BLUETOOTH_A2DP
    else .PAL_DEVICE_IN_BLUETOOTH_SCO_HEADSET

/-- The hostless direction of the feedback path: `dir` of startAbr and stopAbr. -/
def abrDir (d : Bluetooth) : HostlessDir :=
  if d.codecType = .DEC then .RX_HOSTLESS else .TX_HOSTLESS

/-- The routing keys startAbr pushes for the feedback device. -/
def abrKeyVector (d : Bluetooth) : List (GraphKey × GraphValue) :=
  let k1 : List (GraphKey × GraphValue) :=
    if d.codecType = .DEC then [(.DEVICERX, .BT_RX)] else [(.DEVICETX, .BT_TX)]
  let k2 : List (GraphKey × GraphValue) :=
    if (fbDeviceId d = .PAL_DEVICE_IN_BLUETOOTH_A2DP ∨ fbDeviceId d = .PAL_DEVICE_OUT_BLUETOOTH_A2DP) ∧
        d.codecFormat = .CODEC_TYPE_LC3 then k1 ++ [(.BT_PROFILE, .A2DP)]
    else k1
  if fbDeviceId d = .PAL_DEVICE_IN_BLUETOOTH_SCO_HEADSET ∨
      fbDeviceId d = .PAL_DEVICE_OUT_BLUETOOTH_SCO then
    match d.codecFormat with
    | .CODEC_TYPE_APTX_AD_SPEECH => k2 ++ [(.BT_PROFILE, .SCO), (.BT_FORMAT, .SWB)]
    | .CODEC_TYPE_LC3 => k2 ++ [(.BT_PROFILE, .SCO), (.BT_FORMAT, .LC3)]
    | _ => k2
  else k2

/-- Label `free_fe` of startAbr: the front-end ids are released and the list
is cleared. -/
def startAbr_free_fe (d : Bluetooth) : Bluetooth :=
  { d.log (.freeFrontEndIds d.fbpcmDevIds) with fbpcmDevIds := [] }

/-- Label `err_pcm_open` of startAbr: pcm_close on fbPcm, fbPcm reset, then
`free_fe`. -/
def startAbr_err_pcm_open (d : Bluetooth) : Bluetooth :=
  startAbr_free_fe { d.log (.pcm_close d.fbPcm) with fbPcm := none }

/-- The bookkeeping on the shared feedback device after pcm_start: configured,
one more user. The code dereferences fbDev here; a null fbDev is left as it is. -/
def fbDevAcquire (d : Bluetooth) : Bluetooth :=
  match d.fbDev with
  | some f => { d with fbDev := some { f with isConfigured := true, deviceCount := f.deviceCount + 1 } }
  | none => d

/-- The end of startAbr once pcm_start succeeded: feedback device bookkeeping
for aptX-Adaptive-Speech and for LC3 over SCO, then the reference count. -/
def startAbr_started (d3 : Bluetooth) : Bluetooth :=
  let d4 : Bluetooth := if d3.codecFormat = .CODEC_TYPE_APTX_AD_SPEECH then fbDevAcquire d3 else d3
  let d5 : Bluetooth :=
    if d4.codecFormat = .CODEC_TYPE_LC3 ∧
        (fbDeviceId d4 = .PAL_DEVICE_IN_BLUETOOTH_SCO_HEADSET ∨
         fbDeviceId d4 = .PAL_DEVICE_OUT_BLUETOOTH_SCO) then fbDevAcquire d4
    else d4
  { d5 with abrRefCnt := d5.abrRefCnt + 1 }

/-- Label `start_pcm` of startAbr: open and start the hostless stream, then the
feedback device bookkeeping and the reference count. -/
def startAbr_start_pcm (env : Collab) (d : Bluetooth) : Bluetooth :=
  let pcm := env.pcm_open (d.fbpcmDevIds.headD 0)
  let d1 : Bluetooth := { d.log (.pcm_open pcm) with fbPcm := pcm }
  if pcm = none then startAbr_free_fe d1 else
  let d2 := d1.log .pcm_is_ready
  if env.pcm_is_ready = false then startAbr_err_pcm_open d2 else
  let d3 := d2.log (.pcm_start env.pcm_start)
  if env.pcm_start ≠ 0 then startAbr_err_pcm_open d3 else startAbr_started d3

/-- The inverse of a direction. -/
def codec_type.inverse : codec_type → codec_type
  | .ENC => .DEC
  | .DEC => .ENC

/-- The release of the plugin loaded by startAbr: close_plugin on the codec the
plugin handed out, dlclose on the library. -/
def startAbr_release_plugin (pl : PluginLoaded) (d4 : Bluetooth) : Bluetooth :=
  let d5 : Bluetooth :=
    match pl.btCodec with
    | some c => d4.log (.close_plugin c)
    | none => d4
  d5.log (.dlclose pl.libHandle)

/-- The payload part of the aptX-Adaptive-Speech branch of startAbr, with the
feedback device `f` and the resolved module-instance id: load the plugin of the
inverse direction, check that it has one block, store its stream shape in the
feedback device, build the payload, release the plugin, push the payload, then
`start_pcm`. -/
def startAbr_speech_payload (env : Collab) (f : FbDev) (miid : Nat) (d2 : Bluetooth) : Bluetooth :=
  match getPluginPayload env d2 d2.codecType.inverse with
  | (_, none, d3) => startAbr_err_pcm_open d3
  | (_, some pl, d3) =>
    if pl.out_buf.num_blks ≠ 1 then startAbr_err_pcm_open d3 else
    let d4 : Bluetooth :=
      { d3 with fbDev := some { f with codecConfig :=
          { f.codecConfig with sample_rate := pl.out_buf.sample_rate,
                               bit_width := pl.out_buf.bit_format,
                               channels := pl.out_buf.channel_count } } }
    let out : BuilderOut :=
      match pl.out_buf.blocks.head? with
      | some blk => env.payloadCustomParam blk.payload blk.payload_sz miid blk.param_id
      | none => ⟨none, 0⟩
    let d6 := startAbr_release_plugin pl d4
    if out.paramData = none then startAbr_err_pcm_open d6 else
    let d7 := d6.log (.setDeviceCustomPayload out)
    if env.setDeviceCustomPayload out ≠ 0 then startAbr_err_pcm_open d7
    else startAbr_start_pcm env d7

/-- The aptX-Adaptive-Speech branch of startAbr: feedback device singleton,
skip when it is configured already, else resolve the placeholder of the inverse
direction and push the plugin payload. -/
def startAbr_speech (env : Collab) (d : Bluetooth) : Bluetooth :=
  let d1 : Bluetooth :=
    { d.log (.getInstance (fbDeviceId d)) with fbDev := env.getInstance (fbDeviceId d) }
  match d1.fbDev with
  | none => startAbr_err_pcm_open d1
  | some f =>
    if f.isConfigured = true then startAbr_start_pcm env d1 else
    let codecTagId : ModuleTag :=
      if d1.codecType = .DEC then .BT_PLACEHOLDER_ENCODER else .BT_PLACEHOLDER_DECODER
    let d2 := d1.log (.getModuleInstanceId codecTagId)
    let r := env.getModuleInstanceId (d1.fbpcmDevIds.headD 0) codecTagId
    if r.1 ≠ 0 then startAbr_err_pcm_open d2 else startAbr_speech_payload env f r.2 d2

/-- The LC3 encoder branch of startAbr: feedback device singleton, COP v2
depacketizer resolved and configured like the packetizer. -/
def startAbr_lc3 (env : Collab) (d : Bluetooth) : Bluetooth :=
  let d1 : Bluetooth :=
    { d.log (.getInstance (fbDeviceId d)) with fbDev := env.getInstance (fbDeviceId d) }
  match d1.fbDev with
  | none => startAbr_err_pcm_open d1
  | some _ =>
    let d2 := d1.log (.getModuleInstanceId .COP_DEPACKETIZER_V2)
    let r := env.getModuleInstanceId (d1.fbpcmDevIds.headD 0) .COP_DEPACKETIZER_V2
    if r.1 ≠ 0 then startAbr_err_pcm_open d2 else
    let out := env.payloadCopV2PackConfig r.2 d2.codecInfo
    if out.paramData = none then startAbr_err_pcm_open d2 else
    let d3 := d2.log (.setDeviceCustomPayload out)
    if env.setDeviceCustomPayload out ≠ 0 then startAbr_err_pcm_open d3
    else startAbr_start_pcm env d3

/-- The codec-specific configuration of the feedback path, then `start_pcm`. -/
def startAbr_codec (env : Collab) (d : Bluetooth) : Bluetooth :=
  if d.codecFormat = .CODEC_TYPE_APTX_AD_SPEECH then startAbr_speech env d
  else if d.codecFormat = .CODEC_TYPE_LC3 ∧ d.codecType = .ENC then startAbr_lc3 env d
  else startAbr_start_pcm env d

/-- The mixer steps of startAbr after the front-end ids were allocated: bind
the front end to the backend and signal the feedback channel. -/
def startAbr_mixer (env : Collab) (d : Bluetooth) : Bluetooth :=
  let d1 := d.log .getAudioMixer
  if env.getAudioMixer ≠ 0 then startAbr_free_fe d1 else
  let d2 := d1.log .mixer_get_ctl_connect
  if env.mixer_get_ctl_connect (d.fbpcmDevIds.headD 0) = false then startAbr_free_fe d2 else
  let d3 := d2.log .mixer_ctl_set_enum_by_string
  if env.mixer_ctl_set_enum_by_string ≠ 0 then startAbr_free_fe d3 else
  let d4 := d3.log .mixer_get_ctl_feedback
  if env.mixer_get_ctl_feedback = false then startAbr_free_fe d4 else
  let d5 := d4.log (.mixer_ctl_set_value 1)
  if env.mixer_ctl_set_value 1 ≠ 0 then startAbr_free_fe d5 else
  startAbr_codec env d5

/-- Bluetooth::startAbr. -/
def startAbr (env : Collab) (d : Bluetooth) : Bluetooth :=
  if d.abrRefCnt > 0 then { d with abrRefCnt := d.abrRefCnt + 1 } else
  let d1 := d.log (.setDeviceMetadata (fbDeviceId d) (abrKeyVector d))
  if env.setDeviceMetadata (fbDeviceId d) (abrKeyVector d) ≠ 0 then d1 else
  let d2 := d1.log (.setDeviceMediaConfig (fbDeviceId d))
  if env.setDeviceMediaConfig (fbDeviceId d) ≠ 0 then d2 else
  let ids := env.allocateFrontEndIds (abrDir d)
  let d3 : Bluetooth := { d2.log (.allocateFrontEndIds ids) with fbpcmDevIds := ids }
  if ids = [] then d3 else startAbr_mixer env d3

/-- The bookkeeping of stopAbr on the shared feedback device: one user less,
not configured any more when none is left. -/
def fbDevRelease (d : Bluetooth) : Bluetooth :=
  match d.fbDev with
  | some f =>
    { d with fbDev := some { f with deviceCount := f.deviceCount - 1,
                                    isConfigured := if f.deviceCount - 1 = 0 then false
                                                    else f.isConfigured } }
  | none => d

/-- Label `free_fe` of stopAbr. -/
def stopAbr_free_fe (d : Bluetooth) : Bluetooth :=
  let d1 : Bluetooth :=
    if d.fbpcmDevIds ≠ [] then { d.log (.freeFrontEndIds d.fbpcmDevIds) with fbpcmDevIds := [] }
    else d
  { d1 with isAbrEnabled := false }

/-- The reset of the feedback mixer control in stopAbr: looked up, and set to 0
when it is found; failures are only logged. -/
def stopAbr_reset_mixer (env : Collab) (d3 : Bluetooth) : Bluetooth :=
  let d4 := d3.log .mixer_get_ctl_feedback
  if env.mixer_get_ctl_feedback = false then d4 else d4.log (.mixer_ctl_set_value 0)

/-- The release of the shared feedback device in stopAbr, for
aptX-Adaptive-Speech and for LC3 on a SCO device. -/
def stopAbr_release_fbDev (d5 : Bluetooth) : Bluetooth :=
  let d6 : Bluetooth :=
    if d5.codecFormat = .CODEC_TYPE_APTX_AD_SPEECH then fbDevRelease d5 else d5
  if d6.codecFormat = .CODEC_TYPE_LC3 ∧
      (d6.deviceAttr_id = .PAL_DEVICE_OUT_BLUETOOTH_SCO ∨
       d6.deviceAttr_id = .PAL_DEVICE_IN_BLUETOOTH_SCO_HEADSET) then fbDevRelease d6
  else d6

/-- The teardown of stopAbr once the reference count reached zero: stop and
close the hostless stream, reset the feedback mixer control, release the shared
feedback device, then `free_fe`. fbPcm keeps its value. -/
def stopAbr_teardown (env : Collab) (d1 : Bluetooth) : Bluetooth :=
  let d2 := (d1.log .pcm_stop).log (.pcm_close d1.fbPcm)
  let d3 := d2.log .getAudioMixer
  if env.getAudioMixer ≠ 0 then stopAbr_free_fe d3
  else stopAbr_free_fe (stopAbr_release_fbDev (stopAbr_reset_mixer env d3))

/-- Bluetooth::stopAbr. -/
def stopAbr (env : Collab) (d : Bluetooth) : Bluetooth :=
  if d.fbPcm = none then d else
  let d1 : Bluetooth := { d with abrRefCnt := d.abrRefCnt - 1 }
  if d1.abrRefCnt ≠ 0 then d1 else stopAbr_teardown env d1

/-! ## A2DP device -/

/-- State of the A2DP link. -/
inductive a2dp_state_t
  | A2DP_STATE_CONNECTED
  | A2DP_STATE_STARTED
  | A2DP_STATE_STOPPED
  | A2DP_STATE_DISCONNECTED
  deriving DecidableEq, Repr

/-- Role of the A2DP device. -/
inductive a2dp_role_t
  | SOURCE
  | SINK
  deriving DecidableEq, Repr

/-- The static members of BtA2dp that startPlayback, stopPlayback, startCapture
and stopCapture test: the library handles and the resolved entry points, each
`true` when the pointer is non-null. -/
structure BtLibs where
  bt_lib_source_handle : Bool
  bt_lib_sink_handle : Bool
  audio_source_start : Bool
  audio_source_stop : Bool
  audio_get_enc_config : Bool
  audio_is_tws_mono_mode_enable : Bool
  audio_sink_start : Bool
  audio_sink_stop : Bool
  audio_get_dec_config : Bool
  audio_sink_session_setup_complete : Bool
  deriving DecidableEq, Repr

/-- Members of class BtA2dp on top of those of Bluetooth. -/
structure BtA2dp extends Bluetooth where
  a2dpState : a2dp_state_t
  a2dpRole : a2dp_role_t
  totalActiveSessionRequests : Int
  a2dp_suspended : Bool
  reconfig : Bool
  isA2dpOffloadSupported : Bool
  lib : BtLibs
  deriving DecidableEq, Repr

/-- Run a member function of the base class on an A2DP device. -/
def BtA2dp.onBase (d : BtA2dp) (r : Int × Bluetooth) : Int × BtA2dp :=
  (r.1, { d with toBluetooth := r.2 })

/-- Append a collaborator call to the trace of an A2DP device. -/
def BtA2dp.log (d : BtA2dp) (e : Event) : BtA2dp :=
  { d with toBluetooth := d.toBluetooth.log e }

/-- Bluetooth::updateDeviceMetadata called on an A2DP device, its status ignored. -/
def BtA2dp.updateDeviceMetadata (env : Collab) (d : BtA2dp) : BtA2dp :=
  (d.onBase (Arpal.updateDeviceMetadata env d.toBluetooth)).2

/-- Bluetooth::configureA2dpEncoderDecoder called on an A2DP device. -/
def BtA2dp.configureA2dpEncoderDecoder (env : Collab) (d : BtA2dp) : Int × BtA2dp :=
  d.onBase (Arpal.configureA2dpEncoderDecoder env d.toBluetooth)

/-- The mono-mode hint of startPlayback: asked from the Bluetooth stack for aptX
dual mono when the entry point is resolved. -/
def twsMonoModeHint (env : Collab) (d : BtA2dp) : BtA2dp :=
  if d.codecFormat = .CODEC_TYPE_APTX_DUAL_MONO ∧ d.lib.audio_is_tws_mono_mode_enable = true then
    ({ d with isTwsMonoModeOn := env.audio_is_tws_mono_mode_enable } : BtA2dp).log
      .audio_is_tws_mono_mode_enable
  else d

/-- The second routing metadata push of startPlayback, for AAC with ABR. -/
def aacAbrMetadata (env : Collab) (d : BtA2dp) : BtA2dp :=
  if d.codecFormat = .CODEC_TYPE_AAC ∧ d.isAbrEnabled = true then d.updateDeviceMetadata env else d

/-- The first start of startPlayback once the codec metadata is valid: mono-mode
hint for aptX dual mono, routing keys, pipeline configuration (the stream is
stopped again when it fails), routing keys again for AAC with ABR, and the
state and count update. -/
def startPlayback_configure (env : Collab) (d2 : BtA2dp) : Int × BtA2dp :=
  let r := ((twsMonoModeHint env d2).updateDeviceMetadata env).configureA2dpEncoderDecoder env
  if r.1 ≠ 0 then (r.1, r.2.log .audio_source_stop) else
  let d5 : BtA2dp := aacAbrMetadata env r.2
  (r.1, { d5 with a2dpState := .A2DP_STATE_STARTED,
                  totalActiveSessionRequests := d5.totalActiveSessionRequests + 1 })

/-- The part of startPlayback that runs on the first start: start the stream,
fetch the codec metadata, then configure. -/
def startPlayback_first (env : Collab) (d : BtA2dp) : Int × BtA2dp :=
  let d1 : BtA2dp := ({ d with codecFormat := .CODEC_TYPE_INVALID } : BtA2dp).log .audio_source_start
  let ret := env.audio_source_start
  if ret ≠ 0 then (ret, d1) else
  let d2 : BtA2dp :=
    ({ d1 with codecInfo := env.audio_get_enc_config.1,
               codecFormat := env.audio_get_enc_config.2 } : BtA2dp).log .audio_get_enc_config
  if d2.codecInfo = none ∨ d2.codecFormat = .CODEC_TYPE_INVALID then
    (-EINVAL, d2.log .audio_source_stop)
  else startPlayback_configure env d2

/-- BtA2dp::startPlayback. -/
def startPlayback (env : Collab) (d : BtA2dp) : Int × BtA2dp :=
  if ¬(d.lib.bt_lib_source_handle = true ∧ d.lib.audio_source_start = true ∧
      d.lib.audio_get_enc_config = true) then (-ENOSYS, d)
  else if d.a2dp_suspended = true then (0, d)
  else if d.a2dpState ≠ .A2DP_STATE_STARTED ∧ d.totalActiveSessionRequests = 0 then
    startPlayback_first env d
  else
    let d1 : BtA2dp := d.updateDeviceMetadata env
    (0, { d1 with totalActiveSessionRequests := d1.totalActiveSessionRequests + 1 })

/-- The release of the plugin codec and of its library at the end of a stop. -/
def closePlugin (d : Bluetooth) : Bluetooth :=
  let d1 : Bluetooth :=
    match d.pluginCodec with
    | some c => { d.log (.close_plugin c) with pluginCodec := none }
    | none => d
  match d1.pluginHandler with
  | some h => { d1.log (.dlclose h) with pluginHandler := none }
  | none => d1

/-- The teardown of stopPlayback when the count reaches zero in state STARTED:
stop the stream, clear the codec state, clear the mono-mode flags unless a
suspend is pending, release the plugin. -/
def stopPlayback_teardown (d1 : BtA2dp) : BtA2dp :=
  let d2 : BtA2dp := d1.log .audio_source_stop
  let d3 : BtA2dp :=
    { d2 with isConfigured := false, a2dpState := .A2DP_STATE_STOPPED, codecInfo := none }
  let d4 : BtA2dp :=
    if d3.a2dp_suspended = false then
      { d3 with isTwsMonoModeOn := false, isLC3MonoModeOn := false }
    else d3
  { d4 with toBluetooth := closePlugin d4.toBluetooth }

/-- BtA2dp::stopPlayback. -/
def stopPlayback (_env : Collab) (d : BtA2dp) : Int × BtA2dp :=
  if ¬(d.lib.bt_lib_source_handle = true ∧ d.lib.audio_source_stop = true) then (-ENOSYS, d) else
  let d1 : BtA2dp :=
    if d.totalActiveSessionRequests > 0 then
      { d with totalActiveSessionRequests := d.totalActiveSessionRequests - 1 }
    else d
  if d1.a2dpState = .A2DP_STATE_STARTED ∧ d1.totalActiveSessionRequests = 0 then
    (0, stopPlayback_teardown d1)
  else (0, d1)

/-- The tail of startCapture, from the routing keys on. -/
def startCapture_configure (env : Collab) (d : BtA2dp) : Int × BtA2dp :=
  let r := (d.updateDeviceMetadata env).configureA2dpEncoderDecoder env
  if r.1 ≠ 0 then r else
  let r2 : Int × BtA2dp :=
    if r.2.isDummySink = false then
      if env.audio_sink_session_setup_complete ≠ 0 then
        (-ETIMEDOUT, r.2.log .audio_sink_session_setup_complete)
      else (r.1, r.2.log .audio_sink_session_setup_complete)
    else r
  if r2.2.a2dpState ≠ .A2DP_STATE_STARTED ∧ r2.2.totalActiveSessionRequests = 0 then
    (r2.1, { r2.2 with totalActiveSessionRequests := r2.2.totalActiveSessionRequests + 1,
                       a2dpState := .A2DP_STATE_STARTED })
  else r2

/-- BtA2dp::startCapture. -/
def startCapture (env : Collab) (d : BtA2dp) : Int × BtA2dp :=
  let d1 : BtA2dp := { d with codecFormat := .CODEC_TYPE_INVALID }
  if d1.isDummySink = false then
    if ¬(d1.lib.bt_lib_sink_handle = true ∧ d1.lib.audio_sink_start = true ∧
        d1.lib.audio_get_dec_config = true) then (-ENOSYS, d1)
    else if d1.a2dpState ≠ .A2DP_STATE_STARTED ∧ d1.totalActiveSessionRequests = 0 then
      let d2 := d1.log .audio_sink_start
      if env.audio_sink_start ≠ 0 then (env.audio_sink_start, d2) else
      let d3 : BtA2dp :=
        ({ d2 with codecInfo := env.audio_get_dec_config.1,
                   codecFormat := env.audio_get_dec_config.2 } : BtA2dp).log .audio_get_dec_config
      if d3.codecInfo = none ∨ d3.codecFormat = .CODEC_TYPE_INVALID then (-EINVAL, d3)
      else startCapture_configure env d3
    else startCapture_configure env d1
  else
    if ¬(d1.lib.bt_lib_sink_handle = true ∧ d1.lib.audio_source_start = true ∧
        d1.lib.audio_get_enc_config = true) then (-ENOSYS, d1)
    else if d1.a2dpState ≠ .A2DP_STATE_STARTED ∧ d1.totalActiveSessionRequests = 0 then
      let d2 := d1.log .audio_source_start
      if env.audio_source_start ≠ 0 then (env.audio_source_start, d2) else
      let d3 : BtA2dp :=
        ({ d2 with codecInfo := env.audio_get_enc_config.1,
                   codecFormat := env.audio_get_enc_config.2 } : BtA2dp).log .audio_get_enc_config
      if d3.codecInfo = none ∨ d3.codecFormat = .CODEC_TYPE_INVALID then (-EINVAL, d3)
      else startCapture_configure env d3
    else startCapture_configure env d1

/-- BtA2dp::stopCapture. -/
def stopCapture (_env : Collab) (d : BtA2dp) : Int × BtA2dp :=
  if d.isDummySink = false ∧ ¬(d.lib.bt_lib_sink_handle = true ∧ d.lib.audio_sink_stop = true) then
    (-ENOSYS, d)
  else
  let d1 : BtA2dp :=
    if d.totalActiveSessionRequests > 0 then
      { d with totalActiveSessionRequests := d.totalActiveSessionRequests - 1 }
    else d
  if d1.a2dpState = .A2DP_STATE_STARTED ∧ d1.totalActiveSessionRequests = 0 then
    let d2 : BtA2dp := { d1 with isConfigured := false }
    let d3 : BtA2dp :=
      if d2.isDummySink = false then d2.log .audio_sink_stop else d2.log .audio_source_stop
    let d4 : BtA2dp := { d3 with a2dpState := .A2DP_STATE_STOPPED }
    (0, { d4 with toBluetooth := closePlugin d4.toBluetooth })
  else (0, d1)

/-- Consecutive startCapture calls. -/
def startCaptureSeq (envs : List Collab) (d : BtA2dp) : BtA2dp :=
  envs.foldl (fun s env => (startCapture env s).2) d

/-! ## Reading a trace -/

/-- The calls a member function added to the trace of the device. -/
def passTrace (before after : Bluetooth) : List Event :=
  after.trace.drop before.trace.length

/-- The module tags resolved through Session::getMIID, in order. -/
def resolvedTags (t : List Event) : List ModuleTag :=
  t.filterMap fun e =>
    match e with
    | .getMIID tag => some tag
    | _ => none

/-- The payloads pushed for the module with the given tag, in order. -/
def pushesTo (tag : ModuleTag) (t : List Event) : List (PayloadKind × BuilderOut) :=
  t.filterMap fun e =>
    match e with
    | .updateCustomPayload target kind out => if target = tag then some (kind, out) else none
    | _ => none

/-- All payloads pushed to the device, in order. -/
def pushes (t : List Event) : List (ModuleTag × PayloadKind × BuilderOut) :=
  t.filterMap fun e =>
    match e with
    | .updateCustomPayload target kind out => some (target, kind, out)
    | _ => none

/-- A builder call succeeded: a buffer of non-zero size came back. -/
def BuilderOut.ok (o : BuilderOut) : Prop :=
  o.paramData ≠ none ∧ o.paramSize ≠ 0

instance (o : BuilderOut) : Decidable o.ok := by
  unfold BuilderOut.ok
  exact inferInstance

/-- Every payload builder call succeeds, whatever its arguments. -/
def Collab.buildersSucceed (env : Collab) : Prop :=
  (∀ p s m i, (env.payloadCustomParam p s m i).ok) ∧
  (∀ m b f, (env.payloadTWSConfig m b f).ok) ∧
  (∀ m b, (env.payloadLC3Config m b).ok) ∧
  (∀ m c b, (env.payloadCopV2DepackConfig m c b).ok) ∧
  (∀ m c, (env.payloadCopV2PackConfig m c).ok) ∧
  (∀ m c, (env.payloadCopPackConfig m c).ok) ∧
  (∀ m c, (env.payloadRATConfig m c).ok) ∧
  (∀ m c, (env.payloadPcmCnvConfig m c).ok)

/-- Every step of the plugin load succeeds: a library is registered, it loads,
it has the plugin_open symbol, and the open and populate routines return 0. -/
def Collab.pluginLoadSucceeds (env : Collab) : Prop :=
  (∀ f c, env.getBtCodecLib f c ≠ "") ∧
  (∀ path, env.dlopen path ≠ none) ∧
  (∀ h, env.dlsym_plugin_open h = true) ∧
  (∀ f c, (env.plugin_open f c).1 = 0) ∧
  (∀ c i, (env.plugin_populate_payload c i).1 = 0)

/-- Every collaborator call of a configuration pass succeeds: an active stream
is bound to the device, the plugin loads, every module tag is resolved and every
payload builder returns a payload. -/
def Collab.pipelineSucceeds (env : Collab) : Prop :=
  env.getActiveStream_l.1 = 0 ∧ env.getActiveStream_l.2 ≠ 0 ∧
  env.pluginLoadSucceeds ∧ (∀ tag, (env.getMIID tag).1 = 0) ∧ env.buildersSucceed

/-- The payload payloadCustomParam builds for a plugin block. -/
def blockOut (env : Collab) (miid : Nat) (blk : custom_block_t) : BuilderOut :=
  env.payloadCustomParam blk.payload blk.payload_sz miid blk.param_id

/-- The pushes of the plugin blocks. -/
def blockEvents (env : Collab) (target : ModuleTag) (miid : Nat) (blks : List custom_block_t) :
    List Event :=
  blks.map fun blk => Event.updateCustomPayload target (.payloadCustomParam blk.param_id) (blockOut env miid blk)

/-- The package the plugin for (format, direction) fills in from the codec
metadata. -/
def pluginPackage (env : Collab) (fmt : CodecFormat) (ct : codec_type) (codecInfo : Option Nat) :
    bt_enc_payload_t :=
  (env.plugin_populate_payload (env.plugin_open fmt ct).2 codecInfo).2

/-- Calls made by getPluginPayload. -/
def Event.isPlugin : Event → Bool
  | .dlopen _ => true
  | .dlsym_plugin_open => true
  | .plugin_open _ _ => true
  | .plugin_populate_payload _ => true
  | .close_plugin _ => true
  | .dlclose _ => true
  | _ => false

/-! ## Predicates on the pipeline configurator -/

/-- Calls made by configureA2dpEncoderDecoder and getPluginPayload. -/
def Event.isPipeline : Event → Bool
  | .getActiveStream_l => true
  | .dlopen _ => true
  | .dlsym_plugin_open => true
  | .plugin_open _ _ => true
  | .plugin_populate_payload _ => true
  | .close_plugin _ => true
  | .dlclose _ => true
  | .getMIID _ => true
  | .updateCustomPayload _ _ _ => true
  | _ => false

/-- The PCM converter step fails: its module is not resolved or its payload is
empty. -/
def pcmCnvFails (env : Collab) (cfg : pal_media_config) : Prop :=
  (env.getMIID .BT_PCM_CONVERTER).1 ≠ 0 ∨
  (env.payloadPcmCnvConfig (env.getMIID .BT_PCM_CONVERTER).2 cfg).paramSize = 0

/-- What every stage of the configurator guarantees about its result `r` when
started on the device `d`: only pipeline calls are added to the trace, the codec
configuration is kept, status 0 goes with the configured flag, and a failing
PCM converter step that was reached makes the pass fail. -/
def StageOk (env : Collab) (d : Bluetooth) (r : Int × Bluetooth) : Prop :=
  ∃ evs, r.2.trace = d.trace ++ evs ∧ (∀ e ∈ evs, e.isPipeline = true) ∧
    r.2.codecConfig = d.codecConfig ∧
    (r.1 = 0 ↔ r.2.isConfigured = true) ∧
    (Event.getMIID .BT_PCM_CONVERTER ∈ evs → pcmCnvFails env d.codecConfig →
      r.1 ≠ 0 ∧ r.2.isConfigured = false)

/-- The device on which the placeholder stage of a pass starts, once the plugin
package `pl` is loaded: handles and codec configuration stored, device
attributes updated, placeholder module resolved. -/
def afterLoad (d : Bluetooth) (pl : PluginLoaded) (evs : List Event) : Bluetooth :=
  (updateDeviceAttributes
    { d with isConfigured := false,
             trace := d.trace ++ [Event.getActiveStream_l] ++ evs,
             pluginHandler := some pl.libHandle,
             pluginCodec := pl.btCodec,
             codecConfig := { d.codecConfig with sample_rate := pl.out_buf.sample_rate,
                                                 bit_width := pl.out_buf.bit_format,
                                                 channels := pl.out_buf.channel_count },
             isAbrEnabled := pl.out_buf.is_abr_enabled })

/-- The placeholder tag of a direction. -/
def placeholderTag (ct : codec_type) : ModuleTag :=
  if ct = .ENC then .BT_PLACEHOLDER_ENCODER else .BT_PLACEHOLDER_DECODER

/-! ## Sample collaborators and devices -/

/-- Collaborators whose every call succeeds; the plugin hands out one block. -/
def okCollab : Collab where
  getActiveStream_l := (0, 1)
  getBtCodecLib := fun _ _ => "lib_bt_bundle.so"
  dlopen := fun _ => some 1
  dlsym_plugin_open := fun _ => true
  plugin_open := fun _ _ => (0, some 7)
  plugin_populate_payload := fun _ _ => (0, ⟨48000, 24, 2, false, [⟨100, 1, [5]⟩]⟩)
  getMIID := fun tag =>
    match tag with
    | .BT_PLACEHOLDER_ENCODER => (0, 10)
    | .BT_PLACEHOLDER_DECODER => (0, 11)
    | .COP_DEPACKETIZER_V2 => (0, 12)
    | .COP_PACKETIZER_V2 => (0, 13)
    | .COP_PACKETIZER_V0 => (0, 14)
    | .RAT_RENDER => (0, 15)
    | .BT_PCM_CONVERTER => (0, 16)
  payloadCustomParam := fun payload sz miid pid => ⟨some (miid :: pid :: payload), sz + 2⟩
  payloadTWSConfig := fun miid _ _ => ⟨some [miid, 1], 2⟩
  payloadLC3Config := fun miid _ => ⟨some [miid, 2], 2⟩
  payloadCopV2DepackConfig := fun miid _ b => ⟨some [miid, if b then 4 else 3], 2⟩
  payloadCopV2PackConfig := fun miid _ => ⟨some [miid, 5], 2⟩
  payloadCopPackConfig := fun miid cfg => ⟨some [miid, 6, cfg.sample_rate], 3⟩
  payloadRATConfig := fun miid cfg => ⟨some [miid, 7, cfg.sample_rate], 3⟩
  payloadPcmCnvConfig := fun miid cfg => ⟨some [miid, 8, cfg.sample_rate], 3⟩
  setDeviceMetadata := fun _ _ => 0
  setDeviceMediaConfig := fun _ => 0
  allocateFrontEndIds := fun _ => [21]
  getAudioMixer := 0
  mixer_get_ctl_connect := fun _ => true
  mixer_ctl_set_enum_by_string := 0
  mixer_get_ctl_feedback := true
  mixer_ctl_set_value := fun _ => 0
  getInstance := fun _ => some ⟨false, 0, ⟨0, 0, 0, .PAL_AUDIO_FMT_DEFAULT_PCM⟩⟩
  getModuleInstanceId := fun _ _ => (0, 30)
  setDeviceCustomPayload := fun _ => 0
  pcm_open := fun _ => some 40
  pcm_is_ready := true
  pcm_start := 0
  audio_source_start := 0
  audio_source_stop := 0
  audio_get_enc_config := (some 50, .CODEC_TYPE_SBC)
  audio_is_tws_mono_mode_enable := false
  audio_sink_start := 0
  audio_sink_stop := 0
  audio_get_dec_config := (some 51, .CODEC_TYPE_SBC)
  audio_sink_session_setup_complete := 0

/-- A freshly constructed Bluetooth device with the given identity, direction
and codec format. -/
def sampleDevice (id : pal_device_id_t) (ct : codec_type) (fmt : CodecFormat) : Bluetooth where
  deviceAttr_id := id
  deviceAttr_config := ⟨48000, 16, 2, .PAL_AUDIO_FMT_DEFAULT_PCM⟩
  customPayload := []
  codecFormat := fmt
  codecType := ct
  codecInfo := some 50
  codecConfig := ⟨0, 0, 0, .PAL_AUDIO_FMT_DEFAULT_PCM⟩
  isAbrEnabled := false
  isConfigured := false
  isLC3MonoModeOn := false
  isTwsMonoModeOn := false
  isDummySink := false
  abrRefCnt := 0
  pluginHandler := none
  pluginCodec := none
  fbPcm := none
  fbpcmDevIds := []
  fbDev := none
  deviceCount := 0
  trace := []

/-- Collaborators that succeed except that the PCM converter payload is empty. -/
def emptyPcmCnvCollab : Collab :=
  { okCollab with payloadPcmCnvConfig := fun _ _ => ⟨none, 0⟩ }

/-- Collaborators that succeed except that payloadCustomParam returns null. -/
def nullCustomParamCollab : Collab :=
  { okCollab with payloadCustomParam := fun _ _ _ _ => ⟨none, 0⟩ }

/-! ## Members a pass leaves alone -/

/-- The members of Bluetooth that neither the configurator nor the routing
metadata push writes. -/
def Bluetooth.fixed (d : Bluetooth) :=
  (d.deviceAttr_id, d.codecFormat, d.codecType, d.codecInfo, d.isLC3MonoModeOn, d.isTwsMonoModeOn,
    d.isDummySink, d.abrRefCnt, d.fbPcm, d.fbpcmDevIds, d.fbDev, d.deviceCount)

/-! ## Expected tails of an LC3 pass -/

/-- The calls of an LC3 encoder pass from the packetizer on. -/
def lc3EncTail (env : Collab) (d : Bluetooth) (cfg : pal_media_config) (codec : pal_media_config) :
    List Event :=
  [ Event.getMIID .COP_PACKETIZER_V2,
    Event.updateCustomPayload .COP_PACKETIZER_V2 .payloadCopV2PackConfig
      (env.payloadCopV2PackConfig (env.getMIID .COP_PACKETIZER_V2).2 d.codecInfo),
    Event.updateCustomPayload .COP_PACKETIZER_V2 .payloadCopPackConfig
      (env.payloadCopPackConfig (env.getMIID .COP_PACKETIZER_V2).2 cfg),
    Event.getMIID .RAT_RENDER,
    Event.updateCustomPayload .RAT_RENDER .payloadRATConfig
      (env.payloadRATConfig (env.getMIID .RAT_RENDER).2 codec),
    Event.getMIID .BT_PCM_CONVERTER,
    Event.updateCustomPayload .BT_PCM_CONVERTER .payloadPcmCnvConfig
      (env.payloadPcmCnvConfig (env.getMIID .BT_PCM_CONVERTER).2 codec) ]

/-- The calls of an LC3 decoder pass from the depacketizer on. -/
def lc3DecTail (env : Collab) (d : Bluetooth) : List Event :=
  [ Event.getMIID .COP_DEPACKETIZER_V2,
    Event.updateCustomPayload .COP_DEPACKETIZER_V2 (.payloadCopV2DepackConfig false)
      (env.payloadCopV2DepackConfig (env.getMIID .COP_DEPACKETIZER_V2).2 d.codecInfo false),
    Event.updateCustomPayload .COP_DEPACKETIZER_V2 (.payloadCopV2DepackConfig true)
      (env.payloadCopV2DepackConfig (env.getMIID .COP_DEPACKETIZER_V2).2 d.codecInfo true) ]

/-! ## Predicates on the A2DP session bookkeeping -/

/-- Calls of the start-stream and stop-stream controls of the Bluetooth stack. -/
def Event.isLinkControl : Event → Bool
  | .audio_source_start => true
  | .audio_source_stop => true
  | .audio_sink_start => true
  | .audio_sink_stop => true
  | _ => false

/-- Every library handle and entry point of the vendor control library is set. -/
def BtLibs.loaded (l : BtLibs) : Prop :=
  l.bt_lib_source_handle = true ∧ l.bt_lib_sink_handle = true ∧ l.audio_source_start = true ∧
  l.audio_source_stop = true ∧ l.audio_get_enc_config = true ∧
  l.audio_is_tws_mono_mode_enable = true ∧ l.audio_sink_start = true ∧ l.audio_sink_stop = true ∧
  l.audio_get_dec_config = true ∧ l.audio_sink_session_setup_complete = true

/-- Every collaborator call of an A2DP start or stop succeeds: the pipeline
collaborators, the stream controls, the codec metadata (non-null, valid format),
the routing metadata push and the sink setup notification. -/
def Collab.allSucceed (env : Collab) : Prop :=
  env.pipelineSucceeds ∧ env.audio_source_start = 0 ∧ env.audio_source_stop = 0 ∧
  env.audio_get_enc_config.1 ≠ none ∧ env.audio_get_enc_config.2 ≠ .CODEC_TYPE_INVALID ∧
  env.audio_sink_start = 0 ∧ env.audio_sink_stop = 0 ∧
  env.audio_get_dec_config.1 ≠ none ∧ env.audio_get_dec_config.2 ≠ .CODEC_TYPE_INVALID ∧
  env.audio_sink_session_setup_complete = 0 ∧ (∀ dev keys, env.setDeviceMetadata dev keys = 0)

/-- Library pointers all set. -/
def loadedLibs : BtLibs := ⟨true, true, true, true, true, true, true, true, true, true⟩

/-- An A2DP device after construction and connection, in the given role. -/
def sampleA2dp (id : pal_device_id_t) (ct : codec_type) (role : a2dp_role_t) : BtA2dp where
  toBluetooth := sampleDevice id ct .CODEC_TYPE_INVALID
  a2dpState := .A2DP_STATE_CONNECTED
  a2dpRole := role
  totalActiveSessionRequests := 0
  a2dp_suspended := false
  reconfig := false
  isA2dpOffloadSupported := true
  lib := loadedLibs

/-- The second trace extends the first by calls that are no stream controls. -/
def Quiet (b b1 : Bluetooth) : Prop :=
  ∃ evs, b1.trace = b.trace ++ evs ∧ ∀ e ∈ evs, e.isLinkControl = false

/-- The second A2DP device differs from the first only in members of the base
class that a pass may write and in trace entries that are no stream controls:
state, count, suspend flag, role, library pointers and the members listed in
`Bluetooth.fixed` other than codec format, codec metadata and mono-mode flag are
kept. -/
def A2dpQuiet (d d1 : BtA2dp) : Prop :=
  Quiet d.toBluetooth d1.toBluetooth ∧ d1.a2dpState = d.a2dpState ∧
  d1.totalActiveSessionRequests = d.totalActiveSessionRequests ∧ d1.lib = d.lib ∧
  d1.a2dp_suspended = d.a2dp_suspended ∧ d1.a2dpRole = d.a2dpRole ∧
  d1.isDummySink = d.isDummySink

/-- The guarantees of one startCapture call that the sequence lemma uses:
`starts` calls of a start control, library pointers and sink kind kept. -/
def CaptureStep (d d1 : BtA2dp) (starts : Nat) : Prop :=
  ∃ evs, d1.trace = d.trace ++ evs ∧
    evs.count .audio_sink_start + evs.count .audio_source_start = starts ∧
    d1.lib = d.lib ∧ d1.isDummySink = d.isDummySink

/-! ## Predicates on the feedback channel -/

/-- A pcm_open call. -/
def Event.isPcmOpen : Event → Bool
  | .pcm_open _ => true
  | _ => false

/-- A pcm_close call. -/
def Event.isPcmClose : Event → Bool
  | .pcm_close _ => true
  | _ => false

/-- An allocateFrontEndIds call. -/
def Event.isAllocate : Event → Bool
  | .allocateFrontEndIds _ => true
  | _ => false

/-- Calls of startAbr that neither allocate front-end ids nor touch the
hostless stream. -/
def Event.isAbrSetup : Event → Bool
  | .allocateFrontEndIds _ => false
  | .freeFrontEndIds _ => false
  | .pcm_open _ => false
  | .pcm_is_ready => false
  | .pcm_start _ => false
  | .pcm_stop => false
  | .pcm_close _ => false
  | _ => true

/-- The outcome of the part of startAbr that runs with front-end ids allocated,
started on `d` and returning `r`. Either the stream was started (pcm_start
returned 0): the count is raised by one, fbPcm is set, pcm_open was called once
and pcm_close never, the ids are kept. Or it was not: the count is unchanged,
the last call is the release of the ids of `d`, and the list is empty. -/
def AbrTail (d r : Bluetooth) : Prop :=
  ∃ evs, r.trace = d.trace ++ evs ∧ (∀ e ∈ evs, e.isAllocate = false) ∧
    ((Event.pcm_start 0 ∈ evs ∧ r.abrRefCnt = d.abrRefCnt + 1 ∧ r.fbPcm ≠ none ∧
        evs.countP Event.isPcmOpen = 1 ∧ evs.countP Event.isPcmClose = 0 ∧
        r.fbpcmDevIds = d.fbpcmDevIds) ∨
     (Event.pcm_start 0 ∉ evs ∧ r.abrRefCnt = d.abrRefCnt ∧
        evs.getLast? = some (.freeFrontEndIds d.fbpcmDevIds) ∧ r.fbpcmDevIds = []))

/-- The second device extends the trace of the first by setup calls and keeps
the reference count and the front-end ids. -/
def SetupStep (d d1 : Bluetooth) : Prop :=
  ∃ pre, d1.trace = d.trace ++ pre ∧ (∀ e ∈ pre, e.isAbrSetup = true) ∧
    d1.abrRefCnt = d.abrRefCnt ∧ d1.fbpcmDevIds = d.fbpcmDevIds

/-- Calls on the hostless stream. -/
def Event.isPcm : Event → Bool
  | .pcm_open _ => true
  | .pcm_is_ready => true
  | .pcm_start _ => true
  | .pcm_stop => true
  | .pcm_close _ => true
  | _ => false

/-- The second device extends the trace of the first by calls that do not touch
the hostless stream, and keeps the reference count. -/
def NoPcmStep (d d1 : Bluetooth) : Prop :=
  ∃ evs, d1.trace = d.trace ++ evs ∧ (∀ e ∈ evs, e.isPcm = false) ∧ d1.abrRefCnt = d.abrRefCnt

/-- Collaborators that succeed except that pcm_start fails. -/
def pcmStartFailsCollab : Collab :=
  { okCollab with pcm_start := -1 }

/-! ## LC3 stream map of the SCO device (BtSco::convertCodecInfo) -/

/-- One entry of the LC3 stream map. -/
structure lc3_stream_map_t where
  audio_location : Nat
  stream_id : Nat
  direction : Nat
  deriving DecidableEq, Repr

/-- An element of an array obtained from `new lc3_stream_map_t[n]`: a member is
`none` until it is written. -/
structure StreamMapSlot where
  audio_location : Option Nat
  stream_id : Option Nat
  direction : Option Nat
  deriving DecidableEq, Repr

/-- The character class `[,[:s:]]` of the stream-map pattern: a comma or a
white-space character of the C locale. -/
def isSeparator (c : Char) : Bool :=
  c = ',' || c = ' ' || c = '\t' || c = '\n' || c = '\x0b' || c = '\x0c' || c = '\r'

/-- The character class `[0-9]`. -/
def isDigit (c : Char) : Bool := 48 ≤ c.toNat && c.toNat ≤ 57

/-- The character class `[MLR]`. -/
def isLocation (c : Char) : Bool := c = 'M' || c = 'L' || c = 'R'

/-- A match of the stream-map pattern: the three captured characters and the
suffix of the subject after the match. -/
structure StreamMapMatch where
  m1 : Char
  m2 : Char
  m3 : Char
  suffix : List Char
  deriving DecidableEq, Repr

/-- A run `[,[:s:]]+` at the head of the subject: the rest after the longest
run, or `none` when the run is empty. The characters that may follow the run in
the pattern are no separators, so the longest run is the only one that can
lead to a match. -/
def separators (cs : List Char) : Option (List Char) :=
  match cs with
  | c :: rest => if isSeparator c then some (rest.dropWhile isSeparator) else none
  | [] => none

/-- The pattern `([0-9])[,[:s:]]+([0-9])[,[:s:]]+([MLR])` matched at the head
of the subject. -/
def matchHere (cs : List Char) : Option StreamMapMatch :=
  match cs with
  | c1 :: r1 =>
    if isDigit c1 then
      match separators r1 with
      | some (c2 :: r2) =>
        if isDigit c2 then
          match separators r2 with
          | some (c3 :: r3) => if isLocation c3 then some ⟨c1, c2, c3, r3⟩ else none
          | _ => none
        else none
      | _ => none
    else none
  | [] => none

/-- std::regex_search with the stream-map pattern: the leftmost match. -/
def regex_search : List Char → Option StreamMapMatch
  | [] => none
  | c :: cs =>
    match matchHere (c :: cs) with
    | some m => some m
    | none => regex_search cs

/-- The function atoi on a one-digit string. -/
def atoi (c : Char) : Nat := c.toNat - 48

/-- The assignment of audio_location in the loop: left as it was when the
capture is none of M, L, R. -/
def locationOf (c : Char) (audio_location : Nat) : Nat :=
  if c = 'M' then 0 else if c = 'L' then 1 else if c = 'R' then 2 else audio_location

/-- The parsing loop of convertCodecInfo with a bound on the number of
iterations: `none` when the bound is reached before the loop ends. An entry
that fails the range check takes the `continue`, which leaves the subject `s`
as it is. -/
def parseLoop : Nat → List Char → Nat → List lc3_stream_map_t → Option (List lc3_stream_map_t)
  | 0, _, _, _ => none
  | fuel + 1, s, audio_location, steamMap =>
    match regex_search s with
    | none => some steamMap
    | some m =>
      let stream_id := atoi m.m1
      let direction := atoi m.m2
      let loc := locationOf m.m3 audio_location
      if stream_id > 1 ∨ direction > 1 ∨ loc > 2 then parseLoop fuel s loc steamMap
      else parseLoop fuel m.suffix loc (steamMap ++ [⟨loc, stream_id, direction⟩])

/-- A write to a member of element `idx` of a stream-map array: done when the
index is inside the array, dropped otherwise. -/
def writeSlot (arr : List StreamMapSlot) (idx : Nat) (f : StreamMapSlot → StreamMapSlot) :
    List StreamMapSlot :=
  arr.modify f idx

/-- The loop that fills a stream-map array from the parsed entries: for each
entry, audio_location goes to element idx, stream_id to element idx + 1 and
direction to element idx + 2, and idx has advanced by 3. The second component
lists the indices written, in order. -/
def fillStreamMap : List lc3_stream_map_t → Nat → List StreamMapSlot → List Nat →
    List StreamMapSlot × List Nat
  | [], _, arr, writes => (arr, writes)
  | it :: rest, idx, arr, writes =>
    let a1 := writeSlot arr idx (fun s => { s with audio_location := some it.audio_location })
    let a2 := writeSlot a1 (idx + 1) (fun s => { s with stream_id := some it.stream_id })
    let a3 := writeSlot a2 (idx + 2) (fun s => { s with direction := some it.direction })
    fillStreamMap rest (idx + 3) a3 (writes ++ [idx, idx + 1, idx + 2])

/-- The two values given to decoder_output_channel. -/
inductive lc3_channel where
  | CH_MONO
  | CH_STEREO
  deriving DecidableEq, Repr

/-- The stream-map members of audio_lc3_codec_cfg_t, and the indices written
into the two arrays by the last conversion. -/
structure audio_lc3_codec_cfg_t where
  enc_stream_map_size : Nat
  streamMapOut : Option (List StreamMapSlot)
  dec_stream_map_size : Nat
  streamMapIn : Option (List StreamMapSlot)
  decoder_output_channel : Option lc3_channel
  writesOut : List Nat
  writesIn : List Nat
  deriving DecidableEq, Repr

/-- The stream-map part of BtSco::convertCodecInfo, with a bound on the
iterations of the parsing loop; `none` when the parsing loop does not end
within the bound. With no parsed entry the function returns before it writes
anything. -/
def convertCodecInfo (fuel : Nat) (lc3CodecInfo : audio_lc3_codec_cfg_t) (streamMap : String) :
    Option audio_lc3_codec_cfg_t :=
  match parseLoop fuel streamMap.toList 0 [] with
  | none => none
  | some steamMap =>
    if steamMap.length = 0 then some lc3CodecInfo else
    let blank : List StreamMapSlot := List.replicate steamMap.length ⟨none, none, none⟩
    let out := fillStreamMap steamMap 0 blank []
    let inn := fillStreamMap steamMap 0 blank []
    some { enc_stream_map_size := steamMap.length,
           streamMapOut := some out.1,
           dec_stream_map_size := steamMap.length,
           streamMapIn := some inn.1,
           decoder_output_channel :=
             match inn.1.head? with
             | some s => if s.audio_location = some 0 then some lc3_channel.CH_MONO else some lc3_channel.CH_STEREO
             | none => none,
           writesOut := out.2,
           writesIn := inn.2 }

/-- A codec info record with no stream map yet. -/
def emptyLc3CodecInfo : audio_lc3_codec_cfg_t := ⟨0, none, 0, none, none, [], []⟩

/-! ## Device attributes and routing keys as the specification states them -/

/-- The device attributes as the specification derives them from the codec
format, the direction, the codec configuration and the prior attributes: the
speech-class codecs get 96 kHz and the compressed format tag, the decoder paths
of AAC and SBC and the encoder paths of LDAC and aptX-Adaptive get twice the
codec rate at 44.1 and 48 kHz, every other case gets the codec rate. -/
def deriveDeviceAttributes (fmt : CodecFormat) (ct : codec_type) (codec prior : pal_media_config) :
    pal_media_config :=
  if fmt = .CODEC_TYPE_APTX_AD_SPEECH ∨ fmt = .CODEC_TYPE_LC3 then
    { prior with sample_rate := 96000, aud_fmt_id := .PAL_AUDIO_FMT_DEFAULT_COMPRESSED }
  else if (codec.sample_rate = 44100 ∨ codec.sample_rate = 48000) ∧
      (((fmt = .CODEC_TYPE_AAC ∨ fmt = .CODEC_TYPE_SBC) ∧ ct = .DEC) ∨
       ((fmt = .CODEC_TYPE_LDAC ∨ fmt = .CODEC_TYPE_APTX_AD) ∧ ct = .ENC)) then
    { prior with sample_rate := 2 * codec.sample_rate }
  else { prior with sample_rate := codec.sample_rate }

/-- An A2DP codec format with an explicit BT_FORMAT mapping in
updateDeviceMetadata: LDAC, aptX-Adaptive, LC3, and AAC when ABR is enabled. -/
def a2dpFormatMapped (fmt : CodecFormat) (isAbrEnabled : Bool) : Bool :=
  fmt = .CODEC_TYPE_LDAC || fmt = .CODEC_TYPE_APTX_AD || fmt = .CODEC_TYPE_LC3 ||
    (fmt = .CODEC_TYPE_AAC && isAbrEnabled)

/-- A SCO codec format with an explicit BT_FORMAT mapping in
updateDeviceMetadata: aptX-Adaptive-Speech and LC3. -/
def scoFormatMapped (fmt : CodecFormat) : Bool :=
  fmt = .CODEC_TYPE_APTX_AD_SPEECH || fmt = .CODEC_TYPE_LC3

/-! ## Release of the plugin -/

/-- A close_plugin or dlclose call. -/
def Event.isRelease : Event → Bool
  | .close_plugin _ => true
  | .dlclose _ => true
  | _ => false

/-! ## SCO device -/

/-- Parameter ids of BtSco::setDeviceParameter; `other` is any further id. -/
inductive pal_param_id_type_t
  | PAL_PARAM_ID_BT_SCO
  | PAL_PARAM_ID_BT_SCO_WB
  | PAL_PARAM_ID_BT_SCO_SWB
  | PAL_PARAM_ID_BT_SCO_LC3
  | other (raw : Nat)
  deriving DecidableEq, Repr

/-- The members of pal_param_btsco_t that setDeviceParameter reads; of lc3_cfg
only the stream-map string. A speech mode is `none` when it is
SPEECH_MODE_INVALID, a constant declared outside Bluetooth.cpp. -/
structure pal_param_btsco_t where
  bt_sco_on : Bool
  bt_wb_speech_enabled : Bool
  bt_swb_speech_mode : Option Nat
  bt_lc3_speech_enabled : Bool
  lc3_cfg_streamMap : String
  deriving DecidableEq, Repr

/-- Members of class BtSco on top of those of Bluetooth. -/
structure BtSco extends Bluetooth where
  isScoOn : Bool
  isWbSpeechEnabled : Bool
  swbSpeechMode : Option Nat
  isSwbLc3Enabled : Bool
  lc3CodecInfo : audio_lc3_codec_cfg_t
  deriving DecidableEq, Repr

/-- The value of codecInfo that points to the member swbSpeechMode. -/
def addr_swbSpeechMode : Nat := 1

/-- The value of codecInfo that points to the member lc3CodecInfo. -/
def addr_lc3CodecInfo : Nat := 2

/-- BtSco::setDeviceParameter, with a bound on the iterations of the parsing
loop of convertCodecInfo; `none` when convertCodecInfo does not return within
the bound. The status is 0 for each of the four known ids and -EINVAL for any
other. -/
def BtSco.setDeviceParameter (fuel : Nat) (d : BtSco) (param_id : pal_param_id_type_t)
    (param : pal_param_btsco_t) : Option (Int × BtSco) :=
  match param_id with
  | .PAL_PARAM_ID_BT_SCO => some (0, { d with isScoOn := param.bt_sco_on })
  | .PAL_PARAM_ID_BT_SCO_WB => some (0, { d with isWbSpeechEnabled := param.bt_wb_speech_enabled })
  | .PAL_PARAM_ID_BT_SCO_SWB =>
    some (0, { d with swbSpeechMode := param.bt_swb_speech_mode,
                      codecInfo := some addr_swbSpeechMode })
  | .PAL_PARAM_ID_BT_SCO_LC3 =>
    match convertCodecInfo fuel d.lc3CodecInfo param.lc3_cfg_streamMap with
    | none => none
    | some info =>
      some (0, { d with isSwbLc3Enabled := param.bt_lc3_speech_enabled,
                        lc3CodecInfo := info,
                        codecInfo := some addr_lc3CodecInfo })
  | .other _ => some (-EINVAL, d)

/-- Device::stop_l is code of the base class Device and not part of
Bluetooth.cpp: it is a parameter of the model, the value of the member
deviceCount that it leaves. As a member function of Device it has no access to
the members that class Bluetooth adds. -/
structure DeviceBase where
  stop_l : Int → Int

/-- BtSco::stop: stopAbr when ABR is enabled, release of the plugin,
Device::stop_l, then the codec format is reset when the ABR flag is clear and
the configured flag when no user of the device is left. -/
def BtSco.stop (env : Collab) (base : DeviceBase) (d : BtSco) : Int × BtSco :=
  let b1 : Bluetooth := if d.isAbrEnabled = true then stopAbr env d.toBluetooth else d.toBluetooth
  let b2 : Bluetooth := closePlugin b1
  let b3 : Bluetooth := { b2 with deviceCount := base.stop_l b2.deviceCount }
  let b4 : Bluetooth :=
    if b3.isAbrEnabled = false then { b3 with codecFormat := .CODEC_TYPE_INVALID } else b3
  let b5 : Bluetooth := if b4.deviceCount = 0 then { b4 with isConfigured := false } else b4
  (0, { d with toBluetooth := b5 })

/-- A SCO device after construction, with the given identity and direction. -/
def sampleSco (id : pal_device_id_t) (ct : codec_type) : BtSco where
  toBluetooth := sampleDevice id ct .CODEC_TYPE_INVALID
  isScoOn := false
  isWbSpeechEnabled := false
  swbSpeechMode := none
  isSwbLc3Enabled := false
  lc3CodecInfo := emptyLc3CodecInfo

/-! ## Fixtures of the A2DP starts -/

/-- The device with the suspend flag of the A2DP parameters set to `b`. -/
def BtA2dp.withSuspended (d : BtA2dp) (b : Bool) : BtA2dp := { d with a2dp_suspended := b }

/-- Collaborators that succeed except that the decoder metadata is invalid. -/
def invalidDecConfigCollab : Collab :=
  { okCollab with audio_get_dec_config := (none, .CODEC_TYPE_INVALID) }

/-! ## Payloads and plugin handles across a pass -/

/-- The calls of a plugin load that succeeds. -/
def loadEvents (env : Collab) (fmt : CodecFormat) (ct : codec_type) : List Event :=
  [.dlopen (env.getBtCodecLib fmt ct), .dlsym_plugin_open, .plugin_open fmt ct,
    .plugin_populate_payload 0]

/-- The buffers of the payloads pushed by the calls of a trace, in order. -/
def pushedPayloads (t : List Event) : List BuilderOut :=
  (pushes t).map fun p => p.2.2

/-- The second device extends the first by calls that release nothing, its
custom payload is that of the first followed by the payloads pushed by these
calls, and the plugin handles are kept. -/
def PassStep (d r : Bluetooth) : Prop :=
  ∃ evs, r.trace = d.trace ++ evs ∧
    r.customPayload = d.customPayload ++ pushedPayloads evs ∧
    (∀ e ∈ evs, e.isRelease = false) ∧
    r.pluginHandler = d.pluginHandler ∧ r.pluginCodec = d.pluginCodec

/-- The device on which the placeholder stage starts. -/
def atPlaceholder (env : Collab) (d : Bluetooth) (pl : PluginLoaded) : Bluetooth :=
  (afterLoad d pl (loadEvents env d.codecFormat d.codecType)).log
    (.getMIID (placeholderTag d.codecType))

/-! ## Plugin handles in startAbr -/

/-- The plugin of the inverse direction, loaded by a startAbr call on `d`, has
been released within the calls `evs`: dlclose on the handle dlopen returned, and
close_plugin on the codec plugin_open handed out. -/
def PluginReleased (env : Collab) (d : Bluetooth) (evs : List Event) : Prop :=
  ∃ h, env.dlopen (env.getBtCodecLib d.codecFormat d.codecType.inverse) = some h ∧
    Event.dlclose h ∈ evs ∧
    ∀ c, (env.plugin_open d.codecFormat d.codecType.inverse).2 = some c →
      Event.close_plugin c ∈ evs

/-- The second device extends the trace of the first by calls that are no
plugin calls and keeps codec format, direction and codec metadata. -/
def NoLoadStep (d d1 : Bluetooth) : Prop :=
  ∃ pre, d1.trace = d.trace ++ pre ∧ (∀ e ∈ pre, e.isPlugin = false) ∧
    d1.codecFormat = d.codecFormat ∧ d1.codecType = d.codecType ∧ d1.codecInfo = d.codecInfo

/-- The result `r` of a part of startAbr started on `d`: when the plugin load
succeeded within it and the package has one block, the plugin was released
within it. -/
def AbrLoad (env : Collab) (d r : Bluetooth) : Prop :=
  ∃ evs, r.trace = d.trace ++ evs ∧
    (Event.plugin_populate_payload 0 ∈ evs →
      (pluginPackage env d.codecFormat d.codecType.inverse d.codecInfo).num_blks = 1 →
      PluginReleased env d evs)

/-! ## Feedback device of startAbr -/

/-- The condition under which startAbr, after pcm_start, writes isConfigured
and deviceCount of the feedback device (lines 836-845): the codec is
aptX-Adaptive-Speech, or it is LC3 and the feedback device is a SCO device. -/
def abrBookkeeps (d : Bluetooth) : Prop :=
  d.codecFormat = .CODEC_TYPE_APTX_AD_SPEECH ∨
  (d.codecFormat = .CODEC_TYPE_LC3 ∧
    (fbDeviceId d = .PAL_DEVICE_IN_BLUETOOTH_SCO_HEADSET ∨
     fbDeviceId d = .PAL_DEVICE_OUT_BLUETOOTH_SCO))

/-- The second device extends the trace of the first by calls other than a
pcm_start that returned 0, and keeps codec format, direction and device id. -/
def NoStartStep (d d1 : Bluetooth) : Prop :=
  ∃ pre, d1.trace = d.trace ++ pre ∧ Event.pcm_start 0 ∉ pre ∧
    d1.codecFormat = d.codecFormat ∧ d1.codecType = d.codecType ∧
    d1.deviceAttr_id = d.deviceAttr_id

/-- The feedback device of the result `r` of a part of startAbr started on `d`
with the feedback device `f` assigned: when the part started the stream and the
bookkeeping condition holds, the feedback device of `r` is non-null, configured,
and has one user more than `f`. -/
def AbrBooked (d r : Bluetooth) (f : FbDev) : Prop :=
  ∃ evs, r.trace = d.trace ++ evs ∧
    (Event.pcm_start 0 ∈ evs → abrBookkeeps d →
      ∃ g, r.fbDev = some g ∧ g.isConfigured = true ∧ g.deviceCount = f.deviceCount + 1)

/-- The outcome of a part of startAbr started on `d`, before the feedback
device is assigned: when the part started the stream and the bookkeeping
condition holds, the feedback device was assigned a non-null instance by a
getInstance call that precedes pcm_start, and it is configured with one user more
on return. -/
def AbrAssigned (env : Collab) (d r : Bluetooth) : Prop :=
  ∃ evs, r.trace = d.trace ++ evs ∧
    (Event.pcm_start 0 ∈ evs → abrBookkeeps d →
      ∃ f g pre post, env.getInstance (fbDeviceId d) = some f ∧
        evs = pre ++ Event.getInstance (fbDeviceId d) :: post ∧
        Event.pcm_start 0 ∈ post ∧
        r.fbDev = some g ∧ g.isConfigured = true ∧ g.deviceCount = f.deviceCount + 1)

/-! ## Start of a SCO device -/

/-- Device::start_l is code of the base class Device and not part of
Bluetooth.cpp: it is a parameter of the model, the status it returns and the
value of the member deviceCount that it leaves. As a member function of Device
it has no access to the members that class Bluetooth adds. -/
structure DeviceStart where
  start_l : Int → Int × Int

/-- BtSco::startSwb: the pipeline is configured unless it is configured already. -/
def BtSco.startSwb (env : Collab) (b : Bluetooth) : Int × Bluetooth :=
  if b.isConfigured = false then configureA2dpEncoderDecoder env b else (0, b)

/-- The part of BtSco::start before Device::start_l: the codec format is set
from the speech mode, else from the LC3 flag, else left as it is; the routing
keys are pushed; then startSwb for aptX-Adaptive-Speech and LC3, and for any
other format the codec configuration is overridden with the device attributes. -/
def BtSco.start_configure (env : Collab) (d : BtSco) : Int × Bluetooth :=
  let b0 : Bluetooth :=
    if d.swbSpeechMode ≠ none then { d.toBluetooth with codecFormat := .CODEC_TYPE_APTX_AD_SPEECH }
    else if d.isSwbLc3Enabled = true then { d.toBluetooth with codecFormat := .CODEC_TYPE_LC3 }
    else d.toBluetooth
  let b1 : Bluetooth := (updateDeviceMetadata env b0).2
  if b1.codecFormat = .CODEC_TYPE_APTX_AD_SPEECH ∨ b1.codecFormat = .CODEC_TYPE_LC3 then
    BtSco.startSwb env b1
  else
    (0, { b1 with codecConfig := ⟨b1.deviceAttr_config.sample_rate, b1.deviceAttr_config.bit_width,
                                  b1.deviceAttr_config.channels, .PAL_AUDIO_FMT_DEFAULT_PCM⟩,
                  isConfigured := true })

/-- The end of BtA2dp::start and BtSco::start once the configuration succeeded:
Device::start_l, then startAbr when it returned 0 and ABR is enabled. -/
def start_tail (env : Collab) (base : DeviceStart) (b : Bluetooth) : Int × Bluetooth :=
  let s := base.start_l b.deviceCount
  let b1 : Bluetooth := { b with deviceCount := s.2 }
  if s.1 = 0 ∧ b1.isAbrEnabled = true then (s.1, startAbr env b1) else (s.1, b1)

/-- BtSco::start. -/
def BtSco.start (env : Collab) (base : DeviceStart) (d : BtSco) : Int × BtSco :=
  let r := BtSco.start_configure env d
  if r.1 ≠ 0 then (r.1, { d with toBluetooth := r.2 }) else
  let t := start_tail env base r.2
  (t.1, { d with toBluetooth := t.2 })

/-- Collaborators that succeed, with a plugin that reports adaptive bitrate. -/
def abrCollab : Collab :=
  { okCollab with
      plugin_populate_payload := fun _ _ => (0, ⟨48000, 24, 2, true, [⟨100, 1, [5]⟩]⟩) }

/-- Collaborators of abrCollab except that pcm_open of the feedback stream fails. -/
def abrNoPcmCollab : Collab := { abrCollab with pcm_open := fun _ => none }

/-- A base class whose start_l succeeds and counts one more user. -/
def countingStart : DeviceStart := ⟨fun n => (0, n + 1)⟩

/-- A base class whose stop_l counts one user less. -/
def countingStop : DeviceBase := ⟨fun n => n - 1⟩

/-- The second device extends the trace of the first by calls that belong
neither to the plugin gateway nor to the pipeline configurator, and keeps the
codec format, the codec configuration and the configured flag. -/
def NoPipeStep (d d1 : Bluetooth) : Prop :=
  ∃ evs, d1.trace = d.trace ++ evs ∧ (∀ e ∈ evs, e.isPipeline = false) ∧
    d1.codecFormat = d.codecFormat ∧ d1.codecConfig = d.codecConfig ∧
    d1.isConfigured = d.isConfigured

/-- The parameter that sets the speech mode of a SCO device. -/
def swbParam (mode : Option Nat) : pal_param_btsco_t := ⟨false, false, mode, false, ""⟩

/-- The sample SCO device after setDeviceParameter has set the speech mode 0. -/
def swbSco : BtSco :=
  { sampleSco .PAL_DEVICE_OUT_BLUETOOTH_SCO .ENC with
      swbSpeechMode := some 0, codecInfo := some addr_swbSpeechMode }

/-! ## Mutexes of start and stop -/

/-- The two mutexes of a Bluetooth device. -/
inductive Mutex
  | mDeviceMutex
  | mAbrMutex
  deriving DecidableEq, Repr

/-- A mutex operation of the executing thread. -/
inductive LockEvent
  | lock (m : Mutex)
  | unlock (m : Mutex)
  deriving DecidableEq, Repr

/-- The mutex operations of Bluetooth::startAbr: mAbrMutex is locked at entry
(line 592) and unlocked on the early return (line 595) or at the label done
(line 857), which every other path reaches. -/
def startAbr_locks (d : Bluetooth) : List LockEvent :=
  if d.abrRefCnt > 0 then [.lock .mAbrMutex, .unlock .mAbrMutex]
  else [.lock .mAbrMutex] ++ [.unlock .mAbrMutex]

/-- The mutex operations of Bluetooth::stopAbr: mAbrMutex is locked at entry
(line 872) and unlocked on the two early returns (lines 875, 881) or at the end
(line 928). -/
def stopAbr_locks (d : Bluetooth) : List LockEvent :=
  if d.fbPcm = none then [.lock .mAbrMutex, .unlock .mAbrMutex]
  else if d.abrRefCnt - 1 ≠ 0 then [.lock .mAbrMutex, .unlock .mAbrMutex]
  else [.lock .mAbrMutex] ++ [.unlock .mAbrMutex]

/-- The mutex operations of the end of a start, see start_tail: those of startAbr
when it is called. -/
def start_tail_locks (base : DeviceStart) (b : Bluetooth) : List LockEvent :=
  let s := base.start_l b.deviceCount
  let b1 : Bluetooth := { b with deviceCount := s.2 }
  if s.1 = 0 ∧ b1.isAbrEnabled = true then startAbr_locks b1 else []

/-- The part of BtA2dp::start before Device::start_l: the custom payload is
freed, then startPlayback for a source and startCapture for a sink. -/
def BtA2dp.start_configure (env : Collab) (d : BtA2dp) : Int × BtA2dp :=
  let d0 : BtA2dp := { d with customPayload := [] }
  if d0.a2dpRole = .SOURCE then startPlayback env d0 else startCapture env d0

/-- BtA2dp::start. -/
def BtA2dp.start (env : Collab) (base : DeviceStart) (d : BtA2dp) : Int × BtA2dp :=
  let r := BtA2dp.start_configure env d
  if r.1 ≠ 0 then r else
  let t := start_tail env base r.2.toBluetooth
  (t.1, { r.2 with toBluetooth := t.2 })

/-- The mutex operations of BtA2dp::start: mDeviceMutex is locked at entry
(line 1140) and unlocked on the failure return (line 1150) or at the end
(line 1159), after startAbr when it is called. -/
def BtA2dp.start_locks (env : Collab) (base : DeviceStart) (d : BtA2dp) : List LockEvent :=
  let r := BtA2dp.start_configure env d
  if r.1 ≠ 0 then [.lock .mDeviceMutex, .unlock .mDeviceMutex] else
  [.lock .mDeviceMutex] ++ start_tail_locks base r.2.toBluetooth ++ [.unlock .mDeviceMutex]

/-- BtA2dp::stop: stopAbr when ABR is enabled, Device::stop_l, then stopPlayback
for a source and stopCapture for a sink. -/
def BtA2dp.stop (env : Collab) (base : DeviceBase) (d : BtA2dp) : Int × BtA2dp :=
  let b1 : Bluetooth := if d.isAbrEnabled = true then stopAbr env d.toBluetooth else d.toBluetooth
  let d2 : BtA2dp := { d with toBluetooth := { b1 with deviceCount := base.stop_l b1.deviceCount } }
  if d2.a2dpRole = .SOURCE then stopPlayback env d2 else stopCapture env d2

/-- The mutex operations of BtA2dp::stop: mDeviceMutex is locked at entry
(line 1166) and unlocked at the end (line 1174); stopAbr is called in between
when ABR is enabled. -/
def BtA2dp.stop_locks (d : BtA2dp) : List LockEvent :=
  [.lock .mDeviceMutex] ++ (if d.isAbrEnabled = true then stopAbr_locks d.toBluetooth else []) ++
    [.unlock .mDeviceMutex]

/-- The mutex operations of BtSco::start: mDeviceMutex is locked at entry
(line 1818) and unlocked on the failure return (line 1831) or at the end
(line 1850), after startAbr when it is called. -/
def BtSco.start_locks (env : Collab) (base : DeviceStart) (d : BtSco) : List LockEvent :=
  let r := BtSco.start_configure env d
  if r.1 ≠ 0 then [.lock .mDeviceMutex, .unlock .mDeviceMutex] else
  [.lock .mDeviceMutex] ++ start_tail_locks base r.2 ++ [.unlock .mDeviceMutex]

/-- The mutex operations of BtSco::stop: mDeviceMutex is locked at entry
(line 1857) and unlocked at the end (line 1877); stopAbr is called in between
when ABR is enabled. -/
def BtSco.stop_locks (d : BtSco) : List LockEvent :=
  [.lock .mDeviceMutex] ++ (if d.isAbrEnabled = true then stopAbr_locks d.toBluetooth else []) ++
    [.unlock .mDeviceMutex]

/-- The mutexes the thread holds after each operation of a sequence, when it
holds `held` before the first. -/
def heldAfter (held : List Mutex) : List LockEvent → List (List Mutex)
  | [] => []
  | .lock m :: t => (m :: held) :: heldAfter (m :: held) t
  | .unlock m :: t => held.erase m :: heldAfter (held.erase m) t

/-- The thread holds both mutexes after some operation of the sequence. -/
def holdsBoth (t : List LockEvent) : Bool :=
  (heldAfter [] t).any fun s => decide (Mutex.mDeviceMutex ∈ s) && decide (Mutex.mAbrMutex ∈ s)

/-- The sequence in which only mDeviceMutex is taken. -/
def deviceOnly : List LockEvent := [.lock .mDeviceMutex, .unlock .mDeviceMutex]

/-- The sequence in which mAbrMutex is taken and released inside mDeviceMutex. -/
def abrInsideDevice : List LockEvent :=
  [.lock .mDeviceMutex, .lock .mAbrMutex, .unlock .mAbrMutex, .unlock .mDeviceMutex]

/-! ## Connection, suspend and parameters of an A2DP device -/

/-- The static entry points of the A2DP source library that open_a2dp_source,
close_audio_source and setDeviceParameter test, each `true` when the pointer is
non-null. -/
structure BtSourceLibs where
  audio_source_open : Bool
  audio_source_close : Bool
  audio_source_suspend : Bool
  clear_source_a2dpsuspend_flag : Bool
  deriving DecidableEq, Repr

/-- BtA2dp::open_a2dp_source: with the library loaded and the device
disconnected, the source stream is opened and the state becomes CONNECTED,
whatever audio_source_open returns. -/
def open_a2dp_source (src : BtSourceLibs) (d : BtA2dp) : BtA2dp :=
  if d.lib.bt_lib_source_handle = true ∧ src.audio_source_open = true then
    if d.a2dpState = .A2DP_STATE_DISCONNECTED then
      { d.log .audio_source_open with a2dpState := .A2DP_STATE_CONNECTED }
    else d
  else d

/-- The file name BT_IPC_SOURCE_LIB of the source control library. -/
def BT_IPC_SOURCE_LIB : String := "btaudio_offload_if.so"

/-- The file name BT_IPC_SINK_LIB of the sink control library. -/
def BT_IPC_SINK_LIB : String := "libbthost_if_sink.so"

/-- The dynamic loader and the build as init() meets them: whether dlopen of
BT_IPC_SOURCE_LIB and of BT_IPC_SINK_LIB returns a handle, whether dlsym finds a
symbol in the source and in the sink library, and whether LINUX_ENABLED is
defined. -/
structure BtLoader where
  dlopen_source : Bool
  dlopen_sink : Bool
  dlsym_source : BtSymbol → Bool
  dlsym_sink : BtSymbol → Bool
  linux_enabled : Bool

/-- Record the dlsym lookups of the given symbols in the trace, in order. -/
def BtA2dp.logSymbols (d : BtA2dp) (symbols : List BtSymbol) : BtA2dp :=
  symbols.foldl (fun s y => s.log (.dlsym y)) d

/-- The symbols that init_a2dp_source looks up in the source library, in the
order of the lookups. -/
def sourceSymbols : List BtSymbol :=
  [.bt_audio_pre_init, .audio_stream_open, .audio_start_stream, .audio_get_codec_config,
   .audio_suspend_stream, .audio_handoff_triggered, .clear_a2dpsuspend_flag,
   .audio_stop_stream, .audio_stream_close, .audio_check_a2dp_ready,
   .audio_sink_get_a2dp_latency, .isTwsMonomodeEnable]

/-- The symbols that init_a2dp_sink looks up in the sink library. -/
def sinkSymbols : List BtSymbol :=
  [.audio_sink_start_capture, .audio_get_decoder_config, .audio_sink_stop_capture,
   .audio_sink_check_a2dp_ready, .audio_sink_session_setup_complete]

/-- The symbols that init_a2dp_sink looks up in the source library for a dummy
sink. -/
def dummySinkSymbols : List BtSymbol :=
  [.audio_get_codec_config, .audio_sink_get_a2dp_latency, .audio_start_stream,
   .audio_stop_stream, .audio_check_a2dp_ready]

/-- The start of init_a2dp_source: the source library is opened when its handle
is null. -/
def init_a2dp_source_dlopen (ld : BtLoader) (d : BtA2dp) : BtA2dp :=
  if d.lib.bt_lib_source_handle = false then
    { d.log (.dlopen BT_IPC_SOURCE_LIB) with
        lib := { d.lib with bt_lib_source_handle := ld.dlopen_source } }
  else d

/-- The lookups of init_a2dp_source: every static entry point of the source
library is assigned what dlsym returns. The pointers
audio_source_handoff_triggered, audio_source_check_a2dp_ready and
audio_sink_get_a2dp_latency are read by no modelled function: only their lookup
is recorded. The result holds the static source pointers next to the device. -/
def init_a2dp_source_dlsym (ld : BtLoader) (d1 : BtA2dp) : BtSourceLibs × BtA2dp :=
  let d2 : BtA2dp := d1.logSymbols sourceSymbols
  (⟨ld.dlsym_source .audio_stream_open, ld.dlsym_source .audio_stream_close,
    ld.dlsym_source .audio_suspend_stream, ld.dlsym_source .clear_a2dpsuspend_flag⟩,
   { d2 with
       lib := { d2.lib with
                  audio_source_start := ld.dlsym_source .audio_start_stream,
                  audio_get_enc_config := ld.dlsym_source .audio_get_codec_config,
                  audio_source_stop := ld.dlsym_source .audio_stop_stream,
                  audio_is_tws_mono_mode_enable := ld.dlsym_source .isTwsMonomodeEnable } })

/-- BtA2dp::init_a2dp_source: the source library is opened when its handle is
null, and the function returns when that fails; every entry point is looked up
again; bt_audio_pre_init is called when it was found; then open_a2dp_source.
The usleep before open_a2dp_source is not recorded. -/
def init_a2dp_source (ld : BtLoader) (src : BtSourceLibs) (d : BtA2dp) : BtSourceLibs × BtA2dp :=
  let d1 := init_a2dp_source_dlopen ld d
  if d1.lib.bt_lib_source_handle = false then (src, d1) else
  let r := init_a2dp_source_dlsym ld d1
  let d4 : BtA2dp :=
    if ld.dlsym_source .bt_audio_pre_init = true then r.2.log .bt_audio_pre_init else r.2
  (r.1, open_a2dp_source r.1 d4)

/-- The branch of init_a2dp_sink in which the sink library was opened: its entry
points are looked up. The pointer audio_sink_check_a2dp_ready is read by no
modelled function: only its lookup is recorded. -/
def init_a2dp_sink_dlsym (ld : BtLoader) (d1 : BtA2dp) : BtA2dp :=
  let d2 : BtA2dp := d1.logSymbols sinkSymbols
  { d2 with
      lib := { d2.lib with
                 bt_lib_sink_handle := true,
                 audio_sink_start := ld.dlsym_sink .audio_sink_start_capture,
                 audio_get_dec_config := ld.dlsym_sink .audio_get_decoder_config,
                 audio_sink_stop := ld.dlsym_sink .audio_sink_stop_capture,
                 audio_sink_session_setup_complete :=
                   ld.dlsym_sink .audio_sink_session_setup_complete } }

/-- The branch of init_a2dp_sink in which the source library was opened in
place of the sink library: isDummySink is set and the entry points of the source
library that a capture uses are looked up. The pointers
audio_sink_get_a2dp_latency and audio_source_check_a2dp_ready are read by no
modelled function: only their lookup is recorded. -/
def init_a2dp_sink_dummy (ld : BtLoader) (d2 : BtA2dp) : BtA2dp :=
  let d3 : BtA2dp := { d2 with toBluetooth := { d2.toBluetooth with isDummySink := true } }
  let d4 : BtA2dp := d3.logSymbols dummySinkSymbols
  { d4 with
      lib := { d4.lib with
                 bt_lib_sink_handle := true,
                 audio_get_enc_config := ld.dlsym_source .audio_get_codec_config,
                 audio_source_start := ld.dlsym_source .audio_start_stream,
                 audio_source_stop := ld.dlsym_source .audio_stop_stream } }

/-- BtA2dp::init_a2dp_sink: nothing when the sink handle is set. Otherwise the
sink library is opened and its entry points are looked up; when it cannot be
opened and LINUX_ENABLED is not defined, the source library is opened in its
place, and the function returns when that fails too. -/
def init_a2dp_sink (ld : BtLoader) (d : BtA2dp) : BtA2dp :=
  if d.lib.bt_lib_sink_handle = true then d else
  let d1 := d.log (.dlopen BT_IPC_SINK_LIB)
  if ld.dlopen_sink = true then init_a2dp_sink_dlsym ld d1
  else if ld.linux_enabled = true then d1
  else
    let d2 := d1.log (.dlopen BT_IPC_SOURCE_LIB)
    if ld.dlopen_source = false then d2 else init_a2dp_sink_dummy ld d2

/-- BtA2dp::init. -/
def BtA2dp.init (ld : BtLoader) (src : BtSourceLibs) (d : BtA2dp) : BtSourceLibs × BtA2dp :=
  if d.a2dpRole = .SOURCE then init_a2dp_source ld src d else (src, init_a2dp_sink ld d)

/-- The constructor Bluetooth::Bluetooth on top of the members `device` left by
the constructor of Device: the members of its initialiser list are set, every
other member keeps the value of `device`. -/
def Bluetooth.construct (device : Bluetooth) : Bluetooth :=
  { device with
      codecFormat := .CODEC_TYPE_INVALID,
      codecInfo := none,
      isAbrEnabled := false,
      isConfigured := false,
      isLC3MonoModeOn := false,
      isTwsMonoModeOn := false,
      isDummySink := false,
      abrRefCnt := 0 }

/-- The constructor BtA2dp::BtA2dp: the constructor of Bluetooth, state
DISCONNECTED and no session from the initialiser list, role and direction from
the device id, plugin handles null, then init(), then the flags of param_bt_a2dp
and the offload support. `supported` and `disabled` are the values of the
properties ro.bluetooth.a2dp_offload.supported and
persist.bluetooth.a2dp_offload.disabled, `lib` and `src` the static library
pointers before the call. The id of the constructor argument is read from
deviceAttr_id of `device`. The three members assigned after init() are read by
nothing in init(); they hold `false` while it runs. The members is_force_switch,
reconfig_supported and latency of param_bt_a2dp, which are assigned here too,
are read by no modelled function and are left out. The result holds the static
source pointers next to the device. -/
def BtA2dp.construct (ld : BtLoader) (device : Bluetooth) (supported disabled : Bool)
    (lib : BtLibs) (src : BtSourceLibs) : BtSourceLibs × BtA2dp :=
  let d0 : BtA2dp :=
    { toBluetooth :=
        { device.construct with
            codecType :=
              if device.deviceAttr_id = .PAL_DEVICE_IN_BLUETOOTH_A2DP then .DEC else .ENC,
            pluginHandler := none,
            pluginCodec := none },
      a2dpState := .A2DP_STATE_DISCONNECTED,
      a2dpRole := if device.deviceAttr_id = .PAL_DEVICE_IN_BLUETOOTH_A2DP then .SINK else .SOURCE,
      totalActiveSessionRequests := 0,
      a2dp_suspended := false,
      reconfig := false,
      isA2dpOffloadSupported := false,
      lib := lib }
  let r := d0.init ld src
  (r.1, { r.2 with reconfig := false,
                   a2dp_suspended := false,
                   isA2dpOffloadSupported := supported && !disabled })

/-- BtA2dp::close_audio_source. The member latency of param_bt_a2dp, which is
reset here, is not read by any modelled function and is left out. -/
def close_audio_source (src : BtSourceLibs) (d : BtA2dp) : Int × BtA2dp :=
  if ¬(d.lib.bt_lib_source_handle = true ∧ src.audio_source_close = true) then (-ENOSYS, d) else
  let d1 : BtA2dp :=
    if d.a2dpState ≠ .A2DP_STATE_DISCONNECTED then d.log .audio_source_close else d
  (0, { d1 with totalActiveSessionRequests := 0,
                a2dp_suspended := false,
                reconfig := false,
                a2dpState := .A2DP_STATE_DISCONNECTED })

/-- Parameter ids of BtA2dp::setDeviceParameter; `other` is any further id. -/
inductive pal_a2dp_param_id_t
  | PAL_PARAM_ID_DEVICE_CONNECTION
  | PAL_PARAM_ID_BT_A2DP_RECONFIG
  | PAL_PARAM_ID_BT_A2DP_SUSPENDED
  | PAL_PARAM_ID_BT_A2DP_TWS_CONFIG
  | PAL_PARAM_ID_BT_A2DP_LC3_CONFIG
  | other (raw : Nat)
  deriving DecidableEq, Repr

/-- The members of the parameter that BtA2dp::setDeviceParameter reads:
connection_state of pal_param_device_connection_t and four members of
pal_param_bta2dp_t. -/
structure pal_param_bta2dp_t where
  connection_state : Bool
  reconfig : Bool
  a2dp_suspended : Bool
  is_tws_mono_mode_on : Bool
  is_lc3_mono_mode_on : Bool
  deriving DecidableEq, Repr

/-- Case PAL_PARAM_ID_DEVICE_CONNECTION of BtA2dp::setDeviceParameter. -/
def BtA2dp.setDeviceParameter_connection (src : BtSourceLibs) (d : BtA2dp)
    (param : pal_param_bta2dp_t) : Int × BtA2dp :=
  if param.connection_state = true then
    if d.a2dpRole = .SOURCE then (0, open_a2dp_source src d)
    else (0, { d with a2dpState := .A2DP_STATE_CONNECTED })
  else
    if d.a2dpRole = .SOURCE then close_audio_source src d
    else
      (0, { d with totalActiveSessionRequests := 0,
                   a2dp_suspended := false,
                   reconfig := false,
                   a2dpState := .A2DP_STATE_DISCONNECTED })

/-- Case PAL_PARAM_ID_BT_A2DP_SUSPENDED of BtA2dp::setDeviceParameter: nothing
without the source library or when the flag has the value already; a suspend
sets the flag and, unless disconnected, notifies the resource manager and the
stack; a resume clears the flag, restarts the stream when sessions are active
(a failure ends the call) and notifies the resource manager. -/
def BtA2dp.setDeviceParameter_suspended (env : Collab) (src : BtSourceLibs) (d : BtA2dp)
    (param : pal_param_bta2dp_t) : Int × BtA2dp :=
  if d.lib.bt_lib_source_handle = false then (0, d)
  else if d.a2dp_suspended = param.a2dp_suspended then (0, d)
  else if param.a2dp_suspended = true then
    let d1 : BtA2dp := { d with a2dp_suspended := true }
    if d1.a2dpState = .A2DP_STATE_DISCONNECTED then (0, d1) else
    let d2 := d1.log .a2dpSuspend
    if src.audio_source_suspend = true then (0, d2.log .audio_source_suspend) else (0, d2)
  else
    let d1 : BtA2dp :=
      if src.clear_source_a2dpsuspend_flag = true then d.log .clear_source_a2dpsuspend_flag else d
    let d2 : BtA2dp := { d1 with a2dp_suspended := false }
    if d2.totalActiveSessionRequests > 0 ∧ d2.lib.audio_source_start = true then
      let d3 := d2.log .audio_source_start
      if env.audio_source_start ≠ 0 then (env.audio_source_start, d3)
      else (env.audio_source_start, d3.log .a2dpResume)
    else (0, d2.log .a2dpResume)

/-- The common end of the cases PAL_PARAM_ID_BT_A2DP_TWS_CONFIG and
PAL_PARAM_ID_BT_A2DP_LC3_CONFIG of BtA2dp::setDeviceParameter, after the
mono-mode flag is stored: in state STARTED the flag is sent to the placeholder
encoder of the active stream, and -EINVAL is returned when there is none. -/
def BtA2dp.setDeviceParameter_mono (env : Collab) (d1 : BtA2dp) : Int × BtA2dp :=
  if d1.a2dpState = .A2DP_STATE_STARTED then
    let d2 := (d1.log (.getInstance d1.deviceAttr_id)).log .getActiveStream_l
    if env.getActiveStream_l.1 ≠ 0 ∨ env.getActiveStream_l.2 = 0 then (-EINVAL, d2)
    else (env.getActiveStream_l.1, d2.log (.setParameters .BT_PLACEHOLDER_ENCODER))
  else (0, d1)

/-- BtA2dp::setDeviceParameter. -/
def BtA2dp.setDeviceParameter (env : Collab) (src : BtSourceLibs) (d : BtA2dp)
    (param_id : pal_a2dp_param_id_t) (param : pal_param_bta2dp_t) : Int × BtA2dp :=
  if d.isA2dpOffloadSupported = false then (-EINVAL, d) else
  match param_id with
  | .PAL_PARAM_ID_DEVICE_CONNECTION => d.setDeviceParameter_connection src param
  | .PAL_PARAM_ID_BT_A2DP_RECONFIG =>
    if d.a2dpState ≠ .A2DP_STATE_DISCONNECTED then (0, { d with reconfig := param.reconfig })
    else (0, d)
  | .PAL_PARAM_ID_BT_A2DP_SUSPENDED => d.setDeviceParameter_suspended env src param
  | .PAL_PARAM_ID_BT_A2DP_TWS_CONFIG =>
    BtA2dp.setDeviceParameter_mono env { d with isTwsMonoModeOn := param.is_tws_mono_mode_on }
  | .PAL_PARAM_ID_BT_A2DP_LC3_CONFIG =>
    BtA2dp.setDeviceParameter_mono env { d with isLC3MonoModeOn := param.is_lc3_mono_mode_on }
  | .other _ => (-EINVAL, d)

/-- The invariant of a source device: the state is STARTED exactly when
sessions are active. -/
def sessionInvariant (d : BtA2dp) : Prop :=
  d.a2dpState = .A2DP_STATE_STARTED ↔ d.totalActiveSessionRequests > 0

/-- The second A2DP device has the state, the session count and the role of the
first. -/
def SameSession (d d1 : BtA2dp) : Prop :=
  d1.a2dpState = d.a2dpState ∧ d1.totalActiveSessionRequests = d.totalActiveSessionRequests ∧
    d1.a2dpRole = d.a2dpRole

/-- Source library pointers all set. -/
def loadedSourceLibs : BtSourceLibs := ⟨true, true, true, true⟩

/-- A loader that opens both libraries and finds every symbol. -/
def okLoader : BtLoader := ⟨true, true, fun _ => true, fun _ => true, false⟩

/-- A loader that opens only the source library and finds every symbol in it. -/
def sourceOnlyLoader : BtLoader := ⟨true, false, fun _ => true, fun _ => false, false⟩

/-- Library pointers all null, as before the first A2DP device is constructed. -/
def nullLibs : BtLibs := ⟨false, false, false, false, false, false, false, false, false, false⟩

/-- Source library pointers all null. -/
def nullSourceLibs : BtSourceLibs := ⟨false, false, false, false⟩

/-! ## The pipeline as a list of steps -/

/-- One step of the pipeline that the specification lists for a configuration
pass after the plugin load: the resolution of a module tag, the push of a
payload wrapped by payloadCustomParam (the placeholder reset and the plugin
blocks), or the push of a payload built by one of the other builders. -/
inductive PipelineStep
  | resolve (tag : ModuleTag)
  | custom (target : ModuleTag) (param_id : Nat) (out : BuilderOut)
  | fixed (target : ModuleTag) (kind : PayloadKind) (out : BuilderOut)
  deriving DecidableEq, Repr

/-- The status of a step taken on its own: the status of the resolution;
-ENOMEM for a payloadCustomParam payload that is null; -EINVAL for a payload of
another builder whose size is 0; else 0. -/
def PipelineStep.status (env : Collab) : PipelineStep → Int
  | .resolve tag => (env.getMIID tag).1
  | .custom _ _ out => if out.paramData = none then -ENOMEM else 0
  | .fixed _ _ out => if out.paramSize = 0 then -EINVAL else 0

/-- The calls of a step: the resolution is always called, a payload is pushed
only when the step succeeds. -/
def PipelineStep.events (env : Collab) : PipelineStep → List Event
  | .resolve tag => [.getMIID tag]
  | .custom target param_id out =>
    if (PipelineStep.custom target param_id out).status env = 0 then
      [.updateCustomPayload target (.payloadCustomParam param_id) out]
    else []
  | .fixed target kind out =>
    if (PipelineStep.fixed target kind out).status env = 0 then
      [.updateCustomPayload target kind out]
    else []

/-- The calls of a list of steps that all run. -/
def stepEvents (env : Collab) (steps : List PipelineStep) : List Event :=
  steps.flatMap (PipelineStep.events env)

/-- The steps run in order on a device until one fails: the status of the
failing step, or 0, and the device then. -/
def runSteps (env : Collab) : List PipelineStep → Bluetooth → Int × Bluetooth
  | [], d => (0, d)
  | s :: rest, d =>
    let d1 : Bluetooth := { d with customPayload := d.customPayload ++ pushedPayloads (s.events env),
                                   trace := d.trace ++ s.events env }
    if s.status env ≠ 0 then (s.status env, d1) else runSteps env rest d1

/-- The steps run in order, then the label `done` when none failed. -/
def runPipeline (env : Collab) (steps : List PipelineStep) (d : Bluetooth) : Int × Bluetooth :=
  if (runSteps env steps d).1 = 0 then configure_done 0 (runSteps env steps d).2
  else runSteps env steps d

/-- Steps 7 and 8 of the specification: the RAT module, then the PCM converter,
both built from the codec configuration. -/
def specRatPcm (env : Collab) (codecConfig : pal_media_config) : List PipelineStep :=
  [ .resolve .RAT_RENDER,
    .fixed .RAT_RENDER .payloadRATConfig
      (env.payloadRATConfig (env.getMIID .RAT_RENDER).2 codecConfig),
    .resolve .BT_PCM_CONVERTER,
    .fixed .BT_PCM_CONVERTER .payloadPcmCnvConfig
      (env.payloadPcmCnvConfig (env.getMIID .BT_PCM_CONVERTER).2 codecConfig) ]

/-- Steps 4 to 8 of the specification for a device already at the placeholder
module: for LC3 the mono-mode toggle, then the COP v2 depacketizer (DEC, end of
the pipeline) or the COP v2 packetizer followed by steps 7 and 8 (ENC); for any
other format nothing in direction DEC, and the COP v0 packetizer followed by
steps 7 and 8 in direction ENC. -/
def specCop (env : Collab) (d : Bluetooth) (target : ModuleTag) (miid : Nat) : List PipelineStep :=
  if d.codecFormat = .CODEC_TYPE_LC3 then
    PipelineStep.fixed target .payloadLC3Config (env.payloadLC3Config miid d.isLC3MonoModeOn) ::
      (if d.codecType = .DEC then
        [ .resolve .COP_DEPACKETIZER_V2,
          .fixed .COP_DEPACKETIZER_V2 (.payloadCopV2DepackConfig false)
            (env.payloadCopV2DepackConfig (env.getMIID .COP_DEPACKETIZER_V2).2 d.codecInfo false),
          .fixed .COP_DEPACKETIZER_V2 (.payloadCopV2DepackConfig true)
            (env.payloadCopV2DepackConfig (env.getMIID .COP_DEPACKETIZER_V2).2 d.codecInfo true) ]
       else
        [ .resolve .COP_PACKETIZER_V2,
          .fixed .COP_PACKETIZER_V2 .payloadCopV2PackConfig
            (env.payloadCopV2PackConfig (env.getMIID .COP_PACKETIZER_V2).2 d.codecInfo),
          .fixed .COP_PACKETIZER_V2 .payloadCopPackConfig
            (env.payloadCopPackConfig (env.getMIID .COP_PACKETIZER_V2).2 d.deviceAttr_config) ] ++
          specRatPcm env d.codecConfig)
  else if d.codecType = .DEC then []
  else
    [ .resolve .COP_PACKETIZER_V0,
      .fixed .COP_PACKETIZER_V0 .payloadCopPackConfig
        (env.payloadCopPackConfig (env.getMIID .COP_PACKETIZER_V0).2 d.deviceAttr_config) ] ++
      specRatPcm env d.codecConfig

/-- Step 3 of the specification and what follows it: nothing for
aptX-Adaptive-Speech; the TWS toggle for aptX dual mono and aptX-Adaptive. -/
def specStatic (env : Collab) (d : Bluetooth) (target : ModuleTag) (miid : Nat) :
    List PipelineStep :=
  if d.codecFormat = .CODEC_TYPE_APTX_AD_SPEECH then []
  else if d.codecFormat = .CODEC_TYPE_APTX_DUAL_MONO ∨ d.codecFormat = .CODEC_TYPE_APTX_AD then
    PipelineStep.fixed target .payloadTWSConfig
      (env.payloadTWSConfig miid d.isTwsMonoModeOn d.codecFormat) :: specCop env d target miid
  else specCop env d target miid

/-- Step 2 of the specification: one push per plugin block, in the order of the
plugin. -/
def specBlocks (env : Collab) (target : ModuleTag) (miid : Nat) (blks : List custom_block_t) :
    List PipelineStep :=
  blks.map fun blk => .custom target blk.param_id (blockOut env miid blk)

/-- The codec formats for which the specification asks for the placeholder
reset: none of LDAC, aptX-Adaptive, aptX-Adaptive-Speech, LC3, and not AAC with
adaptive bitrate. -/
def specNeedsReset (fmt : CodecFormat) (abr : Bool) : Bool :=
  fmt ≠ .CODEC_TYPE_LDAC && fmt ≠ .CODEC_TYPE_APTX_AD && fmt ≠ .CODEC_TYPE_APTX_AD_SPEECH &&
    fmt ≠ .CODEC_TYPE_LC3 && !(fmt = .CODEC_TYPE_AAC && abr)

/-- Step 1 of the specification: the placeholder reset for the formats that
need it. -/
def specReset (env : Collab) (d : Bluetooth) (target : ModuleTag) (miid : Nat) :
    List PipelineStep :=
  if specNeedsReset d.codecFormat d.isAbrEnabled = true then
    [.custom target PARAM_ID_RESET_PLACEHOLDER_MODULE
      (env.payloadCustomParam [] 0 miid PARAM_ID_RESET_PLACEHOLDER_MODULE)]
  else []

/-- The steps of the specification from the placeholder module on, for a device
on which the plugin package `out_buf` has been stored. -/
def specPlaceholder (env : Collab) (d : Bluetooth) (out_buf : bt_enc_payload_t)
    (target : ModuleTag) (miid : Nat) : List PipelineStep :=
  specReset env d target miid ++ specBlocks env target miid out_buf.blocks ++
    specStatic env d target miid

/-- The pipeline of the specification after the plugin load: the placeholder
module is resolved, then steps 1 to 8. -/
def specPipeline (env : Collab) (d : Bluetooth) (out_buf : bt_enc_payload_t) : List PipelineStep :=
  .resolve (placeholderTag d.codecType) ::
    specPlaceholder env d out_buf (placeholderTag d.codecType)
      (env.getMIID (placeholderTag d.codecType)).2

/-- The payloads a list of steps pushes when all of them run. -/
def stepPushes (env : Collab) (steps : List PipelineStep) :
    List (ModuleTag × PayloadKind × BuilderOut) :=
  pushes (stepEvents env steps)

/-- The module a step addresses. -/
def PipelineStep.tag : PipelineStep → ModuleTag
  | .resolve t => t
  | .custom t _ _ => t
  | .fixed t _ _ => t

/-- A step whose push is not marked `fixed` with a payloadCustomParam payload:
the payloadCustomParam payloads are the steps marked `custom`. -/
def PipelineStep.listed : PipelineStep → Bool
  | .fixed _ (.payloadCustomParam _) _ => false
  | _ => true

/-! ## Theorems -/

/-! ## Lemmas on the plugin gateway -/

theorem log_trace (d : Bluetooth) (e : Event) : (d.log e).trace = d.trace ++ [e] := rfl

theorem updateCustomPayload_trace (d : Bluetooth) (t : ModuleTag) (k : PayloadKind) (o : BuilderOut) :
    (d.updateCustomPayload t k o).trace = d.trace ++ [Event.updateCustomPayload t k o] := rfl

/-- The two ways getPluginPayload returns: a non-zero status with the
out-pointers untouched and no successful populate call, or status 0 with the
handles stored after a successful populate call. Only the trace of the device
changes. -/
theorem getPluginPayload_cases (env : Collab) (d : Bluetooth) (ct : codec_type) :
    (∃ st evs, st ≠ 0 ∧ Event.plugin_populate_payload 0 ∉ evs ∧ (∀ e ∈ evs, e.isPlugin = true) ∧
      getPluginPayload env d ct = (st, none, { d with trace := d.trace ++ evs })) ∨
    (∃ pl evs, Event.plugin_populate_payload 0 ∈ evs ∧ (∀ e ∈ evs, e.isPlugin = true) ∧
      pl.out_buf = pluginPackage env d.codecFormat ct d.codecInfo ∧
      pl.btCodec = (env.plugin_open d.codecFormat ct).2 ∧
      env.dlopen (env.getBtCodecLib d.codecFormat ct) = some pl.libHandle ∧
      getPluginPayload env d ct = (0, some pl, { d with trace := d.trace ++ evs })) := by
  unfold getPluginPayload
  by_cases h1 : env.getBtCodecLib d.codecFormat ct = ""
  · left
    exact ⟨-ENOSYS, [], by decide, by simp, by simp, by simp [h1]⟩
  · cases h2 : env.dlopen (env.getBtCodecLib d.codecFormat ct) with
    | none =>
      left
      exact ⟨-EINVAL, [Event.dlopen (env.getBtCodecLib d.codecFormat ct)], by decide, by simp,
        by simp [Event.isPlugin], by simp [h1, h2, Bluetooth.log]⟩
    | some handle =>
      by_cases h3 : env.dlsym_plugin_open handle = false
      · left
        refine ⟨-EINVAL, [Event.dlopen (env.getBtCodecLib d.codecFormat ct),
          Event.dlsym_plugin_open, Event.dlclose handle], by decide, by simp,
          by simp [Event.isPlugin], ?_⟩
        simp [h1, h2, h3, Bluetooth.log, getPluginPayload_error]
      · by_cases h4 : (env.plugin_open d.codecFormat ct).1 ≠ 0
        · left
          cases h5 : (env.plugin_open d.codecFormat ct).2 with
          | none =>
            refine ⟨(env.plugin_open d.codecFormat ct).1,
              [Event.dlopen (env.getBtCodecLib d.codecFormat ct), Event.dlsym_plugin_open,
               Event.plugin_open d.codecFormat ct, Event.dlclose handle], h4, by simp,
              by simp [Event.isPlugin], ?_⟩
            simp [h1, h2, h3, h4, h5, Bluetooth.log, getPluginPayload_error]
          | some c =>
            refine ⟨(env.plugin_open d.codecFormat ct).1,
              [Event.dlopen (env.getBtCodecLib d.codecFormat ct), Event.dlsym_plugin_open,
               Event.plugin_open d.codecFormat ct, Event.close_plugin c, Event.dlclose handle],
              h4, by simp, by simp [Event.isPlugin], ?_⟩
            simp [h1, h2, h3, h4, h5, Bluetooth.log, getPluginPayload_error]
        · by_cases h6 : (env.plugin_populate_payload (env.plugin_open d.codecFormat ct).2
              d.codecInfo).1 ≠ 0
          · left
            cases h5 : (env.plugin_open d.codecFormat ct).2 with
            | none =>
              rw [h5] at h6
              refine ⟨(env.plugin_populate_payload none d.codecInfo).1,
                [Event.dlopen (env.getBtCodecLib d.codecFormat ct), Event.dlsym_plugin_open,
                 Event.plugin_open d.codecFormat ct,
                 Event.plugin_populate_payload (env.plugin_populate_payload none d.codecInfo).1,
                 Event.dlclose handle], h6, ?_, by simp [Event.isPlugin], ?_⟩
              · simpa using fun h => h6 h.symm
              · simp [h1, h2, h3, h4, h5, h6, Bluetooth.log, getPluginPayload_error]
            | some c =>
              rw [h5] at h6
              refine ⟨(env.plugin_populate_payload (some c) d.codecInfo).1,
                [Event.dlopen (env.getBtCodecLib d.codecFormat ct), Event.dlsym_plugin_open,
                 Event.plugin_open d.codecFormat ct,
                 Event.plugin_populate_payload (env.plugin_populate_payload (some c) d.codecInfo).1,
                 Event.close_plugin c, Event.dlclose handle], h6, ?_, by simp [Event.isPlugin], ?_⟩
              · simpa using fun h => h6 h.symm
              · simp [h1, h2, h3, h4, h5, h6, Bluetooth.log, getPluginPayload_error]
          · right
            have h6' : (env.plugin_populate_payload (env.plugin_open d.codecFormat ct).2
              d.codecInfo).1 = 0 := by simpa using h6
            refine ⟨⟨handle, (env.plugin_open d.codecFormat ct).2,
                (env.plugin_populate_payload (env.plugin_open d.codecFormat ct).2 d.codecInfo).2⟩,
              [Event.dlopen (env.getBtCodecLib d.codecFormat ct), Event.dlsym_plugin_open,
               Event.plugin_open d.codecFormat ct, Event.plugin_populate_payload 0], by simp,
              by simp [Event.isPlugin], rfl, rfl, rfl, ?_⟩
            simp [h1, h2, h3, h4, h6', Bluetooth.log]

theorem Event.isPipeline_of_isPlugin {e : Event} (h : e.isPlugin = true) : e.isPipeline = true := by
  cases e <;> simp_all [Event.isPlugin, Event.isPipeline]

theorem Event.not_getMIID_of_isPlugin {e : Event} (h : e.isPlugin = true) (tag : ModuleTag) :
    e ≠ Event.getMIID tag := by
  cases e <;> simp_all [Event.isPlugin]

theorem stageOk_fail {env : Collab} {d d1 : Bluetooth} {st : Int} (pre : List Event)
    (htr : d1.trace = d.trace ++ pre) (hpre : ∀ e ∈ pre, e.isPipeline = true)
    (hcnv : Event.getMIID .BT_PCM_CONVERTER ∈ pre → st ≠ 0)
    (hcfg : d1.codecConfig = d.codecConfig) (hst : st ≠ 0 ∨ Event.getMIID .BT_PCM_CONVERTER ∈ pre)
    (hconf : d1.isConfigured = false) :
    StageOk env d (st, d1) := by
  have hst0 : st ≠ 0 := by
    rcases hst with h | h
    · exact h
    · exact hcnv h
  refine ⟨pre, htr, hpre, hcfg, ?_, ?_⟩
  · simp [hst0, hconf]
  · intro _ _
    exact ⟨hst0, hconf⟩

theorem stageOk_step {env : Collab} {d : Bluetooth} {r : Int × Bluetooth} (d1 : Bluetooth)
    (pre : List Event)
    (htr : d1.trace = d.trace ++ pre) (hpre : ∀ e ∈ pre, e.isPipeline = true)
    (hcnv : Event.getMIID .BT_PCM_CONVERTER ∉ pre)
    (hcfg : d1.codecConfig = d.codecConfig) (h : StageOk env d1 r) : StageOk env d r := by
  obtain ⟨evs, h1, h2, h3, h4, h5⟩ := h
  refine ⟨pre ++ evs, ?_, ?_, ?_, h4, ?_⟩
  · rw [h1, htr, List.append_assoc]
  · intro e he
    rcases List.mem_append.1 he with h | h
    · exact hpre e h
    · exact h2 e h
  · rw [h3, hcfg]
  · intro hmem hf
    rw [hcfg] at h5
    rcases List.mem_append.1 hmem with h | h
    · exact absurd h hcnv
    · exact h5 h hf

theorem configurePcmCnv_ok (env : Collab) (d : Bluetooth) (hd : d.isConfigured = false) :
    StageOk env d (configurePcmCnv env d) := by
  by_cases h1 : (env.getMIID .BT_PCM_CONVERTER).1 = 0
  · by_cases h2 : (env.payloadPcmCnvConfig (env.getMIID .BT_PCM_CONVERTER).2 d.codecConfig).paramSize = 0
    · have e : configurePcmCnv env d = (-EINVAL, d.log (.getMIID .BT_PCM_CONVERTER)) := by
        simp [configurePcmCnv, h1, h2, Bluetooth.log]
      rw [e]
      exact stageOk_fail [Event.getMIID .BT_PCM_CONVERTER] rfl (by simp [Event.isPipeline])
        (fun _ => by decide) rfl (Or.inl (by decide)) hd
    · refine ⟨[Event.getMIID .BT_PCM_CONVERTER, Event.updateCustomPayload .BT_PCM_CONVERTER
        .payloadPcmCnvConfig (env.payloadPcmCnvConfig (env.getMIID .BT_PCM_CONVERTER).2 d.codecConfig)],
        ?_, ?_, ?_, ?_, ?_⟩
      · simp [configurePcmCnv, h1, h2, Bluetooth.log, Bluetooth.updateCustomPayload, configure_done]
      · simp [Event.isPipeline]
      · simp [configurePcmCnv, h1, h2, Bluetooth.log, Bluetooth.updateCustomPayload, configure_done]
      · simp [configurePcmCnv, h1, h2, Bluetooth.log, Bluetooth.updateCustomPayload, configure_done]
      · intro _ hf
        rcases hf with hf | hf
        · exact absurd h1 hf
        · exact absurd hf h2
  · have e : configurePcmCnv env d =
        ((env.getMIID .BT_PCM_CONVERTER).1, d.log (.getMIID .BT_PCM_CONVERTER)) := by
      simp [configurePcmCnv, h1]
    rw [e]
    exact stageOk_fail [Event.getMIID .BT_PCM_CONVERTER] rfl (by simp [Event.isPipeline])
      (fun _ => h1) rfl (Or.inl h1) hd

theorem stageOk_done {env : Collab} {d : Bluetooth} {st : Int} (hst : st = 0) :
    StageOk env d (configure_done st d) := by
  refine ⟨[], by simp [configure_done], by simp, by simp [configure_done], ?_, by simp⟩
  simp [configure_done, hst]

theorem stageOk_fail_early {env : Collab} {d d1 : Bluetooth} {st : Int} (pre : List Event)
    (htr : d1.trace = d.trace ++ pre) (hpre : ∀ e ∈ pre, e.isPipeline = true)
    (hcnv : Event.getMIID .BT_PCM_CONVERTER ∉ pre)
    (hcfg : d1.codecConfig = d.codecConfig) (hst : st ≠ 0)
    (hconf : d1.isConfigured = false) :
    StageOk env d (st, d1) :=
  stageOk_fail pre htr hpre (fun h => absurd h hcnv) hcfg (Or.inl hst) hconf

/-- The loop over the plugin blocks pushes a prefix of the blocks and changes
nothing else; it ends with status 0 after the whole list, or with -ENOMEM at the
first block whose payload is null. -/
theorem pushBlocks_spec (env : Collab) (target : ModuleTag) (miid : Nat) :
    ∀ (blks : List custom_block_t) (d : Bluetooth), ∃ k, k ≤ blks.length ∧
      (pushBlocks env target miid blks d).2 =
        { d with customPayload := d.customPayload ++ (blks.take k).map (blockOut env miid),
                 trace := d.trace ++ blockEvents env target miid (blks.take k) } ∧
      (((pushBlocks env target miid blks d).1 = 0 ∧ k = blks.length ∧
          ∀ blk ∈ blks, (blockOut env miid blk).paramData ≠ none) ∨
       ((pushBlocks env target miid blks d).1 = -ENOMEM ∧ k < blks.length ∧
          ∃ blk ∈ blks, (blockOut env miid blk).paramData = none))
  | [], d => ⟨0, by simp, by simp [pushBlocks, blockEvents], Or.inl (by simp [pushBlocks])⟩
  | blk :: rest, d => by
    cases h : (env.payloadCustomParam blk.payload blk.payload_sz miid blk.param_id).paramData with
    | none =>
      refine ⟨0, by simp, by simp [pushBlocks, h, blockEvents], Or.inr ⟨by simp [pushBlocks, h], by simp, ?_⟩⟩
      exact ⟨blk, by simp, h⟩
    | some data =>
      obtain ⟨k, hk, h2, h3⟩ := pushBlocks_spec env target miid rest
        (d.updateCustomPayload target (.payloadCustomParam blk.param_id)
          (env.payloadCustomParam blk.payload blk.payload_sz miid blk.param_id))
      refine ⟨k + 1, by simpa using hk, ?_, ?_⟩
      · simp only [pushBlocks, h]
        rw [h2]
        simp [Bluetooth.updateCustomPayload, blockEvents, blockOut, List.append_assoc]
      · simp only [pushBlocks, h]
        rcases h3 with ⟨a, b, c⟩ | ⟨a, b, c, hc, hc2⟩
        · refine Or.inl ⟨a, by simp [b], ?_⟩
          intro x hx
          rcases List.mem_cons.1 hx with rfl | hx
          · simp [blockOut, h]
          · exact c x hx
        · exact Or.inr ⟨a, by simpa using b, c, List.mem_cons_of_mem _ hc, hc2⟩

theorem blockEvents_isPipeline (env : Collab) (target : ModuleTag) (miid : Nat)
    (blks : List custom_block_t) : ∀ e ∈ blockEvents env target miid blks, e.isPipeline = true := by
  intro e he
  obtain ⟨blk, _, rfl⟩ := List.mem_map.1 he
  rfl

theorem blockEvents_not_getMIID (env : Collab) (target : ModuleTag) (miid : Nat)
    (blks : List custom_block_t) (tag : ModuleTag) :
    Event.getMIID tag ∉ blockEvents env target miid blks := by
  intro he
  obtain ⟨blk, _, h⟩ := List.mem_map.1 he
  cases h

theorem configureRat_ok (env : Collab) (d : Bluetooth) (hd : d.isConfigured = false) :
    StageOk env d (configureRat env d) := by
  by_cases h1 : (env.getMIID .RAT_RENDER).1 = 0
  · by_cases h2 : (env.payloadRATConfig (env.getMIID .RAT_RENDER).2 d.codecConfig).paramSize = 0
    · have e : configureRat env d = (-EINVAL, d.log (.getMIID .RAT_RENDER)) := by
        simp [configureRat, h1, h2, Bluetooth.log]
      rw [e]
      exact stageOk_fail_early [Event.getMIID .RAT_RENDER] rfl (by simp [Event.isPipeline])
        (by simp) rfl (by decide) hd
    · have e : configureRat env d = configurePcmCnv env
          ((d.log (.getMIID .RAT_RENDER)).updateCustomPayload .RAT_RENDER .payloadRATConfig
            (env.payloadRATConfig (env.getMIID .RAT_RENDER).2 d.codecConfig)) := by
        simp [configureRat, h1, h2, Bluetooth.log]
      rw [e]
      refine stageOk_step _ [Event.getMIID .RAT_RENDER, Event.updateCustomPayload .RAT_RENDER
          .payloadRATConfig (env.payloadRATConfig (env.getMIID .RAT_RENDER).2 d.codecConfig)]
        ?_ ?_ ?_ ?_ (configurePcmCnv_ok env _ ?_)
      · simp [Bluetooth.log, Bluetooth.updateCustomPayload]
      · simp [Event.isPipeline]
      · simp
      · rfl
      · exact hd
  · have e : configureRat env d = ((env.getMIID .RAT_RENDER).1, d.log (.getMIID .RAT_RENDER)) := by
      simp [configureRat, h1]
    rw [e]
    exact stageOk_fail_early [Event.getMIID .RAT_RENDER] rfl (by simp [Event.isPipeline])
      (by simp) rfl h1 hd

theorem configureCopV0Pack_ok (env : Collab) (d : Bluetooth) (hd : d.isConfigured = false) :
    StageOk env d (configureCopV0Pack env d) := by
  simp only [configureCopV0Pack]
  split_ifs with h1 h2
  · exact stageOk_fail_early [Event.getMIID .COP_PACKETIZER_V0] rfl (by simp [Event.isPipeline])
      (by simp) rfl h1 hd
  · refine stageOk_step _ [Event.getMIID .COP_PACKETIZER_V0, Event.updateCustomPayload
        .COP_PACKETIZER_V0 .payloadCopPackConfig
        (env.payloadCopPackConfig (env.getMIID .COP_PACKETIZER_V0).2 d.deviceAttr_config)]
      ?_ ?_ ?_ ?_ (configureRat_ok env _ ?_)
    · simp [Bluetooth.log, Bluetooth.updateCustomPayload]
    · simp [Event.isPipeline]
    · simp
    · rfl
    · exact hd
  · exact stageOk_fail_early [Event.getMIID .COP_PACKETIZER_V0] rfl (by simp [Event.isPipeline])
      (by simp) rfl (by decide) hd

theorem configureCopV2Pack_ok (env : Collab) (d : Bluetooth) (hd : d.isConfigured = false) :
    StageOk env d (configureCopV2Pack env d) := by
  simp only [configureCopV2Pack]
  split_ifs with h1 h2 h3
  · exact stageOk_fail_early [Event.getMIID .COP_PACKETIZER_V2] rfl (by simp [Event.isPipeline])
      (by simp) rfl h1 hd
  · refine stageOk_step _ [Event.getMIID .COP_PACKETIZER_V2,
        Event.updateCustomPayload .COP_PACKETIZER_V2 .payloadCopV2PackConfig
          (env.payloadCopV2PackConfig (env.getMIID .COP_PACKETIZER_V2).2 d.codecInfo),
        Event.updateCustomPayload .COP_PACKETIZER_V2 .payloadCopPackConfig
          (env.payloadCopPackConfig (env.getMIID .COP_PACKETIZER_V2).2 d.deviceAttr_config)]
      ?_ ?_ ?_ ?_ (configureRat_ok env _ ?_)
    · simp [Bluetooth.log, Bluetooth.updateCustomPayload]
    · simp [Event.isPipeline]
    · simp
    · rfl
    · exact hd
  · exact stageOk_fail_early [Event.getMIID .COP_PACKETIZER_V2,
        Event.updateCustomPayload .COP_PACKETIZER_V2 .payloadCopV2PackConfig
          (env.payloadCopV2PackConfig (env.getMIID .COP_PACKETIZER_V2).2 d.codecInfo)]
      (by simp [Bluetooth.log, Bluetooth.updateCustomPayload]) (by simp [Event.isPipeline])
      (by simp) rfl (by decide) hd
  · exact stageOk_fail_early [Event.getMIID .COP_PACKETIZER_V2] rfl (by simp [Event.isPipeline])
      (by simp) rfl (by decide) hd

theorem configureCopV2Depack_ok (env : Collab) (d : Bluetooth) (hd : d.isConfigured = false) :
    StageOk env d (configureCopV2Depack env d) := by
  simp only [configureCopV2Depack]
  split_ifs with h1 h2 h3
  · exact stageOk_fail_early [Event.getMIID .COP_DEPACKETIZER_V2] rfl (by simp [Event.isPipeline])
      (by simp) rfl h1 hd
  · refine stageOk_step _ [Event.getMIID .COP_DEPACKETIZER_V2,
        Event.updateCustomPayload .COP_DEPACKETIZER_V2 (.payloadCopV2DepackConfig false)
          (env.payloadCopV2DepackConfig (env.getMIID .COP_DEPACKETIZER_V2).2 d.codecInfo false),
        Event.updateCustomPayload .COP_DEPACKETIZER_V2 (.payloadCopV2DepackConfig true)
          (env.payloadCopV2DepackConfig (env.getMIID .COP_DEPACKETIZER_V2).2 d.codecInfo true)]
      ?_ ?_ ?_ ?_ (stageOk_done ?_)
    · simp [Bluetooth.log, Bluetooth.updateCustomPayload]
    · simp [Event.isPipeline]
    · simp
    · rfl
    · simpa using h1
  · exact stageOk_fail_early [Event.getMIID .COP_DEPACKETIZER_V2,
        Event.updateCustomPayload .COP_DEPACKETIZER_V2 (.payloadCopV2DepackConfig false)
          (env.payloadCopV2DepackConfig (env.getMIID .COP_DEPACKETIZER_V2).2 d.codecInfo false)]
      (by simp [Bluetooth.log, Bluetooth.updateCustomPayload]) (by simp [Event.isPipeline])
      (by simp) rfl (by decide) hd
  · exact stageOk_fail_early [Event.getMIID .COP_DEPACKETIZER_V2] rfl (by simp [Event.isPipeline])
      (by simp) rfl (by decide) hd

theorem configureCop_ok (env : Collab) (target : ModuleTag) (miid : Nat) (status : Int)
    (d : Bluetooth) (hst : status = 0) (hd : d.isConfigured = false) :
    StageOk env d (configureCop env target miid status d) := by
  simp only [configureCop]
  split_ifs with h1 h2 h3 h4
  · refine stageOk_step _ [Event.updateCustomPayload target .payloadLC3Config
        (env.payloadLC3Config miid d.isLC3MonoModeOn)] ?_ ?_ ?_ ?_ (configureCopV2Depack_ok env _ ?_)
    · simp [Bluetooth.updateCustomPayload]
    · simp [Event.isPipeline]
    · simp
    · rfl
    · exact hd
  · refine stageOk_step _ [Event.updateCustomPayload target .payloadLC3Config
        (env.payloadLC3Config miid d.isLC3MonoModeOn)] ?_ ?_ ?_ ?_ (configureCopV2Pack_ok env _ ?_)
    · simp [Bluetooth.updateCustomPayload]
    · simp [Event.isPipeline]
    · simp
    · rfl
    · exact hd
  · exact stageOk_fail_early [] (by simp) (by simp) (by simp) rfl (by decide) hd
  · exact stageOk_done hst
  · exact configureCopV0Pack_ok env d hd

theorem configureStatic_ok (env : Collab) (target : ModuleTag) (miid : Nat) (status : Int)
    (d : Bluetooth) (hst : status = 0) (hd : d.isConfigured = false) :
    StageOk env d (configureStatic env target miid status d) := by
  simp only [configureStatic]
  split_ifs with h1 h2 h3
  · exact stageOk_done hst
  · refine stageOk_step _ [Event.updateCustomPayload target .payloadTWSConfig
        (env.payloadTWSConfig miid d.isTwsMonoModeOn d.codecFormat)] ?_ ?_ ?_ ?_
        (configureCop_ok env target miid status _ hst ?_)
    · simp [Bluetooth.updateCustomPayload]
    · simp [Event.isPipeline]
    · simp
    · rfl
    · exact hd
  · exact stageOk_fail_early [] (by simp) (by simp) (by simp) rfl (by decide) hd
  · exact configureCop_ok env target miid status d hst hd

theorem configureBlocks_ok (env : Collab) (target : ModuleTag) (miid : Nat) (status : Int)
    (out_buf : bt_enc_payload_t) (d : Bluetooth) (hst : status = 0) (hd : d.isConfigured = false) :
    StageOk env d (configureBlocks env target miid status out_buf d) := by
  obtain ⟨k, _, h2, h3⟩ := pushBlocks_spec env target miid out_buf.blocks d
  simp only [configureBlocks]
  split_ifs with h1
  · have e : pushBlocks env target miid out_buf.blocks d =
        ((pushBlocks env target miid out_buf.blocks d).1, (pushBlocks env target miid out_buf.blocks d).2) := rfl
    rw [e]
    refine stageOk_fail_early (blockEvents env target miid (out_buf.blocks.take k)) ?_
      (blockEvents_isPipeline _ _ _ _) (blockEvents_not_getMIID _ _ _ _ _) ?_ h1 ?_
    · rw [h2]
    · rw [h2]
    · rw [h2]
      exact hd
  · refine stageOk_step _ (blockEvents env target miid (out_buf.blocks.take k)) ?_
      (blockEvents_isPipeline _ _ _ _) (blockEvents_not_getMIID _ _ _ _ _) ?_
      (configureStatic_ok env target miid status _ hst ?_)
    · rw [h2]
    · rw [h2]
    · rw [h2]
      exact hd

theorem configurePlaceholder_ok (env : Collab) (target : ModuleTag) (miid : Nat) (status : Int)
    (out_buf : bt_enc_payload_t) (d : Bluetooth) (hst : status = 0) (hd : d.isConfigured = false) :
    StageOk env d (configurePlaceholder env target miid status out_buf d) := by
  simp only [configurePlaceholder]
  split
  · split
    · exact stageOk_fail_early [] (by simp) (by simp) (by simp) rfl (by decide) hd
    · refine stageOk_step _ [Event.updateCustomPayload target
          (.payloadCustomParam PARAM_ID_RESET_PLACEHOLDER_MODULE)
          (env.payloadCustomParam [] 0 miid PARAM_ID_RESET_PLACEHOLDER_MODULE)] ?_ ?_ ?_ ?_
          (configureBlocks_ok env target miid status out_buf _ hst ?_)
      · simp [Bluetooth.updateCustomPayload]
      · simp [Event.isPipeline]
      · simp
      · rfl
      · exact hd
  · exact configureBlocks_ok env target miid status out_buf d hst hd

theorem passTrace_eq (before : Bluetooth) {after : Bluetooth} (evs : List Event)
    (h : after.trace = before.trace ++ evs) : passTrace before after = evs := by
  simp [passTrace, h]

theorem updateDeviceAttributes_frame (d : Bluetooth) :
    (updateDeviceAttributes d).trace = d.trace ∧
    (updateDeviceAttributes d).codecConfig = d.codecConfig ∧
    (updateDeviceAttributes d).isConfigured = d.isConfigured ∧
    (updateDeviceAttributes d).codecType = d.codecType ∧
    (updateDeviceAttributes d).codecFormat = d.codecFormat ∧
    (updateDeviceAttributes d).codecInfo = d.codecInfo ∧
    (updateDeviceAttributes d).isAbrEnabled = d.isAbrEnabled ∧
    (updateDeviceAttributes d).customPayload = d.customPayload := by
  simp [updateDeviceAttributes]

/-- The four ways a pass of configureA2dpEncoderDecoder runs: no active stream,
plugin load failure, placeholder resolution failure, or the placeholder stage
and what follows it. -/
theorem configure_cases (env : Collab) (d : Bluetooth) :
    (configureA2dpEncoderDecoder env d =
        (-EINVAL, { d with isConfigured := false, trace := d.trace ++ [Event.getActiveStream_l] }) ∧
      (env.getActiveStream_l.1 ≠ 0 ∨ env.getActiveStream_l.2 = 0)) ∨
    (∃ st evs, st ≠ 0 ∧ Event.plugin_populate_payload 0 ∉ evs ∧
      (∀ e ∈ evs, e.isPlugin = true) ∧
      (getPluginPayload env (({ d with isConfigured := false } : Bluetooth).log .getActiveStream_l)
        d.codecType).1 = st ∧
      configureA2dpEncoderDecoder env d =
        (st, { d with isConfigured := false,
                      trace := d.trace ++ [Event.getActiveStream_l] ++ evs })) ∨
    (∃ pl evs, (∀ e ∈ evs, e.isPlugin = true) ∧
      pl.out_buf = pluginPackage env d.codecFormat d.codecType d.codecInfo ∧
      (env.getMIID (placeholderTag d.codecType)).1 ≠ 0 ∧
      configureA2dpEncoderDecoder env d =
        ((env.getMIID (placeholderTag d.codecType)).1,
          (afterLoad d pl evs).log (.getMIID (placeholderTag d.codecType)))) ∨
    (∃ pl evs, (∀ e ∈ evs, e.isPlugin = true) ∧
      pl.out_buf = pluginPackage env d.codecFormat d.codecType d.codecInfo ∧
      env.getActiveStream_l.1 = 0 ∧ env.getActiveStream_l.2 ≠ 0 ∧
      Event.plugin_populate_payload 0 ∈ evs ∧
      (env.getMIID (placeholderTag d.codecType)).1 = 0 ∧
      getPluginPayload env (({ d with isConfigured := false } : Bluetooth).log .getActiveStream_l)
          d.codecType =
        (0, some pl, { d with isConfigured := false,
                              trace := d.trace ++ [Event.getActiveStream_l] ++ evs }) ∧
      configureA2dpEncoderDecoder env d =
        configurePlaceholder env (placeholderTag d.codecType)
          (env.getMIID (placeholderTag d.codecType)).2 (env.getMIID (placeholderTag d.codecType)).1
          pl.out_buf ((afterLoad d pl evs).log (.getMIID (placeholderTag d.codecType)))) := by
  by_cases hs : env.getActiveStream_l.1 ≠ 0 ∨ env.getActiveStream_l.2 = 0
  · left
    exact ⟨by simp [configureA2dpEncoderDecoder, hs, Bluetooth.log], hs⟩
  · right
    have hs1 : env.getActiveStream_l.1 = 0 := by
      by_contra h
      exact hs (Or.inl h)
    have hs2 : env.getActiveStream_l.2 ≠ 0 := fun h => hs (Or.inr h)
    rcases getPluginPayload_cases env
        (({ d with isConfigured := false } : Bluetooth).log .getActiveStream_l) d.codecType with
      ⟨st, evs, hst, hpop, hev, he⟩ | ⟨pl, evs, hpop, hev, hpk, _, _, he⟩
    · left
      refine ⟨st, evs, hst, hpop, hev, by rw [he], ?_⟩
      simp only [configureA2dpEncoderDecoder, hs, if_false]
      simp only [Bluetooth.log] at he ⊢
      rw [he]
    · right
      by_cases hm : (env.getMIID (placeholderTag d.codecType)).1 = 0
      · right
        refine ⟨pl, evs, hev, hpk, hs1, hs2, hpop, hm, ?_, ?_⟩
        · simp only [Bluetooth.log] at he ⊢
          rw [he]
        · simp only [configureA2dpEncoderDecoder, hs, if_false]
          simp only [Bluetooth.log] at he ⊢
          rw [he]
          have hm2 := hm
          simp only [placeholderTag] at hm2
          simp [updateDeviceAttributes, afterLoad, placeholderTag, hm2]
      · left
        refine ⟨pl, evs, hev, hpk, hm, ?_⟩
        simp only [configureA2dpEncoderDecoder, hs, if_false]
        simp only [Bluetooth.log] at he ⊢
        rw [he]
        have hm2 := hm
        simp only [placeholderTag] at hm2
        simp [updateDeviceAttributes, afterLoad, placeholderTag, hm2, Bluetooth.log]

theorem afterLoad_frame (d : Bluetooth) (pl : PluginLoaded) (evs : List Event) :
    (afterLoad d pl evs).trace = d.trace ++ [Event.getActiveStream_l] ++ evs ∧
    (afterLoad d pl evs).isConfigured = false ∧
    (afterLoad d pl evs).codecType = d.codecType ∧
    (afterLoad d pl evs).codecFormat = d.codecFormat ∧
    (afterLoad d pl evs).codecInfo = d.codecInfo ∧
    (afterLoad d pl evs).customPayload = d.customPayload ∧
    (afterLoad d pl evs).isAbrEnabled = pl.out_buf.is_abr_enabled ∧
    (afterLoad d pl evs).isLC3MonoModeOn = d.isLC3MonoModeOn ∧
    (afterLoad d pl evs).isTwsMonoModeOn = d.isTwsMonoModeOn := by
  simp [afterLoad, updateDeviceAttributes]

theorem placeholderTag_ne_cnv (ct : codec_type) : placeholderTag ct ≠ .BT_PCM_CONVERTER := by
  cases ct <;> simp [placeholderTag]

/-- The guarantees of a whole pass of configureA2dpEncoderDecoder. -/
theorem configure_stage (env : Collab) (d : Bluetooth) :
    ∃ evs, (configureA2dpEncoderDecoder env d).2.trace = d.trace ++ evs ∧
      (∀ e ∈ evs, e.isPipeline = true) ∧
      ((configureA2dpEncoderDecoder env d).1 = 0 ↔
        (configureA2dpEncoderDecoder env d).2.isConfigured = true) ∧
      (Event.getMIID .BT_PCM_CONVERTER ∈ evs →
        pcmCnvFails env (configureA2dpEncoderDecoder env d).2.codecConfig →
        (configureA2dpEncoderDecoder env d).1 ≠ 0 ∧
        (configureA2dpEncoderDecoder env d).2.isConfigured = false) := by
  rcases configure_cases env d with ⟨e, _⟩ | ⟨st, evs, hst, _, hev, _, e⟩ |
    ⟨pl, evs, hev, _, hm, e⟩ | ⟨pl, evs, hev, _, _, _, _, hm, _, e⟩
  · rw [e]
    refine ⟨[Event.getActiveStream_l], rfl, by simp [Event.isPipeline], by simp [EINVAL], ?_⟩
    intro _ _
    simp [EINVAL]
  · rw [e]
    refine ⟨[Event.getActiveStream_l] ++ evs, by simp, ?_, by simp [hst], ?_⟩
    · intro x hx
      rcases List.mem_append.1 hx with h | h
      · simp at h
        subst h
        rfl
      · exact Event.isPipeline_of_isPlugin (hev x h)
    · intro _ _
      exact ⟨hst, rfl⟩
  · rw [e]
    have hf := afterLoad_frame d pl evs
    refine ⟨[Event.getActiveStream_l] ++ evs ++ [Event.getMIID (placeholderTag d.codecType)],
      by simp [Bluetooth.log, hf.1], ?_, ?_, ?_⟩
    · intro x hx
      simp only [List.mem_append, List.mem_singleton] at hx
      rcases hx with (h | h) | h
      · subst h
        rfl
      · exact Event.isPipeline_of_isPlugin (hev x h)
      · subst h
        rfl
    · simp [Bluetooth.log, hf.2.1, hm]
    · intro _ _
      exact ⟨hm, by simp [Bluetooth.log, hf.2.1]⟩
  · rw [e]
    have hf := afterLoad_frame d pl evs
    obtain ⟨evs2, h1, h2, h3, h4, h5⟩ := configurePlaceholder_ok env (placeholderTag d.codecType)
      (env.getMIID (placeholderTag d.codecType)).2 (env.getMIID (placeholderTag d.codecType)).1
      pl.out_buf ((afterLoad d pl evs).log (.getMIID (placeholderTag d.codecType))) hm
      (by simp [Bluetooth.log, hf.2.1])
    refine ⟨[Event.getActiveStream_l] ++ evs ++ [Event.getMIID (placeholderTag d.codecType)] ++ evs2,
      ?_, ?_, h4, ?_⟩
    · rw [h1]
      simp [Bluetooth.log, hf.1]
    · intro x hx
      simp only [List.mem_append, List.mem_singleton] at hx
      rcases hx with ((h | h) | h) | h
      · subst h
        rfl
      · exact Event.isPipeline_of_isPlugin (hev x h)
      · subst h
        rfl
      · exact h2 x h
    · intro hmem hfail
      rw [h3] at hfail
      simp only [List.mem_append, List.mem_singleton] at hmem
      rcases hmem with ((h | h) | h) | h
      · cases h
      · exact absurd rfl (Event.not_getMIID_of_isPlugin (hev _ h) _)
      · injection h with h
        exact absurd h.symm (placeholderTag_ne_cnv _)
      · exact h5 h hfail

/-! ## The pass once the plugin is loaded -/

theorem resolvedTags_plugin {evs : List Event} (h : ∀ e ∈ evs, e.isPlugin = true) :
    resolvedTags evs = [] := by
  unfold resolvedTags
  rw [List.filterMap_eq_nil_iff]
  intro e he
  have := h e he
  cases e <;> simp_all [Event.isPlugin]

theorem pushes_plugin {evs : List Event} (h : ∀ e ∈ evs, e.isPlugin = true) :
    pushes evs = [] := by
  unfold pushes
  rw [List.filterMap_eq_nil_iff]
  intro e he
  have := h e he
  cases e <;> simp_all [Event.isPlugin]

theorem pushesTo_plugin {evs : List Event} (tag : ModuleTag) (h : ∀ e ∈ evs, e.isPlugin = true) :
    pushesTo tag evs = [] := by
  unfold pushesTo
  rw [List.filterMap_eq_nil_iff]
  intro e he
  have := h e he
  cases e <;> simp_all [Event.isPlugin]

theorem resolvedTags_append (a b : List Event) :
    resolvedTags (a ++ b) = resolvedTags a ++ resolvedTags b := by
  simp [resolvedTags]

theorem pushes_append (a b : List Event) : pushes (a ++ b) = pushes a ++ pushes b := by
  simp [pushes]

theorem pushesTo_append (tag : ModuleTag) (a b : List Event) :
    pushesTo tag (a ++ b) = pushesTo tag a ++ pushesTo tag b := by
  simp [pushesTo]

theorem resolvedTags_blockEvents (env : Collab) (target : ModuleTag) (miid : Nat)
    (blks : List custom_block_t) : resolvedTags (blockEvents env target miid blks) = [] := by
  unfold resolvedTags
  rw [List.filterMap_eq_nil_iff]
  intro e he
  obtain ⟨blk, _, rfl⟩ := List.mem_map.1 he
  rfl

theorem pushes_blockEvents (env : Collab) (target : ModuleTag) (miid : Nat)
    (blks : List custom_block_t) :
    pushes (blockEvents env target miid blks) =
      blks.map fun blk => (target, PayloadKind.payloadCustomParam blk.param_id, blockOut env miid blk) := by
  induction blks with
  | nil => rfl
  | cons blk rest ih =>
    simp only [blockEvents, List.map_cons] at ih ⊢
    simp only [pushes, List.filterMap_cons] at ih ⊢
    rw [ih]

theorem pushesTo_blockEvents_ne (env : Collab) (target tag : ModuleTag) (miid : Nat)
    (blks : List custom_block_t) (h : target ≠ tag) :
    pushesTo tag (blockEvents env target miid blks) = [] := by
  unfold pushesTo
  rw [List.filterMap_eq_nil_iff]
  intro e he
  obtain ⟨blk, _, rfl⟩ := List.mem_map.1 he
  simp [h]

/-- When every block payload is non-null the loop pushes all blocks. -/
theorem pushBlocks_ok (env : Collab) (target : ModuleTag) (miid : Nat)
    (blks : List custom_block_t) (d : Bluetooth)
    (h : ∀ blk ∈ blks, (blockOut env miid blk).paramData ≠ none) :
    pushBlocks env target miid blks d =
      (0, { d with customPayload := d.customPayload ++ blks.map (blockOut env miid),
                   trace := d.trace ++ blockEvents env target miid blks }) := by
  obtain ⟨k, _, h2, h3⟩ := pushBlocks_spec env target miid blks d
  rcases h3 with ⟨a, b, _⟩ | ⟨_, _, blk, hb, hn⟩
  · have e : pushBlocks env target miid blks d =
        ((pushBlocks env target miid blks d).1, (pushBlocks env target miid blks d).2) := rfl
    rw [e, a, h2, b]
    simp
  · exact absurd hn (h blk hb)

theorem pushBlocks_all_ok (env : Collab)
    (h : ∀ p s m i, (env.payloadCustomParam p s m i).paramData ≠ none)
    (target : ModuleTag) (miid : Nat) (blks : List custom_block_t) (d : Bluetooth) :
    pushBlocks env target miid blks d =
      (0, { d with customPayload := d.customPayload ++ blks.map (blockOut env miid),
                   trace := d.trace ++ blockEvents env target miid blks }) :=
  pushBlocks_ok env target miid blks d (fun _ _ => h _ _ _ _)

/-- A pass in which the plugin load took place and succeeded, and the
placeholder module was resolved, continues with the placeholder stage. -/
theorem configure_of_loaded (env : Collab) (d : Bluetooth)
    (hload : Event.plugin_populate_payload 0 ∈ passTrace d (configureA2dpEncoderDecoder env d).2)
    (hm : (env.getMIID (placeholderTag d.codecType)).1 = 0) :
    ∃ pl evs, (∀ e ∈ evs, e.isPlugin = true) ∧
      pl.out_buf = pluginPackage env d.codecFormat d.codecType d.codecInfo ∧
      configureA2dpEncoderDecoder env d =
        configurePlaceholder env (placeholderTag d.codecType)
          (env.getMIID (placeholderTag d.codecType)).2 0
          pl.out_buf ((afterLoad d pl evs).log (.getMIID (placeholderTag d.codecType))) := by
  rcases configure_cases env d with ⟨e, _⟩ | ⟨st, evs, hst, hpop, hev, _, e⟩ |
    ⟨pl, evs, hev, _, hm2, e⟩ | ⟨pl, evs, hev, hpk, _, _, _, hm2, _, e⟩
  · rw [e] at hload
    rw [passTrace_eq d [Event.getActiveStream_l] rfl] at hload
    simp at hload
  · rw [e] at hload
    rw [passTrace_eq d ([Event.getActiveStream_l] ++ evs) (by simp)] at hload
    simp at hload
    exact absurd hload hpop
  · exact absurd hm hm2
  · rw [hm2] at e
    exact ⟨pl, evs, hev, hpk, e⟩

theorem getPluginPayload_succeeds (env : Collab) (d : Bluetooth) (ct : codec_type)
    (h : env.pluginLoadSucceeds) : (getPluginPayload env d ct).1 = 0 := by
  obtain ⟨h1, h2, h3, h4, h5⟩ := h
  unfold getPluginPayload
  cases hd : env.dlopen (env.getBtCodecLib d.codecFormat ct) with
  | none => exact absurd hd (h2 _)
  | some handle => simp [h1, hd, h3, h4, h5]

/-- When every collaborator call succeeds, the pass performs the plugin load. -/
theorem loaded_of_pipelineSucceeds (env : Collab) (d : Bluetooth) (h : env.pipelineSucceeds) :
    Event.plugin_populate_payload 0 ∈ passTrace d (configureA2dpEncoderDecoder env d).2 := by
  obtain ⟨ha1, ha2, hp, hm, _⟩ := h
  rcases configure_cases env d with ⟨_, hs⟩ | ⟨st, evs, hst, _, _, hg, _⟩ |
    ⟨pl, evs, _, _, hm2, _⟩ | ⟨pl, evs, _, _, _, _, hpop, hm2, _, e⟩
  · rcases hs with hs | hs
    · exact absurd ha1 hs
    · exact absurd hs ha2
  · rw [getPluginPayload_succeeds env _ _ hp] at hg
    exact absurd hg.symm hst
  · exact absurd (hm _) hm2
  · obtain ⟨evs2, h1, _⟩ := configurePlaceholder_ok env (placeholderTag d.codecType)
      (env.getMIID (placeholderTag d.codecType)).2 (env.getMIID (placeholderTag d.codecType)).1
      pl.out_buf ((afterLoad d pl evs).log (.getMIID (placeholderTag d.codecType))) hm2
      (by simp [Bluetooth.log, (afterLoad_frame d pl evs).2.1])
    rw [← e] at h1
    rw [passTrace_eq d ([Event.getActiveStream_l] ++ evs ++
      [Event.getMIID (placeholderTag d.codecType)] ++ evs2)
      (by rw [h1]; simp [Bluetooth.log, (afterLoad_frame d pl evs).1])]
    simp [hpop]

theorem okCollab_buildersSucceed : okCollab.buildersSucceed := by
  simp [Collab.buildersSucceed, okCollab, BuilderOut.ok]

theorem okCollab_resolves (tag : ModuleTag) : (okCollab.getMIID tag).1 = 0 := by
  cases tag <;> rfl

theorem okCollab_pipelineSucceeds : okCollab.pipelineSucceeds := by
  refine ⟨rfl, by decide, ?_, okCollab_resolves, okCollab_buildersSucceed⟩
  simp [Collab.pluginLoadSucceeds, okCollab]

/-! ## Success of a pass when every collaborator succeeds -/

theorem configurePcmCnv_succeeds (env : Collab) (d : Bluetooth)
    (hres : ∀ tag, (env.getMIID tag).1 = 0) (hb : env.buildersSucceed) :
    (configurePcmCnv env d).1 = 0 := by
  have h8 : ∀ m c, (env.payloadPcmCnvConfig m c).paramSize ≠ 0 := fun m c => (hb.2.2.2.2.2.2.2 m c).2
  simp [configurePcmCnv, hres, h8, configure_done]

theorem configureRat_succeeds (env : Collab) (d : Bluetooth)
    (hres : ∀ tag, (env.getMIID tag).1 = 0) (hb : env.buildersSucceed) :
    (configureRat env d).1 = 0 := by
  have h7 : ∀ m c, (env.payloadRATConfig m c).paramSize ≠ 0 := fun m c => (hb.2.2.2.2.2.2.1 m c).2
  simp [configureRat, hres, h7, configurePcmCnv_succeeds env _ hres hb]

theorem configureCop_succeeds (env : Collab) (target : ModuleTag) (miid : Nat) (d : Bluetooth)
    (hres : ∀ tag, (env.getMIID tag).1 = 0) (hb : env.buildersSucceed) :
    (configureCop env target miid 0 d).1 = 0 := by
  have h3 : ∀ m b, (env.payloadLC3Config m b).paramSize ≠ 0 := fun m b => (hb.2.2.1 m b).2
  have h4 : ∀ m c b, (env.payloadCopV2DepackConfig m c b).paramSize ≠ 0 := fun m c b => (hb.2.2.2.1 m c b).2
  have h5 : ∀ m c, (env.payloadCopV2PackConfig m c).paramSize ≠ 0 := fun m c => (hb.2.2.2.2.1 m c).2
  have h6 : ∀ m c, (env.payloadCopPackConfig m c).paramSize ≠ 0 := fun m c => (hb.2.2.2.2.2.1 m c).2
  simp only [configureCop]
  split_ifs <;>
    simp [configureCopV2Depack, configureCopV2Pack, configureCopV0Pack, configure_done, hres, h3, h4,
      h5, h6, configureRat_succeeds env _ hres hb] at *

theorem configureStatic_succeeds (env : Collab) (target : ModuleTag) (miid : Nat) (d : Bluetooth)
    (hres : ∀ tag, (env.getMIID tag).1 = 0) (hb : env.buildersSucceed) :
    (configureStatic env target miid 0 d).1 = 0 := by
  have h2 : ∀ m b f, (env.payloadTWSConfig m b f).paramSize ≠ 0 := fun m b f => (hb.2.1 m b f).2
  simp only [configureStatic]
  split_ifs <;> simp [configure_done, h2, configureCop_succeeds env _ _ _ hres hb] at *

theorem configurePlaceholder_succeeds (env : Collab) (target : ModuleTag) (miid : Nat)
    (out_buf : bt_enc_payload_t) (d : Bluetooth)
    (hres : ∀ tag, (env.getMIID tag).1 = 0) (hb : env.buildersSucceed) :
    (configurePlaceholder env target miid 0 out_buf d).1 = 0 := by
  have h1 : ∀ p s m i, (env.payloadCustomParam p s m i).paramData ≠ none := fun p s m i => (hb.1 p s m i).1
  have hblocks : ∀ d1, (configureBlocks env target miid 0 out_buf d1).1 = 0 := by
    intro d1
    simp [configureBlocks, pushBlocks_all_ok env h1, configureStatic_succeeds env _ _ _ hres hb]
  simp only [configurePlaceholder]
  split
  · split
    · rename_i h
      exact absurd h (h1 _ _ _ _)
    · exact hblocks _
  · exact hblocks _

/-- When every collaborator call succeeds the pass returns 0, for every codec
format and direction. -/
theorem configure_succeeds (env : Collab) (d : Bluetooth) (hok : env.pipelineSucceeds) :
    (configureA2dpEncoderDecoder env d).1 = 0 := by
  have hload := loaded_of_pipelineSucceeds env d hok
  obtain ⟨_, _, _, hres, hb⟩ := hok
  obtain ⟨pl, evs, _, _, e⟩ := configure_of_loaded env d hload (hres _)
  rw [e]
  exact configurePlaceholder_succeeds env _ _ _ _ hres hb

theorem configurePcmCnv_fixed (env : Collab) (d : Bluetooth) :
    (configurePcmCnv env d).2.fixed = d.fixed := by
  simp only [configurePcmCnv]
  split_ifs <;> rfl

theorem configureRat_fixed (env : Collab) (d : Bluetooth) :
    (configureRat env d).2.fixed = d.fixed := by
  simp only [configureRat]
  split_ifs
  · rfl
  · rw [configurePcmCnv_fixed]
    rfl
  · rfl

theorem configureCop_fixed (env : Collab) (target : ModuleTag) (miid : Nat) (st : Int)
    (d : Bluetooth) : (configureCop env target miid st d).2.fixed = d.fixed := by
  simp only [configureCop, configureCopV2Depack, configureCopV2Pack, configureCopV0Pack]
  split_ifs <;> first | rfl | (rw [configureRat_fixed]; rfl)

theorem configureStatic_fixed (env : Collab) (target : ModuleTag) (miid : Nat) (st : Int)
    (d : Bluetooth) : (configureStatic env target miid st d).2.fixed = d.fixed := by
  simp only [configureStatic]
  split_ifs <;> first | rfl | (rw [configureCop_fixed]; rfl) | rw [configureCop_fixed]

theorem pushBlocks_fixed (env : Collab) (target : ModuleTag) (miid : Nat)
    (blks : List custom_block_t) (d : Bluetooth) :
    (pushBlocks env target miid blks d).2.fixed = d.fixed := by
  obtain ⟨k, _, h2, _⟩ := pushBlocks_spec env target miid blks d
  rw [h2]
  rfl

theorem configurePlaceholder_fixed (env : Collab) (target : ModuleTag) (miid : Nat) (st : Int)
    (out_buf : bt_enc_payload_t) (d : Bluetooth) :
    (configurePlaceholder env target miid st out_buf d).2.fixed = d.fixed := by
  have hblocks : ∀ d1, (configureBlocks env target miid st out_buf d1).2.fixed = d1.fixed := by
    intro d1
    simp only [configureBlocks]
    split_ifs
    · exact pushBlocks_fixed _ _ _ _ _
    · rw [configureStatic_fixed, pushBlocks_fixed]
  simp only [configurePlaceholder]
  split
  · split
    · rfl
    · rw [hblocks]
      rfl
  · exact hblocks _

theorem configure_fixed (env : Collab) (d : Bluetooth) :
    (configureA2dpEncoderDecoder env d).2.fixed = d.fixed := by
  rcases configure_cases env d with ⟨e, _⟩ | ⟨st, evs, _, _, _, _, e⟩ |
    ⟨pl, evs, _, _, _, e⟩ | ⟨pl, evs, _, _, _, _, _, _, _, e⟩
  · rw [e]
    rfl
  · rw [e]
    rfl
  · rw [e]
    simp [Bluetooth.fixed, Bluetooth.log, afterLoad, updateDeviceAttributes]
  · rw [e, configurePlaceholder_fixed]
    simp [Bluetooth.fixed, Bluetooth.log, afterLoad, updateDeviceAttributes]

/-- C1: for LC3 in direction ENC, when the plugin load of the pass succeeds and
every module resolution and payload builder succeeds, the pass returns 0, its
calls end with: resolve COP_PACKETIZER_V2, push the stream-info payload
(payloadCopV2PackConfig) to it, push the output-media-format payload
(payloadCopPackConfig, built from the device attributes) to it, then RAT and PCM
converter; the payloads pushed to COP_PACKETIZER_V2 are exactly these two in
this order, and COP_PACKETIZER_V0 is neither resolved nor pushed to. -/
theorem C1_lc3_enc_packetizer_v2 (env : Collab) (d : Bluetooth)
    (hfmt : d.codecFormat = .CODEC_TYPE_LC3) (hdir : d.codecType = .ENC)
    (hload : Event.plugin_populate_payload 0 ∈ passTrace d (configureA2dpEncoderDecoder env d).2)
    (hres : ∀ tag, (env.getMIID tag).1 = 0)
    (hbuild : env.buildersSucceed) :
    (configureA2dpEncoderDecoder env d).1 = 0 ∧
    (∃ pre, passTrace d (configureA2dpEncoderDecoder env d).2 =
      pre ++ lc3EncTail env d (configureA2dpEncoderDecoder env d).2.deviceAttr_config
        (configureA2dpEncoderDecoder env d).2.codecConfig) ∧
    ModuleTag.COP_PACKETIZER_V2 ∈ resolvedTags (passTrace d (configureA2dpEncoderDecoder env d).2) ∧
    pushesTo .COP_PACKETIZER_V2 (passTrace d (configureA2dpEncoderDecoder env d).2) =
      [ (.payloadCopV2PackConfig,
          env.payloadCopV2PackConfig (env.getMIID .COP_PACKETIZER_V2).2 d.codecInfo),
        (.payloadCopPackConfig,
          env.payloadCopPackConfig (env.getMIID .COP_PACKETIZER_V2).2
            (configureA2dpEncoderDecoder env d).2.deviceAttr_config) ] ∧
    ModuleTag.COP_PACKETIZER_V0 ∉ resolvedTags (passTrace d (configureA2dpEncoderDecoder env d).2) ∧
    pushesTo .COP_PACKETIZER_V0 (passTrace d (configureA2dpEncoderDecoder env d).2) = [] := by
  obtain ⟨pl, evs, hev, _, e⟩ := configure_of_loaded env d hload (hres _)
  obtain ⟨hb1, hb2, hb3, hb4, hb5, hb6, hb7, hb8⟩ := hbuild
  have hf := afterLoad_frame d pl evs
  have hs1 : ∀ p s m i, (env.payloadCustomParam p s m i).paramData ≠ none := fun p s m i => (hb1 p s m i).1
  have hs3 : ∀ m b, (env.payloadLC3Config m b).paramSize ≠ 0 := fun m b => (hb3 m b).2
  have hs5 : ∀ m c, (env.payloadCopV2PackConfig m c).paramSize ≠ 0 := fun m c => (hb5 m c).2
  have hs6 : ∀ m c, (env.payloadCopPackConfig m c).paramSize ≠ 0 := fun m c => (hb6 m c).2
  have hs7 : ∀ m c, (env.payloadRATConfig m c).paramSize ≠ 0 := fun m c => (hb7 m c).2
  have hs8 : ∀ m c, (env.payloadPcmCnvConfig m c).paramSize ≠ 0 := fun m c => (hb8 m c).2
  have hval : configureA2dpEncoderDecoder env d =
      (0, { afterLoad d pl evs with
        isConfigured := true,
        customPayload := d.customPayload ++
          pl.out_buf.blocks.map (blockOut env (env.getMIID .BT_PLACEHOLDER_ENCODER).2) ++
          [ env.payloadLC3Config (env.getMIID .BT_PLACEHOLDER_ENCODER).2 d.isLC3MonoModeOn,
            env.payloadCopV2PackConfig (env.getMIID .COP_PACKETIZER_V2).2 d.codecInfo,
            env.payloadCopPackConfig (env.getMIID .COP_PACKETIZER_V2).2
              (afterLoad d pl evs).deviceAttr_config,
            env.payloadRATConfig (env.getMIID .RAT_RENDER).2 (afterLoad d pl evs).codecConfig,
            env.payloadPcmCnvConfig (env.getMIID .BT_PCM_CONVERTER).2
              (afterLoad d pl evs).codecConfig ],
        trace := d.trace ++ ([Event.getActiveStream_l] ++ evs ++
          [Event.getMIID .BT_PLACEHOLDER_ENCODER] ++
          blockEvents env .BT_PLACEHOLDER_ENCODER (env.getMIID .BT_PLACEHOLDER_ENCODER).2
            pl.out_buf.blocks ++
          [Event.updateCustomPayload .BT_PLACEHOLDER_ENCODER .payloadLC3Config
            (env.payloadLC3Config (env.getMIID .BT_PLACEHOLDER_ENCODER).2 d.isLC3MonoModeOn)] ++
          lc3EncTail env d (afterLoad d pl evs).deviceAttr_config (afterLoad d pl evs).codecConfig) }) := by
    rw [e]
    simp [configurePlaceholder, isPlaceholderEncoder, configureBlocks, pushBlocks_all_ok env hs1,
      configureStatic, configureCop, configureCopV2Pack, configureRat, configurePcmCnv,
      configure_done, Bluetooth.log, Bluetooth.updateCustomPayload, afterLoad,
      updateDeviceAttributes, placeholderTag, hfmt, hdir, hres, hs3, hs5, hs6, hs7, hs8, lc3EncTail]
  have ht := passTrace_eq d _ (congrArg (fun r => r.2.trace) hval)
  have hcfg : (configureA2dpEncoderDecoder env d).2.deviceAttr_config =
      (afterLoad d pl evs).deviceAttr_config := by rw [hval]
  have hcc : (configureA2dpEncoderDecoder env d).2.codecConfig =
      (afterLoad d pl evs).codecConfig := by rw [hval]
  have hr1 := resolvedTags_plugin hev
  have hr2 := resolvedTags_blockEvents env .BT_PLACEHOLDER_ENCODER
    (env.getMIID .BT_PLACEHOLDER_ENCODER).2 pl.out_buf.blocks
  have hp1 := fun tag => pushesTo_plugin tag hev
  have hp2 := pushesTo_blockEvents_ne env .BT_PLACEHOLDER_ENCODER .COP_PACKETIZER_V2
    (env.getMIID .BT_PLACEHOLDER_ENCODER).2 pl.out_buf.blocks (by decide)
  have hp3 := pushesTo_blockEvents_ne env .BT_PLACEHOLDER_ENCODER .COP_PACKETIZER_V0
    (env.getMIID .BT_PLACEHOLDER_ENCODER).2 pl.out_buf.blocks (by decide)
  rw [hcfg, hcc, ht]
  refine ⟨by rw [hval], ⟨_, rfl⟩, ?_, ?_, ?_, ?_⟩
  · simp only [resolvedTags_append, hr1, hr2]
    simp [resolvedTags, lc3EncTail]
  · simp only [pushesTo_append, hp1, hp2]
    simp [pushesTo, lc3EncTail]
  · simp only [resolvedTags_append, hr1, hr2]
    simp [resolvedTags, lc3EncTail]
  · simp only [pushesTo_append, hp1, hp3]
    simp [pushesTo, lc3EncTail]

/-- C1 at the sample LC3 encoder device with collaborators that all succeed. -/
theorem C1_lc3_enc_packetizer_v2_witness :
    Event.plugin_populate_payload 0 ∈
      passTrace (sampleDevice .PAL_DEVICE_OUT_BLUETOOTH_A2DP .ENC .CODEC_TYPE_LC3)
        (configureA2dpEncoderDecoder okCollab
          (sampleDevice .PAL_DEVICE_OUT_BLUETOOTH_A2DP .ENC .CODEC_TYPE_LC3)).2 ∧
    (configureA2dpEncoderDecoder okCollab
      (sampleDevice .PAL_DEVICE_OUT_BLUETOOTH_A2DP .ENC .CODEC_TYPE_LC3)).1 = 0 ∧
    ModuleTag.COP_PACKETIZER_V0 ∉ resolvedTags
      (passTrace (sampleDevice .PAL_DEVICE_OUT_BLUETOOTH_A2DP .ENC .CODEC_TYPE_LC3)
        (configureA2dpEncoderDecoder okCollab
          (sampleDevice .PAL_DEVICE_OUT_BLUETOOTH_A2DP .ENC .CODEC_TYPE_LC3)).2) :=
  have h := C1_lc3_enc_packetizer_v2 okCollab
    (sampleDevice .PAL_DEVICE_OUT_BLUETOOTH_A2DP .ENC .CODEC_TYPE_LC3) rfl rfl (by decide)
    okCollab_resolves okCollab_buildersSucceed
  ⟨by decide, h.1, h.2.2.2.2.1⟩

/-- C2: for LC3 in direction DEC with every collaborator call succeeding, the
pass returns 0 with isConfigured = true; its calls end with: resolve
COP_DEPACKETIZER_V2, push the stream-map-out depacketizer payload, push the
stream-map-in depacketizer payload; these are the only two payloads pushed to
the depacketizer, and RAT_RENDER and BT_PCM_CONVERTER are neither resolved nor
pushed to. -/
theorem C2_lc3_dec_depacketizer_only (env : Collab) (d : Bluetooth)
    (hfmt : d.codecFormat = .CODEC_TYPE_LC3) (hdir : d.codecType = .DEC)
    (hok : env.pipelineSucceeds) :
    (configureA2dpEncoderDecoder env d).1 = 0 ∧
    (configureA2dpEncoderDecoder env d).2.isConfigured = true ∧
    (∃ pre, passTrace d (configureA2dpEncoderDecoder env d).2 = pre ++ lc3DecTail env d) ∧
    ModuleTag.COP_DEPACKETIZER_V2 ∈ resolvedTags (passTrace d (configureA2dpEncoderDecoder env d).2) ∧
    pushesTo .COP_DEPACKETIZER_V2 (passTrace d (configureA2dpEncoderDecoder env d).2) =
      [ (.payloadCopV2DepackConfig false,
          env.payloadCopV2DepackConfig (env.getMIID .COP_DEPACKETIZER_V2).2 d.codecInfo false),
        (.payloadCopV2DepackConfig true,
          env.payloadCopV2DepackConfig (env.getMIID .COP_DEPACKETIZER_V2).2 d.codecInfo true) ] ∧
    ModuleTag.RAT_RENDER ∉ resolvedTags (passTrace d (configureA2dpEncoderDecoder env d).2) ∧
    ModuleTag.BT_PCM_CONVERTER ∉ resolvedTags (passTrace d (configureA2dpEncoderDecoder env d).2) ∧
    pushesTo .RAT_RENDER (passTrace d (configureA2dpEncoderDecoder env d).2) = [] ∧
    pushesTo .BT_PCM_CONVERTER (passTrace d (configureA2dpEncoderDecoder env d).2) = [] := by
  have hload := loaded_of_pipelineSucceeds env d hok
  obtain ⟨_, _, _, hres, hbuild⟩ := hok
  obtain ⟨pl, evs, hev, _, e⟩ := configure_of_loaded env d hload (hres _)
  obtain ⟨hb1, hb2, hb3, hb4, hb5, hb6, hb7, hb8⟩ := hbuild
  have hs1 : ∀ p s m i, (env.payloadCustomParam p s m i).paramData ≠ none := fun p s m i => (hb1 p s m i).1
  have hs3 : ∀ m b, (env.payloadLC3Config m b).paramSize ≠ 0 := fun m b => (hb3 m b).2
  have hs4 : ∀ m c b, (env.payloadCopV2DepackConfig m c b).paramSize ≠ 0 := fun m c b => (hb4 m c b).2
  have hval : configureA2dpEncoderDecoder env d =
      (0, { afterLoad d pl evs with
        isConfigured := true,
        customPayload := d.customPayload ++
          pl.out_buf.blocks.map (blockOut env (env.getMIID .BT_PLACEHOLDER_DECODER).2) ++
          [ env.payloadLC3Config (env.getMIID .BT_PLACEHOLDER_DECODER).2 d.isLC3MonoModeOn,
            env.payloadCopV2DepackConfig (env.getMIID .COP_DEPACKETIZER_V2).2 d.codecInfo false,
            env.payloadCopV2DepackConfig (env.getMIID .COP_DEPACKETIZER_V2).2 d.codecInfo true ],
        trace := d.trace ++ ([Event.getActiveStream_l] ++ evs ++
          [Event.getMIID .BT_PLACEHOLDER_DECODER] ++
          blockEvents env .BT_PLACEHOLDER_DECODER (env.getMIID .BT_PLACEHOLDER_DECODER).2
            pl.out_buf.blocks ++
          [Event.updateCustomPayload .BT_PLACEHOLDER_DECODER .payloadLC3Config
            (env.payloadLC3Config (env.getMIID .BT_PLACEHOLDER_DECODER).2 d.isLC3MonoModeOn)] ++
          lc3DecTail env d) }) := by
    rw [e]
    simp [configurePlaceholder, isPlaceholderEncoder, configureBlocks, pushBlocks_all_ok env hs1,
      configureStatic, configureCop, configureCopV2Depack,
      configure_done, Bluetooth.log, Bluetooth.updateCustomPayload, afterLoad,
      updateDeviceAttributes, placeholderTag, hfmt, hdir, hres, hs3, hs4, lc3DecTail]
  have ht := passTrace_eq d _ (congrArg (fun r => r.2.trace) hval)
  have hr1 := resolvedTags_plugin hev
  have hr2 := resolvedTags_blockEvents env .BT_PLACEHOLDER_DECODER
    (env.getMIID .BT_PLACEHOLDER_DECODER).2 pl.out_buf.blocks
  have hp1 := fun tag => pushesTo_plugin tag hev
  have hp2 := fun tag h => pushesTo_blockEvents_ne env .BT_PLACEHOLDER_DECODER tag
    (env.getMIID .BT_PLACEHOLDER_DECODER).2 pl.out_buf.blocks h
  rw [ht]
  refine ⟨by rw [hval], by rw [hval], ⟨_, rfl⟩, ?_, ?_, ?_, ?_, ?_, ?_⟩
  · simp only [resolvedTags_append, hr1, hr2]
    simp [resolvedTags, lc3DecTail]
  · simp only [pushesTo_append, hp1, hp2 .COP_DEPACKETIZER_V2 (by decide)]
    simp [pushesTo, lc3DecTail]
  · simp only [resolvedTags_append, hr1, hr2]
    simp [resolvedTags, lc3DecTail]
  · simp only [resolvedTags_append, hr1, hr2]
    simp [resolvedTags, lc3DecTail]
  · simp only [pushesTo_append, hp1, hp2 .RAT_RENDER (by decide)]
    simp [pushesTo, lc3DecTail]
  · simp only [pushesTo_append, hp1, hp2 .BT_PCM_CONVERTER (by decide)]
    simp [pushesTo, lc3DecTail]

/-- C2 at the sample LC3 decoder device with collaborators that all succeed. -/
theorem C2_lc3_dec_depacketizer_only_witness :
    okCollab.pipelineSucceeds ∧
    (configureA2dpEncoderDecoder okCollab
      (sampleDevice .PAL_DEVICE_IN_BLUETOOTH_A2DP .DEC .CODEC_TYPE_LC3)).1 = 0 ∧
    (configureA2dpEncoderDecoder okCollab
      (sampleDevice .PAL_DEVICE_IN_BLUETOOTH_A2DP .DEC .CODEC_TYPE_LC3)).2.isConfigured = true :=
  have h := C2_lc3_dec_depacketizer_only okCollab
    (sampleDevice .PAL_DEVICE_IN_BLUETOOTH_A2DP .DEC .CODEC_TYPE_LC3) rfl rfl
    okCollab_pipelineSucceeds
  ⟨okCollab_pipelineSucceeds, h.1, h.2.1⟩

/-- C3 as stated fails: for aptX-Adaptive-Speech, with the plugin load and the
placeholder resolution succeeding, a null payload from payloadCustomParam for
the plugin block makes the pass return -ENOMEM with isConfigured = false and
nothing pushed. -/
theorem C3_counterexample :
    (sampleDevice .PAL_DEVICE_OUT_BLUETOOTH_SCO .ENC .CODEC_TYPE_APTX_AD_SPEECH).codecFormat =
      .CODEC_TYPE_APTX_AD_SPEECH ∧
    Event.plugin_populate_payload 0 ∈
      passTrace (sampleDevice .PAL_DEVICE_OUT_BLUETOOTH_SCO .ENC .CODEC_TYPE_APTX_AD_SPEECH)
        (configureA2dpEncoderDecoder nullCustomParamCollab
          (sampleDevice .PAL_DEVICE_OUT_BLUETOOTH_SCO .ENC .CODEC_TYPE_APTX_AD_SPEECH)).2 ∧
    (nullCustomParamCollab.getMIID .BT_PLACEHOLDER_ENCODER).1 = 0 ∧
    (pluginPackage nullCustomParamCollab .CODEC_TYPE_APTX_AD_SPEECH .ENC (some 50)).blocks ≠ [] ∧
    (configureA2dpEncoderDecoder nullCustomParamCollab
      (sampleDevice .PAL_DEVICE_OUT_BLUETOOTH_SCO .ENC .CODEC_TYPE_APTX_AD_SPEECH)).1 = -ENOMEM ∧
    (configureA2dpEncoderDecoder nullCustomParamCollab
      (sampleDevice .PAL_DEVICE_OUT_BLUETOOTH_SCO .ENC .CODEC_TYPE_APTX_AD_SPEECH)).2.isConfigured = false ∧
    pushes (passTrace (sampleDevice .PAL_DEVICE_OUT_BLUETOOTH_SCO .ENC .CODEC_TYPE_APTX_AD_SPEECH)
      (configureA2dpEncoderDecoder nullCustomParamCollab
        (sampleDevice .PAL_DEVICE_OUT_BLUETOOTH_SCO .ENC .CODEC_TYPE_APTX_AD_SPEECH)).2) = [] := by
  decide

/-- C3, amended: for aptX-Adaptive-Speech in either direction, when the plugin
load of the pass succeeds, the placeholder module is resolved and
payloadCustomParam returns a non-null payload for every block of the plugin
package, the pass returns 0 with isConfigured = true, the payloads pushed are
exactly the plugin blocks, in the plugin order, for the placeholder module (so no
TWS or LC3 toggle), and the placeholder is the only module resolved (no
packetizer, depacketizer, RAT or PCM converter). -/
theorem C3_speech_pushes_blocks_only (env : Collab) (d : Bluetooth)
    (hfmt : d.codecFormat = .CODEC_TYPE_APTX_AD_SPEECH)
    (hload : Event.plugin_populate_payload 0 ∈ passTrace d (configureA2dpEncoderDecoder env d).2)
    (hm : (env.getMIID (placeholderTag d.codecType)).1 = 0)
    (hblk : ∀ blk ∈ (pluginPackage env d.codecFormat d.codecType d.codecInfo).blocks,
      (blockOut env (env.getMIID (placeholderTag d.codecType)).2 blk).paramData ≠ none) :
    (configureA2dpEncoderDecoder env d).1 = 0 ∧
    (configureA2dpEncoderDecoder env d).2.isConfigured = true ∧
    pushes (passTrace d (configureA2dpEncoderDecoder env d).2) =
      (pluginPackage env d.codecFormat d.codecType d.codecInfo).blocks.map (fun blk =>
        (placeholderTag d.codecType, PayloadKind.payloadCustomParam blk.param_id,
          blockOut env (env.getMIID (placeholderTag d.codecType)).2 blk)) ∧
    resolvedTags (passTrace d (configureA2dpEncoderDecoder env d).2) =
      [placeholderTag d.codecType] := by
  obtain ⟨pl, evs, hev, hpk, e⟩ := configure_of_loaded env d hload hm
  rw [← hpk] at hblk ⊢
  have hpb := fun d1 => pushBlocks_ok env (placeholderTag d.codecType)
    (env.getMIID (placeholderTag d.codecType)).2 pl.out_buf.blocks d1 hblk
  have hval : configureA2dpEncoderDecoder env d =
      (0, { afterLoad d pl evs with
        isConfigured := true,
        customPayload := d.customPayload ++
          pl.out_buf.blocks.map (blockOut env (env.getMIID (placeholderTag d.codecType)).2),
        trace := d.trace ++ ([Event.getActiveStream_l] ++ evs ++
          [Event.getMIID (placeholderTag d.codecType)] ++
          blockEvents env (placeholderTag d.codecType) (env.getMIID (placeholderTag d.codecType)).2
            pl.out_buf.blocks) }) := by
    rw [e]
    simp [configurePlaceholder, isPlaceholderEncoder, configureBlocks, hpb,
      configureStatic, configure_done, Bluetooth.log, afterLoad,
      updateDeviceAttributes, hfmt]
  have ht := passTrace_eq d _ (congrArg (fun r => r.2.trace) hval)
  rw [ht]
  refine ⟨by rw [hval], by rw [hval], ?_, ?_⟩
  · simp only [pushes_append, pushes_plugin hev, pushes_blockEvents]
    simp [pushes]
  · simp only [resolvedTags_append, resolvedTags_plugin hev, resolvedTags_blockEvents]
    simp [resolvedTags]

/-- C3 (amended) at the sample speech device with collaborators that all succeed. -/
theorem C3_speech_pushes_blocks_only_witness :
    (configureA2dpEncoderDecoder okCollab
      (sampleDevice .PAL_DEVICE_OUT_BLUETOOTH_SCO .ENC .CODEC_TYPE_APTX_AD_SPEECH)).1 = 0 ∧
    resolvedTags (passTrace (sampleDevice .PAL_DEVICE_OUT_BLUETOOTH_SCO .ENC .CODEC_TYPE_APTX_AD_SPEECH)
      (configureA2dpEncoderDecoder okCollab
        (sampleDevice .PAL_DEVICE_OUT_BLUETOOTH_SCO .ENC .CODEC_TYPE_APTX_AD_SPEECH)).2) =
      [.BT_PLACEHOLDER_ENCODER] :=
  have h := C3_speech_pushes_blocks_only okCollab
    (sampleDevice .PAL_DEVICE_OUT_BLUETOOTH_SCO .ENC .CODEC_TYPE_APTX_AD_SPEECH) rfl (by decide)
    rfl (by decide)
  ⟨h.1, h.2.2.2⟩

/-- C4: for every codec format, direction and collaborator outcome, the pass
returns 0 exactly when isConfigured is true on return; and a pass that reaches
the PCM converter step and fails there (module not resolved, or empty payload)
returns non-zero with isConfigured = false. -/
theorem C4_status_zero_iff_configured (env : Collab) (d : Bluetooth) :
    ((configureA2dpEncoderDecoder env d).1 = 0 ↔
      (configureA2dpEncoderDecoder env d).2.isConfigured = true) ∧
    (Event.getMIID .BT_PCM_CONVERTER ∈ passTrace d (configureA2dpEncoderDecoder env d).2 →
      pcmCnvFails env (configureA2dpEncoderDecoder env d).2.codecConfig →
      (configureA2dpEncoderDecoder env d).1 ≠ 0 ∧
      (configureA2dpEncoderDecoder env d).2.isConfigured = false) := by
  obtain ⟨evs, h1, _, h3, h4⟩ := configure_stage env d
  rw [passTrace_eq d evs h1]
  exact ⟨h3, h4⟩

/-- C4 at the sample SBC encoder device when the PCM converter payload is empty:
the step is reached, fails, and the pass returns non-zero, not configured. -/
theorem C4_status_zero_iff_configured_witness :
    Event.getMIID .BT_PCM_CONVERTER ∈
      passTrace (sampleDevice .PAL_DEVICE_OUT_BLUETOOTH_A2DP .ENC .CODEC_TYPE_SBC)
        (configureA2dpEncoderDecoder emptyPcmCnvCollab
          (sampleDevice .PAL_DEVICE_OUT_BLUETOOTH_A2DP .ENC .CODEC_TYPE_SBC)).2 ∧
    (configureA2dpEncoderDecoder emptyPcmCnvCollab
      (sampleDevice .PAL_DEVICE_OUT_BLUETOOTH_A2DP .ENC .CODEC_TYPE_SBC)).1 ≠ 0 ∧
    (configureA2dpEncoderDecoder emptyPcmCnvCollab
      (sampleDevice .PAL_DEVICE_OUT_BLUETOOTH_A2DP .ENC .CODEC_TYPE_SBC)).2.isConfigured = false :=
  ⟨by decide,
   (C4_status_zero_iff_configured emptyPcmCnvCollab
      (sampleDevice .PAL_DEVICE_OUT_BLUETOOTH_A2DP .ENC .CODEC_TYPE_SBC)).2 (by decide)
      (Or.inr rfl)⟩

theorem quiet_refl (b : Bluetooth) : Quiet b b := ⟨[], by simp, by simp⟩

theorem quiet_of_trace_eq {b b1 : Bluetooth} (h : b1.trace = b.trace) : Quiet b b1 :=
  ⟨[], by simp [h], by simp⟩

theorem Quiet.quiet_trans {a b c : Bluetooth} (h1 : Quiet a b) (h2 : Quiet b c) : Quiet a c := by
  obtain ⟨e1, t1, q1⟩ := h1
  obtain ⟨e2, t2, q2⟩ := h2
  refine ⟨e1 ++ e2, by rw [t2, t1, List.append_assoc], ?_⟩
  intro e he
  rcases List.mem_append.1 he with h | h
  · exact q1 e h
  · exact q2 e h

theorem quiet_log (b : Bluetooth) (e : Event) (h : e.isLinkControl = false) : Quiet b (b.log e) :=
  ⟨[e], rfl, by simpa using h⟩

theorem Event.isLinkControl_of_isPipeline {e : Event} (h : e.isPipeline = true) :
    e.isLinkControl = false := by
  cases e <;> simp_all [Event.isPipeline, Event.isLinkControl]

theorem quiet_configure (env : Collab) (b : Bluetooth) :
    Quiet b (configureA2dpEncoderDecoder env b).2 := by
  obtain ⟨evs, h1, h2, _⟩ := configure_stage env b
  exact ⟨evs, h1, fun e he => Event.isLinkControl_of_isPipeline (h2 e he)⟩

theorem updateDeviceMetadata_cases (env : Collab) (b : Bluetooth) :
    (updateDeviceMetadata env b).2 = b ∨
    ∃ keys, (updateDeviceMetadata env b).2 = b.log (.setDeviceMetadata b.deviceAttr_id keys) := by
  unfold updateDeviceMetadata
  split
  · exact Or.inr ⟨_, rfl⟩
  · exact Or.inr ⟨_, rfl⟩
  · exact Or.inr ⟨_, rfl⟩
  · exact Or.inr ⟨_, rfl⟩
  · exact Or.inl rfl

theorem quiet_metadata (env : Collab) (b : Bluetooth) : Quiet b (updateDeviceMetadata env b).2 := by
  rcases updateDeviceMetadata_cases env b with h | ⟨keys, h⟩
  · rw [h]
    exact quiet_refl b
  · rw [h]
    exact quiet_log b _ rfl

theorem updateDeviceMetadata_fixed (env : Collab) (b : Bluetooth) :
    (updateDeviceMetadata env b).2.fixed = b.fixed := by
  rcases updateDeviceMetadata_cases env b with h | ⟨keys, h⟩
  · rw [h]
  · rw [h]
    rfl

theorem a2dpQuiet_refl (d : BtA2dp) : A2dpQuiet d d :=
  ⟨quiet_refl _, rfl, rfl, rfl, rfl, rfl, rfl⟩

theorem A2dpQuiet.a2dpQuiet_trans {a b c : BtA2dp} (h1 : A2dpQuiet a b) (h2 : A2dpQuiet b c) :
    A2dpQuiet a c := by
  obtain ⟨q1, a1, b1, c1, d1, e1, f1⟩ := h1
  obtain ⟨q2, a2, b2, c2, d2, e2, f2⟩ := h2
  exact ⟨q1.quiet_trans q2, a2.trans a1, b2.trans b1, c2.trans c1, d2.trans d1, e2.trans e1, f2.trans f1⟩

theorem a2dpQuiet_metadata (env : Collab) (d : BtA2dp) : A2dpQuiet d (d.updateDeviceMetadata env) := by
  refine ⟨quiet_metadata env _, rfl, rfl, rfl, rfl, rfl, ?_⟩
  have h := updateDeviceMetadata_fixed env d.toBluetooth
  simp only [Bluetooth.fixed, Prod.mk.injEq] at h
  exact h.2.2.2.2.2.2.1

theorem a2dpQuiet_configure (env : Collab) (d : BtA2dp) :
    A2dpQuiet d (d.configureA2dpEncoderDecoder env).2 := by
  refine ⟨quiet_configure env _, rfl, rfl, rfl, rfl, rfl, ?_⟩
  have h := configure_fixed env d.toBluetooth
  simp only [Bluetooth.fixed, Prod.mk.injEq] at h
  exact h.2.2.2.2.2.2.1

theorem a2dpQuiet_twsMonoModeHint (env : Collab) (d : BtA2dp) : A2dpQuiet d (twsMonoModeHint env d) := by
  unfold twsMonoModeHint
  split_ifs
  · exact ⟨quiet_log _ _ rfl, rfl, rfl, rfl, rfl, rfl, rfl⟩
  · exact a2dpQuiet_refl d

theorem a2dpQuiet_aacAbrMetadata (env : Collab) (d : BtA2dp) : A2dpQuiet d (aacAbrMetadata env d) := by
  unfold aacAbrMetadata
  split_ifs
  · exact a2dpQuiet_metadata env d
  · exact a2dpQuiet_refl d

theorem count_of_quiet {evs : List Event} (h : ∀ e ∈ evs, e.isLinkControl = false) (c : Event)
    (hc : c.isLinkControl = true) : evs.count c = 0 := by
  rw [List.count_eq_zero]
  intro hm
  rw [h c hm] at hc
  cases hc

theorem CaptureStep.captureStep_trans {a b c : BtA2dp} {m n : Nat} (h1 : CaptureStep a b m)
    (h2 : CaptureStep b c n) : CaptureStep a c (m + n) := by
  obtain ⟨e1, t1, s1, l1, u1⟩ := h1
  obtain ⟨e2, t2, s2, l2, u2⟩ := h2
  refine ⟨e1 ++ e2, by rw [t2, t1, List.append_assoc], ?_, l2.trans l1, u2.trans u1⟩
  rw [List.count_append, List.count_append, ← s1, ← s2]
  ring

theorem captureStep_of_parts {d d1 : BtA2dp} (h : Quiet d.toBluetooth d1.toBluetooth)
    (l : d1.lib = d.lib) (f : d1.isDummySink = d.isDummySink) : CaptureStep d d1 0 := by
  obtain ⟨evs, t, q⟩ := h
  exact ⟨evs, t, by rw [count_of_quiet q .audio_sink_start rfl,
    count_of_quiet q .audio_source_start rfl], l, f⟩

theorem a2dpQuiet_log (d : BtA2dp) (e : Event) (h : e.isLinkControl = false) :
    A2dpQuiet d (d.log e) :=
  ⟨quiet_log _ _ h, rfl, rfl, rfl, rfl, rfl, rfl⟩

/-- The tail of startCapture calls no stream control; in state STARTED it keeps
state and count; from another state with count 0 and every collaborator
succeeding it returns 0 in state STARTED with count 1. -/
theorem startCapture_configure_spec (env : Collab) (d : BtA2dp) :
    CaptureStep d (startCapture_configure env d).2 0 ∧
    (d.a2dpState = .A2DP_STATE_STARTED →
      (startCapture_configure env d).2.a2dpState = .A2DP_STATE_STARTED ∧
      (startCapture_configure env d).2.totalActiveSessionRequests = d.totalActiveSessionRequests) ∧
    (env.allSucceed → d.a2dpState ≠ .A2DP_STATE_STARTED → d.totalActiveSessionRequests = 0 →
      (startCapture_configure env d).1 = 0 ∧
      (startCapture_configure env d).2.a2dpState = .A2DP_STATE_STARTED ∧
      (startCapture_configure env d).2.totalActiveSessionRequests = 1) := by
  have hq := (a2dpQuiet_metadata env d).a2dpQuiet_trans (a2dpQuiet_configure env (d.updateDeviceMetadata env))
  have hq2 := hq.a2dpQuiet_trans (a2dpQuiet_log _ .audio_sink_session_setup_complete rfl)
  have a := hq.2.1
  have b := hq.2.2.1
  refine ⟨?_, ?_, ?_⟩
  · simp only [startCapture_configure]
    split_ifs
    all_goals first
      | exact captureStep_of_parts hq.1 hq.2.2.2.1 hq.2.2.2.2.2.2
      | exact captureStep_of_parts hq2.1 hq2.2.2.2.1 hq2.2.2.2.2.2.2
  · intro hst
    simp only [startCapture_configure]
    split_ifs <;> simp_all [BtA2dp.log]
  · intro hok hst ht
    have hc : ((d.updateDeviceMetadata env).configureA2dpEncoderDecoder env).1 = 0 :=
      configure_succeeds env _ hok.1
    have hs : env.audio_sink_session_setup_complete = 0 := hok.2.2.2.2.2.2.2.2.2.1
    simp only [startCapture_configure, hc, hs]
    split_ifs <;> simp_all [BtA2dp.log]

theorem startCapture_next_call (env : Collab) (d : BtA2dp) (hlib : d.lib.loaded)
    (hst : d.a2dpState = .A2DP_STATE_STARTED) :
    CaptureStep d (startCapture env d).2 0 ∧
    (startCapture env d).2.a2dpState = .A2DP_STATE_STARTED ∧
    (startCapture env d).2.totalActiveSessionRequests = d.totalActiveSessionRequests := by
  have e : startCapture env d =
      startCapture_configure env { d with codecFormat := .CODEC_TYPE_INVALID } := by
    simp only [startCapture]
    split_ifs <;> simp_all [BtLibs.loaded]
  obtain ⟨h1, h2, _⟩ := startCapture_configure_spec env
    ({ d with codecFormat := .CODEC_TYPE_INVALID } : BtA2dp)
  rw [e]
  obtain ⟨evs, t, c, l, f⟩ := h1
  exact ⟨⟨evs, t, c, l, f⟩, h2 hst⟩

theorem startCapture_first_call (env : Collab) (d : BtA2dp) (hlib : d.lib.loaded)
    (hst : d.a2dpState ≠ .A2DP_STATE_STARTED) (ht : d.totalActiveSessionRequests = 0)
    (hok : env.allSucceed) :
    (startCapture env d).1 = 0 ∧ CaptureStep d (startCapture env d).2 1 ∧
    (startCapture env d).2.a2dpState = .A2DP_STATE_STARTED ∧
    (startCapture env d).2.totalActiveSessionRequests = 1 := by
  have hok1 := hok
  obtain ⟨_, hs, _, hi, hf, hk, _, hdi, hdf, _⟩ := hok1
  cases hdummy : d.isDummySink with
  | false =>
    have e : startCapture env d = startCapture_configure env
        (({ ({ d with codecFormat := .CODEC_TYPE_INVALID } : BtA2dp).log .audio_sink_start with
            codecInfo := env.audio_get_dec_config.1,
            codecFormat := env.audio_get_dec_config.2 } : BtA2dp).log .audio_get_dec_config) := by
      simp [startCapture, hdummy, hlib.2.1, hlib.2.2.2.2.2.2.1, hlib.2.2.2.2.2.2.2.2.1, hst, ht, hk,
        BtA2dp.log, Bluetooth.log, hdi, hdf]
    obtain ⟨⟨evs, t, c, l, f⟩, _, h3⟩ := startCapture_configure_spec env
      (({ ({ d with codecFormat := .CODEC_TYPE_INVALID } : BtA2dp).log .audio_sink_start with
            codecInfo := env.audio_get_dec_config.1,
            codecFormat := env.audio_get_dec_config.2 } : BtA2dp).log .audio_get_dec_config)
    obtain ⟨r1, r2, r3⟩ := h3 hok hst ht
    rw [e]
    refine ⟨r1, ⟨[Event.audio_sink_start, Event.audio_get_dec_config] ++ evs, ?_, ?_, l, f⟩, r2, r3⟩
    · rw [t]
      simp [BtA2dp.log, Bluetooth.log]
    · rw [List.count_append, List.count_append]
      have : List.count Event.audio_sink_start [Event.audio_sink_start, Event.audio_get_dec_config] = 1 := by
        decide
      have : List.count Event.audio_source_start [Event.audio_sink_start, Event.audio_get_dec_config] = 0 := by
        decide
      omega
  | true =>
    have e : startCapture env d = startCapture_configure env
        (({ ({ d with codecFormat := .CODEC_TYPE_INVALID } : BtA2dp).log .audio_source_start with
            codecInfo := env.audio_get_enc_config.1,
            codecFormat := env.audio_get_enc_config.2 } : BtA2dp).log .audio_get_enc_config) := by
      simp [startCapture, hdummy, hlib.2.1, hlib.2.2.1, hlib.2.2.2.2.1, hst, ht, hs,
        BtA2dp.log, Bluetooth.log, hi, hf]
    obtain ⟨⟨evs, t, c, l, f⟩, _, h3⟩ := startCapture_configure_spec env
      (({ ({ d with codecFormat := .CODEC_TYPE_INVALID } : BtA2dp).log .audio_source_start with
            codecInfo := env.audio_get_enc_config.1,
            codecFormat := env.audio_get_enc_config.2 } : BtA2dp).log .audio_get_enc_config)
    obtain ⟨r1, r2, r3⟩ := h3 hok hst ht
    rw [e]
    refine ⟨r1, ⟨[Event.audio_source_start, Event.audio_get_enc_config] ++ evs, ?_, ?_, l, f⟩,
      r2, r3⟩
    · rw [t]
      simp [BtA2dp.log, Bluetooth.log]
    · rw [List.count_append, List.count_append]
      have : List.count Event.audio_sink_start [Event.audio_source_start, Event.audio_get_enc_config] = 0 := by
        decide
      have : List.count Event.audio_source_start [Event.audio_source_start, Event.audio_get_enc_config] = 1 := by
        decide
      omega

theorem startCaptureSeq_cons (env : Collab) (envs : List Collab) (d : BtA2dp) :
    startCaptureSeq (env :: envs) d = startCaptureSeq envs (startCapture env d).2 := rfl

theorem startCaptureSeq_started :
    ∀ (envs : List Collab) (d : BtA2dp), d.lib.loaded → d.a2dpState = .A2DP_STATE_STARTED →
      CaptureStep d (startCaptureSeq envs d) 0 ∧
      (startCaptureSeq envs d).totalActiveSessionRequests = d.totalActiveSessionRequests
  | [], d, _, _ => ⟨⟨[], by simp [startCaptureSeq], rfl, rfl, rfl⟩, rfl⟩
  | env :: envs, d, hlib, hst => by
    obtain ⟨h1, h2, h3⟩ := startCapture_next_call env d hlib hst
    have hl : (startCapture env d).2.lib.loaded := by
      obtain ⟨_, _, _, l, _⟩ := h1
      rw [l]
      exact hlib
    obtain ⟨h4, h5⟩ := startCaptureSeq_started envs (startCapture env d).2 hl h2
    rw [startCaptureSeq_cons]
    exact ⟨h1.captureStep_trans h4, h5.trans h3⟩

/-- Claim C6 on the code. The sample SINK device has the library loaded, is not
STARTED and has no session; every collaborator call succeeds. Two startCapture
calls return 0 and call the start control once, as claimed, but the count is 1
after the second call, not 2: startCapture raises it only in the branch that
starts the link, where startPlayback raises it on every call (two
startPlayback calls on the sample SOURCE device leave 2). The second call has
reset codecFormat to CODEC_TYPE_INVALID without reading the codec again. One
stopCapture then takes the count to 0, calls the stop control and leaves state
STOPPED, while one of the two sessions has not stopped. -/
theorem C6_capture_second_start_not_counted :
    (sampleA2dp .PAL_DEVICE_IN_BLUETOOTH_A2DP .DEC .SINK).a2dpRole = .SINK ∧
    (sampleA2dp .PAL_DEVICE_IN_BLUETOOTH_A2DP .DEC .SINK).lib = loadedLibs ∧
    (sampleA2dp .PAL_DEVICE_IN_BLUETOOTH_A2DP .DEC .SINK).a2dpState ≠ .A2DP_STATE_STARTED ∧
    (sampleA2dp .PAL_DEVICE_IN_BLUETOOTH_A2DP .DEC .SINK).totalActiveSessionRequests = 0 ∧
    (startCapture okCollab (sampleA2dp .PAL_DEVICE_IN_BLUETOOTH_A2DP .DEC .SINK)).1 = 0 ∧
    (startCapture okCollab (sampleA2dp .PAL_DEVICE_IN_BLUETOOTH_A2DP .DEC .SINK)).2.totalActiveSessionRequests = 1 ∧
    (startCapture okCollab (sampleA2dp .PAL_DEVICE_IN_BLUETOOTH_A2DP .DEC .SINK)).2.codecFormat = .CODEC_TYPE_SBC ∧
    (startCapture okCollab
      (startCapture okCollab (sampleA2dp .PAL_DEVICE_IN_BLUETOOTH_A2DP .DEC .SINK)).2).1 = 0 ∧
    (startCapture okCollab
      (startCapture okCollab (sampleA2dp .PAL_DEVICE_IN_BLUETOOTH_A2DP .DEC .SINK)).2).2.totalActiveSessionRequests = 1 ∧
    (startCapture okCollab
      (startCapture okCollab (sampleA2dp .PAL_DEVICE_IN_BLUETOOTH_A2DP .DEC .SINK)).2).2.a2dpState = .A2DP_STATE_STARTED ∧
    (startCapture okCollab
      (startCapture okCollab (sampleA2dp .PAL_DEVICE_IN_BLUETOOTH_A2DP .DEC .SINK)).2).2.codecFormat = .CODEC_TYPE_INVALID ∧
    (startCapture okCollab
      (startCapture okCollab (sampleA2dp .PAL_DEVICE_IN_BLUETOOTH_A2DP .DEC .SINK)).2).2.trace.count .audio_sink_start = 1 ∧
    (stopCapture okCollab (startCapture okCollab
      (startCapture okCollab (sampleA2dp .PAL_DEVICE_IN_BLUETOOTH_A2DP .DEC .SINK)).2).2).2.totalActiveSessionRequests = 0 ∧
    (stopCapture okCollab (startCapture okCollab
      (startCapture okCollab (sampleA2dp .PAL_DEVICE_IN_BLUETOOTH_A2DP .DEC .SINK)).2).2).2.a2dpState = .A2DP_STATE_STOPPED ∧
    (stopCapture okCollab (startCapture okCollab
      (startCapture okCollab (sampleA2dp .PAL_DEVICE_IN_BLUETOOTH_A2DP .DEC .SINK)).2).2).2.trace.count .audio_sink_stop = 1 ∧
    (startPlayback okCollab (startPlayback okCollab
      (sampleA2dp .PAL_DEVICE_OUT_BLUETOOTH_A2DP .ENC .SOURCE)).2).2.totalActiveSessionRequests = 2 := by
  decide

/-- What consecutive startCapture calls do on an A2DP device in SINK role with
the vendor control library loaded, not in state STARTED and with no active
session request, every collaborator call succeeding: N >= 1 calls with no
intervening stop call the external start control exactly once and leave
totalActiveSessionRequests at 1, because only the call that starts the link
raises the count. -/
theorem startCaptureSeq_counts_first_start (starts : List Collab) (d : BtA2dp)
    (_hrole : d.a2dpRole = .SINK) (hlib : d.lib.loaded)
    (hst : d.a2dpState ≠ .A2DP_STATE_STARTED) (ht : d.totalActiveSessionRequests = 0)
    (hn : 1 ≤ starts.length) (hok : ∀ env ∈ starts, env.allSucceed) :
    (passTrace d.toBluetooth (startCaptureSeq starts d).toBluetooth).count .audio_sink_start +
      (passTrace d.toBluetooth (startCaptureSeq starts d).toBluetooth).count .audio_source_start = 1 ∧
    (startCaptureSeq starts d).totalActiveSessionRequests = 1 := by
  cases starts with
  | nil => simp at hn
  | cons env rest =>
    obtain ⟨_, h1, h2, h3⟩ := startCapture_first_call env d hlib hst ht (hok env (by simp))
    have hl : (startCapture env d).2.lib.loaded := by
      obtain ⟨_, _, _, l, _⟩ := h1
      rw [l]
      exact hlib
    obtain ⟨h4, h5⟩ := startCaptureSeq_started rest (startCapture env d).2 hl h2
    obtain ⟨evs, t, c, _, _⟩ := h1.captureStep_trans h4
    rw [startCaptureSeq_cons, passTrace_eq _ evs t]
    exact ⟨c, h5.trans h3⟩

theorem okCollab_allSucceed : okCollab.allSucceed := by
  refine ⟨okCollab_pipelineSucceeds, rfl, rfl, ?_, ?_, rfl, rfl, ?_, ?_, rfl, ?_⟩
  · simp [okCollab]
  · simp [okCollab]
  · simp [okCollab]
  · simp [okCollab]
  · intro _ _
    rfl

theorem loadedLibs_loaded : loadedLibs.loaded := by
  simp [BtLibs.loaded, loadedLibs]

/-- Two starts on the sample SINK device leave one counted session. -/
theorem startCaptureSeq_counts_first_start_example :
    (startCaptureSeq [okCollab, okCollab]
      (sampleA2dp .PAL_DEVICE_IN_BLUETOOTH_A2DP .DEC .SINK)).totalActiveSessionRequests = 1 :=
  (startCaptureSeq_counts_first_start [okCollab, okCollab]
    (sampleA2dp .PAL_DEVICE_IN_BLUETOOTH_A2DP .DEC .SINK) rfl loadedLibs_loaded
    (by decide) rfl (by decide)
    (fun env he => by
      simp only [List.mem_cons, List.mem_singleton, List.not_mem_nil, or_false, or_self] at he
      rw [he]
      exact okCollab_allSucceed)).2

theorem Event.not_isPcmOpen_of_isAbrSetup {e : Event} (h : e.isAbrSetup = true) :
    e.isPcmOpen = false := by
  cases e <;> first | rfl | simp [Event.isAbrSetup] at h

theorem Event.not_isPcmClose_of_isAbrSetup {e : Event} (h : e.isAbrSetup = true) :
    e.isPcmClose = false := by
  cases e <;> first | rfl | simp [Event.isAbrSetup] at h

theorem Event.not_isAllocate_of_isAbrSetup {e : Event} (h : e.isAbrSetup = true) :
    e.isAllocate = false := by
  cases e <;> first | rfl | simp [Event.isAbrSetup] at h

theorem abrTail_step {d r : Bluetooth} (d1 : Bluetooth) (pre : List Event)
    (htr : d1.trace = d.trace ++ pre) (hpre : ∀ e ∈ pre, e.isAbrSetup = true)
    (hcnt : d1.abrRefCnt = d.abrRefCnt) (hids : d1.fbpcmDevIds = d.fbpcmDevIds)
    (h : AbrTail d1 r) : AbrTail d r := by
  obtain ⟨evs, t, a, h⟩ := h
  have hp0 : pre.countP Event.isPcmOpen = 0 := by
    rw [List.countP_eq_zero]
    intro e he
    rw [Event.not_isPcmOpen_of_isAbrSetup (hpre e he)]
    simp
  have hc0 : pre.countP Event.isPcmClose = 0 := by
    rw [List.countP_eq_zero]
    intro e he
    rw [Event.not_isPcmClose_of_isAbrSetup (hpre e he)]
    simp
  have hs0 : Event.pcm_start 0 ∉ pre := by
    intro he
    have := hpre _ he
    simp [Event.isAbrSetup] at this
  refine ⟨pre ++ evs, by rw [t, htr, List.append_assoc], ?_, ?_⟩
  · intro e he
    rcases List.mem_append.1 he with h1 | h1
    · exact Event.not_isAllocate_of_isAbrSetup (hpre e h1)
    · exact a e h1
  · rcases h with ⟨s, c, f, o, cl, i⟩ | ⟨s, c, l, i⟩
    · left
      refine ⟨List.mem_append_right _ s, by rw [c, hcnt], f, ?_, ?_, by rw [i, hids]⟩
      · rw [List.countP_append, hp0, o]
      · rw [List.countP_append, hc0, cl]
    · right
      refine ⟨?_, by rw [c, hcnt], ?_, i⟩
      · intro he
        rcases List.mem_append.1 he with h1 | h1
        · exact hs0 h1
        · exact s h1
      · rw [← hids, ← l]
        have hne : evs ≠ [] := by
          intro h0
          rw [h0] at l
          simp at l
        rw [List.getLast?_append_of_ne_nil _ hne]

theorem startAbr_free_fe_tail (d : Bluetooth) (pre : List Event) (d0 : Bluetooth)
    (htr : d.trace = d0.trace ++ pre) (hs : Event.pcm_start 0 ∉ pre)
    (ha : ∀ e ∈ pre, e.isAllocate = false)
    (hcnt : d.abrRefCnt = d0.abrRefCnt) (hids : d.fbpcmDevIds = d0.fbpcmDevIds) :
    AbrTail d0 (startAbr_free_fe d) := by
  refine ⟨pre ++ [Event.freeFrontEndIds d.fbpcmDevIds], ?_, ?_, Or.inr ⟨?_, hcnt, ?_, rfl⟩⟩
  · simp [startAbr_free_fe, Bluetooth.log, htr]
  · intro e he
    rcases List.mem_append.1 he with h | h
    · exact ha e h
    · simp at h
      subst h
      rfl
  · simpa using hs
  · simp [hids]

theorem startAbr_err_pcm_open_tail (d : Bluetooth) (pre : List Event) (d0 : Bluetooth)
    (htr : d.trace = d0.trace ++ pre) (hs : Event.pcm_start 0 ∉ pre)
    (ha : ∀ e ∈ pre, e.isAllocate = false)
    (hcnt : d.abrRefCnt = d0.abrRefCnt) (hids : d.fbpcmDevIds = d0.fbpcmDevIds) :
    AbrTail d0 (startAbr_err_pcm_open d) := by
  unfold startAbr_err_pcm_open
  refine startAbr_free_fe_tail _ (pre ++ [Event.pcm_close d.fbPcm]) d0 ?_ ?_ ?_ hcnt hids
  · simp [Bluetooth.log, htr]
  · simpa using hs
  · intro e he
    rcases List.mem_append.1 he with h | h
    · exact ha e h
    · simp at h
      subst h
      rfl

theorem fbDevAcquire_frame (d : Bluetooth) :
    (fbDevAcquire d).trace = d.trace ∧ (fbDevAcquire d).abrRefCnt = d.abrRefCnt ∧
    (fbDevAcquire d).fbPcm = d.fbPcm ∧ (fbDevAcquire d).fbpcmDevIds = d.fbpcmDevIds ∧
    (fbDevAcquire d).codecFormat = d.codecFormat ∧ (fbDevAcquire d).codecType = d.codecType ∧
    (fbDevAcquire d).deviceAttr_id = d.deviceAttr_id := by
  unfold fbDevAcquire
  split <;> simp

theorem startAbr_started_frame (d : Bluetooth) :
    (startAbr_started d).trace = d.trace ∧ (startAbr_started d).abrRefCnt = d.abrRefCnt + 1 ∧
    (startAbr_started d).fbPcm = d.fbPcm ∧ (startAbr_started d).fbpcmDevIds = d.fbpcmDevIds := by
  have h1 := fbDevAcquire_frame d
  have h2 := fbDevAcquire_frame (fbDevAcquire d)
  simp only [startAbr_started]
  split_ifs <;> simp [h1, h2]

theorem startAbr_start_pcm_tail (env : Collab) (d : Bluetooth) :
    AbrTail d (startAbr_start_pcm env d) := by
  simp only [startAbr_start_pcm]
  split_ifs with h1 h2 h3
  · exact startAbr_free_fe_tail _ [Event.pcm_open (env.pcm_open (d.fbpcmDevIds.headD 0))] d
      (by simp [Bluetooth.log]) (by simp) (by simp [Event.isAllocate]) rfl rfl
  · exact startAbr_err_pcm_open_tail _
      [Event.pcm_open (env.pcm_open (d.fbpcmDevIds.headD 0)), Event.pcm_is_ready] d
      (by simp [Bluetooth.log]) (by simp) (by simp [Event.isAllocate]) rfl rfl
  · exact startAbr_err_pcm_open_tail _
      [Event.pcm_open (env.pcm_open (d.fbpcmDevIds.headD 0)), Event.pcm_is_ready,
        Event.pcm_start env.pcm_start] d
      (by simp [Bluetooth.log]) (by simpa using fun h => h3 h.symm) (by simp [Event.isAllocate]) rfl rfl
  · have h3' : env.pcm_start = 0 := by simpa using h3
    obtain ⟨f1, f2, f3, f4⟩ := startAbr_started_frame
      ((({ d.log (.pcm_open (env.pcm_open (d.fbpcmDevIds.headD 0))) with
          fbPcm := env.pcm_open (d.fbpcmDevIds.headD 0) } : Bluetooth).log .pcm_is_ready).log
        (.pcm_start env.pcm_start))
    refine ⟨[Event.pcm_open (env.pcm_open (d.fbpcmDevIds.headD 0)), Event.pcm_is_ready,
        Event.pcm_start env.pcm_start], ?_, by simp [Event.isAllocate],
      Or.inl ⟨by simp [h3'], ?_, ?_, ?_, ?_, ?_⟩⟩
    · rw [f1]
      simp [Bluetooth.log]
    · rw [f2]
      rfl
    · rw [f3]
      exact h1
    · simp [Event.isPcmOpen]
    · simp [Event.isPcmClose]
    · rw [f4]
      rfl

theorem Event.isAbrSetup_of_isPlugin {e : Event} (h : e.isPlugin = true) : e.isAbrSetup = true := by
  cases e <;> first | rfl | simp [Event.isPlugin] at h

theorem not_pcm_start_of_setup {pre : List Event} (hpre : ∀ e ∈ pre, e.isAbrSetup = true) :
    Event.pcm_start 0 ∉ pre := by
  intro he
  have := hpre _ he
  simp [Event.isAbrSetup] at this

theorem setupStep_of_eq {d d1 : Bluetooth} (ht : d1.trace = d.trace)
    (hc : d1.abrRefCnt = d.abrRefCnt) (hi : d1.fbpcmDevIds = d.fbpcmDevIds) : SetupStep d d1 :=
  ⟨[], by simp [ht], by simp, hc, hi⟩

theorem setupStep_refl (d : Bluetooth) : SetupStep d d := setupStep_of_eq rfl rfl rfl

theorem SetupStep.setupStep_trans {a b c : Bluetooth} (h1 : SetupStep a b) (h2 : SetupStep b c) :
    SetupStep a c := by
  obtain ⟨p1, t1, s1, c1, i1⟩ := h1
  obtain ⟨p2, t2, s2, c2, i2⟩ := h2
  refine ⟨p1 ++ p2, by rw [t2, t1, List.append_assoc], ?_, c2.trans c1, i2.trans i1⟩
  intro e he
  rcases List.mem_append.1 he with h | h
  · exact s1 e h
  · exact s2 e h

theorem setupStep_log (d : Bluetooth) (e : Event) (h : e.isAbrSetup = true) :
    SetupStep d (d.log e) :=
  ⟨[e], rfl, by simpa using h, rfl, rfl⟩

theorem setupStep_log_of {d d1 : Bluetooth} (e : Event) (h : e.isAbrSetup = true)
    (ht : d1.trace = d.trace ++ [e]) (hc : d1.abrRefCnt = d.abrRefCnt)
    (hi : d1.fbpcmDevIds = d.fbpcmDevIds) : SetupStep d d1 :=
  ⟨[e], ht, by simpa using h, hc, hi⟩

theorem abrTail_of_setup {d d1 r : Bluetooth} (h : SetupStep d d1) (ht : AbrTail d1 r) :
    AbrTail d r := by
  obtain ⟨pre, t, s, c, i⟩ := h
  exact abrTail_step d1 pre t s c i ht

theorem startAbr_free_fe_of_setup {d0 d : Bluetooth} (h : SetupStep d0 d) :
    AbrTail d0 (startAbr_free_fe d) := by
  obtain ⟨pre, t, s, c, i⟩ := h
  exact startAbr_free_fe_tail d pre d0 t (not_pcm_start_of_setup s)
    (fun e he => Event.not_isAllocate_of_isAbrSetup (s e he)) c i

theorem startAbr_err_pcm_open_of_setup {d0 d : Bluetooth} (h : SetupStep d0 d) :
    AbrTail d0 (startAbr_err_pcm_open d) := by
  obtain ⟨pre, t, s, c, i⟩ := h
  exact startAbr_err_pcm_open_tail d pre d0 t (not_pcm_start_of_setup s)
    (fun e he => Event.not_isAllocate_of_isAbrSetup (s e he)) c i

theorem setup_release_plugin (pl : PluginLoaded) (d : Bluetooth) :
    SetupStep d (startAbr_release_plugin pl d) := by
  unfold startAbr_release_plugin
  cases pl.btCodec with
  | none => exact setupStep_log _ _ (by rfl)
  | some c => exact (setupStep_log _ _ (by rfl)).setupStep_trans (setupStep_log _ _ (by rfl))

theorem startAbr_lc3_tail (env : Collab) (d : Bluetooth) : AbrTail d (startAbr_lc3 env d) := by
  have s1 : SetupStep d ({ d.log (.getInstance (fbDeviceId d)) with
      fbDev := env.getInstance (fbDeviceId d) } : Bluetooth) :=
    setupStep_log_of (.getInstance (fbDeviceId d)) rfl rfl rfl rfl
  have s2 := s1.setupStep_trans (setupStep_log _ (.getModuleInstanceId .COP_DEPACKETIZER_V2) rfl)
  simp only [startAbr_lc3]
  split
  · exact startAbr_err_pcm_open_of_setup s1
  · split_ifs
    · exact startAbr_err_pcm_open_of_setup s2
    · exact startAbr_err_pcm_open_of_setup s2
    · exact startAbr_err_pcm_open_of_setup (s2.setupStep_trans (setupStep_log _ _ (by rfl)))
    · exact abrTail_of_setup (s2.setupStep_trans (setupStep_log _ _ (by rfl))) (startAbr_start_pcm_tail env _)

theorem startAbr_speech_payload_tail (env : Collab) (f : FbDev) (miid : Nat) (d : Bluetooth) :
    AbrTail d (startAbr_speech_payload env f miid d) := by
  rcases getPluginPayload_cases env d d.codecType.inverse with
    ⟨st, evs, _, _, hev, he⟩ | ⟨pl, evs, _, hev, _, _, _, he⟩
  · simp only [startAbr_speech_payload, he]
    exact startAbr_err_pcm_open_of_setup
      ⟨evs, rfl, fun e h => Event.isAbrSetup_of_isPlugin (hev e h), rfl, rfl⟩
  · have s1 : SetupStep d ({ d with trace := d.trace ++ evs } : Bluetooth) :=
      ⟨evs, rfl, fun e h => Event.isAbrSetup_of_isPlugin (hev e h), rfl, rfl⟩
    have s2 := fun x : Bluetooth => setup_release_plugin pl x
    have s3 : SetupStep d ({ d with
        trace := d.trace ++ evs,
        fbDev := some { f with codecConfig :=
          { f.codecConfig with sample_rate := pl.out_buf.sample_rate,
                               bit_width := pl.out_buf.bit_format,
                               channels := pl.out_buf.channel_count } } } : Bluetooth) :=
      ⟨evs, rfl, fun e h => Event.isAbrSetup_of_isPlugin (hev e h), rfl, rfl⟩
    simp only [startAbr_speech_payload, he]
    split_ifs
    · exact startAbr_err_pcm_open_of_setup s1
    · exact startAbr_err_pcm_open_of_setup (s3.setupStep_trans (s2 _))
    · exact startAbr_err_pcm_open_of_setup ((s3.setupStep_trans (s2 _)).setupStep_trans (setupStep_log _ _ (by rfl)))
    · exact abrTail_of_setup ((s3.setupStep_trans (s2 _)).setupStep_trans (setupStep_log _ _ (by rfl)))
        (startAbr_start_pcm_tail env _)

theorem startAbr_speech_tail (env : Collab) (d : Bluetooth) : AbrTail d (startAbr_speech env d) := by
  have s1 : SetupStep d ({ d.log (.getInstance (fbDeviceId d)) with
      fbDev := env.getInstance (fbDeviceId d) } : Bluetooth) :=
    setupStep_log_of (.getInstance (fbDeviceId d)) rfl rfl rfl rfl
  simp only [startAbr_speech]
  split
  · exact startAbr_err_pcm_open_of_setup s1
  · split_ifs
    · exact abrTail_of_setup s1 (startAbr_start_pcm_tail env _)
    · exact startAbr_err_pcm_open_of_setup (s1.setupStep_trans (setupStep_log _ _ (by rfl)))
    · exact abrTail_of_setup (s1.setupStep_trans (setupStep_log _ _ (by rfl)))
        (startAbr_speech_payload_tail env _ _ _)
    · exact startAbr_err_pcm_open_of_setup (s1.setupStep_trans (setupStep_log _ _ (by rfl)))
    · exact abrTail_of_setup (s1.setupStep_trans (setupStep_log _ _ (by rfl)))
        (startAbr_speech_payload_tail env _ _ _)

theorem startAbr_codec_tail (env : Collab) (d : Bluetooth) : AbrTail d (startAbr_codec env d) := by
  simp only [startAbr_codec]
  split_ifs
  · exact startAbr_speech_tail env d
  · exact startAbr_lc3_tail env d
  · exact startAbr_start_pcm_tail env d

theorem startAbr_mixer_tail (env : Collab) (d : Bluetooth) : AbrTail d (startAbr_mixer env d) := by
  have s1 := setupStep_log d .getAudioMixer rfl
  have s2 := s1.setupStep_trans (setupStep_log _ .mixer_get_ctl_connect rfl)
  have s3 := s2.setupStep_trans (setupStep_log _ .mixer_ctl_set_enum_by_string rfl)
  have s4 := s3.setupStep_trans (setupStep_log _ .mixer_get_ctl_feedback rfl)
  have s5 := s4.setupStep_trans (setupStep_log _ (.mixer_ctl_set_value 1) rfl)
  simp only [startAbr_mixer]
  split_ifs
  · exact startAbr_free_fe_of_setup s1
  · exact startAbr_free_fe_of_setup s2
  · exact startAbr_free_fe_of_setup s3
  · exact startAbr_free_fe_of_setup s4
  · exact startAbr_free_fe_of_setup s5
  · exact abrTail_of_setup s5 (startAbr_codec_tail env _)

/-- The ways startAbr runs when the reference count is not positive: metadata
push failure, media configuration failure, no front-end id, or the part that
runs with front-end ids allocated. -/
theorem startAbr_cases (env : Collab) (d : Bluetooth) (h0 : ¬ d.abrRefCnt > 0) :
    (∃ evs, (∀ e ∈ evs, e.isAbrSetup = true) ∧
      startAbr env d = { d with trace := d.trace ++ evs }) ∨
    (∃ evs, (∀ e ∈ evs, e.isAbrSetup = true) ∧
      startAbr env d = { d with trace := d.trace ++ evs ++ [Event.allocateFrontEndIds []],
                                fbpcmDevIds := [] }) ∨
    (∃ evs ids, (∀ e ∈ evs, e.isAbrSetup = true) ∧ ids ≠ [] ∧
      AbrTail { d with trace := d.trace ++ evs ++ [Event.allocateFrontEndIds ids],
                       fbpcmDevIds := ids } (startAbr env d)) := by
  simp only [startAbr, h0, if_false]
  split_ifs with h1 h2 h3
  · exact Or.inl ⟨[Event.setDeviceMetadata (fbDeviceId d) (abrKeyVector d)],
      by simp [Event.isAbrSetup], rfl⟩
  · exact Or.inl ⟨[Event.setDeviceMetadata (fbDeviceId d) (abrKeyVector d),
      Event.setDeviceMediaConfig (fbDeviceId d)], by simp [Event.isAbrSetup],
      by simp [Bluetooth.log]⟩
  · refine Or.inr (Or.inl ⟨[Event.setDeviceMetadata (fbDeviceId d) (abrKeyVector d),
      Event.setDeviceMediaConfig (fbDeviceId d)], by simp [Event.isAbrSetup], ?_⟩)
    simp [Bluetooth.log, h3]
  · refine Or.inr (Or.inr ⟨[Event.setDeviceMetadata (fbDeviceId d) (abrKeyVector d),
      Event.setDeviceMediaConfig (fbDeviceId d)], env.allocateFrontEndIds (abrDir d),
      by simp [Event.isAbrSetup], h3, ?_⟩)
    have := startAbr_mixer_tail env ({ (d.log (.setDeviceMetadata (fbDeviceId d) (abrKeyVector d))).log
        (.setDeviceMediaConfig (fbDeviceId d)) |>.log
        (.allocateFrontEndIds (env.allocateFrontEndIds (abrDir d))) with
        fbpcmDevIds := env.allocateFrontEndIds (abrDir d) } : Bluetooth)
    simpa [Bluetooth.log] using this

/-- The outcome of a startAbr call entered with reference count 0. -/
theorem startAbr_spec (env : Collab) (d : Bluetooth) (h0 : d.abrRefCnt = 0) :
    ∃ evs, (startAbr env d).trace = d.trace ++ evs ∧
      ((Event.pcm_start 0 ∈ evs ∧ (startAbr env d).abrRefCnt = 1 ∧ (startAbr env d).fbPcm ≠ none ∧
          evs.countP Event.isPcmOpen = 1 ∧ evs.countP Event.isPcmClose = 0) ∨
       (Event.pcm_start 0 ∉ evs ∧ (startAbr env d).abrRefCnt = 0 ∧
          ∀ ids, ids ≠ [] → Event.allocateFrontEndIds ids ∈ evs →
            evs.getLast? = some (.freeFrontEndIds ids) ∧ (startAbr env d).fbpcmDevIds = [])) := by
  rcases startAbr_cases env d (by omega) with ⟨evs, hs, e⟩ | ⟨evs, hs, e⟩ | ⟨evs, ids, hs, hne, t⟩
  · rw [e]
    refine ⟨evs, rfl, Or.inr ⟨not_pcm_start_of_setup hs, h0, ?_⟩⟩
    intro ids _ hm
    have := Event.not_isAllocate_of_isAbrSetup (hs _ hm)
    simp [Event.isAllocate] at this
  · rw [e]
    refine ⟨evs ++ [Event.allocateFrontEndIds []], by simp, Or.inr ⟨?_, h0, ?_⟩⟩
    · simpa using not_pcm_start_of_setup hs
    · intro ids hne hm
      rcases List.mem_append.1 hm with h | h
      · have := Event.not_isAllocate_of_isAbrSetup (hs _ h)
        simp [Event.isAllocate] at this
      · simp at h
        exact absurd h hne
  · obtain ⟨tl, ht, ha, hc⟩ := t
    have hpre : ∀ e ∈ evs ++ [Event.allocateFrontEndIds ids], e.isPcmOpen = false ∧
        e.isPcmClose = false ∧ e ≠ Event.pcm_start 0 := by
      intro e he
      rcases List.mem_append.1 he with h | h
      · have h1 := hs e h
        refine ⟨Event.not_isPcmOpen_of_isAbrSetup h1, Event.not_isPcmClose_of_isAbrSetup h1, ?_⟩
        intro h2
        rw [h2] at h1
        simp [Event.isAbrSetup] at h1
      · simp at h
        subst h
        exact ⟨rfl, rfl, by simp⟩
    have hp0 : (evs ++ [Event.allocateFrontEndIds ids]).countP Event.isPcmOpen = 0 := by
      rw [List.countP_eq_zero]
      intro e he
      rw [(hpre e he).1]
      simp
    have hc0 : (evs ++ [Event.allocateFrontEndIds ids]).countP Event.isPcmClose = 0 := by
      rw [List.countP_eq_zero]
      intro e he
      rw [(hpre e he).2.1]
      simp
    refine ⟨evs ++ [Event.allocateFrontEndIds ids] ++ tl, by rw [ht]; simp, ?_⟩
    rcases hc with ⟨s, c, f, o, cl, _⟩ | ⟨s, c, l, i⟩
    · left
      refine ⟨List.mem_append_right _ s, by rw [c]; simp [h0], f, ?_, ?_⟩
      · rw [List.countP_append, hp0, o]
      · rw [List.countP_append, hc0, cl]
    · right
      refine ⟨?_, by rw [c]; exact h0, ?_⟩
      · intro hm
        rcases List.mem_append.1 hm with h | h
        · exact (hpre _ h).2.2 rfl
        · exact s h
      · intro ids2 _ hm
        have hids : ids2 = ids := by
          rcases List.mem_append.1 hm with h | h
          · rcases List.mem_append.1 h with h | h
            · have := Event.not_isAllocate_of_isAbrSetup (hs _ h)
              simp [Event.isAllocate] at this
            · simpa using h
          · have := ha _ h
            simp [Event.isAllocate] at this
        subst hids
        have hne2 : tl ≠ [] := by
          intro h
          rw [h] at l
          simp at l
        exact ⟨by rw [List.getLast?_append_of_ne_nil _ hne2]; exact l, i⟩

theorem noPcmStep_of_eq {d d1 : Bluetooth} (ht : d1.trace = d.trace)
    (hc : d1.abrRefCnt = d.abrRefCnt) : NoPcmStep d d1 :=
  ⟨[], by simp [ht], by simp, hc⟩

theorem NoPcmStep.noPcmStep_trans {a b c : Bluetooth} (h1 : NoPcmStep a b) (h2 : NoPcmStep b c) :
    NoPcmStep a c := by
  obtain ⟨p1, t1, s1, c1⟩ := h1
  obtain ⟨p2, t2, s2, c2⟩ := h2
  refine ⟨p1 ++ p2, by rw [t2, t1, List.append_assoc], ?_, c2.trans c1⟩
  intro e he
  rcases List.mem_append.1 he with h | h
  · exact s1 e h
  · exact s2 e h

theorem noPcmStep_log (d : Bluetooth) (e : Event) (h : e.isPcm = false) : NoPcmStep d (d.log e) :=
  ⟨[e], rfl, by simpa using h, rfl⟩

theorem noPcm_fbDevRelease (d : Bluetooth) : NoPcmStep d (fbDevRelease d) := by
  unfold fbDevRelease
  split
  · exact noPcmStep_of_eq rfl rfl
  · exact noPcmStep_of_eq rfl rfl

theorem noPcm_stopAbr_free_fe (d : Bluetooth) : NoPcmStep d (stopAbr_free_fe d) := by
  simp only [stopAbr_free_fe]
  split_ifs
  · exact ⟨[Event.freeFrontEndIds d.fbpcmDevIds], by simp [Bluetooth.log], by simp [Event.isPcm], rfl⟩
  · exact noPcmStep_of_eq rfl rfl

theorem noPcm_stopAbr_reset_mixer (env : Collab) (d : Bluetooth) :
    NoPcmStep d (stopAbr_reset_mixer env d) := by
  simp only [stopAbr_reset_mixer]
  split_ifs
  · exact noPcmStep_log _ _ (by rfl)
  · exact (noPcmStep_log _ _ (by rfl)).noPcmStep_trans (noPcmStep_log _ _ (by rfl))

theorem noPcm_stopAbr_release_fbDev (d : Bluetooth) : NoPcmStep d (stopAbr_release_fbDev d) := by
  simp only [stopAbr_release_fbDev]
  split_ifs
  · exact (noPcm_fbDevRelease _).noPcmStep_trans (noPcm_fbDevRelease _)
  · exact noPcm_fbDevRelease _
  · exact noPcm_fbDevRelease _
  · exact noPcmStep_of_eq rfl rfl

theorem startAbr_again (env : Collab) (d : Bluetooth) (h : d.abrRefCnt > 0) :
    startAbr env d = { d with abrRefCnt := d.abrRefCnt + 1 } := by
  simp [startAbr, h]

theorem stopAbr_not_last (env : Collab) (d : Bluetooth) (hf : d.fbPcm ≠ none)
    (h : d.abrRefCnt - 1 ≠ 0) : stopAbr env d = { d with abrRefCnt := d.abrRefCnt - 1 } := by
  simp [stopAbr, hf, h]

theorem stopAbr_last (env : Collab) (d : Bluetooth) (hf : d.fbPcm ≠ none)
    (h : d.abrRefCnt - 1 = 0) :
    stopAbr env d = stopAbr_teardown env { d with abrRefCnt := d.abrRefCnt - 1 } := by
  simp [stopAbr, hf, h]

/-- The teardown of stopAbr stops and closes the hostless stream once and keeps
the reference count. -/
theorem stopAbr_teardown_spec (env : Collab) (d : Bluetooth) :
    ∃ evs, (stopAbr_teardown env d).trace = d.trace ++ evs ∧
      evs.countP Event.isPcmClose = 1 ∧ evs.count .pcm_stop = 1 ∧
      evs.countP Event.isPcmOpen = 0 ∧
      (stopAbr_teardown env d).abrRefCnt = d.abrRefCnt := by
  have key : NoPcmStep ((d.log .pcm_stop).log (.pcm_close d.fbPcm)) (stopAbr_teardown env d) := by
    have s3 := noPcmStep_log ((d.log .pcm_stop).log (.pcm_close d.fbPcm)) .getAudioMixer rfl
    simp only [stopAbr_teardown]
    split_ifs
    · exact s3.noPcmStep_trans (noPcm_stopAbr_free_fe _)
    · exact ((s3.noPcmStep_trans (noPcm_stopAbr_reset_mixer env _)).noPcmStep_trans (noPcm_stopAbr_release_fbDev _)).noPcmStep_trans
        (noPcm_stopAbr_free_fe _)
  obtain ⟨evs, t, q, c⟩ := key
  have h1 : evs.countP Event.isPcmClose = 0 := by
    rw [List.countP_eq_zero]
    intro e he
    have := q e he
    cases e <;> simp_all [Event.isPcm, Event.isPcmClose]
  have h2 : evs.count .pcm_stop = 0 := by
    rw [List.count_eq_zero]
    intro he
    have := q _ he
    simp [Event.isPcm] at this
  have h3 : evs.countP Event.isPcmOpen = 0 := by
    rw [List.countP_eq_zero]
    intro e he
    have := q e he
    cases e <;> simp_all [Event.isPcm, Event.isPcmOpen]
  refine ⟨[Event.pcm_stop, Event.pcm_close d.fbPcm] ++ evs, ?_, ?_, ?_, ?_, c⟩
  · rw [t]
    simp [Bluetooth.log]
  · rw [List.countP_append, h1]
    simp [Event.isPcmClose]
  · rw [List.count_append, h2]
    simp
  · rw [List.countP_append, h3]
    simp [Event.isPcmOpen]

/-- C8: a startAbr call entered with abrRefCnt = 0 that fails (the hostless
stream is not started: no pcm_start call returns 0) returns with abrRefCnt = 0;
and when it had allocated front-end ids, the last call it makes is the release
of exactly these ids and fbpcmDevIds is empty on return. -/
theorem C8_startAbr_failure_releases (env : Collab) (d : Bluetooth) (h0 : d.abrRefCnt = 0)
    (hfail : Event.pcm_start 0 ∉ passTrace d (startAbr env d)) :
    (startAbr env d).abrRefCnt = 0 ∧
    ∀ ids, ids ≠ [] → Event.allocateFrontEndIds ids ∈ passTrace d (startAbr env d) →
      (passTrace d (startAbr env d)).getLast? = some (.freeFrontEndIds ids) ∧
      (startAbr env d).fbpcmDevIds = [] := by
  obtain ⟨evs, t, h⟩ := startAbr_spec env d h0
  rw [passTrace_eq d evs t] at hfail ⊢
  rcases h with ⟨s, _⟩ | ⟨_, c, r⟩
  · exact absurd s hfail
  · exact ⟨c, r⟩

/-- C7: on a device with abrRefCnt = 0 whose first startAbr succeeds (the
hostless stream is started), a second startAbr raises abrRefCnt to 2 and makes no
call at all, so pcm_open was called exactly once in total; the first stopAbr
lowers abrRefCnt to 1 and makes no call; the second stopAbr lowers it to 0 and
stops and closes the hostless stream once; pcm_close is called exactly once over
the four calls. -/
theorem C7_abr_reference_counting (env1 env2 env3 env4 : Collab) (d : Bluetooth)
    (h0 : d.abrRefCnt = 0)
    (hs : Event.pcm_start 0 ∈ passTrace d (startAbr env1 d)) :
    (startAbr env2 (startAbr env1 d)).abrRefCnt = 2 ∧
    passTrace (startAbr env1 d) (startAbr env2 (startAbr env1 d)) = [] ∧
    (passTrace d (startAbr env2 (startAbr env1 d))).countP Event.isPcmOpen = 1 ∧
    (stopAbr env3 (startAbr env2 (startAbr env1 d))).abrRefCnt = 1 ∧
    passTrace (startAbr env2 (startAbr env1 d))
      (stopAbr env3 (startAbr env2 (startAbr env1 d))) = [] ∧
    (stopAbr env4 (stopAbr env3 (startAbr env2 (startAbr env1 d)))).abrRefCnt = 0 ∧
    (passTrace (stopAbr env3 (startAbr env2 (startAbr env1 d)))
      (stopAbr env4 (stopAbr env3 (startAbr env2 (startAbr env1 d))))).countP Event.isPcmClose = 1 ∧
    (passTrace (stopAbr env3 (startAbr env2 (startAbr env1 d)))
      (stopAbr env4 (stopAbr env3 (startAbr env2 (startAbr env1 d))))).count .pcm_stop = 1 ∧
    (passTrace d (stopAbr env4 (stopAbr env3 (startAbr env2 (startAbr env1 d))))).countP
      Event.isPcmClose = 1 ∧
    (passTrace d (stopAbr env4 (stopAbr env3 (startAbr env2 (startAbr env1 d))))).countP
      Event.isPcmOpen = 1 := by
  obtain ⟨evs, t, h⟩ := startAbr_spec env1 d h0
  rw [passTrace_eq d evs t] at hs
  generalize startAbr env1 d = d1 at t h ⊢
  rcases h with ⟨_, c, f, o, cl⟩ | ⟨s, _⟩
  · have e2 : startAbr env2 d1 = { d1 with abrRefCnt := 2 } := by
      rw [startAbr_again env2 d1 (by omega), c]
      rfl
    have e3 : stopAbr env3 (startAbr env2 d1) = { d1 with abrRefCnt := 1 } := by
      rw [e2, stopAbr_not_last env3 ({ d1 with abrRefCnt := 2 } : Bluetooth) f (by simp)]
      simp
    have e4 : stopAbr env4 (stopAbr env3 (startAbr env2 d1)) =
        stopAbr_teardown env4 { d1 with abrRefCnt := 0 } := by
      rw [e3, stopAbr_last env4 ({ d1 with abrRefCnt := 1 } : Bluetooth) f (by simp)]
      simp
    obtain ⟨evs4, t4, c4, s4, o4, r4⟩ := stopAbr_teardown_spec env4 { d1 with abrRefCnt := 0 }
    rw [e4, e3, e2]
    have t04 : (stopAbr_teardown env4 { d1 with abrRefCnt := 0 }).trace =
        d.trace ++ (evs ++ evs4) := by
      rw [t4]
      simp [t]
    refine ⟨rfl, ?_, ?_, rfl, ?_, r4, ?_, ?_, ?_, ?_⟩
    · exact passTrace_eq d1 [] (by simp)
    · exact (congrArg (List.countP Event.isPcmOpen) (passTrace_eq d evs t)).trans o
    · exact passTrace_eq ({ d1 with abrRefCnt := 2 } : Bluetooth) [] (by simp)
    · exact (congrArg (List.countP Event.isPcmClose)
        (passTrace_eq ({ d1 with abrRefCnt := 1 } : Bluetooth) evs4 t4)).trans c4
    · exact (congrArg (List.count Event.pcm_stop)
        (passTrace_eq ({ d1 with abrRefCnt := 1 } : Bluetooth) evs4 t4)).trans s4
    · rw [passTrace_eq d (evs ++ evs4) t04, List.countP_append, cl, c4]
    · rw [passTrace_eq d (evs ++ evs4) t04, List.countP_append, o, o4]
  · exact absurd hs s

/-- C8 at the sample A2DP encoder device when pcm_start fails: the ids [21]
were allocated, and they are released. -/
theorem C8_startAbr_failure_releases_witness :
    Event.allocateFrontEndIds [21] ∈
      passTrace (sampleDevice .PAL_DEVICE_OUT_BLUETOOTH_A2DP .ENC .CODEC_TYPE_LC3)
        (startAbr pcmStartFailsCollab
          (sampleDevice .PAL_DEVICE_OUT_BLUETOOTH_A2DP .ENC .CODEC_TYPE_LC3)) ∧
    (startAbr pcmStartFailsCollab
      (sampleDevice .PAL_DEVICE_OUT_BLUETOOTH_A2DP .ENC .CODEC_TYPE_LC3)).abrRefCnt = 0 ∧
    (passTrace (sampleDevice .PAL_DEVICE_OUT_BLUETOOTH_A2DP .ENC .CODEC_TYPE_LC3)
      (startAbr pcmStartFailsCollab
        (sampleDevice .PAL_DEVICE_OUT_BLUETOOTH_A2DP .ENC .CODEC_TYPE_LC3))).getLast? =
      some (.freeFrontEndIds [21]) :=
  have h := C8_startAbr_failure_releases pcmStartFailsCollab
    (sampleDevice .PAL_DEVICE_OUT_BLUETOOTH_A2DP .ENC .CODEC_TYPE_LC3) rfl (by decide)
  ⟨by decide, h.1, (h.2 [21] (by decide) (by decide)).1⟩

/-- C7 at the sample A2DP encoder device with collaborators that all succeed. -/
theorem C7_abr_reference_counting_witness :
    Event.pcm_start 0 ∈
      passTrace (sampleDevice .PAL_DEVICE_OUT_BLUETOOTH_A2DP .ENC .CODEC_TYPE_LC3)
        (startAbr okCollab (sampleDevice .PAL_DEVICE_OUT_BLUETOOTH_A2DP .ENC .CODEC_TYPE_LC3)) ∧
    (startAbr okCollab (startAbr okCollab
      (sampleDevice .PAL_DEVICE_OUT_BLUETOOTH_A2DP .ENC .CODEC_TYPE_LC3))).abrRefCnt = 2 ∧
    (stopAbr okCollab (stopAbr okCollab (startAbr okCollab (startAbr okCollab
      (sampleDevice .PAL_DEVICE_OUT_BLUETOOTH_A2DP .ENC .CODEC_TYPE_LC3))))).abrRefCnt = 0 :=
  have h := C7_abr_reference_counting okCollab okCollab okCollab okCollab
    (sampleDevice .PAL_DEVICE_OUT_BLUETOOTH_A2DP .ENC .CODEC_TYPE_LC3) rfl (by decide)
  ⟨by decide, h.1, h.2.2.2.2.2.1⟩

/-! ## LC3 stream map: the parsing loop and the fill loops -/

theorem parseLoop_stuck (s : List Char) (m : StreamMapMatch) (h : regex_search s = some m)
    (hbad : atoi m.m1 > 1 ∨ atoi m.m2 > 1) (fuel : Nat) :
    ∀ (audio_location : Nat) (steamMap : List lc3_stream_map_t),
      parseLoop fuel s audio_location steamMap = none := by
  induction fuel with
  | zero => intro _ _; rfl
  | succ n ih =>
    intro loc acc
    have hc : atoi m.m1 > 1 ∨ atoi m.m2 > 1 ∨ locationOf m.m3 loc > 2 := by
      rcases hbad with h1 | h1
      · exact Or.inl h1
      · exact Or.inr (Or.inl h1)
    simp only [parseLoop, h, if_pos hc]
    exact ih _ _

theorem parseLoop_valid (s : List Char) (m : StreamMapMatch) (h : regex_search s = some m)
    {audio_location : Nat}
    (hok : ¬ (atoi m.m1 > 1 ∨ atoi m.m2 > 1 ∨ locationOf m.m3 audio_location > 2))
    (fuel : Nat) (steamMap : List lc3_stream_map_t) :
    parseLoop (fuel + 1) s audio_location steamMap =
      parseLoop fuel m.suffix (locationOf m.m3 audio_location)
        (steamMap ++ [⟨locationOf m.m3 audio_location, atoi m.m1, atoi m.m2⟩]) := by
  simp only [parseLoop, h, if_neg hok]

theorem parseLoop_done (s : List Char) (h : regex_search s = none)
    (fuel : Nat) (audio_location : Nat) (steamMap : List lc3_stream_map_t) :
    parseLoop (fuel + 1) s audio_location steamMap = some steamMap := by
  simp only [parseLoop, h]

/-- Claim C9, evaluated at "0,0,L 1,1,R". The parsing loop ends with the two
entries (1, 0, 0) and (2, 1, 1) and both stream_map_size members are 2, but the
fill loops advance the index after each member: element 0 receives only the
audio_location of the first entry, element 1 only the stream_id of the first
entry, and the writes at indices 2, 3, 4, 5 are outside the two-element
arrays. Neither element holds the triple the claim expects. -/
theorem C9_stream_map_fill_strided (fuel : Nat) (lc3CodecInfo : audio_lc3_codec_cfg_t) :
    parseLoop (fuel + 3) "0,0,L 1,1,R".toList 0 [] = some [⟨1, 0, 0⟩, ⟨2, 1, 1⟩] ∧
    convertCodecInfo (fuel + 3) lc3CodecInfo "0,0,L 1,1,R" =
      some { enc_stream_map_size := 2,
             streamMapOut := some [⟨some 1, none, none⟩, ⟨none, some 0, none⟩],
             dec_stream_map_size := 2,
             streamMapIn := some [⟨some 1, none, none⟩, ⟨none, some 0, none⟩],
             decoder_output_channel := some lc3_channel.CH_STEREO,
             writesOut := [0, 1, 2, 3, 4, 5],
             writesIn := [0, 1, 2, 3, 4, 5] } := by
  have h : parseLoop (fuel + 3) "0,0,L 1,1,R".toList 0 [] = some [⟨1, 0, 0⟩, ⟨2, 1, 1⟩] := by
    have e1 : regex_search "0,0,L 1,1,R".toList = some ⟨'0', '0', 'L', " 1,1,R".toList⟩ := by
      decide
    have e2 : regex_search " 1,1,R".toList = some ⟨'1', '1', 'R', []⟩ := by decide
    rw [parseLoop_valid _ _ e1 (by decide), parseLoop_valid _ _ e2 (by decide),
      parseLoop_done [] rfl]
    rfl
  refine ⟨h, ?_⟩
  simp only [convertCodecInfo, h]
  rw [if_neg (by decide)]
  rfl

/-- Claim C10, evaluated at "9,0,L". The pattern matches the whole string with
stream id 9; the range check takes the `continue` before the subject is
replaced by the suffix of the match, so every iteration searches the same
string again: for no bound on the number of iterations does the parsing loop
end, and convertCodecInfo does not return. -/
theorem C10_invalid_entry_never_skipped (lc3CodecInfo : audio_lc3_codec_cfg_t) :
    regex_search "9,0,L".toList = some ⟨'9', '0', 'L', []⟩ ∧
    ∀ fuel : Nat,
      parseLoop fuel "9,0,L".toList 0 [] = none ∧
      convertCodecInfo fuel lc3CodecInfo "9,0,L" = none := by
  have e : regex_search "9,0,L".toList = some ⟨'9', '0', 'L', []⟩ := by decide
  refine ⟨e, fun fuel => ?_⟩
  have h := parseLoop_stuck _ _ e (Or.inl (by decide)) fuel 0 []
  refine ⟨h, ?_⟩
  simp only [convertCodecInfo, h]

/-! ## Device attributes and routing metadata -/

theorem updateDeviceAttributes_config (d : Bluetooth) :
    (updateDeviceAttributes d).deviceAttr_config =
      deriveDeviceAttributes d.codecFormat d.codecType d.codecConfig d.deviceAttr_config := by
  rcases d with ⟨id, cfg, cp, fmt, ct, ci, cc, abr, conf, l3, tws, ds, ref, ph, pc, fp, ids, fb, dc, tr⟩
  cases fmt <;> cases ct <;>
    simp only [updateDeviceAttributes, deriveDeviceAttributes, SAMPLINGRATE_96K] <;>
    simp <;>
    split_ifs <;> simp_all <;> omega

/-- C15: for every device, the attributes updateDeviceAttributes leaves are
those the specification derives: 96000 and the compressed tag for
aptX-Adaptive-Speech and LC3; twice the codec rate when the rate is 44100 or
48000 and the format is AAC or SBC with direction DEC, or LDAC or aptX-Adaptive
with direction ENC; the codec rate otherwise; the format tag, bit width and
channels are kept outside the speech and LC3 case. -/
theorem C15_device_attributes_table (d : Bluetooth) :
    (updateDeviceAttributes d).deviceAttr_config =
      deriveDeviceAttributes d.codecFormat d.codecType d.codecConfig d.deviceAttr_config ∧
    (updateDeviceAttributes d).deviceAttr_id = d.deviceAttr_id :=
  ⟨updateDeviceAttributes_config d, by simp [updateDeviceAttributes]⟩

theorem updateDeviceAttributes_eq (d : Bluetooth) :
    updateDeviceAttributes d =
      { d with deviceAttr_config :=
          deriveDeviceAttributes d.codecFormat d.codecType d.codecConfig d.deviceAttr_config } := by
  have h := updateDeviceAttributes_config d
  have e : updateDeviceAttributes d =
      { d with deviceAttr_config := (updateDeviceAttributes d).deviceAttr_config } := by
    simp [updateDeviceAttributes]
  rw [e, h]

/-- C16: updateDeviceAttributes is a function of the codec format, the
direction, the codec configuration and the prior device attributes: two devices
that agree on these get the same device attributes; and applied to its own
result it changes nothing. -/
theorem C16_device_attributes_pure_idempotent (d1 d2 : Bluetooth)
    (hf : d1.codecFormat = d2.codecFormat) (ht : d1.codecType = d2.codecType)
    (hc : d1.codecConfig = d2.codecConfig) (hid : d1.deviceAttr_id = d2.deviceAttr_id)
    (ha : d1.deviceAttr_config = d2.deviceAttr_config) :
    (updateDeviceAttributes d1).deviceAttr_config = (updateDeviceAttributes d2).deviceAttr_config ∧
    (updateDeviceAttributes d1).deviceAttr_id = (updateDeviceAttributes d2).deviceAttr_id ∧
    updateDeviceAttributes (updateDeviceAttributes d1) = updateDeviceAttributes d1 := by
  refine ⟨?_, ?_, ?_⟩
  · rw [updateDeviceAttributes_eq, updateDeviceAttributes_eq]
    simp only [hf, ht, hc, ha]
  · rw [updateDeviceAttributes_eq, updateDeviceAttributes_eq]
    exact hid
  · rw [updateDeviceAttributes_eq d1, updateDeviceAttributes_eq]
    simp only [deriveDeviceAttributes]
    split_ifs <;> rfl

theorem C16_device_attributes_pure_idempotent_witness :
    (updateDeviceAttributes (sampleDevice .PAL_DEVICE_OUT_BLUETOOTH_A2DP .ENC .CODEC_TYPE_LDAC)).deviceAttr_config =
      (updateDeviceAttributes
        { sampleDevice .PAL_DEVICE_OUT_BLUETOOTH_A2DP .ENC .CODEC_TYPE_LDAC with
            isConfigured := true }).deviceAttr_config ∧
    updateDeviceAttributes
        (updateDeviceAttributes (sampleDevice .PAL_DEVICE_OUT_BLUETOOTH_A2DP .ENC .CODEC_TYPE_LDAC)) =
      updateDeviceAttributes (sampleDevice .PAL_DEVICE_OUT_BLUETOOTH_A2DP .ENC .CODEC_TYPE_LDAC) :=
  have h := C16_device_attributes_pure_idempotent
    (sampleDevice .PAL_DEVICE_OUT_BLUETOOTH_A2DP .ENC .CODEC_TYPE_LDAC)
    { sampleDevice .PAL_DEVICE_OUT_BLUETOOTH_A2DP .ENC .CODEC_TYPE_LDAC with isConfigured := true }
    rfl rfl rfl rfl rfl
  ⟨h.1, h.2.2⟩

/-- C17 as stated fails: on a SCO device with a codec format that has no
explicit mapping, the key set pushed by updateDeviceMetadata has no BT_FORMAT
key at all, so none carrying GENERIC. -/
theorem C17_counterexample :
    updateDeviceMetadata okCollab
        (sampleDevice .PAL_DEVICE_OUT_BLUETOOTH_SCO .ENC .CODEC_TYPE_SBC) =
      (0, (sampleDevice .PAL_DEVICE_OUT_BLUETOOTH_SCO .ENC .CODEC_TYPE_SBC).log
        (.setDeviceMetadata .PAL_DEVICE_OUT_BLUETOOTH_SCO
          [(.DEVICERX, .BT_RX), (.BT_PROFILE, .SCO)])) ∧
    scoFormatMapped .CODEC_TYPE_SBC = false ∧
    (GraphKey.BT_FORMAT, GraphValue.GENERIC) ∉
      [(GraphKey.DEVICERX, GraphValue.BT_RX), (GraphKey.BT_PROFILE, GraphValue.SCO)] := by
  decide

/-- C17, amended: on an A2DP device of either direction, for every codec format
without an explicit mapping (not LDAC, aptX-Adaptive, LC3, nor AAC with ABR
enabled), updateDeviceMetadata makes one setDeviceMetadata call whose key set
contains BT_FORMAT = GENERIC; on a SCO device of either direction, for every
codec format without an explicit mapping (not aptX-Adaptive-Speech, not LC3),
the key set of the call contains no BT_FORMAT key. -/
theorem C17_generic_format_on_a2dp (env : Collab) (d : Bluetooth) :
    ((d.deviceAttr_id = .PAL_DEVICE_OUT_BLUETOOTH_A2DP ∨
        d.deviceAttr_id = .PAL_DEVICE_IN_BLUETOOTH_A2DP) →
      a2dpFormatMapped d.codecFormat d.isAbrEnabled = false →
      ∃ keys, passTrace d (updateDeviceMetadata env d).2 =
          [Event.setDeviceMetadata d.deviceAttr_id keys] ∧
        (GraphKey.BT_FORMAT, GraphValue.GENERIC) ∈ keys) ∧
    ((d.deviceAttr_id = .PAL_DEVICE_OUT_BLUETOOTH_SCO ∨
        d.deviceAttr_id = .PAL_DEVICE_IN_BLUETOOTH_SCO_HEADSET) →
      scoFormatMapped d.codecFormat = false →
      ∃ keys, passTrace d (updateDeviceMetadata env d).2 =
          [Event.setDeviceMetadata d.deviceAttr_id keys] ∧
        ∀ v, (GraphKey.BT_FORMAT, v) ∉ keys) := by
  rcases d with ⟨id, cfg, cp, fmt, ct, ci, cc, abr, conf, l3, tws, ds, ref, ph, pc, fp, ids, fb, dc, tr⟩
  constructor
  · intro hid hm
    rcases hid with h | h <;> simp only at h <;> subst h <;>
      cases fmt <;> cases abr <;> simp [a2dpFormatMapped] at hm <;>
      exact ⟨_, passTrace_eq _ _ (by simp [updateDeviceMetadata, Bluetooth.log]; rfl),
        by simp⟩
  · intro hid hm
    rcases hid with h | h <;> simp only at h <;> subst h <;>
      cases fmt <;> simp [scoFormatMapped] at hm <;>
      exact ⟨_, passTrace_eq _ _ (by simp [updateDeviceMetadata, Bluetooth.log]; rfl),
        by simp⟩

theorem C17_generic_format_on_a2dp_witness :
    (∃ keys, passTrace (sampleDevice .PAL_DEVICE_OUT_BLUETOOTH_A2DP .ENC .CODEC_TYPE_SBC)
        (updateDeviceMetadata okCollab
          (sampleDevice .PAL_DEVICE_OUT_BLUETOOTH_A2DP .ENC .CODEC_TYPE_SBC)).2 =
          [Event.setDeviceMetadata .PAL_DEVICE_OUT_BLUETOOTH_A2DP keys] ∧
        (GraphKey.BT_FORMAT, GraphValue.GENERIC) ∈ keys) ∧
    (∃ keys, passTrace (sampleDevice .PAL_DEVICE_OUT_BLUETOOTH_SCO .ENC .CODEC_TYPE_SBC)
        (updateDeviceMetadata okCollab
          (sampleDevice .PAL_DEVICE_OUT_BLUETOOTH_SCO .ENC .CODEC_TYPE_SBC)).2 =
          [Event.setDeviceMetadata .PAL_DEVICE_OUT_BLUETOOTH_SCO keys] ∧
        ∀ v, (GraphKey.BT_FORMAT, v) ∉ keys) :=
  ⟨(C17_generic_format_on_a2dp okCollab
      (sampleDevice .PAL_DEVICE_OUT_BLUETOOTH_A2DP .ENC .CODEC_TYPE_SBC)).1 (Or.inl rfl) (by decide),
   (C17_generic_format_on_a2dp okCollab
      (sampleDevice .PAL_DEVICE_OUT_BLUETOOTH_SCO .ENC .CODEC_TYPE_SBC)).2 (Or.inl rfl) (by decide)⟩

/-! ## Contract of the plugin gateway -/

/-- C13: getPluginPayload returns -ENOSYS and makes no call when the registry
names no library for (codecFormat, direction). It returns 0 exactly when the
library loads, has the plugin_open symbol, and the open and populate routines
return 0. On a non-zero return the out-pointers of the caller are untouched, the
library handle that dlopen returned has been released by exactly one dlclose,
which is the last call, and the codec that plugin_open handed out has been
closed by exactly one close_plugin. On return 0 the out-pointers hold exactly
the handle dlopen returned, the codec plugin_open handed out and the package
the plugin filled in, and neither close_plugin nor dlclose was called. -/
theorem C13_plugin_gateway (env : Collab) (d : Bluetooth) (ct : codec_type) :
    (env.getBtCodecLib d.codecFormat ct = "" →
      getPluginPayload env d ct = (-ENOSYS, none, d)) ∧
    ((getPluginPayload env d ct).1 = 0 ↔
      env.getBtCodecLib d.codecFormat ct ≠ "" ∧
      ∃ h, env.dlopen (env.getBtCodecLib d.codecFormat ct) = some h ∧
        env.dlsym_plugin_open h = true ∧ (env.plugin_open d.codecFormat ct).1 = 0 ∧
        (env.plugin_populate_payload (env.plugin_open d.codecFormat ct).2 d.codecInfo).1 = 0) ∧
    ((getPluginPayload env d ct).1 ≠ 0 →
      (getPluginPayload env d ct).2.1 = none ∧
      (∀ h, env.getBtCodecLib d.codecFormat ct ≠ "" →
        env.dlopen (env.getBtCodecLib d.codecFormat ct) = some h →
        (passTrace d (getPluginPayload env d ct).2.2).count (.dlclose h) = 1 ∧
        (passTrace d (getPluginPayload env d ct).2.2).getLast? = some (.dlclose h) ∧
        (env.dlsym_plugin_open h = true →
          ∀ c, (env.plugin_open d.codecFormat ct).2 = some c →
            (passTrace d (getPluginPayload env d ct).2.2).count (.close_plugin c) = 1))) ∧
    ((getPluginPayload env d ct).1 = 0 →
      ∃ h, env.dlopen (env.getBtCodecLib d.codecFormat ct) = some h ∧
        (getPluginPayload env d ct).2.1 =
          some ⟨h, (env.plugin_open d.codecFormat ct).2,
            pluginPackage env d.codecFormat ct d.codecInfo⟩ ∧
        ∀ e ∈ passTrace d (getPluginPayload env d ct).2.2, e.isRelease = false) := by
  by_cases hp : env.getBtCodecLib d.codecFormat ct = ""
  · simp [getPluginPayload, hp, ENOSYS]
  cases hd : env.dlopen (env.getBtCodecLib d.codecFormat ct) with
  | none => simp [getPluginPayload, hp, hd, EINVAL]
  | some h =>
    by_cases hs : env.dlsym_plugin_open h = true
    swap
    · simp only [Bool.not_eq_true] at hs
      simp [getPluginPayload, getPluginPayload_error, hp, hd, hs, EINVAL, passTrace, Bluetooth.log]
    by_cases ho : (env.plugin_open d.codecFormat ct).1 = 0
    swap
    · cases hc : (env.plugin_open d.codecFormat ct).2 <;>
        simp [getPluginPayload, getPluginPayload_error, hp, hd, hs, ho, hc, passTrace, Bluetooth.log]
    by_cases hq : (env.plugin_populate_payload (env.plugin_open d.codecFormat ct).2 d.codecInfo).1 = 0
    swap
    · cases hc : (env.plugin_open d.codecFormat ct).2 <;>
        simp [getPluginPayload, getPluginPayload_error, hp, hd, hs, ho, hq, hc, passTrace, Bluetooth.log] <;>
        simp [hc] at hq ⊢ <;> simp [hq]
    · simp [getPluginPayload, hp, hd, hs, ho, hq, passTrace, Bluetooth.log, pluginPackage,
        Event.isRelease]

theorem C13_plugin_gateway_witness :
    (getPluginPayload okCollab
        (sampleDevice .PAL_DEVICE_OUT_BLUETOOTH_A2DP .ENC .CODEC_TYPE_SBC) .ENC).1 = 0 ∧
    ∃ h, okCollab.dlopen (okCollab.getBtCodecLib .CODEC_TYPE_SBC .ENC) = some h ∧
      (getPluginPayload okCollab
          (sampleDevice .PAL_DEVICE_OUT_BLUETOOTH_A2DP .ENC .CODEC_TYPE_SBC) .ENC).2.1 =
        some ⟨h, (okCollab.plugin_open .CODEC_TYPE_SBC .ENC).2,
          pluginPackage okCollab .CODEC_TYPE_SBC .ENC (some 50)⟩ ∧
      ∀ e ∈ passTrace (sampleDevice .PAL_DEVICE_OUT_BLUETOOTH_A2DP .ENC .CODEC_TYPE_SBC)
          (getPluginPayload okCollab
            (sampleDevice .PAL_DEVICE_OUT_BLUETOOTH_A2DP .ENC .CODEC_TYPE_SBC) .ENC).2.2,
        e.isRelease = false :=
  ⟨by decide,
   (C13_plugin_gateway okCollab
      (sampleDevice .PAL_DEVICE_OUT_BLUETOOTH_A2DP .ENC .CODEC_TYPE_SBC) .ENC).2.2.2 (by decide)⟩

/-- C11 as stated fails: with a stream map in which the pattern finds no entry
the parsing loop ends with zero entries, and setDeviceParameter for
PAL_PARAM_ID_BT_SCO_LC3 returns status 0. -/
theorem C11_counterexample :
    parseLoop 1 "garbage".toList 0 [] = some [] ∧
    (BtSco.setDeviceParameter 1 (sampleSco .PAL_DEVICE_OUT_BLUETOOTH_SCO .ENC)
        .PAL_PARAM_ID_BT_SCO_LC3 ⟨true, false, none, true, "garbage"⟩).map Prod.fst = some 0 := by
  decide

/-! ## Parameters of the SCO device -/

theorem parseLoop_length (fuel : Nat) :
    ∀ (s : List Char) (loc : Nat) (acc r : List lc3_stream_map_t),
      parseLoop fuel s loc acc = some r → acc.length ≤ r.length := by
  induction fuel with
  | zero => intro s loc acc r h; simp [parseLoop] at h
  | succ n ih =>
    intro s loc acc r h
    cases hm : regex_search s with
    | none =>
      rw [parseLoop_done s hm] at h
      simp only [Option.some.injEq] at h
      rw [h]
    | some m =>
      simp only [parseLoop, hm] at h
      split_ifs at h
      · exact ih _ _ _ _ h
      · have := ih _ _ _ _ h
        simp only [List.length_append, List.length_singleton] at this
        omega

theorem parseLoop_nil (fuel : Nat) :
    ∀ (s : List Char) (loc : Nat), parseLoop fuel s loc [] = some [] → regex_search s = none := by
  induction fuel with
  | zero => intro s loc h; simp [parseLoop] at h
  | succ n ih =>
    intro s loc h
    cases hm : regex_search s with
    | none => rfl
    | some m =>
      exfalso
      simp only [parseLoop, hm] at h
      split_ifs at h
      · have := ih _ _ h
        rw [hm] at this
        exact Option.noConfusion this
      · have := parseLoop_length _ _ _ _ _ h
        simp at this

/-- C11, amended: when the pattern finds no entry in the stream-map string
(empty or garbage input: the only way the parse ends with zero entries), the
parsing loop ends at its first test with zero entries, convertCodecInfo leaves
the stream-map members of lc3CodecInfo as they were, and setDeviceParameter for
PAL_PARAM_ID_BT_SCO_LC3 returns status 0: the failure is logged, not
reported. -/
theorem C11_zero_entries_status_zero (fuel : Nat) (d : BtSco) (param : pal_param_btsco_t)
    (h : regex_search param.lc3_cfg_streamMap.toList = none) :
    parseLoop (fuel + 1) param.lc3_cfg_streamMap.toList 0 [] = some [] ∧
    BtSco.setDeviceParameter (fuel + 1) d .PAL_PARAM_ID_BT_SCO_LC3 param =
      some (0, { d with isSwbLc3Enabled := param.bt_lc3_speech_enabled,
                        codecInfo := some addr_lc3CodecInfo }) := by
  have hp := parseLoop_done _ h fuel 0 []
  refine ⟨hp, ?_⟩
  simp only [BtSco.setDeviceParameter, convertCodecInfo, hp]
  rfl

theorem C11_zero_entries_status_zero_witness :
    regex_search "".toList = none ∧
    BtSco.setDeviceParameter 1 (sampleSco .PAL_DEVICE_OUT_BLUETOOTH_SCO .ENC)
        .PAL_PARAM_ID_BT_SCO_LC3 ⟨true, false, none, true, ""⟩ =
      some (0, { sampleSco .PAL_DEVICE_OUT_BLUETOOTH_SCO .ENC with
                   isSwbLc3Enabled := true, codecInfo := some addr_lc3CodecInfo }) :=
  ⟨by decide,
   (C11_zero_entries_status_zero 0 (sampleSco .PAL_DEVICE_OUT_BLUETOOTH_SCO .ENC)
      ⟨true, false, none, true, ""⟩ (by decide)).2⟩

/-! ## Codec format across a stop -/

theorem closePlugin_codecFormat (d : Bluetooth) : (closePlugin d).codecFormat = d.codecFormat := by
  unfold closePlugin
  cases d.pluginCodec <;> cases d.pluginHandler <;> simp [Bluetooth.log] <;> split <;> rfl

theorem closePlugin_isAbrEnabled (d : Bluetooth) :
    (closePlugin d).isAbrEnabled = d.isAbrEnabled := by
  unfold closePlugin
  cases d.pluginCodec <;> cases d.pluginHandler <;> simp [Bluetooth.log] <;> split <;> rfl

theorem stopAbr_free_fe_flag (d : Bluetooth) : (stopAbr_free_fe d).isAbrEnabled = false := rfl

theorem stopAbr_teardown_flag (env : Collab) (d : Bluetooth) :
    (stopAbr_teardown env d).isAbrEnabled = false := by
  unfold stopAbr_teardown
  dsimp only
  by_cases h : env.getAudioMixer ≠ 0
  · rw [if_pos h]
    exact stopAbr_free_fe_flag _
  · rw [if_neg h]
    exact stopAbr_free_fe_flag _

/-- The ABR flag is clear after the stopAbr call of a stop exactly when it was
clear at entry or stopAbr tore the feedback path down. -/
theorem stop_flag_clear_iff (env : Collab) (d : Bluetooth) :
    (if d.isAbrEnabled = true then stopAbr env d else d).isAbrEnabled = false ↔
      (d.isAbrEnabled = false ∨ (d.fbPcm ≠ none ∧ d.abrRefCnt = 1)) := by
  cases hf : d.isAbrEnabled with
  | false => simp [hf]
  | true =>
    simp only [if_true, Bool.true_eq_false, false_or]
    by_cases h1 : d.fbPcm = none
    · have : stopAbr env d = d := by simp [stopAbr, h1]
      rw [this, hf]
      simp [h1]
    · by_cases h2 : d.abrRefCnt - 1 = 0
      · rw [stopAbr_last env d h1 h2, stopAbr_teardown_flag]
        have : d.abrRefCnt = 1 := by omega
        simp [h1, this]
      · rw [stopAbr_not_last env d h1 h2]
        have : d.abrRefCnt ≠ 1 := by omega
        simp [hf, this]

theorem sco_stop_codecFormat (env : Collab) (base : DeviceBase) (sco : BtSco) :
    (BtSco.stop env base sco).2.codecFormat =
      if (if sco.isAbrEnabled = true then stopAbr env sco.toBluetooth
          else sco.toBluetooth).isAbrEnabled = false then .CODEC_TYPE_INVALID
      else (if sco.isAbrEnabled = true then stopAbr env sco.toBluetooth
          else sco.toBluetooth).codecFormat := by
  generalize hb : (if sco.isAbrEnabled = true then stopAbr env sco.toBluetooth
          else sco.toBluetooth) = b1
  have h : (BtSco.stop env base sco).2.toBluetooth =
      (let b3 : Bluetooth := { closePlugin b1 with deviceCount := base.stop_l (closePlugin b1).deviceCount }
       let b4 : Bluetooth := if b3.isAbrEnabled = false then { b3 with codecFormat := .CODEC_TYPE_INVALID } else b3
       if b4.deviceCount = 0 then { b4 with isConfigured := false } else b4) := by
    rw [← hb]
    rfl
  show (BtSco.stop env base sco).2.toBluetooth.codecFormat = _
  rw [h]
  dsimp only
  have e1 : (closePlugin b1).isAbrEnabled = b1.isAbrEnabled := closePlugin_isAbrEnabled b1
  have e2 : (closePlugin b1).codecFormat = b1.codecFormat := closePlugin_codecFormat b1
  by_cases hf : b1.isAbrEnabled = false
  · rw [if_pos hf, if_pos (show (closePlugin b1).isAbrEnabled = false from e1.trans hf)]
    split_ifs <;> rfl
  · rw [if_neg hf, if_neg (show ¬ (closePlugin b1).isAbrEnabled = false from fun h => hf (e1.symm.trans h))]
    split_ifs <;> exact e2

/-- C20 as stated fails in both halves. A stopPlayback that takes a started
A2DP device from one active session to none leaves codecFormat at the format of
the session (SBC here). A SCO device with speech mode 0 is started with a plugin
that reports adaptive bitrate while pcm_open of the feedback stream fails, so
the ABR flag is set and fbPcm null: BtSco::stop, which takes the device count
from 1 to 0, finds the flag still set after stopAbr and keeps codecFormat. The
same device started twice with the feedback stream open has abrRefCnt 2: the
first BtSco::stop leaves the count at 1 and the flag set, and keeps codecFormat;
the second one tears the feedback path down and resets it. -/
theorem C20_counterexample :
    (startPlayback okCollab (sampleA2dp .PAL_DEVICE_OUT_BLUETOOTH_A2DP .ENC .SOURCE)).2.a2dpState =
      .A2DP_STATE_STARTED ∧
    (startPlayback okCollab
      (sampleA2dp .PAL_DEVICE_OUT_BLUETOOTH_A2DP .ENC .SOURCE)).2.totalActiveSessionRequests = 1 ∧
    (stopPlayback okCollab (startPlayback okCollab
      (sampleA2dp .PAL_DEVICE_OUT_BLUETOOTH_A2DP .ENC .SOURCE)).2).2.totalActiveSessionRequests = 0 ∧
    (stopPlayback okCollab (startPlayback okCollab
      (sampleA2dp .PAL_DEVICE_OUT_BLUETOOTH_A2DP .ENC .SOURCE)).2).2.a2dpState =
      .A2DP_STATE_STOPPED ∧
    (stopPlayback okCollab (startPlayback okCollab
      (sampleA2dp .PAL_DEVICE_OUT_BLUETOOTH_A2DP .ENC .SOURCE)).2).2.codecFormat =
      .CODEC_TYPE_SBC ∧
    (BtSco.setDeviceParameter 0 (sampleSco .PAL_DEVICE_OUT_BLUETOOTH_SCO .ENC)
      .PAL_PARAM_ID_BT_SCO_SWB (swbParam (some 0))).map (fun r => r.2) = some swbSco ∧
    (BtSco.start abrNoPcmCollab countingStart swbSco).1 = 0 ∧
    (BtSco.start abrNoPcmCollab countingStart swbSco).2.isAbrEnabled = true ∧
    (BtSco.start abrNoPcmCollab countingStart swbSco).2.fbPcm = none ∧
    (BtSco.start abrNoPcmCollab countingStart swbSco).2.deviceCount = 1 ∧
    (BtSco.stop okCollab countingStop
      (BtSco.start abrNoPcmCollab countingStart swbSco).2).2.deviceCount = 0 ∧
    (BtSco.stop okCollab countingStop
      (BtSco.start abrNoPcmCollab countingStart swbSco).2).2.isAbrEnabled = true ∧
    (BtSco.stop okCollab countingStop
      (BtSco.start abrNoPcmCollab countingStart swbSco).2).2.codecFormat = .CODEC_TYPE_APTX_AD_SPEECH ∧
    (BtSco.start abrCollab countingStart
      (BtSco.start abrCollab countingStart swbSco).2).2.abrRefCnt = 2 ∧
    (BtSco.stop okCollab countingStop
      (BtSco.start abrCollab countingStart
      (BtSco.start abrCollab countingStart swbSco).2).2).2.abrRefCnt = 1 ∧
    (BtSco.stop okCollab countingStop
      (BtSco.start abrCollab countingStart
      (BtSco.start abrCollab countingStart swbSco).2).2).2.isAbrEnabled = true ∧
    (BtSco.stop okCollab countingStop
      (BtSco.start abrCollab countingStart
      (BtSco.start abrCollab countingStart swbSco).2).2).2.codecFormat = .CODEC_TYPE_APTX_AD_SPEECH ∧
    (BtSco.stop okCollab countingStop (BtSco.stop okCollab countingStop
      (BtSco.start abrCollab countingStart
      (BtSco.start abrCollab countingStart swbSco).2).2).2).2.codecFormat =
      .CODEC_TYPE_INVALID := by
  decide

/-- C20, amended: BtSco::stop leaves codecFormat = CODEC_TYPE_INVALID whenever
the ABR flag is clear once the stopAbr call of the stop has run, that is when it
was clear at entry or when stopAbr tore the feedback path down (fbPcm non-null
and abrRefCnt 1 at entry), whatever Device::stop_l leaves as device count;
stopPlayback and stopCapture of an A2DP device do not write codecFormat,
whatever the state and the count: the format of the session stays until a later
start resets it. -/
theorem C20_format_reset_on_sco_stop (env : Collab) (base : DeviceBase) (sco : BtSco) (a : BtA2dp)
    (habr : sco.isAbrEnabled = false ∨ (sco.fbPcm ≠ none ∧ sco.abrRefCnt = 1)) :
    (BtSco.stop env base sco).2.codecFormat = .CODEC_TYPE_INVALID ∧
    (stopPlayback env a).2.codecFormat = a.codecFormat ∧
    (stopCapture env a).2.codecFormat = a.codecFormat := by
  refine ⟨?_, ?_, ?_⟩
  · rw [sco_stop_codecFormat, if_pos ((stop_flag_clear_iff env sco.toBluetooth).2 habr)]
  · simp only [stopPlayback, stopPlayback_teardown]
    split_ifs <;> simp [closePlugin_codecFormat, BtA2dp.log, Bluetooth.log]
  · simp only [stopCapture]
    split_ifs <;> simp [closePlugin_codecFormat, BtA2dp.log, Bluetooth.log]

/-- C20 (amended) on a SCO device started with adaptive bitrate: the ABR flag is
set at entry, stopAbr tears the feedback path down and BtSco::stop resets the
format. -/
theorem C20_format_reset_on_sco_stop_witness :
    (BtSco.start abrCollab countingStart swbSco).2.isAbrEnabled = true ∧
    (BtSco.start abrCollab countingStart swbSco).2.codecFormat = .CODEC_TYPE_APTX_AD_SPEECH ∧
    (BtSco.stop okCollab countingStop
      (BtSco.start abrCollab countingStart swbSco).2).2.codecFormat = .CODEC_TYPE_INVALID :=
  ⟨by decide, by decide,
   (C20_format_reset_on_sco_stop okCollab countingStop
      (BtSco.start abrCollab countingStart swbSco).2
      (sampleA2dp .PAL_DEVICE_OUT_BLUETOOTH_A2DP .ENC .SOURCE)
      (Or.inr ⟨by decide, by decide⟩)).1⟩

/-! ## The suspend flag and the A2DP starts -/

theorem withSuspended_metadata (env : Collab) (d : BtA2dp) (b : Bool) :
    (d.withSuspended b).updateDeviceMetadata env = (d.updateDeviceMetadata env).withSuspended b := rfl

theorem withSuspended_configure (env : Collab) (d : BtA2dp) (b : Bool) :
    (d.withSuspended b).configureA2dpEncoderDecoder env =
      ((d.configureA2dpEncoderDecoder env).1, (d.configureA2dpEncoderDecoder env).2.withSuspended b) :=
  rfl

theorem startCapture_configure_withSuspended (env : Collab) (d : BtA2dp) (b : Bool) :
    startCapture_configure env (d.withSuspended b) =
      ((startCapture_configure env d).1, (startCapture_configure env d).2.withSuspended b) := by
  simp only [startCapture_configure, withSuspended_metadata, withSuspended_configure]
  generalize (d.updateDeviceMetadata env).configureA2dpEncoderDecoder env = r
  by_cases h1 : r.1 = 0
  swap
  · rw [if_pos h1, if_pos h1]
  rw [if_neg (not_not.2 h1), if_neg (not_not.2 h1)]
  by_cases h2 : r.2.isDummySink = false
  · rw [if_pos h2, if_pos (show (r.2.withSuspended b).isDummySink = false from h2)]
    by_cases h3 : env.audio_sink_session_setup_complete = 0
    · rw [if_neg (not_not.2 h3), if_neg (not_not.2 h3)]
      by_cases h4 : r.2.a2dpState ≠ .A2DP_STATE_STARTED ∧ r.2.totalActiveSessionRequests = 0
      · rw [if_pos (by exact h4), if_pos (by exact h4)]
        rfl
      · rw [if_neg (by exact h4), if_neg (by exact h4)]
        rfl
    · rw [if_pos h3, if_pos h3]
      by_cases h4 : r.2.a2dpState ≠ .A2DP_STATE_STARTED ∧ r.2.totalActiveSessionRequests = 0
      · rw [if_pos (by exact h4), if_pos (by exact h4)]
        rfl
      · rw [if_neg (by exact h4), if_neg (by exact h4)]
        rfl
  · rw [if_neg h2, if_neg (show ¬ (r.2.withSuspended b).isDummySink = false from h2)]
    by_cases h4 : r.2.a2dpState ≠ .A2DP_STATE_STARTED ∧ r.2.totalActiveSessionRequests = 0
    · rw [if_pos (by exact h4), if_pos (by exact h4)]
      rfl
    · rw [if_neg (by exact h4), if_neg (by exact h4)]

theorem startCapture_withSuspended (env : Collab) (d : BtA2dp) (b : Bool) :
    startCapture env (d.withSuspended b) =
      ((startCapture env d).1, (startCapture env d).2.withSuspended b) := by
  rcases d with ⟨base, st, role, tot, susp, rc, off, lib⟩
  rcases base with ⟨id, cfg, cp, fmt, ct, ci, cc, abr, conf, l3, tws, ds, ref, ph, pc, fp, ids, fb,
    dc, tr⟩
  simp only [startCapture, BtA2dp.withSuspended, BtA2dp.log, Bluetooth.log]
  split_ifs <;>
    first
    | rfl
    | exact startCapture_configure_withSuspended env ⟨_, _, _, _, susp, _, _, _⟩ b

/-- C18 as stated fails: on a SINK device with the suspend flag set, a
startCapture with every collaborator succeeding calls the start control, runs
the configurator, and moves the device to STARTED with one active session. -/
theorem C18_counterexample :
    ((sampleA2dp .PAL_DEVICE_IN_BLUETOOTH_A2DP .DEC .SINK).withSuspended true).a2dp_suspended = true ∧
    ((sampleA2dp .PAL_DEVICE_IN_BLUETOOTH_A2DP .DEC .SINK).withSuspended true).a2dpState =
      .A2DP_STATE_CONNECTED ∧
    Event.audio_sink_start ∈ (startCapture okCollab
      ((sampleA2dp .PAL_DEVICE_IN_BLUETOOTH_A2DP .DEC .SINK).withSuspended true)).2.trace ∧
    Event.getActiveStream_l ∈ (startCapture okCollab
      ((sampleA2dp .PAL_DEVICE_IN_BLUETOOTH_A2DP .DEC .SINK).withSuspended true)).2.trace ∧
    (startCapture okCollab
      ((sampleA2dp .PAL_DEVICE_IN_BLUETOOTH_A2DP .DEC .SINK).withSuspended true)).2.a2dpState =
      .A2DP_STATE_STARTED ∧
    (startCapture okCollab
      ((sampleA2dp .PAL_DEVICE_IN_BLUETOOTH_A2DP .DEC .SINK).withSuspended true)).2.totalActiveSessionRequests
      = 1 := by
  decide

/-- C18, amended: while the suspend flag is set, startPlayback returns the
device as it was: no call is made (neither the start control nor any call of the
configurator), a2dpState and totalActiveSessionRequests are unchanged, and the
status is 0, or -ENOSYS when the control library is not loaded. startCapture
does not read the flag: with the flag set to any value it returns the status
and the device it returns for `d`, the flag apart. -/
theorem C18_suspend_blocks_playback (env : Collab) (d : BtA2dp) (b : Bool)
    (hs : d.a2dp_suspended = true) :
    (startPlayback env d).2 = d ∧
    passTrace d.toBluetooth (startPlayback env d).2.toBluetooth = [] ∧
    ((startPlayback env d).1 = 0 ∨ (startPlayback env d).1 = -ENOSYS) ∧
    startCapture env (d.withSuspended b) =
      ((startCapture env d).1, (startCapture env d).2.withSuspended b) := by
  have h : startPlayback env d = (0, d) ∨ startPlayback env d = (-ENOSYS, d) := by
    unfold startPlayback
    by_cases hl : ¬(d.lib.bt_lib_source_handle = true ∧ d.lib.audio_source_start = true ∧
        d.lib.audio_get_enc_config = true)
    · rw [if_pos hl]
      exact Or.inr rfl
    · rw [if_neg hl, if_pos hs]
      exact Or.inl rfl
  refine ⟨?_, ?_, ?_, startCapture_withSuspended env d b⟩
  · rcases h with h | h <;> rw [h]
  · rcases h with h | h <;> rw [h] <;> simp [passTrace]
  · rcases h with h | h <;> rw [h]
    · exact Or.inl rfl
    · exact Or.inr rfl

theorem C18_suspend_blocks_playback_witness :
    ((sampleA2dp .PAL_DEVICE_OUT_BLUETOOTH_A2DP .ENC .SOURCE).withSuspended true).a2dp_suspended =
      true ∧
    (startPlayback okCollab
        ((sampleA2dp .PAL_DEVICE_OUT_BLUETOOTH_A2DP .ENC .SOURCE).withSuspended true)).2 =
      (sampleA2dp .PAL_DEVICE_OUT_BLUETOOTH_A2DP .ENC .SOURCE).withSuspended true :=
  ⟨rfl, (C18_suspend_blocks_playback okCollab
    ((sampleA2dp .PAL_DEVICE_OUT_BLUETOOTH_A2DP .ENC .SOURCE).withSuspended true) true rfl).1⟩

/-! ## Failure exits of the A2DP starts -/

theorem startPlayback_configure_failure_stops (env : Collab) (d : BtA2dp)
    (hfail : (startPlayback_configure env d).1 ≠ 0) :
    (startPlayback_configure env d).2.trace.getLast? = some .audio_source_stop := by
  unfold startPlayback_configure at hfail ⊢
  generalize ((twsMonoModeHint env d).updateDeviceMetadata env).configureA2dpEncoderDecoder env = r
    at hfail ⊢
  by_cases h : r.1 ≠ 0
  · dsimp only
    rw [if_pos h]
    simp [BtA2dp.log, Bluetooth.log]
  · dsimp only at hfail
    rw [if_neg h] at hfail
    exact absurd hfail h

/-- The sibling of C19 on the playback path: a startPlayback that starts the
link (start control returned 0) and then returns a non-zero status has called
the stop control as its last call. -/
theorem startPlayback_failure_stops (env : Collab) (d : BtA2dp)
    (hlib : d.lib.bt_lib_source_handle = true ∧ d.lib.audio_source_start = true ∧
      d.lib.audio_get_enc_config = true)
    (hns : d.a2dp_suspended = false)
    (hst : d.a2dpState ≠ .A2DP_STATE_STARTED ∧ d.totalActiveSessionRequests = 0)
    (hstart : env.audio_source_start = 0) (hfail : (startPlayback env d).1 ≠ 0) :
    (startPlayback env d).2.trace.getLast? = some .audio_source_stop := by
  have e : startPlayback env d = startPlayback_first env d := by
    unfold startPlayback
    rw [if_neg (not_not.2 hlib), if_neg (by simp [hns]), if_pos hst]
  rw [e] at hfail ⊢
  unfold startPlayback_first at hfail ⊢
  simp only [hstart, ne_eq, not_true_eq_false, if_false] at hfail ⊢
  split_ifs at hfail ⊢ with h1
  · simp [BtA2dp.log, Bluetooth.log]
  · exact startPlayback_configure_failure_stops env _ hfail

/-- Claim C19, evaluated on startCapture of a SINK device with the control
library loaded. With the start control succeeding and the decoder metadata
invalid, startCapture returns -EINVAL after the calls audio_sink_start and
audio_get_dec_config: no stop control is called. With valid metadata and
payloadCustomParam returning null, the pipeline configuration fails with
-ENOMEM and startCapture returns that status, again without a call of a stop
control. -/
theorem C19_capture_failure_leaves_stream_started :
    (startCapture invalidDecConfigCollab (sampleA2dp .PAL_DEVICE_IN_BLUETOOTH_A2DP .DEC .SINK)).1 =
      -EINVAL ∧
    (startCapture invalidDecConfigCollab
        (sampleA2dp .PAL_DEVICE_IN_BLUETOOTH_A2DP .DEC .SINK)).2.trace =
      [.audio_sink_start, .audio_get_dec_config] ∧
    (startCapture nullCustomParamCollab (sampleA2dp .PAL_DEVICE_IN_BLUETOOTH_A2DP .DEC .SINK)).1 =
      -ENOMEM ∧
    Event.audio_sink_start ∈
      (startCapture nullCustomParamCollab (sampleA2dp .PAL_DEVICE_IN_BLUETOOTH_A2DP .DEC .SINK)).2.trace ∧
    Event.audio_sink_stop ∉
      (startCapture nullCustomParamCollab (sampleA2dp .PAL_DEVICE_IN_BLUETOOTH_A2DP .DEC .SINK)).2.trace ∧
    Event.audio_source_stop ∉
      (startCapture nullCustomParamCollab (sampleA2dp .PAL_DEVICE_IN_BLUETOOTH_A2DP .DEC .SINK)).2.trace := by
  decide

/-! ## Custom payload and plugin handles across a pass -/

theorem pushedPayloads_append (a b : List Event) :
    pushedPayloads (a ++ b) = pushedPayloads a ++ pushedPayloads b := by
  simp [pushedPayloads, pushes_append]

theorem passStep_refl (d : Bluetooth) : PassStep d d :=
  ⟨[], by simp, by simp [pushedPayloads, pushes], by simp, rfl, rfl⟩

theorem PassStep.passStep_trans {a b c : Bluetooth} (h1 : PassStep a b) (h2 : PassStep b c) :
    PassStep a c := by
  obtain ⟨e1, t1, p1, r1, ph1, pc1⟩ := h1
  obtain ⟨e2, t2, p2, r2, ph2, pc2⟩ := h2
  refine ⟨e1 ++ e2, by rw [t2, t1, List.append_assoc], ?_, ?_, ph2.trans ph1, pc2.trans pc1⟩
  · rw [p2, p1, pushedPayloads_append, List.append_assoc]
  · intro e he
    rcases List.mem_append.1 he with h | h
    · exact r1 e h
    · exact r2 e h

theorem passStep_getMIID (d : Bluetooth) (tag : ModuleTag) : PassStep d (d.log (.getMIID tag)) :=
  ⟨[.getMIID tag], rfl, by simp [pushedPayloads, pushes, Bluetooth.log], by simp [Event.isRelease],
    rfl, rfl⟩

theorem passStep_push (d : Bluetooth) (t : ModuleTag) (k : PayloadKind) (o : BuilderOut) :
    PassStep d (d.updateCustomPayload t k o) :=
  ⟨[.updateCustomPayload t k o], rfl, by simp [pushedPayloads, pushes, Bluetooth.updateCustomPayload],
    by simp [Event.isRelease], rfl, rfl⟩

theorem passStep_done (d : Bluetooth) (st : Int) : PassStep d (configure_done st d).2 :=
  ⟨[], by simp [configure_done], by simp [configure_done, pushedPayloads, pushes], by simp, rfl, rfl⟩

theorem passStep_configurePcmCnv (env : Collab) (d : Bluetooth) :
    PassStep d (configurePcmCnv env d).2 := by
  unfold configurePcmCnv
  dsimp only
  split_ifs
  · exact passStep_getMIID d _
  · exact ((passStep_getMIID d _).passStep_trans (passStep_push _ _ _ _)).passStep_trans
      (passStep_done _ _)
  · exact passStep_getMIID d _

theorem passStep_configureRat (env : Collab) (d : Bluetooth) :
    PassStep d (configureRat env d).2 := by
  unfold configureRat
  dsimp only
  split_ifs
  · exact passStep_getMIID d _
  · exact ((passStep_getMIID d _).passStep_trans (passStep_push _ _ _ _)).passStep_trans
      (passStep_configurePcmCnv env _)
  · exact passStep_getMIID d _

theorem passStep_configureCopV2Depack (env : Collab) (d : Bluetooth) :
    PassStep d (configureCopV2Depack env d).2 := by
  unfold configureCopV2Depack
  dsimp only
  split_ifs
  · exact passStep_getMIID d _
  · exact (((passStep_getMIID d _).passStep_trans (passStep_push _ _ _ _)).passStep_trans
      (passStep_push _ _ _ _)).passStep_trans (passStep_done _ _)
  · exact (passStep_getMIID d _).passStep_trans (passStep_push _ _ _ _)
  · exact passStep_getMIID d _

theorem passStep_configureCopV2Pack (env : Collab) (d : Bluetooth) :
    PassStep d (configureCopV2Pack env d).2 := by
  unfold configureCopV2Pack
  dsimp only
  split_ifs
  · exact passStep_getMIID d _
  · exact (((passStep_getMIID d _).passStep_trans (passStep_push _ _ _ _)).passStep_trans
      (passStep_push _ _ _ _)).passStep_trans (passStep_configureRat env _)
  · exact (passStep_getMIID d _).passStep_trans (passStep_push _ _ _ _)
  · exact passStep_getMIID d _

theorem passStep_configureCopV0Pack (env : Collab) (d : Bluetooth) :
    PassStep d (configureCopV0Pack env d).2 := by
  unfold configureCopV0Pack
  dsimp only
  split_ifs
  · exact passStep_getMIID d _
  · exact ((passStep_getMIID d _).passStep_trans (passStep_push _ _ _ _)).passStep_trans
      (passStep_configureRat env _)
  · exact passStep_getMIID d _

theorem passStep_configureCop (env : Collab) (target : ModuleTag) (miid : Nat) (st : Int)
    (d : Bluetooth) : PassStep d (configureCop env target miid st d).2 := by
  unfold configureCop
  dsimp only
  split_ifs
  · exact (passStep_push _ _ _ _).passStep_trans (passStep_configureCopV2Depack env _)
  · exact (passStep_push _ _ _ _).passStep_trans (passStep_configureCopV2Pack env _)
  · exact passStep_refl d
  · exact passStep_done _ _
  · exact passStep_configureCopV0Pack env _

theorem passStep_configureStatic (env : Collab) (target : ModuleTag) (miid : Nat) (st : Int)
    (d : Bluetooth) : PassStep d (configureStatic env target miid st d).2 := by
  unfold configureStatic
  dsimp only
  split_ifs
  · exact passStep_done _ _
  · exact (passStep_push _ _ _ _).passStep_trans (passStep_configureCop env _ _ _ _)
  · exact passStep_refl d
  · exact passStep_configureCop env _ _ _ _

theorem passStep_pushBlocks (env : Collab) (target : ModuleTag) (miid : Nat) :
    ∀ (blks : List custom_block_t) (d : Bluetooth),
      PassStep d (pushBlocks env target miid blks d).2
  | [], d => passStep_refl d
  | blk :: rest, d => by
    unfold pushBlocks
    dsimp only
    split
    · exact passStep_refl d
    · exact (passStep_push _ _ _ _).passStep_trans (passStep_pushBlocks env target miid rest _)

theorem passStep_configureBlocks (env : Collab) (target : ModuleTag) (miid : Nat) (st : Int)
    (out_buf : bt_enc_payload_t) (d : Bluetooth) :
    PassStep d (configureBlocks env target miid st out_buf d).2 := by
  unfold configureBlocks
  dsimp only
  split_ifs
  · exact passStep_pushBlocks env _ _ _ _
  · exact (passStep_pushBlocks env _ _ _ _).passStep_trans (passStep_configureStatic env _ _ _ _)

theorem passStep_configurePlaceholder (env : Collab) (target : ModuleTag) (miid : Nat) (st : Int)
    (out_buf : bt_enc_payload_t) (d : Bluetooth) :
    PassStep d (configurePlaceholder env target miid st out_buf d).2 := by
  unfold configurePlaceholder
  split_ifs
  · dsimp only
    split
    · exact passStep_refl d
    · exact (passStep_push _ _ _ _).passStep_trans (passStep_configureBlocks env _ _ _ _ _)
  · exact passStep_configureBlocks env _ _ _ _ _

theorem getPluginPayload_form (env : Collab) (d : Bluetooth) (ct : codec_type) :
    (∃ st evs, st ≠ 0 ∧ Event.plugin_populate_payload 0 ∉ evs ∧ (∀ e ∈ evs, e.isPlugin = true) ∧
      getPluginPayload env d ct = (st, none, { d with trace := d.trace ++ evs })) ∨
    (∃ pl, env.dlopen (env.getBtCodecLib d.codecFormat ct) = some pl.libHandle ∧
      pl.btCodec = (env.plugin_open d.codecFormat ct).2 ∧
      pl.out_buf = pluginPackage env d.codecFormat ct d.codecInfo ∧
      getPluginPayload env d ct =
        (0, some pl, { d with trace := d.trace ++ loadEvents env d.codecFormat ct })) := by
  rcases getPluginPayload_cases env d ct with h | ⟨pl, evs, _, _, hpk, hc, hh, he⟩
  · exact Or.inl h
  · refine Or.inr ⟨pl, hh, hc, hpk, ?_⟩
    have hp : env.getBtCodecLib d.codecFormat ct ≠ "" := by
      intro hp
      simp [getPluginPayload, hp] at he
    have hs : env.dlsym_plugin_open pl.libHandle = true := by
      by_contra hs
      simp only [Bool.not_eq_true] at hs
      simp [getPluginPayload, getPluginPayload_error, hp, hh, hs] at he
    have ho : (env.plugin_open d.codecFormat ct).1 = 0 := by
      by_contra ho
      simp [getPluginPayload, getPluginPayload_error, hp, hh, hs, ho] at he
    have hq : (env.plugin_populate_payload (env.plugin_open d.codecFormat ct).2 d.codecInfo).1 = 0 := by
      by_contra hq
      simp [getPluginPayload, getPluginPayload_error, hp, hh, hs, ho, hq] at he
    have hpl : pl = ⟨pl.libHandle, (env.plugin_open d.codecFormat ct).2,
        pluginPackage env d.codecFormat ct d.codecInfo⟩ := by
      rw [← hc, ← hpk]
    rw [hpl]
    simp [getPluginPayload, hp, hh, hs, ho, hq, Bluetooth.log, loadEvents, pluginPackage]

theorem configure_form (env : Collab) (d : Bluetooth) :
    (∃ st evs, st ≠ 0 ∧ Event.plugin_populate_payload 0 ∉ evs ∧
      (∀ e ∈ evs, e.isPlugin = true ∨ e = .getActiveStream_l) ∧
      configureA2dpEncoderDecoder env d =
        (st, { d with isConfigured := false, trace := d.trace ++ evs })) ∨
    (∃ pl, env.dlopen (env.getBtCodecLib d.codecFormat d.codecType) = some pl.libHandle ∧
      pl.btCodec = (env.plugin_open d.codecFormat d.codecType).2 ∧
      pl.out_buf = pluginPackage env d.codecFormat d.codecType d.codecInfo ∧
      (((env.getMIID (placeholderTag d.codecType)).1 ≠ 0 ∧
        configureA2dpEncoderDecoder env d =
          ((env.getMIID (placeholderTag d.codecType)).1, atPlaceholder env d pl)) ∨
       configureA2dpEncoderDecoder env d =
        configurePlaceholder env (placeholderTag d.codecType)
          (env.getMIID (placeholderTag d.codecType)).2 (env.getMIID (placeholderTag d.codecType)).1
          pl.out_buf (atPlaceholder env d pl))) := by
  by_cases hs : env.getActiveStream_l.1 ≠ 0 ∨ env.getActiveStream_l.2 = 0
  · left
    exact ⟨-EINVAL, [.getActiveStream_l], by decide, by simp, by simp,
      by simp [configureA2dpEncoderDecoder, hs, Bluetooth.log]⟩
  · rcases getPluginPayload_form env
        (({ d with isConfigured := false } : Bluetooth).log .getActiveStream_l) d.codecType with
      ⟨st, evs, hst, hpop, hev, he⟩ | ⟨pl, hh, hc, hpk, he⟩
    · left
      refine ⟨st, [.getActiveStream_l] ++ evs, hst, by simpa using hpop, ?_, ?_⟩
      · intro e he2
        rcases List.mem_append.1 he2 with h | h
        · exact Or.inr (by simpa using h)
        · exact Or.inl (hev e h)
      · simp only [configureA2dpEncoderDecoder, hs, if_false]
        simp only [Bluetooth.log] at he ⊢
        rw [he]
        simp
    · right
      refine ⟨pl, hh, hc, hpk, ?_⟩
      by_cases hm : (env.getMIID (placeholderTag d.codecType)).1 = 0
      · right
        simp only [configureA2dpEncoderDecoder, hs, if_false]
        simp only [Bluetooth.log] at he ⊢
        rw [he]
        have hm2 := hm
        simp only [placeholderTag] at hm2
        simp [updateDeviceAttributes, afterLoad, atPlaceholder, placeholderTag, hm2, Bluetooth.log]
      · left
        refine ⟨hm, ?_⟩
        simp only [configureA2dpEncoderDecoder, hs, if_false]
        simp only [Bluetooth.log] at he ⊢
        rw [he]
        have hm2 := hm
        simp only [placeholderTag] at hm2
        simp [updateDeviceAttributes, afterLoad, atPlaceholder, placeholderTag, hm2, Bluetooth.log]

/-! ## Plugin release in startAbr -/

theorem noLoad_of_eq {d d1 : Bluetooth} (ht : d1.trace = d.trace)
    (hf : d1.codecFormat = d.codecFormat) (hc : d1.codecType = d.codecType)
    (hi : d1.codecInfo = d.codecInfo) : NoLoadStep d d1 :=
  ⟨[], by simp [ht], by simp, hf, hc, hi⟩

theorem NoLoadStep.noLoad_trans {a b c : Bluetooth} (h1 : NoLoadStep a b) (h2 : NoLoadStep b c) :
    NoLoadStep a c := by
  obtain ⟨e1, t1, p1, f1, c1, i1⟩ := h1
  obtain ⟨e2, t2, p2, f2, c2, i2⟩ := h2
  refine ⟨e1 ++ e2, by rw [t2, t1, List.append_assoc], ?_, f2.trans f1, c2.trans c1, i2.trans i1⟩
  intro e he
  rcases List.mem_append.1 he with h | h
  · exact p1 e h
  · exact p2 e h

theorem noLoad_log_of {d d1 : Bluetooth} (e : Event) (h : e.isPlugin = false)
    (ht : d1.trace = d.trace ++ [e]) (hf : d1.codecFormat = d.codecFormat)
    (hc : d1.codecType = d.codecType) (hi : d1.codecInfo = d.codecInfo) : NoLoadStep d d1 :=
  ⟨[e], ht, by simpa using h, hf, hc, hi⟩

theorem noLoad_log (d : Bluetooth) (e : Event) (h : e.isPlugin = false) : NoLoadStep d (d.log e) :=
  noLoad_log_of e h rfl rfl rfl rfl

theorem abrLoad_of_noLoad (env : Collab) {d r : Bluetooth} (h : NoLoadStep d r) : AbrLoad env d r := by
  obtain ⟨pre, t, p, _⟩ := h
  refine ⟨pre, t, fun hp _ => ?_⟩
  have := p _ hp
  simp [Event.isPlugin] at this

theorem abrLoad_step (env : Collab) {d d1 r : Bluetooth} (h : NoLoadStep d d1)
    (h2 : AbrLoad env d1 r) : AbrLoad env d r := by
  obtain ⟨pre, t, p, hf, hc, hi⟩ := h
  obtain ⟨evs, t2, q⟩ := h2
  refine ⟨pre ++ evs, by rw [t2, t, List.append_assoc], fun hp hn => ?_⟩
  rw [hf, hc, hi] at q
  have hp2 : Event.plugin_populate_payload 0 ∈ evs := by
    rcases List.mem_append.1 hp with h | h
    · have := p _ h
      simp [Event.isPlugin] at this
    · exact h
  obtain ⟨h, hd, hcl, hcp⟩ := q hp2 hn
  rw [hf, hc] at hd hcp
  exact ⟨h, hd, List.mem_append_right _ hcl, fun c hc2 => List.mem_append_right _ (hcp c hc2)⟩

theorem noLoad_free_fe (d : Bluetooth) : NoLoadStep d (startAbr_free_fe d) :=
  noLoad_log_of (.freeFrontEndIds d.fbpcmDevIds) rfl rfl rfl rfl rfl

theorem noLoad_err_pcm_open (d : Bluetooth) : NoLoadStep d (startAbr_err_pcm_open d) := by
  have s : NoLoadStep d ({ d.log (.pcm_close d.fbPcm) with fbPcm := none } : Bluetooth) :=
    noLoad_log_of (.pcm_close d.fbPcm) rfl rfl rfl rfl rfl
  exact s.noLoad_trans (noLoad_free_fe _)

theorem noLoad_started (d : Bluetooth) : NoLoadStep d (startAbr_started d) := by
  have h1 : ∀ x : Bluetooth, NoLoadStep x (fbDevAcquire x) := fun x =>
    noLoad_of_eq (fbDevAcquire_frame x).1 (fbDevAcquire_frame x).2.2.2.2.1
      (fbDevAcquire_frame x).2.2.2.2.2.1 (by unfold fbDevAcquire; split <;> rfl)
  unfold startAbr_started
  dsimp only
  split_ifs
  · exact ((h1 _).noLoad_trans (h1 _)).noLoad_trans (noLoad_of_eq rfl rfl rfl rfl)
  · exact (h1 _).noLoad_trans (noLoad_of_eq rfl rfl rfl rfl)
  · exact (h1 _).noLoad_trans (noLoad_of_eq rfl rfl rfl rfl)
  · exact noLoad_of_eq rfl rfl rfl rfl

theorem noLoad_start_pcm (env : Collab) (d : Bluetooth) : NoLoadStep d (startAbr_start_pcm env d) := by
  have s1 : NoLoadStep d
      ({ d.log (.pcm_open (env.pcm_open (d.fbpcmDevIds.headD 0))) with
          fbPcm := env.pcm_open (d.fbpcmDevIds.headD 0) } : Bluetooth) :=
    noLoad_log_of (.pcm_open (env.pcm_open (d.fbpcmDevIds.headD 0))) rfl rfl rfl rfl rfl
  unfold startAbr_start_pcm
  dsimp only
  split_ifs
  · exact s1.noLoad_trans (noLoad_free_fe _)
  · exact (s1.noLoad_trans (noLoad_log _ _ (by rfl))).noLoad_trans (noLoad_err_pcm_open _)
  · exact ((s1.noLoad_trans (noLoad_log _ _ (by rfl))).noLoad_trans (noLoad_log _ _ (by rfl))).noLoad_trans
      (noLoad_err_pcm_open _)
  · exact ((s1.noLoad_trans (noLoad_log _ _ (by rfl))).noLoad_trans (noLoad_log _ _ (by rfl))).noLoad_trans
      (noLoad_started _)

theorem noLoad_lc3 (env : Collab) (d : Bluetooth) : NoLoadStep d (startAbr_lc3 env d) := by
  have s1 : NoLoadStep d
      ({ d.log (.getInstance (fbDeviceId d)) with fbDev := env.getInstance (fbDeviceId d) } :
        Bluetooth) :=
    noLoad_log_of (.getInstance (fbDeviceId d)) rfl rfl rfl rfl rfl
  unfold startAbr_lc3
  dsimp only
  split
  · exact s1.noLoad_trans (noLoad_err_pcm_open _)
  · split_ifs
    · exact (s1.noLoad_trans (noLoad_log _ _ (by rfl))).noLoad_trans (noLoad_err_pcm_open _)
    · exact (s1.noLoad_trans (noLoad_log _ _ (by rfl))).noLoad_trans (noLoad_err_pcm_open _)
    · exact ((s1.noLoad_trans (noLoad_log _ _ (by rfl))).noLoad_trans (noLoad_log _ _ (by rfl))).noLoad_trans
        (noLoad_err_pcm_open _)
    · exact ((s1.noLoad_trans (noLoad_log _ _ (by rfl))).noLoad_trans (noLoad_log _ _ (by rfl))).noLoad_trans
        (noLoad_start_pcm env _)

theorem release_plugin_trace (pl : PluginLoaded) (d : Bluetooth) :
    ∃ rel, (startAbr_release_plugin pl d).trace = d.trace ++ rel ∧
      Event.dlclose pl.libHandle ∈ rel ∧ (∀ c, pl.btCodec = some c → Event.close_plugin c ∈ rel) ∧
      (startAbr_release_plugin pl d).codecFormat = d.codecFormat ∧
      (startAbr_release_plugin pl d).codecType = d.codecType ∧
      (startAbr_release_plugin pl d).codecInfo = d.codecInfo := by
  unfold startAbr_release_plugin
  cases hc : pl.btCodec with
  | none => exact ⟨[.dlclose pl.libHandle], rfl, by simp, by simp, rfl, rfl, rfl⟩
  | some c =>
    exact ⟨[.close_plugin c, .dlclose pl.libHandle], by simp [Bluetooth.log], by simp, by simp,
      rfl, rfl, rfl⟩

theorem abrLoad_speech_payload (env : Collab) (f : FbDev) (miid : Nat) (d : Bluetooth) :
    AbrLoad env d (startAbr_speech_payload env f miid d) := by
  rcases getPluginPayload_form env d d.codecType.inverse with
    ⟨st, evs, hst, hpop, hev, he⟩ | ⟨pl, hh, hc, hpk, he⟩
  · unfold startAbr_speech_payload
    rw [he]
    dsimp only
    obtain ⟨tail, t, p, _⟩ := noLoad_err_pcm_open { d with trace := d.trace ++ evs }
    refine ⟨evs ++ tail, by rw [t, List.append_assoc], fun hp _ => ?_⟩
    rcases List.mem_append.1 hp with h | h
    · exact absurd h hpop
    · have := p _ h
      simp [Event.isPlugin] at this
  · unfold startAbr_speech_payload
    rw [he]
    dsimp only
    by_cases hn : pl.out_buf.num_blks ≠ 1
    · rw [if_pos hn]
      obtain ⟨tail, t, p, _⟩ := noLoad_err_pcm_open
        { d with trace := d.trace ++ loadEvents env d.codecFormat d.codecType.inverse }
      refine ⟨loadEvents env d.codecFormat d.codecType.inverse ++ tail,
        by rw [t, List.append_assoc], fun _ h1 => ?_⟩
      rw [← hpk] at h1
      exact absurd h1 hn
    · rw [if_neg hn]
      have key : ∀ (d4 r : Bluetooth),
          d4.trace = d.trace ++ loadEvents env d.codecFormat d.codecType.inverse →
          NoLoadStep (startAbr_release_plugin pl d4) r → AbrLoad env d r := by
        intro d4 r h4 hr
        obtain ⟨rel, tr, hd, hcl, _⟩ := release_plugin_trace pl d4
        obtain ⟨tail, t, _⟩ := hr
        refine ⟨loadEvents env d.codecFormat d.codecType.inverse ++ rel ++ tail,
          by rw [t, tr, h4]; simp, fun _ _ => ⟨pl.libHandle, hh, ?_, ?_⟩⟩
        · simp [hd]
        · intro c hc2
          have := hcl c (hc.trans hc2)
          simp [this]
      split_ifs
      · exact key _ _ rfl (noLoad_err_pcm_open _)
      · exact key _ _ rfl ((noLoad_log _ _ (by rfl)).noLoad_trans (noLoad_err_pcm_open _))
      · exact key _ _ rfl ((noLoad_log _ _ (by rfl)).noLoad_trans (noLoad_start_pcm env _))

theorem abrLoad_speech (env : Collab) (d : Bluetooth) : AbrLoad env d (startAbr_speech env d) := by
  have s1 : NoLoadStep d
      ({ d.log (.getInstance (fbDeviceId d)) with fbDev := env.getInstance (fbDeviceId d) } :
        Bluetooth) :=
    noLoad_log_of (.getInstance (fbDeviceId d)) rfl rfl rfl rfl rfl
  unfold startAbr_speech
  dsimp only
  split
  · exact abrLoad_of_noLoad env (s1.noLoad_trans (noLoad_err_pcm_open _))
  · split_ifs
    · exact abrLoad_of_noLoad env (s1.noLoad_trans (noLoad_start_pcm env _))
    · exact abrLoad_of_noLoad env
        ((s1.noLoad_trans (noLoad_log _ _ (by rfl))).noLoad_trans (noLoad_err_pcm_open _))
    · exact abrLoad_step env (s1.noLoad_trans (noLoad_log _ _ (by rfl)))
        (abrLoad_speech_payload env _ _ _)
    · exact abrLoad_of_noLoad env
        ((s1.noLoad_trans (noLoad_log _ _ (by rfl))).noLoad_trans (noLoad_err_pcm_open _))
    · exact abrLoad_step env (s1.noLoad_trans (noLoad_log _ _ (by rfl)))
        (abrLoad_speech_payload env _ _ _)

theorem abrLoad_codec (env : Collab) (d : Bluetooth) : AbrLoad env d (startAbr_codec env d) := by
  unfold startAbr_codec
  split_ifs
  · exact abrLoad_speech env d
  · exact abrLoad_of_noLoad env (noLoad_lc3 env d)
  · exact abrLoad_of_noLoad env (noLoad_start_pcm env d)

theorem abrLoad_mixer (env : Collab) (d : Bluetooth) : AbrLoad env d (startAbr_mixer env d) := by
  unfold startAbr_mixer
  dsimp only
  split_ifs
  · exact abrLoad_of_noLoad env ((noLoad_log _ _ (by rfl)).noLoad_trans (noLoad_free_fe _))
  · exact abrLoad_of_noLoad env
      (((noLoad_log _ _ (by rfl)).noLoad_trans (noLoad_log _ _ (by rfl))).noLoad_trans
        (noLoad_free_fe _))
  · exact abrLoad_of_noLoad env
      ((((noLoad_log _ _ (by rfl)).noLoad_trans (noLoad_log _ _ (by rfl))).noLoad_trans
        (noLoad_log _ _ (by rfl))).noLoad_trans (noLoad_free_fe _))
  · exact abrLoad_of_noLoad env
      (((((noLoad_log _ _ (by rfl)).noLoad_trans (noLoad_log _ _ (by rfl))).noLoad_trans
        (noLoad_log _ _ (by rfl))).noLoad_trans (noLoad_log _ _ (by rfl))).noLoad_trans
        (noLoad_free_fe _))
  · exact abrLoad_of_noLoad env
      ((((((noLoad_log _ _ (by rfl)).noLoad_trans (noLoad_log _ _ (by rfl))).noLoad_trans
        (noLoad_log _ _ (by rfl))).noLoad_trans (noLoad_log _ _ (by rfl))).noLoad_trans
        (noLoad_log _ _ (by rfl))).noLoad_trans (noLoad_free_fe _))
  · exact abrLoad_step env
      (((((noLoad_log _ _ (by rfl)).noLoad_trans (noLoad_log _ _ (by rfl))).noLoad_trans
        (noLoad_log _ _ (by rfl))).noLoad_trans (noLoad_log _ _ (by rfl))).noLoad_trans
        (noLoad_log _ _ (by rfl))) (abrLoad_codec env _)

theorem abrLoad_startAbr (env : Collab) (d : Bluetooth) : AbrLoad env d (startAbr env d) := by
  have s1 : NoLoadStep d (d.log (.setDeviceMetadata (fbDeviceId d) (abrKeyVector d))) :=
    noLoad_log _ _ rfl
  have s2 : NoLoadStep d
      ((d.log (.setDeviceMetadata (fbDeviceId d) (abrKeyVector d))).log
        (.setDeviceMediaConfig (fbDeviceId d))) :=
    s1.noLoad_trans (noLoad_log _ _ rfl)
  have s3 : NoLoadStep d
      ({ ((d.log (.setDeviceMetadata (fbDeviceId d) (abrKeyVector d))).log
            (.setDeviceMediaConfig (fbDeviceId d))).log
            (.allocateFrontEndIds (env.allocateFrontEndIds (abrDir d))) with
          fbpcmDevIds := env.allocateFrontEndIds (abrDir d) } : Bluetooth) :=
    s2.noLoad_trans
      (noLoad_log_of (.allocateFrontEndIds (env.allocateFrontEndIds (abrDir d))) rfl rfl rfl rfl rfl)
  unfold startAbr
  dsimp only
  split_ifs
  · exact abrLoad_of_noLoad env (noLoad_of_eq rfl rfl rfl rfl)
  · exact abrLoad_of_noLoad env s1
  · exact abrLoad_of_noLoad env s2
  · exact abrLoad_of_noLoad env s3
  · exact abrLoad_step env s3 (abrLoad_mixer env _)

/-! ## A pass that fails -/

theorem pushedPayloads_nil {evs : List Event}
    (h : ∀ e ∈ evs, e.isPlugin = true ∨ e = .getActiveStream_l) : pushedPayloads evs = [] := by
  have : pushes evs = [] := by
    unfold pushes
    rw [List.filterMap_eq_nil_iff]
    intro e he
    rcases h e he with h1 | h1
    · cases e <;> simp_all [Event.isPlugin]
    · rw [h1]
  simp [pushedPayloads, this]

theorem atPlaceholder_frame (env : Collab) (d : Bluetooth) (pl : PluginLoaded) :
    (atPlaceholder env d pl).trace =
      d.trace ++ ([Event.getActiveStream_l] ++ loadEvents env d.codecFormat d.codecType ++
        [Event.getMIID (placeholderTag d.codecType)]) ∧
    (atPlaceholder env d pl).customPayload = d.customPayload ∧
    (atPlaceholder env d pl).pluginHandler = some pl.libHandle ∧
    (atPlaceholder env d pl).pluginCodec = pl.btCodec := by
  simp [atPlaceholder, afterLoad, updateDeviceAttributes, Bluetooth.log]

/-- What a pass of configureA2dpEncoderDecoder leaves: the custom payload is
the one at the start followed by the payloads pushed in the pass, and once the
plugin load succeeded no call releases anything and the handles of the plugin
are stored in the device. -/
theorem configure_pass (env : Collab) (d : Bluetooth) :
    ∃ evs, (configureA2dpEncoderDecoder env d).2.trace = d.trace ++ evs ∧
      (configureA2dpEncoderDecoder env d).2.customPayload = d.customPayload ++ pushedPayloads evs ∧
      (Event.plugin_populate_payload 0 ∈ evs →
        (∀ e ∈ evs, e.isRelease = false) ∧
        (configureA2dpEncoderDecoder env d).2.pluginHandler =
          env.dlopen (env.getBtCodecLib d.codecFormat d.codecType) ∧
        (configureA2dpEncoderDecoder env d).2.pluginHandler ≠ none ∧
        (configureA2dpEncoderDecoder env d).2.pluginCodec =
          (env.plugin_open d.codecFormat d.codecType).2) := by
  rcases configure_form env d with ⟨st, evs, _, hpop, hev, e⟩ | ⟨pl, hh, hc, _, e⟩
  · rw [e]
    exact ⟨evs, rfl, by simp [pushedPayloads_nil hev], fun h => absurd h hpop⟩
  · obtain ⟨t0, c0, ph0, pc0⟩ := atPlaceholder_frame env d pl
    have hpre : pushedPayloads ([Event.getActiveStream_l] ++
        loadEvents env d.codecFormat d.codecType ++
        [Event.getMIID (placeholderTag d.codecType)]) = [] := by
      simp [pushedPayloads, pushes, loadEvents]
    have hrel : ∀ e ∈ [Event.getActiveStream_l] ++ loadEvents env d.codecFormat d.codecType ++
        [Event.getMIID (placeholderTag d.codecType)], e.isRelease = false := by
      simp [loadEvents, Event.isRelease]
    have key : ∀ r : Bluetooth, PassStep (atPlaceholder env d pl) r →
        ∃ evs, r.trace = d.trace ++ evs ∧ r.customPayload = d.customPayload ++ pushedPayloads evs ∧
          (Event.plugin_populate_payload 0 ∈ evs →
            (∀ e ∈ evs, e.isRelease = false) ∧
            r.pluginHandler = env.dlopen (env.getBtCodecLib d.codecFormat d.codecType) ∧
            r.pluginHandler ≠ none ∧
            r.pluginCodec = (env.plugin_open d.codecFormat d.codecType).2) := by
      intro r hr
      obtain ⟨evs, t, cp, rel, ph, pc⟩ := hr
      refine ⟨[Event.getActiveStream_l] ++ loadEvents env d.codecFormat d.codecType ++
        [Event.getMIID (placeholderTag d.codecType)] ++ evs, by rw [t, t0, List.append_assoc], ?_,
        fun _ => ⟨?_, ?_, ?_, ?_⟩⟩
      · rw [cp, c0, pushedPayloads_append, hpre, List.nil_append]
      · intro e he
        rcases List.mem_append.1 he with h | h
        · exact hrel e h
        · exact rel e h
      · rw [ph, ph0, hh]
      · rw [ph, ph0]
        simp
      · rw [pc, pc0, hc]
    rcases e with ⟨_, e⟩ | e
    · rw [e]
      exact key _ (passStep_refl _)
    · rw [e]
      exact key _ (passStep_configurePlaceholder env _ _ _ _ _)

/-- C12 as stated fails: a pass that fails at the PCM converter step after four
payloads were pushed returns with these payloads in the custom payload of the
device, which was empty at the start of the pass. -/
theorem C12_counterexample :
    (configureA2dpEncoderDecoder emptyPcmCnvCollab
      (sampleDevice .PAL_DEVICE_OUT_BLUETOOTH_A2DP .ENC .CODEC_TYPE_SBC)).1 = -EINVAL ∧
    (sampleDevice .PAL_DEVICE_OUT_BLUETOOTH_A2DP .ENC .CODEC_TYPE_SBC).customPayload = [] ∧
    (configureA2dpEncoderDecoder emptyPcmCnvCollab
      (sampleDevice .PAL_DEVICE_OUT_BLUETOOTH_A2DP .ENC .CODEC_TYPE_SBC)).2.customPayload.length = 4 ∧
    (configureA2dpEncoderDecoder emptyPcmCnvCollab
      (sampleDevice .PAL_DEVICE_OUT_BLUETOOTH_A2DP .ENC .CODEC_TYPE_SBC)).2.customPayload ≠
      (sampleDevice .PAL_DEVICE_OUT_BLUETOOTH_A2DP .ENC .CODEC_TYPE_SBC).customPayload := by
  decide

/-- C12, amended: when configureA2dpEncoderDecoder fails, the custom payload of
the device on return is its value at the start of the pass followed by every
payload pushed before the failure, in the order of the pushes: nothing is
discarded, so after at least one push the custom payload differs from its value
at the start; isConfigured is false. -/
theorem C12_partial_payload_kept (env : Collab) (d : Bluetooth)
    (hfail : (configureA2dpEncoderDecoder env d).1 ≠ 0) :
    (configureA2dpEncoderDecoder env d).2.customPayload =
      d.customPayload ++ pushedPayloads (passTrace d (configureA2dpEncoderDecoder env d).2) ∧
    (pushedPayloads (passTrace d (configureA2dpEncoderDecoder env d).2) ≠ [] →
      (configureA2dpEncoderDecoder env d).2.customPayload ≠ d.customPayload) ∧
    (configureA2dpEncoderDecoder env d).2.isConfigured = false := by
  obtain ⟨evs, t, cp, _⟩ := configure_pass env d
  rw [passTrace_eq d evs t]
  refine ⟨cp, fun hne h => ?_, ?_⟩
  · rw [cp] at h
    exact hne (List.append_right_eq_self.1 h)
  · obtain ⟨_, _, _, hiff, _⟩ := configure_stage env d
    cases hc : (configureA2dpEncoderDecoder env d).2.isConfigured with
    | false => rfl
    | true => exact absurd (hiff.2 hc) hfail

theorem C12_partial_payload_kept_witness :
    (configureA2dpEncoderDecoder emptyPcmCnvCollab
      (sampleDevice .PAL_DEVICE_OUT_BLUETOOTH_A2DP .ENC .CODEC_TYPE_SBC)).1 ≠ 0 ∧
    (configureA2dpEncoderDecoder emptyPcmCnvCollab
      (sampleDevice .PAL_DEVICE_OUT_BLUETOOTH_A2DP .ENC .CODEC_TYPE_SBC)).2.customPayload =
      (sampleDevice .PAL_DEVICE_OUT_BLUETOOTH_A2DP .ENC .CODEC_TYPE_SBC).customPayload ++
        pushedPayloads (passTrace (sampleDevice .PAL_DEVICE_OUT_BLUETOOTH_A2DP .ENC .CODEC_TYPE_SBC)
          (configureA2dpEncoderDecoder emptyPcmCnvCollab
            (sampleDevice .PAL_DEVICE_OUT_BLUETOOTH_A2DP .ENC .CODEC_TYPE_SBC)).2) :=
  ⟨by decide,
   (C12_partial_payload_kept emptyPcmCnvCollab
      (sampleDevice .PAL_DEVICE_OUT_BLUETOOTH_A2DP .ENC .CODEC_TYPE_SBC) (by decide)).1⟩

/-- C14 as stated fails: a pass of configureA2dpEncoderDecoder that fails at
the PCM converter step after the plugin load succeeded makes no close_plugin and
no dlclose call; the codec and the library handle stay stored in pluginCodec and
pluginHandler. -/
theorem C14_counterexample :
    (configureA2dpEncoderDecoder emptyPcmCnvCollab
      (sampleDevice .PAL_DEVICE_OUT_BLUETOOTH_A2DP .ENC .CODEC_TYPE_SBC)).1 ≠ 0 ∧
    Event.plugin_populate_payload 0 ∈
      (configureA2dpEncoderDecoder emptyPcmCnvCollab
        (sampleDevice .PAL_DEVICE_OUT_BLUETOOTH_A2DP .ENC .CODEC_TYPE_SBC)).2.trace ∧
    (∀ e ∈ (configureA2dpEncoderDecoder emptyPcmCnvCollab
        (sampleDevice .PAL_DEVICE_OUT_BLUETOOTH_A2DP .ENC .CODEC_TYPE_SBC)).2.trace,
      e.isRelease = false) ∧
    (configureA2dpEncoderDecoder emptyPcmCnvCollab
      (sampleDevice .PAL_DEVICE_OUT_BLUETOOTH_A2DP .ENC .CODEC_TYPE_SBC)).2.pluginHandler = some 1 ∧
    (configureA2dpEncoderDecoder emptyPcmCnvCollab
      (sampleDevice .PAL_DEVICE_OUT_BLUETOOTH_A2DP .ENC .CODEC_TYPE_SBC)).2.pluginCodec = some 7 := by
  decide

/-- C14, amended. A pass of configureA2dpEncoderDecoder that fails after its
plugin load succeeded releases nothing: it makes no close_plugin and no dlclose
call, and on return pluginHandler holds the handle dlopen returned and
pluginCodec the codec plugin_open handed out. In startAbr, when the plugin load of the feedback path succeeded and
the package has the one block the code expects, the library handle has been
released by dlclose and the codec closed by close_plugin before startAbr
returns, whether the rest of the call fails or not. -/
theorem C14_plugin_kept_or_released (env : Collab) (d : Bluetooth) :
    ((configureA2dpEncoderDecoder env d).1 ≠ 0 →
      Event.plugin_populate_payload 0 ∈ passTrace d (configureA2dpEncoderDecoder env d).2 →
      (∀ e ∈ passTrace d (configureA2dpEncoderDecoder env d).2, e.isRelease = false) ∧
      (configureA2dpEncoderDecoder env d).2.pluginHandler =
        env.dlopen (env.getBtCodecLib d.codecFormat d.codecType) ∧
      (configureA2dpEncoderDecoder env d).2.pluginHandler ≠ none ∧
      (configureA2dpEncoderDecoder env d).2.pluginCodec =
        (env.plugin_open d.codecFormat d.codecType).2) ∧
    (Event.plugin_populate_payload 0 ∈ passTrace d (startAbr env d) →
      (pluginPackage env d.codecFormat d.codecType.inverse d.codecInfo).num_blks = 1 →
      PluginReleased env d (passTrace d (startAbr env d))) := by
  constructor
  · intro _ hload
    obtain ⟨evs, t, _, h⟩ := configure_pass env d
    rw [passTrace_eq d evs t] at hload ⊢
    exact h hload
  · intro hload hn
    obtain ⟨evs, t, h⟩ := abrLoad_startAbr env d
    rw [passTrace_eq d evs t] at hload ⊢
    exact h hload hn

theorem C14_plugin_kept_or_released_witness :
    ((configureA2dpEncoderDecoder emptyPcmCnvCollab
        (sampleDevice .PAL_DEVICE_OUT_BLUETOOTH_A2DP .ENC .CODEC_TYPE_SBC)).2.pluginHandler =
      emptyPcmCnvCollab.dlopen (emptyPcmCnvCollab.getBtCodecLib .CODEC_TYPE_SBC .ENC)) ∧
    Event.pcm_start 0 ∉
      passTrace (sampleDevice .PAL_DEVICE_OUT_BLUETOOTH_SCO .ENC .CODEC_TYPE_APTX_AD_SPEECH)
        (startAbr pcmStartFailsCollab
          (sampleDevice .PAL_DEVICE_OUT_BLUETOOTH_SCO .ENC .CODEC_TYPE_APTX_AD_SPEECH)) ∧
    PluginReleased pcmStartFailsCollab
      (sampleDevice .PAL_DEVICE_OUT_BLUETOOTH_SCO .ENC .CODEC_TYPE_APTX_AD_SPEECH)
      (passTrace (sampleDevice .PAL_DEVICE_OUT_BLUETOOTH_SCO .ENC .CODEC_TYPE_APTX_AD_SPEECH)
        (startAbr pcmStartFailsCollab
          (sampleDevice .PAL_DEVICE_OUT_BLUETOOTH_SCO .ENC .CODEC_TYPE_APTX_AD_SPEECH))) :=
  ⟨((C14_plugin_kept_or_released emptyPcmCnvCollab
      (sampleDevice .PAL_DEVICE_OUT_BLUETOOTH_A2DP .ENC .CODEC_TYPE_SBC)).1
        (by decide) (by decide)).2.1,
   by decide,
   (C14_plugin_kept_or_released pcmStartFailsCollab
      (sampleDevice .PAL_DEVICE_OUT_BLUETOOTH_SCO .ENC .CODEC_TYPE_APTX_AD_SPEECH)).2
        (by decide) (by decide)⟩

/-! ## Reference count of the feedback channel and bounds of the stream map -/

/-- Claim C29, evaluated at "0,0,L". The parsing loop ends with the one entry
(1, 0, 0) and the two arrays are allocated with one element, yet each fill loop
writes at the indices 0, 1 and 2: the index is advanced after each of the three
member assignments of an entry. The writes at indices 1 and 2 fall outside the
arrays. -/
theorem C29_stream_map_writes_out_of_bounds (fuel : Nat) (lc3CodecInfo : audio_lc3_codec_cfg_t) :
    parseLoop (fuel + 2) "0,0,L".toList 0 [] = some [⟨1, 0, 0⟩] ∧
    convertCodecInfo (fuel + 2) lc3CodecInfo "0,0,L" =
      some { enc_stream_map_size := 1,
             streamMapOut := some [⟨some 1, none, none⟩],
             dec_stream_map_size := 1,
             streamMapIn := some [⟨some 1, none, none⟩],
             decoder_output_channel := some lc3_channel.CH_STEREO,
             writesOut := [0, 1, 2],
             writesIn := [0, 1, 2] } ∧
    ¬ (∀ i ∈ [0, 1, 2], i < 1) := by
  have h : parseLoop (fuel + 2) "0,0,L".toList 0 [] = some [⟨1, 0, 0⟩] := by
    have e1 : regex_search "0,0,L".toList = some ⟨'0', '0', 'L', []⟩ := by decide
    rw [parseLoop_valid _ _ e1 (by decide), parseLoop_done [] rfl]
    rfl
  refine ⟨h, ?_, by decide⟩
  simp only [convertCodecInfo, h]
  rw [if_neg (by decide)]
  rfl

/-- Claim C28, evaluated on the sequence startAbr, stopAbr, stopAbr with every
collaborator call succeeding, on an LC3 encoder device with abrRefCnt = 0 and no
feedback stream. The first stopAbr lowers abrRefCnt from 1 to 0 and closes the
stream, but leaves fbPcm set; the second stopAbr therefore passes the null test
on fbPcm, lowers abrRefCnt from 0 to -1 and returns without a call. A startAbr
after that starts a stream and leaves abrRefCnt = 0, and the stopAbr that
follows lowers it to -1 and returns without closing that stream. -/
theorem C28_abrRefCnt_goes_negative :
    (sampleDevice .PAL_DEVICE_OUT_BLUETOOTH_A2DP .ENC .CODEC_TYPE_LC3).abrRefCnt = 0 ∧
    (sampleDevice .PAL_DEVICE_OUT_BLUETOOTH_A2DP .ENC .CODEC_TYPE_LC3).fbPcm = none ∧
    (startAbr okCollab (sampleDevice .PAL_DEVICE_OUT_BLUETOOTH_A2DP .ENC .CODEC_TYPE_LC3)).abrRefCnt
      = 1 ∧
    (stopAbr okCollab (startAbr okCollab
      (sampleDevice .PAL_DEVICE_OUT_BLUETOOTH_A2DP .ENC .CODEC_TYPE_LC3))).abrRefCnt = 0 ∧
    (stopAbr okCollab (startAbr okCollab
      (sampleDevice .PAL_DEVICE_OUT_BLUETOOTH_A2DP .ENC .CODEC_TYPE_LC3))).fbPcm = some 40 ∧
    (stopAbr okCollab (stopAbr okCollab (startAbr okCollab
      (sampleDevice .PAL_DEVICE_OUT_BLUETOOTH_A2DP .ENC .CODEC_TYPE_LC3)))).abrRefCnt = -1 ∧
    passTrace
      (stopAbr okCollab (startAbr okCollab
        (sampleDevice .PAL_DEVICE_OUT_BLUETOOTH_A2DP .ENC .CODEC_TYPE_LC3)))
      (stopAbr okCollab (stopAbr okCollab (startAbr okCollab
        (sampleDevice .PAL_DEVICE_OUT_BLUETOOTH_A2DP .ENC .CODEC_TYPE_LC3)))) = [] ∧
    Event.pcm_start 0 ∈ passTrace
      (stopAbr okCollab (stopAbr okCollab (startAbr okCollab
        (sampleDevice .PAL_DEVICE_OUT_BLUETOOTH_A2DP .ENC .CODEC_TYPE_LC3))))
      (startAbr okCollab (stopAbr okCollab (stopAbr okCollab (startAbr okCollab
        (sampleDevice .PAL_DEVICE_OUT_BLUETOOTH_A2DP .ENC .CODEC_TYPE_LC3))))) ∧
    (startAbr okCollab (stopAbr okCollab (stopAbr okCollab (startAbr okCollab
      (sampleDevice .PAL_DEVICE_OUT_BLUETOOTH_A2DP .ENC .CODEC_TYPE_LC3))))).abrRefCnt = 0 ∧
    (stopAbr okCollab (startAbr okCollab (stopAbr okCollab (stopAbr okCollab (startAbr okCollab
      (sampleDevice .PAL_DEVICE_OUT_BLUETOOTH_A2DP .ENC .CODEC_TYPE_LC3)))))).abrRefCnt = -1 ∧
    passTrace
      (startAbr okCollab (stopAbr okCollab (stopAbr okCollab (startAbr okCollab
        (sampleDevice .PAL_DEVICE_OUT_BLUETOOTH_A2DP .ENC .CODEC_TYPE_LC3)))))
      (stopAbr okCollab (startAbr okCollab (stopAbr okCollab (stopAbr okCollab (startAbr okCollab
        (sampleDevice .PAL_DEVICE_OUT_BLUETOOTH_A2DP .ENC .CODEC_TYPE_LC3)))))) = [] := by
  decide

/-! ## The feedback device is assigned before it is used -/

theorem noStart_of_eq {d d1 : Bluetooth} (ht : d1.trace = d.trace)
    (hf : d1.codecFormat = d.codecFormat) (hc : d1.codecType = d.codecType)
    (hi : d1.deviceAttr_id = d.deviceAttr_id) : NoStartStep d d1 :=
  ⟨[], by simp [ht], by simp, hf, hc, hi⟩

theorem NoStartStep.noStart_trans {a b c : Bluetooth} (h1 : NoStartStep a b)
    (h2 : NoStartStep b c) : NoStartStep a c := by
  obtain ⟨e1, t1, p1, f1, c1, i1⟩ := h1
  obtain ⟨e2, t2, p2, f2, c2, i2⟩ := h2
  refine ⟨e1 ++ e2, by rw [t2, t1, List.append_assoc], ?_, f2.trans f1, c2.trans c1,
    i2.trans i1⟩
  intro he
  rcases List.mem_append.1 he with h | h
  · exact p1 h
  · exact p2 h

theorem noStart_log_of {d d1 : Bluetooth} (e : Event) (h : e ≠ Event.pcm_start 0)
    (ht : d1.trace = d.trace ++ [e]) (hf : d1.codecFormat = d.codecFormat)
    (hc : d1.codecType = d.codecType) (hi : d1.deviceAttr_id = d.deviceAttr_id) :
    NoStartStep d d1 :=
  ⟨[e], ht, by simpa using fun h2 => h h2.symm, hf, hc, hi⟩

theorem noStart_log (d : Bluetooth) (e : Event) (h : e ≠ Event.pcm_start 0) :
    NoStartStep d (d.log e) :=
  noStart_log_of e h rfl rfl rfl rfl

theorem noStart_free_fe (d : Bluetooth) : NoStartStep d (startAbr_free_fe d) :=
  noStart_log_of (.freeFrontEndIds d.fbpcmDevIds) (by simp) rfl rfl rfl rfl

theorem noStart_err_pcm_open (d : Bluetooth) : NoStartStep d (startAbr_err_pcm_open d) := by
  have s : NoStartStep d ({ d.log (.pcm_close d.fbPcm) with fbPcm := none } : Bluetooth) :=
    noStart_log_of (.pcm_close d.fbPcm) (by simp) rfl rfl rfl rfl
  exact s.noStart_trans (noStart_free_fe _)

theorem abrBookkeeps_congr {d d1 : Bluetooth} (hf : d1.codecFormat = d.codecFormat)
    (hc : d1.codecType = d.codecType) (hi : d1.deviceAttr_id = d.deviceAttr_id) :
    abrBookkeeps d1 ↔ abrBookkeeps d := by
  simp only [abrBookkeeps, fbDeviceId, hf, hc, hi]

theorem fbDeviceId_congr {d d1 : Bluetooth} (hf : d1.codecFormat = d.codecFormat)
    (hc : d1.codecType = d.codecType) (hi : d1.deviceAttr_id = d.deviceAttr_id) :
    fbDeviceId d1 = fbDeviceId d := by
  simp only [fbDeviceId, hf, hc, hi]

theorem abrBooked_of_noStart {d r : Bluetooth} (f : FbDev) (h : NoStartStep d r) :
    AbrBooked d r f := by
  obtain ⟨pre, t, p, _⟩ := h
  exact ⟨pre, t, fun hp _ => absurd hp p⟩

theorem abrBooked_step {d d1 r : Bluetooth} {f : FbDev} (h : NoStartStep d d1)
    (h2 : AbrBooked d1 r f) : AbrBooked d r f := by
  obtain ⟨pre, t, p, hf, hc, hi⟩ := h
  obtain ⟨evs, t2, q⟩ := h2
  refine ⟨pre ++ evs, by rw [t2, t, List.append_assoc], fun hp hb => ?_⟩
  have hp2 : Event.pcm_start 0 ∈ evs := by
    rcases List.mem_append.1 hp with h | h
    · exact absurd h p
    · exact h
  exact q hp2 ((abrBookkeeps_congr hf hc hi).2 hb)

theorem startAbr_started_fbDev (d : Bluetooth) (f : FbDev) (hd : d.fbDev = some f)
    (hb : abrBookkeeps d) :
    ∃ g, (startAbr_started d).fbDev = some g ∧ g.isConfigured = true ∧
      g.deviceCount = f.deviceCount + 1 := by
  unfold startAbr_started
  rcases hb with hs | ⟨hl, hid⟩
  · have h2 : ¬ ((fbDevAcquire d).codecFormat = .CODEC_TYPE_LC3 ∧
        (fbDeviceId (fbDevAcquire d) = .PAL_DEVICE_IN_BLUETOOTH_SCO_HEADSET ∨
         fbDeviceId (fbDevAcquire d) = .PAL_DEVICE_OUT_BLUETOOTH_SCO)) := by
      rw [(fbDevAcquire_frame d).2.2.2.2.1, hs]
      simp
    simp only [hs, if_true, h2, if_false]
    simp [fbDevAcquire, hd]
  · have h1 : ¬ d.codecFormat = .CODEC_TYPE_APTX_AD_SPEECH := by rw [hl]; simp
    simp only [h1, if_false]
    rw [if_pos ⟨hl, hid⟩]
    simp [fbDevAcquire, hd]

theorem abrBooked_start_pcm (env : Collab) (d : Bluetooth) (f : FbDev) (hd : d.fbDev = some f) :
    AbrBooked d (startAbr_start_pcm env d) f := by
  have s1 : NoStartStep d
      ({ d.log (.pcm_open (env.pcm_open (d.fbpcmDevIds.headD 0))) with
          fbPcm := env.pcm_open (d.fbpcmDevIds.headD 0) } : Bluetooth) :=
    noStart_log_of (.pcm_open (env.pcm_open (d.fbpcmDevIds.headD 0))) (by simp) rfl rfl rfl rfl
  have s2 : NoStartStep d
      (({ d.log (.pcm_open (env.pcm_open (d.fbpcmDevIds.headD 0))) with
          fbPcm := env.pcm_open (d.fbpcmDevIds.headD 0) } : Bluetooth).log .pcm_is_ready) :=
    s1.noStart_trans (noStart_log _ _ (by simp))
  unfold startAbr_start_pcm
  dsimp only
  split_ifs with h1 h2 h3
  · exact abrBooked_of_noStart f (s1.noStart_trans (noStart_free_fe _))
  · exact abrBooked_of_noStart f (s2.noStart_trans (noStart_err_pcm_open _))
  · refine abrBooked_of_noStart f ((s2.noStart_trans (noStart_log _ _ ?_)).noStart_trans
      (noStart_err_pcm_open _))
    intro h
    injection h with h
    exact h3 h
  · obtain ⟨pre, t, _, hf, hc, hi⟩ := s2
    refine ⟨pre ++ [.pcm_start env.pcm_start], ?_, fun _ hb => ?_⟩
    · rw [(startAbr_started_frame _).1]
      simp only [Bluetooth.log] at t ⊢
      rw [t, List.append_assoc]
    · exact startAbr_started_fbDev _ f (by simpa [Bluetooth.log] using hd)
        ((abrBookkeeps_congr (by rfl) (by rfl) (by rfl)).2 hb)

theorem noStart_events (d : Bluetooth) (evs : List Event) (h : Event.pcm_start 0 ∉ evs) :
    NoStartStep d { d with trace := d.trace ++ evs } :=
  ⟨evs, rfl, h, rfl, rfl, rfl⟩

theorem noStart_release_plugin (pl : PluginLoaded) (d : Bluetooth) :
    NoStartStep d (startAbr_release_plugin pl d) ∧
      (startAbr_release_plugin pl d).fbDev = d.fbDev := by
  unfold startAbr_release_plugin
  cases pl.btCodec with
  | none => exact ⟨noStart_log _ _ (by simp), rfl⟩
  | some c =>
    exact ⟨(noStart_log _ _ (by simp)).noStart_trans (noStart_log _ _ (by simp)), rfl⟩

theorem abrBooked_congr {d r : Bluetooth} {f g : FbDev} (h : g.deviceCount = f.deviceCount)
    (hb : AbrBooked d r g) : AbrBooked d r f := by
  obtain ⟨evs, t, q⟩ := hb
  refine ⟨evs, t, fun hp hk => ?_⟩
  obtain ⟨x, h1, h2, h3⟩ := q hp hk
  exact ⟨x, h1, h2, by rw [h3, h]⟩

theorem abrBooked_speech_payload (env : Collab) (f : FbDev) (miid : Nat) (d : Bluetooth) :
    AbrBooked d (startAbr_speech_payload env f miid d) f := by
  rcases getPluginPayload_form env d d.codecType.inverse with
    ⟨st, evs, hst, hpop, hev, he⟩ | ⟨pl, hh, hc, hpk, he⟩
  · unfold startAbr_speech_payload
    rw [he]
    dsimp only
    refine abrBooked_of_noStart f ((noStart_events d evs ?_).noStart_trans (noStart_err_pcm_open _))
    intro h
    have := hev _ h
    simp [Event.isPlugin] at this
  · have s0 : NoStartStep d
        { d with trace := d.trace ++ loadEvents env d.codecFormat d.codecType.inverse } :=
      noStart_events d _ (by simp [loadEvents])
    unfold startAbr_speech_payload
    rw [he]
    dsimp only
    by_cases hn : pl.out_buf.num_blks ≠ 1
    · rw [if_pos hn]
      exact abrBooked_of_noStart f (s0.noStart_trans (noStart_err_pcm_open _))
    · rw [if_neg hn]
      have s4 : NoStartStep d
          ({ ({ d with trace := d.trace ++ loadEvents env d.codecFormat d.codecType.inverse } :
                Bluetooth) with
              fbDev := some { f with codecConfig :=
                { f.codecConfig with sample_rate := pl.out_buf.sample_rate,
                                     bit_width := pl.out_buf.bit_format,
                                     channels := pl.out_buf.channel_count } } } : Bluetooth) :=
        s0.noStart_trans (noStart_of_eq rfl rfl rfl rfl)
      have s6 := s4.noStart_trans (noStart_release_plugin pl _).1
      have key : ∀ (d6 : Bluetooth) (out : BuilderOut) (g : FbDev), NoStartStep d d6 →
          d6.fbDev = some g → g.deviceCount = f.deviceCount →
          AbrBooked d (startAbr_start_pcm env (d6.log (.setDeviceCustomPayload out))) f := by
        intro d6 out g h6 hg hcnt
        exact abrBooked_step (h6.noStart_trans (noStart_log _ _ (by simp)))
          (abrBooked_congr hcnt (abrBooked_start_pcm env _ g hg))
      split_ifs
      · exact abrBooked_of_noStart f (s6.noStart_trans (noStart_err_pcm_open _))
      · exact abrBooked_of_noStart f
          ((s6.noStart_trans (noStart_log _ _ (by simp))).noStart_trans (noStart_err_pcm_open _))
      · exact key _ _ _ s6 (by rw [(noStart_release_plugin pl _).2]) (by rfl)

theorem abrAssigned_of_trace (env : Collab) {d r : Bluetooth} (evs : List Event)
    (t : r.trace = d.trace ++ evs) (h : Event.pcm_start 0 ∉ evs) : AbrAssigned env d r :=
  ⟨evs, t, fun hp _ => absurd hp h⟩

theorem abrAssigned_of_noStart (env : Collab) {d r : Bluetooth} (h : NoStartStep d r) :
    AbrAssigned env d r := by
  obtain ⟨pre, t, p, _⟩ := h
  exact abrAssigned_of_trace env pre t p

theorem abrAssigned_step (env : Collab) {d d1 r : Bluetooth} (h : NoStartStep d d1)
    (h2 : AbrAssigned env d1 r) : AbrAssigned env d r := by
  obtain ⟨pre, t, p, hf, hc, hi⟩ := h
  obtain ⟨evs, t2, q⟩ := h2
  refine ⟨pre ++ evs, by rw [t2, t, List.append_assoc], fun hp hb => ?_⟩
  have hp2 : Event.pcm_start 0 ∈ evs := by
    rcases List.mem_append.1 hp with h | h
    · exact absurd h p
    · exact h
  obtain ⟨f, g, a, b, hg, he, hm, hr⟩ := q hp2 ((abrBookkeeps_congr hf hc hi).2 hb)
  rw [fbDeviceId_congr hf hc hi] at hg he
  exact ⟨f, g, pre ++ a, b, hg, by rw [he, List.append_assoc], hm, hr⟩

theorem abrAssigned_of_getInstance (env : Collab) (d r : Bluetooth) (f : FbDev)
    (hg : env.getInstance (fbDeviceId d) = some f)
    (hb : AbrBooked ({ d.log (.getInstance (fbDeviceId d)) with fbDev := some f } : Bluetooth) r f) :
    AbrAssigned env d r := by
  obtain ⟨evs, t, q⟩ := hb
  refine ⟨Event.getInstance (fbDeviceId d) :: evs, ?_, fun hp hk => ?_⟩
  · rw [t]
    simp [Bluetooth.log]
  · have hp2 : Event.pcm_start 0 ∈ evs := by
      rcases List.mem_cons.1 hp with h | h
      · exact absurd h (by simp)
      · exact h
    obtain ⟨g, h1, h2, h3⟩ := q hp2 ((abrBookkeeps_congr (by rfl) (by rfl) (by rfl)).2 hk)
    exact ⟨f, g, [], evs, hg, rfl, hp2, h1, h2, h3⟩

theorem abrAssigned_speech (env : Collab) (d : Bluetooth) :
    AbrAssigned env d (startAbr_speech env d) := by
  unfold startAbr_speech
  dsimp only
  cases hg : env.getInstance (fbDeviceId d) with
  | none =>
    dsimp only
    have s : NoStartStep d
        ({ d.log (.getInstance (fbDeviceId d)) with fbDev := none } : Bluetooth) :=
      noStart_log_of (.getInstance (fbDeviceId d)) (by simp) rfl rfl rfl rfl
    exact abrAssigned_of_noStart env (s.noStart_trans (noStart_err_pcm_open _))
  | some f =>
    dsimp only
    refine abrAssigned_of_getInstance env d _ f hg ?_
    split_ifs
    · exact abrBooked_start_pcm env _ f rfl
    · exact abrBooked_of_noStart f ((noStart_log _ _ (by simp)).noStart_trans
        (noStart_err_pcm_open _))
    · exact abrBooked_step (noStart_log _ _ (by simp)) (abrBooked_speech_payload env f _ _)
    · exact abrBooked_of_noStart f ((noStart_log _ _ (by simp)).noStart_trans
        (noStart_err_pcm_open _))
    · exact abrBooked_step (noStart_log _ _ (by simp)) (abrBooked_speech_payload env f _ _)

theorem abrAssigned_lc3 (env : Collab) (d : Bluetooth) :
    AbrAssigned env d (startAbr_lc3 env d) := by
  unfold startAbr_lc3
  dsimp only
  cases hg : env.getInstance (fbDeviceId d) with
  | none =>
    dsimp only
    have s : NoStartStep d
        ({ d.log (.getInstance (fbDeviceId d)) with fbDev := none } : Bluetooth) :=
      noStart_log_of (.getInstance (fbDeviceId d)) (by simp) rfl rfl rfl rfl
    exact abrAssigned_of_noStart env (s.noStart_trans (noStart_err_pcm_open _))
  | some f =>
    dsimp only
    refine abrAssigned_of_getInstance env d _ f hg ?_
    split_ifs
    · exact abrBooked_of_noStart f ((noStart_log _ _ (by simp)).noStart_trans
        (noStart_err_pcm_open _))
    · exact abrBooked_of_noStart f ((noStart_log _ _ (by simp)).noStart_trans
        (noStart_err_pcm_open _))
    · exact abrBooked_of_noStart f (((noStart_log _ _ (by simp)).noStart_trans
        (noStart_log _ _ (by simp))).noStart_trans (noStart_err_pcm_open _))
    · exact abrBooked_step ((noStart_log _ _ (by simp)).noStart_trans (noStart_log _ _ (by simp)))
        (abrBooked_start_pcm env _ f rfl)

theorem not_abrBookkeeps (d : Bluetooth) (h1 : d.codecFormat ≠ .CODEC_TYPE_APTX_AD_SPEECH)
    (h2 : ¬ (d.codecFormat = .CODEC_TYPE_LC3 ∧ d.codecType = .ENC)) : ¬ abrBookkeeps d := by
  rintro (h | ⟨hl, hid⟩)
  · exact h1 h
  · have hdec : d.codecType = .DEC := by
      cases hc : d.codecType with
      | ENC => exact absurd ⟨hl, hc⟩ h2
      | DEC => rfl
    simp [fbDeviceId, hdec, hl] at hid

theorem abrAssigned_codec (env : Collab) (d : Bluetooth) :
    AbrAssigned env d (startAbr_codec env d) := by
  unfold startAbr_codec
  split_ifs with h1 h2
  · exact abrAssigned_speech env d
  · exact abrAssigned_lc3 env d
  · obtain ⟨evs, t, _⟩ := noLoad_start_pcm env d
    exact ⟨evs, t, fun _ hb => absurd hb (not_abrBookkeeps d h1 h2)⟩

theorem abrAssigned_mixer (env : Collab) (d : Bluetooth) :
    AbrAssigned env d (startAbr_mixer env d) := by
  unfold startAbr_mixer
  dsimp only
  split_ifs
  · exact abrAssigned_of_noStart env ((noStart_log _ _ (by simp)).noStart_trans (noStart_free_fe _))
  · exact abrAssigned_of_noStart env
      (((noStart_log _ _ (by simp)).noStart_trans (noStart_log _ _ (by simp))).noStart_trans
        (noStart_free_fe _))
  · exact abrAssigned_of_noStart env
      ((((noStart_log _ _ (by simp)).noStart_trans (noStart_log _ _ (by simp))).noStart_trans
        (noStart_log _ _ (by simp))).noStart_trans (noStart_free_fe _))
  · exact abrAssigned_of_noStart env
      (((((noStart_log _ _ (by simp)).noStart_trans (noStart_log _ _ (by simp))).noStart_trans
        (noStart_log _ _ (by simp))).noStart_trans (noStart_log _ _ (by simp))).noStart_trans
        (noStart_free_fe _))
  · exact abrAssigned_of_noStart env
      ((((((noStart_log _ _ (by simp)).noStart_trans (noStart_log _ _ (by simp))).noStart_trans
        (noStart_log _ _ (by simp))).noStart_trans (noStart_log _ _ (by simp))).noStart_trans
        (noStart_log _ _ (by simp))).noStart_trans (noStart_free_fe _))
  · exact abrAssigned_step env
      (((((noStart_log _ _ (by simp)).noStart_trans (noStart_log _ _ (by simp))).noStart_trans
        (noStart_log _ _ (by simp))).noStart_trans (noStart_log _ _ (by simp))).noStart_trans
        (noStart_log _ _ (by simp))) (abrAssigned_codec env _)

theorem abrAssigned_startAbr (env : Collab) (d : Bluetooth) :
    AbrAssigned env d (startAbr env d) := by
  have s1 : NoStartStep d (d.log (.setDeviceMetadata (fbDeviceId d) (abrKeyVector d))) :=
    noStart_log _ _ (by simp)
  have s2 : NoStartStep d
      ((d.log (.setDeviceMetadata (fbDeviceId d) (abrKeyVector d))).log
        (.setDeviceMediaConfig (fbDeviceId d))) :=
    s1.noStart_trans (noStart_log _ _ (by simp))
  have s3 : NoStartStep d
      ({ ((d.log (.setDeviceMetadata (fbDeviceId d) (abrKeyVector d))).log
            (.setDeviceMediaConfig (fbDeviceId d))).log
            (.allocateFrontEndIds (env.allocateFrontEndIds (abrDir d))) with
          fbpcmDevIds := env.allocateFrontEndIds (abrDir d) } : Bluetooth) :=
    s2.noStart_trans
      (noStart_log_of (.allocateFrontEndIds (env.allocateFrontEndIds (abrDir d))) (by simp)
        rfl rfl rfl rfl)
  unfold startAbr
  dsimp only
  split_ifs
  · exact abrAssigned_of_noStart env (noStart_of_eq rfl rfl rfl rfl)
  · exact abrAssigned_of_noStart env s1
  · exact abrAssigned_of_noStart env s2
  · exact abrAssigned_of_noStart env s3
  · exact abrAssigned_step env s3 (abrAssigned_mixer env _)

/-- Claim C30: in every execution of startAbr, for every codec format, direction
and device id, whenever the bookkeeping after pcm_start writes isConfigured and
deviceCount of the feedback device (pcm_start returned 0 and the codec is
aptX-Adaptive-Speech, or LC3 with a SCO feedback device), getInstance returned a
non-null instance earlier in the same call, and that instance is the one written:
the feedback device on return is configured and has one user more. When
getInstance returns null on the aptX-Adaptive-Speech branch, the call goes straight
to the label err_pcm_open, so the already-configured check is not reached. -/
theorem C30_fbDev_assigned_before_use (env : Collab) (d : Bluetooth) :
    (∃ evs, (startAbr env d).trace = d.trace ++ evs ∧
      (Event.pcm_start 0 ∈ evs → abrBookkeeps d →
        ∃ f g pre post, env.getInstance (fbDeviceId d) = some f ∧
          evs = pre ++ Event.getInstance (fbDeviceId d) :: post ∧
          Event.pcm_start 0 ∈ post ∧
          (startAbr env d).fbDev = some g ∧ g.isConfigured = true ∧
          g.deviceCount = f.deviceCount + 1)) ∧
    (d.codecFormat = .CODEC_TYPE_APTX_AD_SPEECH → env.getInstance (fbDeviceId d) = none →
      startAbr_codec env d =
        startAbr_err_pcm_open { d.log (.getInstance (fbDeviceId d)) with fbDev := none }) := by
  refine ⟨abrAssigned_startAbr env d, fun hs hn => ?_⟩
  unfold startAbr_codec
  rw [if_pos hs]
  unfold startAbr_speech
  dsimp only
  rw [hn]

/-- Claim C30 on a fresh aptX-Adaptive-Speech SCO device with every collaborator
succeeding: the stream is started, the bookkeeping condition holds, and the
feedback device handed out by getInstance is configured with one user. -/
theorem C30_fbDev_assigned_before_use_witness :
    abrBookkeeps (sampleDevice .PAL_DEVICE_OUT_BLUETOOTH_SCO .ENC .CODEC_TYPE_APTX_AD_SPEECH) ∧
    Event.pcm_start 0 ∈
      (startAbr okCollab
        (sampleDevice .PAL_DEVICE_OUT_BLUETOOTH_SCO .ENC .CODEC_TYPE_APTX_AD_SPEECH)).trace ∧
    ((startAbr okCollab
        (sampleDevice .PAL_DEVICE_OUT_BLUETOOTH_SCO .ENC .CODEC_TYPE_APTX_AD_SPEECH)).fbDev.map
      fun g => (g.isConfigured, g.deviceCount)) = some (true, 1) ∧
    ∃ evs, (startAbr okCollab
        (sampleDevice .PAL_DEVICE_OUT_BLUETOOTH_SCO .ENC .CODEC_TYPE_APTX_AD_SPEECH)).trace =
      (sampleDevice .PAL_DEVICE_OUT_BLUETOOTH_SCO .ENC .CODEC_TYPE_APTX_AD_SPEECH).trace ++ evs :=
  ⟨Or.inl rfl, by decide, by decide,
    (C30_fbDev_assigned_before_use okCollab
      (sampleDevice .PAL_DEVICE_OUT_BLUETOOTH_SCO .ENC .CODEC_TYPE_APTX_AD_SPEECH)).1.imp
      fun _ h => h.1⟩

/-! ## PCM passthrough of BtSco::start -/

theorem noPipe_of_eq {d d1 : Bluetooth} (ht : d1.trace = d.trace)
    (hf : d1.codecFormat = d.codecFormat) (hc : d1.codecConfig = d.codecConfig)
    (hi : d1.isConfigured = d.isConfigured) : NoPipeStep d d1 :=
  ⟨[], by simp [ht], by simp, hf, hc, hi⟩

theorem NoPipeStep.noPipe_trans {a b c : Bluetooth} (h1 : NoPipeStep a b) (h2 : NoPipeStep b c) :
    NoPipeStep a c := by
  obtain ⟨e1, t1, p1, f1, c1, i1⟩ := h1
  obtain ⟨e2, t2, p2, f2, c2, i2⟩ := h2
  refine ⟨e1 ++ e2, by rw [t2, t1, List.append_assoc], ?_, f2.trans f1, c2.trans c1, i2.trans i1⟩
  intro e he
  rcases List.mem_append.1 he with h | h
  · exact p1 e h
  · exact p2 e h

theorem noPipe_log_of {d d1 : Bluetooth} (e : Event) (h : e.isPipeline = false)
    (ht : d1.trace = d.trace ++ [e]) (hf : d1.codecFormat = d.codecFormat)
    (hc : d1.codecConfig = d.codecConfig) (hi : d1.isConfigured = d.isConfigured) :
    NoPipeStep d d1 :=
  ⟨[e], ht, by simpa using h, hf, hc, hi⟩

theorem noPipe_log (d : Bluetooth) (e : Event) (h : e.isPipeline = false) :
    NoPipeStep d (d.log e) :=
  noPipe_log_of e h rfl rfl rfl rfl

theorem noPipe_free_fe (d : Bluetooth) : NoPipeStep d (startAbr_free_fe d) :=
  noPipe_log_of (.freeFrontEndIds d.fbpcmDevIds) rfl rfl rfl rfl rfl

theorem noPipe_err_pcm_open (d : Bluetooth) : NoPipeStep d (startAbr_err_pcm_open d) := by
  have s : NoPipeStep d ({ d.log (.pcm_close d.fbPcm) with fbPcm := none } : Bluetooth) :=
    noPipe_log_of (.pcm_close d.fbPcm) rfl rfl rfl rfl rfl
  exact s.noPipe_trans (noPipe_free_fe _)

theorem noPipe_started (d : Bluetooth) : NoPipeStep d (startAbr_started d) := by
  have h1 : ∀ x : Bluetooth, NoPipeStep x (fbDevAcquire x) := fun x =>
    noPipe_of_eq (fbDevAcquire_frame x).1 (fbDevAcquire_frame x).2.2.2.2.1
      (by unfold fbDevAcquire; split <;> rfl) (by unfold fbDevAcquire; split <;> rfl)
  unfold startAbr_started
  dsimp only
  split_ifs
  · exact ((h1 _).noPipe_trans (h1 _)).noPipe_trans (noPipe_of_eq rfl rfl rfl rfl)
  · exact (h1 _).noPipe_trans (noPipe_of_eq rfl rfl rfl rfl)
  · exact (h1 _).noPipe_trans (noPipe_of_eq rfl rfl rfl rfl)
  · exact noPipe_of_eq rfl rfl rfl rfl

theorem noPipe_start_pcm (env : Collab) (d : Bluetooth) : NoPipeStep d (startAbr_start_pcm env d) := by
  have s1 : NoPipeStep d
      ({ d.log (.pcm_open (env.pcm_open (d.fbpcmDevIds.headD 0))) with
          fbPcm := env.pcm_open (d.fbpcmDevIds.headD 0) } : Bluetooth) :=
    noPipe_log_of (.pcm_open (env.pcm_open (d.fbpcmDevIds.headD 0))) rfl rfl rfl rfl rfl
  unfold startAbr_start_pcm
  dsimp only
  split_ifs
  · exact s1.noPipe_trans (noPipe_free_fe _)
  · exact (s1.noPipe_trans (noPipe_log _ _ (by rfl))).noPipe_trans (noPipe_err_pcm_open _)
  · exact ((s1.noPipe_trans (noPipe_log _ _ (by rfl))).noPipe_trans (noPipe_log _ _ (by rfl))).noPipe_trans
      (noPipe_err_pcm_open _)
  · exact ((s1.noPipe_trans (noPipe_log _ _ (by rfl))).noPipe_trans (noPipe_log _ _ (by rfl))).noPipe_trans
      (noPipe_started _)

theorem noPipe_lc3 (env : Collab) (d : Bluetooth) : NoPipeStep d (startAbr_lc3 env d) := by
  have s1 : NoPipeStep d
      ({ d.log (.getInstance (fbDeviceId d)) with fbDev := env.getInstance (fbDeviceId d) } :
        Bluetooth) :=
    noPipe_log_of (.getInstance (fbDeviceId d)) rfl rfl rfl rfl rfl
  unfold startAbr_lc3
  dsimp only
  split
  · exact s1.noPipe_trans (noPipe_err_pcm_open _)
  · split_ifs
    · exact (s1.noPipe_trans (noPipe_log _ _ (by rfl))).noPipe_trans (noPipe_err_pcm_open _)
    · exact (s1.noPipe_trans (noPipe_log _ _ (by rfl))).noPipe_trans (noPipe_err_pcm_open _)
    · exact ((s1.noPipe_trans (noPipe_log _ _ (by rfl))).noPipe_trans (noPipe_log _ _ (by rfl))).noPipe_trans
        (noPipe_err_pcm_open _)
    · exact ((s1.noPipe_trans (noPipe_log _ _ (by rfl))).noPipe_trans (noPipe_log _ _ (by rfl))).noPipe_trans
        (noPipe_start_pcm env _)

theorem noPipe_codec (env : Collab) (d : Bluetooth)
    (hs : d.codecFormat ≠ .CODEC_TYPE_APTX_AD_SPEECH) : NoPipeStep d (startAbr_codec env d) := by
  unfold startAbr_codec
  rw [if_neg hs]
  split_ifs
  · exact noPipe_lc3 env d
  · exact noPipe_start_pcm env d

theorem noPipe_mixer (env : Collab) (d : Bluetooth)
    (hs : d.codecFormat ≠ .CODEC_TYPE_APTX_AD_SPEECH) : NoPipeStep d (startAbr_mixer env d) := by
  have s1 : NoPipeStep d (d.log .getAudioMixer) := noPipe_log _ _ (by rfl)
  have s2 : NoPipeStep d ((d.log .getAudioMixer).log .mixer_get_ctl_connect) :=
    s1.noPipe_trans (noPipe_log _ _ (by rfl))
  have s3 : NoPipeStep d
      (((d.log .getAudioMixer).log .mixer_get_ctl_connect).log .mixer_ctl_set_enum_by_string) :=
    s2.noPipe_trans (noPipe_log _ _ (by rfl))
  have s4 : NoPipeStep d
      ((((d.log .getAudioMixer).log .mixer_get_ctl_connect).log
        .mixer_ctl_set_enum_by_string).log .mixer_get_ctl_feedback) :=
    s3.noPipe_trans (noPipe_log _ _ (by rfl))
  have s5 : NoPipeStep d
      (((((d.log .getAudioMixer).log .mixer_get_ctl_connect).log
        .mixer_ctl_set_enum_by_string).log .mixer_get_ctl_feedback).log (.mixer_ctl_set_value 1)) :=
    s4.noPipe_trans (noPipe_log _ _ (by rfl))
  have h5 : (((((d.log .getAudioMixer).log .mixer_get_ctl_connect).log
        .mixer_ctl_set_enum_by_string).log .mixer_get_ctl_feedback).log
        (.mixer_ctl_set_value 1)).codecFormat ≠ .CODEC_TYPE_APTX_AD_SPEECH := by
    simp only [Bluetooth.log]
    exact hs
  have s6 := s5.noPipe_trans (noPipe_codec env _ h5)
  unfold startAbr_mixer
  dsimp only
  split_ifs
  · exact s1.noPipe_trans (noPipe_free_fe _)
  · exact s2.noPipe_trans (noPipe_free_fe _)
  · exact s3.noPipe_trans (noPipe_free_fe _)
  · exact s4.noPipe_trans (noPipe_free_fe _)
  · exact s5.noPipe_trans (noPipe_free_fe _)
  · exact s6

theorem noPipe_startAbr (env : Collab) (d : Bluetooth)
    (hs : d.codecFormat ≠ .CODEC_TYPE_APTX_AD_SPEECH) : NoPipeStep d (startAbr env d) := by
  have s1 : NoPipeStep d (d.log (.setDeviceMetadata (fbDeviceId d) (abrKeyVector d))) :=
    noPipe_log _ _ rfl
  have s2 : NoPipeStep d
      ((d.log (.setDeviceMetadata (fbDeviceId d) (abrKeyVector d))).log
        (.setDeviceMediaConfig (fbDeviceId d))) :=
    s1.noPipe_trans (noPipe_log _ _ rfl)
  have s3 : NoPipeStep d
      ({ ((d.log (.setDeviceMetadata (fbDeviceId d) (abrKeyVector d))).log
            (.setDeviceMediaConfig (fbDeviceId d))).log
            (.allocateFrontEndIds (env.allocateFrontEndIds (abrDir d))) with
          fbpcmDevIds := env.allocateFrontEndIds (abrDir d) } : Bluetooth) :=
    s2.noPipe_trans
      (noPipe_log_of (.allocateFrontEndIds (env.allocateFrontEndIds (abrDir d))) rfl rfl rfl rfl rfl)
  have h3 : ({ ((d.log (.setDeviceMetadata (fbDeviceId d) (abrKeyVector d))).log
            (.setDeviceMediaConfig (fbDeviceId d))).log
            (.allocateFrontEndIds (env.allocateFrontEndIds (abrDir d))) with
          fbpcmDevIds := env.allocateFrontEndIds (abrDir d) } : Bluetooth).codecFormat ≠
      .CODEC_TYPE_APTX_AD_SPEECH := by
    simp only [Bluetooth.log]
    exact hs
  unfold startAbr
  dsimp only
  split_ifs
  · exact noPipe_of_eq rfl rfl rfl rfl
  · exact s1
  · exact s2
  · exact s3
  · exact s3.noPipe_trans (noPipe_mixer env _ h3)

theorem noPipe_metadata (env : Collab) (b : Bluetooth) :
    NoPipeStep b (updateDeviceMetadata env b).2 ∧
      (updateDeviceMetadata env b).2.deviceAttr_config = b.deviceAttr_config := by
  rcases updateDeviceMetadata_cases env b with h | ⟨keys, h⟩
  · rw [h]
    exact ⟨noPipe_of_eq rfl rfl rfl rfl, rfl⟩
  · rw [h]
    exact ⟨noPipe_log b _ rfl, rfl⟩

theorem noPipe_start_tail (env : Collab) (base : DeviceStart) (b : Bluetooth)
    (hs : b.codecFormat ≠ .CODEC_TYPE_APTX_AD_SPEECH) :
    NoPipeStep b (start_tail env base b).2 ∧
      (start_tail env base b).1 = (base.start_l b.deviceCount).1 := by
  have s0 : NoPipeStep b ({ b with deviceCount := (base.start_l b.deviceCount).2 } : Bluetooth) :=
    noPipe_of_eq rfl rfl rfl rfl
  have h0 : ({ b with deviceCount := (base.start_l b.deviceCount).2 } : Bluetooth).codecFormat ≠
      .CODEC_TYPE_APTX_AD_SPEECH := hs
  unfold start_tail
  dsimp only
  split_ifs
  · exact ⟨s0.noPipe_trans (noPipe_startAbr env _ h0), rfl⟩
  · exact ⟨s0, rfl⟩

theorem start_configure_passthrough (env : Collab) (d : BtSco)
    (hm : d.swbSpeechMode = none) (hl : d.isSwbLc3Enabled = false)
    (hs : d.codecFormat ≠ .CODEC_TYPE_APTX_AD_SPEECH) (hc : d.codecFormat ≠ .CODEC_TYPE_LC3) :
    BtSco.start_configure env d =
      (0, { (updateDeviceMetadata env d.toBluetooth).2 with
              codecConfig := ⟨d.deviceAttr_config.sample_rate, d.deviceAttr_config.bit_width,
                              d.deviceAttr_config.channels, .PAL_AUDIO_FMT_DEFAULT_PCM⟩,
              isConfigured := true }) := by
  obtain ⟨⟨_, _, _, hf, _, _⟩, ha⟩ := noPipe_metadata env d.toBluetooth
  unfold BtSco.start_configure
  simp only [hm, hl, ne_eq, not_true_eq_false, if_false, Bool.false_eq_true]
  rw [if_neg (by rw [hf]; exact fun h => h.elim hs hc), ha]

/-- C21 as stated fails on a state the code reaches. A SCO device gets the
speech mode set and is started with a plugin that reports adaptive bitrate while
pcm_open of the feedback stream fails: the ABR flag stays set and fbPcm null. The
speech mode is then set to invalid and the device is stopped: stopAbr returns at
once, the ABR flag stays set, and BtSco::stop keeps codecFormat. The next start,
with speech mode invalid and LC3 disabled, takes the SWB path: it runs the plugin
gateway and the pipeline configurator. -/
theorem C21_counterexample :
    ((BtSco.setDeviceParameter 0 (sampleSco .PAL_DEVICE_OUT_BLUETOOTH_SCO .ENC)
        .PAL_PARAM_ID_BT_SCO_SWB (swbParam (some 0))).bind fun r1 =>
      (BtSco.setDeviceParameter 0 (BtSco.start abrNoPcmCollab countingStart r1.2).2
        .PAL_PARAM_ID_BT_SCO_SWB (swbParam none)).map fun r3 =>
        let d := (BtSco.stop okCollab countingStop r3.2).2
        (d.swbSpeechMode, d.isSwbLc3Enabled, d.codecFormat,
          passTrace d.toBluetooth (BtSco.start okCollab countingStart d).2.toBluetooth)) =
    some (none, false, .CODEC_TYPE_APTX_AD_SPEECH,
      [.setDeviceMetadata .PAL_DEVICE_OUT_BLUETOOTH_SCO
          [(.DEVICERX, .BT_RX), (.BT_PROFILE, .SCO), (.BT_FORMAT, .SWB)],
        .getActiveStream_l, .dlopen "lib_bt_bundle.so", .dlsym_plugin_open,
        .plugin_open .CODEC_TYPE_APTX_AD_SPEECH .ENC, .plugin_populate_payload 0,
        .getMIID .BT_PLACEHOLDER_ENCODER,
        .updateCustomPayload .BT_PLACEHOLDER_ENCODER (.payloadCustomParam 100)
          ⟨some [10, 100, 5], 3⟩]) := by
  decide

/-- Claim C21, amended: for every BtSco state in which the speech mode is invalid,
LC3 speech is disabled and the codec format left by earlier calls is neither
aptX-Adaptive-Speech nor LC3, BtSco::start takes the PCM passthrough path: it
returns the status of Device::start_l, makes no call of the plugin gateway or of
the pipeline configurator, copies sample rate, bit width and channel count from
the device attributes into codecConfig, sets the format tag to default PCM, and
sets isConfigured = true. -/
theorem C21_sco_pcm_passthrough (env : Collab) (base : DeviceStart) (d : BtSco)
    (hm : d.swbSpeechMode = none) (hl : d.isSwbLc3Enabled = false)
    (hs : d.codecFormat ≠ .CODEC_TYPE_APTX_AD_SPEECH) (hc : d.codecFormat ≠ .CODEC_TYPE_LC3) :
    (BtSco.start env base d).1 = (base.start_l d.deviceCount).1 ∧
    (∃ evs, (BtSco.start env base d).2.trace = d.trace ++ evs ∧
      ∀ e ∈ evs, e.isPipeline = false) ∧
    (BtSco.start env base d).2.codecConfig =
      ⟨d.deviceAttr_config.sample_rate, d.deviceAttr_config.bit_width,
        d.deviceAttr_config.channels, .PAL_AUDIO_FMT_DEFAULT_PCM⟩ ∧
    (BtSco.start env base d).2.isConfigured = true := by
  obtain ⟨⟨evs, t, p, hf, _, _⟩, _⟩ := noPipe_metadata env d.toBluetooth
  have hcfg := start_configure_passthrough env d hm hl hs hc
  obtain ⟨⟨evs2, t2, p2, _, c2, i2⟩, hst⟩ := noPipe_start_tail env base
    ({ (updateDeviceMetadata env d.toBluetooth).2 with
        codecConfig := ⟨d.deviceAttr_config.sample_rate, d.deviceAttr_config.bit_width,
                        d.deviceAttr_config.channels, .PAL_AUDIO_FMT_DEFAULT_PCM⟩,
        isConfigured := true } : Bluetooth) (by rw [← hf] at hs; exact hs)
  have hr : BtSco.start env base d =
      ((start_tail env base (BtSco.start_configure env d).2).1,
        { d with toBluetooth := (start_tail env base (BtSco.start_configure env d).2).2 }) := by
    unfold BtSco.start
    dsimp only
    rw [if_neg (by rw [hcfg]; simp)]
  rw [hr, hcfg]
  refine ⟨?_, ⟨evs ++ evs2, ?_, ?_⟩, c2, i2⟩
  · rw [hst]
    rcases updateDeviceMetadata_cases env d.toBluetooth with h | ⟨keys, h⟩
    · rw [h]
    · rw [h]
      rfl
  · show (start_tail env base _).2.trace = _
    rw [t2]
    show (updateDeviceMetadata env d.toBluetooth).2.trace ++ evs2 = _
    rw [t, List.append_assoc]
  · intro e he
    rcases List.mem_append.1 he with h | h
    · exact p e h
    · exact p2 e h

theorem C21_sco_pcm_passthrough_witness :
    (BtSco.start okCollab countingStart (sampleSco .PAL_DEVICE_OUT_BLUETOOTH_SCO .ENC)).1 = 0 ∧
    (BtSco.start okCollab countingStart
      (sampleSco .PAL_DEVICE_OUT_BLUETOOTH_SCO .ENC)).2.codecConfig =
      ⟨48000, 16, 2, .PAL_AUDIO_FMT_DEFAULT_PCM⟩ ∧
    (BtSco.start okCollab countingStart
      (sampleSco .PAL_DEVICE_OUT_BLUETOOTH_SCO .ENC)).2.isConfigured = true :=
  have h := C21_sco_pcm_passthrough okCollab countingStart
    (sampleSco .PAL_DEVICE_OUT_BLUETOOTH_SCO .ENC) rfl rfl (by decide) (by decide)
  ⟨h.1, h.2.2.1, h.2.2.2⟩

/-! ## Nesting of the two mutexes -/

theorem startAbr_locks_eq (d : Bluetooth) :
    startAbr_locks d = [.lock .mAbrMutex, .unlock .mAbrMutex] := by
  unfold startAbr_locks
  split_ifs <;> rfl

theorem stopAbr_locks_eq (d : Bluetooth) :
    stopAbr_locks d = [.lock .mAbrMutex, .unlock .mAbrMutex] := by
  unfold stopAbr_locks
  split_ifs <;> rfl

theorem start_tail_locks_eq (base : DeviceStart) (b : Bluetooth) :
    [LockEvent.lock .mDeviceMutex] ++ start_tail_locks base b ++ [.unlock .mDeviceMutex] =
      if (base.start_l b.deviceCount).1 = 0 ∧ b.isAbrEnabled = true then abrInsideDevice
      else deviceOnly := by
  unfold start_tail_locks
  dsimp only
  split_ifs
  · rw [startAbr_locks_eq]
    rfl
  · rfl

theorem stop_locks_eq (b : Bluetooth) :
    [LockEvent.lock .mDeviceMutex] ++ (if b.isAbrEnabled = true then stopAbr_locks b else []) ++
      [.unlock .mDeviceMutex] = if b.isAbrEnabled = true then abrInsideDevice else deviceOnly := by
  split_ifs
  · rw [stopAbr_locks_eq]
    rfl
  · rfl

/-- C22 as stated fails: a source A2DP device is started with a plugin that
reports adaptive bitrate. BtA2dp::start calls startAbr before it unlocks
mDeviceMutex, and startAbr locks mAbrMutex: the thread holds both. The same holds
for the stop of the started device, which calls stopAbr. -/
theorem C22_counterexample :
    (BtA2dp.start abrCollab countingStart
      (sampleA2dp .PAL_DEVICE_OUT_BLUETOOTH_A2DP .ENC .SOURCE)).1 = 0 ∧
    (BtA2dp.start abrCollab countingStart
      (sampleA2dp .PAL_DEVICE_OUT_BLUETOOTH_A2DP .ENC .SOURCE)).2.isAbrEnabled = true ∧
    BtA2dp.start_locks abrCollab countingStart
      (sampleA2dp .PAL_DEVICE_OUT_BLUETOOTH_A2DP .ENC .SOURCE) =
      [.lock .mDeviceMutex, .lock .mAbrMutex, .unlock .mAbrMutex, .unlock .mDeviceMutex] ∧
    heldAfter [] (BtA2dp.start_locks abrCollab countingStart
      (sampleA2dp .PAL_DEVICE_OUT_BLUETOOTH_A2DP .ENC .SOURCE)) =
      [[.mDeviceMutex], [.mAbrMutex, .mDeviceMutex], [.mDeviceMutex], []] ∧
    holdsBoth (BtA2dp.start_locks abrCollab countingStart
      (sampleA2dp .PAL_DEVICE_OUT_BLUETOOTH_A2DP .ENC .SOURCE)) = true ∧
    holdsBoth (BtA2dp.stop_locks (BtA2dp.start abrCollab countingStart
      (sampleA2dp .PAL_DEVICE_OUT_BLUETOOTH_A2DP .ENC .SOURCE)).2) = true := by
  decide

/-- Claim C22, amended: during any start() or stop() of a BtA2dp or BtSco device
the executing thread takes mDeviceMutex first and releases it last, and it takes
mAbrMutex only inside it: exactly when start() reaches startAbr (the
configuration and Device::start_l returned 0 and the ABR flag is set) or stop()
reaches stopAbr (the ABR flag is set at entry). Only then are both mutexes held
at the same time; otherwise mAbrMutex is not taken at all. -/
theorem C22_abr_mutex_inside_device_mutex (env : Collab) (base : DeviceStart) (a : BtA2dp)
    (s : BtSco) :
    BtA2dp.start_locks env base a =
      (if (BtA2dp.start_configure env a).1 = 0 ∧
          (base.start_l (BtA2dp.start_configure env a).2.deviceCount).1 = 0 ∧
          (BtA2dp.start_configure env a).2.isAbrEnabled = true then abrInsideDevice
       else deviceOnly) ∧
    BtSco.start_locks env base s =
      (if (BtSco.start_configure env s).1 = 0 ∧
          (base.start_l (BtSco.start_configure env s).2.deviceCount).1 = 0 ∧
          (BtSco.start_configure env s).2.isAbrEnabled = true then abrInsideDevice
       else deviceOnly) ∧
    BtA2dp.stop_locks a = (if a.isAbrEnabled = true then abrInsideDevice else deviceOnly) ∧
    BtSco.stop_locks s = (if s.isAbrEnabled = true then abrInsideDevice else deviceOnly) ∧
    holdsBoth abrInsideDevice = true ∧ holdsBoth deviceOnly = false ∧
    heldAfter [] abrInsideDevice =
      [[.mDeviceMutex], [.mAbrMutex, .mDeviceMutex], [.mDeviceMutex], []] := by
  refine ⟨?_, ?_, stop_locks_eq a.toBluetooth, stop_locks_eq s.toBluetooth, by decide, by decide,
    by decide⟩
  · unfold BtA2dp.start_locks
    dsimp only
    by_cases h : (BtA2dp.start_configure env a).1 = 0
    · rw [if_neg (not_not.2 h), start_tail_locks_eq]
      simp only [h, true_and]
    · rw [if_pos h, if_neg (fun hh => h hh.1)]
      rfl
  · unfold BtSco.start_locks
    dsimp only
    by_cases h : (BtSco.start_configure env s).1 = 0
    · rw [if_neg (not_not.2 h), start_tail_locks_eq]
      simp only [h, true_and]
    · rw [if_pos h, if_neg (fun hh => h hh.1)]
      rfl

theorem C22_abr_mutex_inside_device_mutex_witness :
    BtSco.start_locks okCollab countingStart (sampleSco .PAL_DEVICE_OUT_BLUETOOTH_SCO .ENC) =
      [.lock .mDeviceMutex, .unlock .mDeviceMutex] ∧
    BtA2dp.stop_locks (sampleA2dp .PAL_DEVICE_OUT_BLUETOOTH_A2DP .ENC .SOURCE) =
      [.lock .mDeviceMutex, .unlock .mDeviceMutex] :=
  have h := C22_abr_mutex_inside_device_mutex okCollab countingStart
    (sampleA2dp .PAL_DEVICE_OUT_BLUETOOTH_A2DP .ENC .SOURCE)
    (sampleSco .PAL_DEVICE_OUT_BLUETOOTH_SCO .ENC)
  ⟨h.2.1.trans (by decide), h.2.2.1.trans (by decide)⟩

/-! ## Session invariant of an A2DP source -/

theorem sameSession_of_quiet {d d1 : BtA2dp} (h : A2dpQuiet d d1) : SameSession d d1 :=
  ⟨h.2.1, h.2.2.1, h.2.2.2.2.2.1⟩

theorem SameSession.sameSession_trans {a b c : BtA2dp} (h1 : SameSession a b)
    (h2 : SameSession b c) : SameSession a c :=
  ⟨h2.1.trans h1.1, h2.2.1.trans h1.2.1, h2.2.2.trans h1.2.2⟩

theorem sessionInvariant_of_same {d d1 : BtA2dp} (h : SameSession d d1)
    (hi : sessionInvariant d) : sessionInvariant d1 := by
  unfold sessionInvariant at *
  rw [h.1, h.2.1]
  exact hi

theorem startPlayback_configure_session (env : Collab) (d : BtA2dp) :
    SameSession d (startPlayback_configure env d).2 ∨
    ((startPlayback_configure env d).2.a2dpState = .A2DP_STATE_STARTED ∧
      (startPlayback_configure env d).2.totalActiveSessionRequests =
        d.totalActiveSessionRequests + 1 ∧
      (startPlayback_configure env d).2.a2dpRole = d.a2dpRole) := by
  have q1 : A2dpQuiet d
      (((twsMonoModeHint env d).updateDeviceMetadata env).configureA2dpEncoderDecoder env).2 :=
    ((a2dpQuiet_twsMonoModeHint env d).a2dpQuiet_trans (a2dpQuiet_metadata env _)).a2dpQuiet_trans
      (a2dpQuiet_configure env _)
  have s1 := sameSession_of_quiet q1
  have s2 := sameSession_of_quiet (q1.a2dpQuiet_trans (a2dpQuiet_aacAbrMetadata env _))
  unfold startPlayback_configure
  dsimp only
  split_ifs
  · exact Or.inl s1
  · exact Or.inr ⟨rfl, by rw [← s2.2.1], s2.2.2⟩

theorem startPlayback_first_session (env : Collab) (d : BtA2dp) :
    SameSession d (startPlayback_first env d).2 ∨
    ((startPlayback_first env d).2.a2dpState = .A2DP_STATE_STARTED ∧
      (startPlayback_first env d).2.totalActiveSessionRequests =
        d.totalActiveSessionRequests + 1 ∧
      (startPlayback_first env d).2.a2dpRole = d.a2dpRole) := by
  unfold startPlayback_first
  dsimp only
  split_ifs
  · exact Or.inl ⟨rfl, rfl, rfl⟩
  · exact Or.inl ⟨rfl, rfl, rfl⟩
  · exact startPlayback_configure_session env _

theorem startPlayback_session (env : Collab) (d : BtA2dp) (hi : sessionInvariant d) :
    sessionInvariant (startPlayback env d).2 ∧ (startPlayback env d).2.a2dpRole = d.a2dpRole := by
  unfold startPlayback
  by_cases h1 : ¬(d.lib.bt_lib_source_handle = true ∧ d.lib.audio_source_start = true ∧
      d.lib.audio_get_enc_config = true)
  · rw [if_pos h1]
    exact ⟨hi, rfl⟩
  rw [if_neg h1]
  by_cases h2 : d.a2dp_suspended = true
  · rw [if_pos h2]
    exact ⟨hi, rfl⟩
  rw [if_neg h2]
  by_cases h3 : d.a2dpState ≠ .A2DP_STATE_STARTED ∧ d.totalActiveSessionRequests = 0
  · rw [if_pos h3]
    rcases startPlayback_first_session env d with h | ⟨hs, ht, hr⟩
    · exact ⟨sessionInvariant_of_same h hi, h.2.2⟩
    · refine ⟨?_, hr⟩
      unfold sessionInvariant
      rw [hs, ht, h3.2]
      simp
  · rw [if_neg h3]
    have s := sameSession_of_quiet (a2dpQuiet_metadata env d)
    refine ⟨?_, s.2.2⟩
    unfold sessionInvariant at *
    show (d.updateDeviceMetadata env).a2dpState = _ ↔
      (d.updateDeviceMetadata env).totalActiveSessionRequests + 1 > 0
    rw [s.1, s.2.1]
    constructor
    · intro hs
      have := hi.1 hs
      omega
    · intro ht
      by_contra hs
      have hz : d.totalActiveSessionRequests ≠ 0 := fun hz => h3 ⟨hs, hz⟩
      have : ¬ d.totalActiveSessionRequests > 0 := fun hp => hs (hi.2 hp)
      omega

theorem stopPlayback_teardown_session (x : BtA2dp) :
    (stopPlayback_teardown x).a2dpState = .A2DP_STATE_STOPPED ∧
    (stopPlayback_teardown x).totalActiveSessionRequests = x.totalActiveSessionRequests ∧
    (stopPlayback_teardown x).a2dpRole = x.a2dpRole := by
  unfold stopPlayback_teardown
  dsimp only
  split_ifs <;> exact ⟨rfl, rfl, rfl⟩

theorem stopPlayback_session (env : Collab) (d : BtA2dp) (hi : sessionInvariant d) :
    sessionInvariant (stopPlayback env d).2 ∧ (stopPlayback env d).2.a2dpRole = d.a2dpRole := by
  unfold sessionInvariant at *
  unfold stopPlayback
  dsimp only
  by_cases h1 : ¬(d.lib.bt_lib_source_handle = true ∧ d.lib.audio_source_stop = true)
  · rw [if_pos h1]
    exact ⟨hi, rfl⟩
  rw [if_neg h1]
  by_cases h2 : d.totalActiveSessionRequests > 0
  · simp only [if_pos h2]
    have hs := hi.2 h2
    by_cases h3 : d.totalActiveSessionRequests - 1 = 0
    · rw [if_pos ⟨hs, h3⟩]
      have ht := stopPlayback_teardown_session
        { d with totalActiveSessionRequests := d.totalActiveSessionRequests - 1 }
      refine ⟨?_, ht.2.2⟩
      show (stopPlayback_teardown _).a2dpState = _ ↔
        (stopPlayback_teardown _).totalActiveSessionRequests > 0
      rw [ht.1, ht.2.1]
      show a2dp_state_t.A2DP_STATE_STOPPED = _ ↔ d.totalActiveSessionRequests - 1 > 0
      rw [h3]
      simp
    · rw [if_neg (fun h => h3 h.2)]
      refine ⟨?_, rfl⟩
      show d.a2dpState = _ ↔ d.totalActiveSessionRequests - 1 > 0
      constructor
      · intro _
        omega
      · intro _
        exact hs
  · simp only [if_neg h2]
    have hn : ¬(d.a2dpState = .A2DP_STATE_STARTED ∧ d.totalActiveSessionRequests = 0) := by
      intro h
      exact h2 (hi.1 h.1)
    rw [if_neg hn]
    exact ⟨hi, rfl⟩

theorem open_a2dp_source_session (src : BtSourceLibs) (d : BtA2dp) (hi : sessionInvariant d) :
    sessionInvariant (open_a2dp_source src d) ∧ (open_a2dp_source src d).a2dpRole = d.a2dpRole := by
  unfold sessionInvariant at *
  unfold open_a2dp_source
  by_cases h1 : d.lib.bt_lib_source_handle = true ∧ src.audio_source_open = true
  · rw [if_pos h1]
    by_cases h2 : d.a2dpState = .A2DP_STATE_DISCONNECTED
    · rw [if_pos h2]
      refine ⟨?_, rfl⟩
      show a2dp_state_t.A2DP_STATE_CONNECTED = _ ↔ d.totalActiveSessionRequests > 0
      constructor
      · intro h
        exact absurd h (by decide)
      · intro h
        have := hi.2 h
        rw [h2] at this
        exact absurd this (by decide)
    · rw [if_neg h2]
      exact ⟨hi, rfl⟩
  · rw [if_neg h1]
    exact ⟨hi, rfl⟩

theorem close_audio_source_session (src : BtSourceLibs) (d : BtA2dp) (hi : sessionInvariant d) :
    sessionInvariant (close_audio_source src d).2 ∧
      (close_audio_source src d).2.a2dpRole = d.a2dpRole := by
  unfold sessionInvariant at *
  unfold close_audio_source
  dsimp only
  by_cases h1 : ¬(d.lib.bt_lib_source_handle = true ∧ src.audio_source_close = true)
  · rw [if_pos h1]
    exact ⟨hi, rfl⟩
  · rw [if_neg h1]
    refine ⟨?_, ?_⟩
    · show a2dp_state_t.A2DP_STATE_DISCONNECTED = _ ↔ (0 : Int) > 0
      simp
    · show (if d.a2dpState ≠ .A2DP_STATE_DISCONNECTED then d.log .audio_source_close
        else d).a2dpRole = d.a2dpRole
      split_ifs <;> rfl

theorem setDeviceParameter_suspended_session (env : Collab) (src : BtSourceLibs) (d : BtA2dp)
    (param : pal_param_bta2dp_t) : SameSession d (d.setDeviceParameter_suspended env src param).2 := by
  unfold BtA2dp.setDeviceParameter_suspended
  dsimp only
  split_ifs <;> exact ⟨rfl, rfl, rfl⟩

theorem setDeviceParameter_mono_session (env : Collab) (d : BtA2dp) :
    SameSession d (BtA2dp.setDeviceParameter_mono env d).2 := by
  unfold BtA2dp.setDeviceParameter_mono
  dsimp only
  split_ifs <;> exact ⟨rfl, rfl, rfl⟩

theorem setDeviceParameter_session (env : Collab) (src : BtSourceLibs) (d : BtA2dp)
    (param_id : pal_a2dp_param_id_t) (param : pal_param_bta2dp_t)
    (hi : sessionInvariant d) (hr : d.a2dpRole = .SOURCE) :
    sessionInvariant (d.setDeviceParameter env src param_id param).2 ∧
      (d.setDeviceParameter env src param_id param).2.a2dpRole = d.a2dpRole := by
  unfold BtA2dp.setDeviceParameter
  by_cases h0 : d.isA2dpOffloadSupported = false
  · rw [if_pos h0]
    exact ⟨hi, rfl⟩
  rw [if_neg h0]
  cases param_id with
  | PAL_PARAM_ID_DEVICE_CONNECTION =>
    dsimp only
    unfold BtA2dp.setDeviceParameter_connection
    rw [if_pos hr, if_pos hr]
    by_cases hc : param.connection_state = true
    · rw [if_pos hc]
      exact open_a2dp_source_session src d hi
    · rw [if_neg hc]
      exact close_audio_source_session src d hi
  | PAL_PARAM_ID_BT_A2DP_RECONFIG =>
    dsimp only
    by_cases hc : d.a2dpState ≠ .A2DP_STATE_DISCONNECTED
    · rw [if_pos hc]
      exact ⟨hi, rfl⟩
    · rw [if_neg hc]
      exact ⟨hi, rfl⟩
  | PAL_PARAM_ID_BT_A2DP_SUSPENDED =>
    have s := setDeviceParameter_suspended_session env src d param
    exact ⟨sessionInvariant_of_same s hi, s.2.2⟩
  | PAL_PARAM_ID_BT_A2DP_TWS_CONFIG =>
    have s := setDeviceParameter_mono_session env
      { d with isTwsMonoModeOn := param.is_tws_mono_mode_on }
    exact ⟨sessionInvariant_of_same s hi, s.2.2⟩
  | PAL_PARAM_ID_BT_A2DP_LC3_CONFIG =>
    have s := setDeviceParameter_mono_session env
      { d with isLC3MonoModeOn := param.is_lc3_mono_mode_on }
    exact ⟨sessionInvariant_of_same s hi, s.2.2⟩
  | other raw => exact ⟨hi, rfl⟩

/-! ## The constructor of an A2DP device -/

theorem logSymbols_session (symbols : List BtSymbol) (d : BtA2dp) :
    SameSession d (d.logSymbols symbols) := by
  induction symbols generalizing d with
  | nil => exact ⟨rfl, rfl, rfl⟩
  | cons y rest ih =>
    have h := ih (d.log (.dlsym y))
    exact ⟨h.1, h.2.1, h.2.2⟩

theorem SameSession.session_trans {a b c : BtA2dp} (h1 : SameSession a b) (h2 : SameSession b c) :
    SameSession a c :=
  ⟨h2.1.trans h1.1, h2.2.1.trans h1.2.1, h2.2.2.trans h1.2.2⟩

theorem ite_log_session (c : Prop) [Decidable c] (d : BtA2dp) (e : Event) :
    SameSession d (if c then d.log e else d) := by
  by_cases h : c
  · rw [if_pos h]
    exact ⟨rfl, rfl, rfl⟩
  · rw [if_neg h]
    exact ⟨rfl, rfl, rfl⟩

theorem init_a2dp_source_dlopen_session (ld : BtLoader) (d : BtA2dp) :
    SameSession d (init_a2dp_source_dlopen ld d) := by
  unfold init_a2dp_source_dlopen
  by_cases h : d.lib.bt_lib_source_handle = false
  · rw [if_pos h]
    exact ⟨rfl, rfl, rfl⟩
  · rw [if_neg h]
    exact ⟨rfl, rfl, rfl⟩

theorem init_a2dp_source_dlsym_session (ld : BtLoader) (d : BtA2dp) :
    SameSession d (init_a2dp_source_dlsym ld d).2 := by
  have h := logSymbols_session sourceSymbols d
  exact ⟨h.1, h.2.1, h.2.2⟩

theorem init_a2dp_source_session (ld : BtLoader) (src : BtSourceLibs) (d : BtA2dp)
    (hi : sessionInvariant d) :
    sessionInvariant (init_a2dp_source ld src d).2 ∧
      (init_a2dp_source ld src d).2.a2dpRole = d.a2dpRole := by
  have h1 := init_a2dp_source_dlopen_session ld d
  have h2 := init_a2dp_source_dlsym_session ld (init_a2dp_source_dlopen ld d)
  unfold init_a2dp_source
  dsimp only
  by_cases h : (init_a2dp_source_dlopen ld d).lib.bt_lib_source_handle = false
  · rw [if_pos h]
    exact ⟨sessionInvariant_of_same h1 hi, h1.2.2⟩
  · rw [if_neg h]
    have h3 := ite_log_session (ld.dlsym_source .bt_audio_pre_init = true)
      (init_a2dp_source_dlsym ld (init_a2dp_source_dlopen ld d)).2 .bt_audio_pre_init
    have h4 := (h1.session_trans h2).session_trans h3
    obtain ⟨o1, o2⟩ := open_a2dp_source_session
      (init_a2dp_source_dlsym ld (init_a2dp_source_dlopen ld d)).1 _
      (sessionInvariant_of_same h4 hi)
    exact ⟨o1, o2.trans h4.2.2⟩

theorem init_a2dp_sink_session (ld : BtLoader) (d : BtA2dp) :
    SameSession d (init_a2dp_sink ld d) := by
  have hs : ∀ x : BtA2dp, SameSession x (init_a2dp_sink_dlsym ld x) := by
    intro x
    have h := logSymbols_session sinkSymbols x
    exact ⟨h.1, h.2.1, h.2.2⟩
  have hd : ∀ x : BtA2dp, SameSession x (init_a2dp_sink_dummy ld x) := by
    intro x
    have h := logSymbols_session dummySinkSymbols
      { x with toBluetooth := { x.toBluetooth with isDummySink := true } }
    exact ⟨h.1, h.2.1, h.2.2⟩
  have l1 : SameSession d (d.log (.dlopen BT_IPC_SINK_LIB)) := ⟨rfl, rfl, rfl⟩
  have l2 : SameSession d ((d.log (.dlopen BT_IPC_SINK_LIB)).log (.dlopen BT_IPC_SOURCE_LIB)) :=
    ⟨rfl, rfl, rfl⟩
  unfold init_a2dp_sink
  dsimp only
  by_cases h1 : d.lib.bt_lib_sink_handle = true
  · rw [if_pos h1]
    exact ⟨rfl, rfl, rfl⟩
  · rw [if_neg h1]
    by_cases h2 : ld.dlopen_sink = true
    · rw [if_pos h2]
      exact l1.session_trans (hs _)
    · rw [if_neg h2]
      by_cases h3 : ld.linux_enabled = true
      · rw [if_pos h3]
        exact l1
      · rw [if_neg h3]
        by_cases h4 : ld.dlopen_source = false
        · rw [if_pos h4]
          exact l2
        · rw [if_neg h4]
          exact l2.session_trans (hd _)

theorem init_session (ld : BtLoader) (src : BtSourceLibs) (d : BtA2dp)
    (hi : sessionInvariant d) :
    sessionInvariant (d.init ld src).2 ∧ (d.init ld src).2.a2dpRole = d.a2dpRole := by
  unfold BtA2dp.init
  by_cases h : d.a2dpRole = .SOURCE
  · rw [if_pos h]
    exact init_a2dp_source_session ld src d hi
  · rw [if_neg h]
    exact ⟨sessionInvariant_of_same (init_a2dp_sink_session ld d) hi,
      (init_a2dp_sink_session ld d).2.2⟩

theorem construct_session (ld : BtLoader) (device : Bluetooth) (supported disabled : Bool)
    (lib : BtLibs) (src : BtSourceLibs) :
    sessionInvariant (BtA2dp.construct ld device supported disabled lib src).2 ∧
      (BtA2dp.construct ld device supported disabled lib src).2.a2dpRole =
        (if device.deviceAttr_id = .PAL_DEVICE_IN_BLUETOOTH_A2DP then .SINK else .SOURCE) := by
  have h0 : ∀ d0 : BtA2dp, d0.a2dpState = .A2DP_STATE_DISCONNECTED →
      d0.totalActiveSessionRequests = 0 → sessionInvariant d0 := by
    intro d0 hs ht
    unfold sessionInvariant
    rw [hs, ht]
    constructor
    · intro h
      exact absurd h (by decide)
    · intro h
      exact absurd h (by decide)
  obtain ⟨i1, i2⟩ := init_session ld src
    ({ toBluetooth :=
        { device.construct with
            codecType :=
              if device.deviceAttr_id = .PAL_DEVICE_IN_BLUETOOTH_A2DP then .DEC else .ENC,
            pluginHandler := none,
            pluginCodec := none },
       a2dpState := .A2DP_STATE_DISCONNECTED,
       a2dpRole := if device.deviceAttr_id = .PAL_DEVICE_IN_BLUETOOTH_A2DP then .SINK else .SOURCE,
       totalActiveSessionRequests := 0,
       a2dp_suspended := false,
       reconfig := false,
       isA2dpOffloadSupported := false,
       lib := lib } : BtA2dp) (h0 _ rfl rfl)
  unfold BtA2dp.construct
  dsimp only
  exact ⟨sessionInvariant_of_same ⟨rfl, rfl, rfl⟩ i1, i2⟩

/-- The constructor on a source device with the library at hand: the libraries
are opened, the stack is initialised and the source stream is opened; the device
ends in state CONNECTED with no session. -/
theorem construct_source_connected :
    (BtA2dp.construct okLoader (sampleDevice .PAL_DEVICE_OUT_BLUETOOTH_A2DP .DEC .CODEC_TYPE_SBC)
      true false nullLibs nullSourceLibs).2.a2dpState = .A2DP_STATE_CONNECTED ∧
    (BtA2dp.construct okLoader (sampleDevice .PAL_DEVICE_OUT_BLUETOOTH_A2DP .DEC .CODEC_TYPE_SBC)
      true false nullLibs nullSourceLibs).2.totalActiveSessionRequests = 0 ∧
    (BtA2dp.construct okLoader (sampleDevice .PAL_DEVICE_OUT_BLUETOOTH_A2DP .DEC .CODEC_TYPE_SBC)
      true false nullLibs nullSourceLibs).2.a2dpRole = .SOURCE ∧
    (BtA2dp.construct okLoader (sampleDevice .PAL_DEVICE_OUT_BLUETOOTH_A2DP .DEC .CODEC_TYPE_SBC)
      true false nullLibs nullSourceLibs).2.codecType = .ENC ∧
    (BtA2dp.construct okLoader (sampleDevice .PAL_DEVICE_OUT_BLUETOOTH_A2DP .DEC .CODEC_TYPE_SBC)
      true false nullLibs nullSourceLibs).2.codecFormat = .CODEC_TYPE_INVALID ∧
    (BtA2dp.construct okLoader (sampleDevice .PAL_DEVICE_OUT_BLUETOOTH_A2DP .DEC .CODEC_TYPE_SBC)
      true false nullLibs nullSourceLibs).2.isA2dpOffloadSupported = true ∧
    (BtA2dp.construct okLoader (sampleDevice .PAL_DEVICE_OUT_BLUETOOTH_A2DP .DEC .CODEC_TYPE_SBC)
      true false nullLibs nullSourceLibs).2.lib.bt_lib_source_handle = true ∧
    (BtA2dp.construct okLoader (sampleDevice .PAL_DEVICE_OUT_BLUETOOTH_A2DP .DEC .CODEC_TYPE_SBC)
      true false nullLibs nullSourceLibs).1 = loadedSourceLibs ∧
    (BtA2dp.construct okLoader (sampleDevice .PAL_DEVICE_OUT_BLUETOOTH_A2DP .DEC .CODEC_TYPE_SBC)
      true false nullLibs nullSourceLibs).2.trace.getLast? = some .audio_source_open ∧
    (BtA2dp.construct okLoader (sampleDevice .PAL_DEVICE_OUT_BLUETOOTH_A2DP .DEC .CODEC_TYPE_SBC)
      true false nullLibs nullSourceLibs).2.trace.count .bt_audio_pre_init = 1 := by
  decide

/-- The constructor on a sink device when only the source library can be
opened: the device is a dummy sink, stays DISCONNECTED and has the start and
stop entry points of the source library. -/
theorem construct_dummy_sink :
    (BtA2dp.construct sourceOnlyLoader
      (sampleDevice .PAL_DEVICE_IN_BLUETOOTH_A2DP .ENC .CODEC_TYPE_INVALID)
      true false nullLibs nullSourceLibs).2.isDummySink = true ∧
    (BtA2dp.construct sourceOnlyLoader
      (sampleDevice .PAL_DEVICE_IN_BLUETOOTH_A2DP .ENC .CODEC_TYPE_INVALID)
      true false nullLibs nullSourceLibs).2.a2dpState = .A2DP_STATE_DISCONNECTED ∧
    (BtA2dp.construct sourceOnlyLoader
      (sampleDevice .PAL_DEVICE_IN_BLUETOOTH_A2DP .ENC .CODEC_TYPE_INVALID)
      true false nullLibs nullSourceLibs).2.a2dpRole = .SINK ∧
    (BtA2dp.construct sourceOnlyLoader
      (sampleDevice .PAL_DEVICE_IN_BLUETOOTH_A2DP .ENC .CODEC_TYPE_INVALID)
      true false nullLibs nullSourceLibs).2.lib =
      ⟨false, true, true, true, true, false, false, false, false, false⟩ ∧
    (BtA2dp.construct sourceOnlyLoader
      (sampleDevice .PAL_DEVICE_IN_BLUETOOTH_A2DP .ENC .CODEC_TYPE_INVALID)
      true false nullLibs nullSourceLibs).2.trace =
      [.dlopen BT_IPC_SINK_LIB, .dlopen BT_IPC_SOURCE_LIB, .dlsym .audio_get_codec_config,
       .dlsym .audio_sink_get_a2dp_latency, .dlsym .audio_start_stream,
       .dlsym .audio_stop_stream, .dlsym .audio_check_a2dp_ready] := by
  decide

/-- Claim C27: for an A2DP device in SOURCE role the predicate (a2dpState =
STARTED if and only if totalActiveSessionRequests > 0) holds after the
constructor, init() and its open_a2dp_source included, and is preserved,
together with the role, by startPlayback, stopPlayback, open_a2dp_source,
close_audio_source and setDeviceParameter with every parameter id and value, for
every outcome of the collaborators and of the loader and every set of library
pointers. -/
theorem C27_source_state_tracks_sessions (env : Collab) (src : BtSourceLibs) (d : BtA2dp)
    (param_id : pal_a2dp_param_id_t) (param : pal_param_bta2dp_t)
    (ld : BtLoader) (device : Bluetooth) (supported disabled : Bool) (lib : BtLibs)
    (src0 : BtSourceLibs)
    (hi : sessionInvariant d) (hr : d.a2dpRole = .SOURCE) :
    sessionInvariant (BtA2dp.construct ld device supported disabled lib src0).2 ∧
    (sessionInvariant (startPlayback env d).2 ∧ (startPlayback env d).2.a2dpRole = .SOURCE) ∧
    (sessionInvariant (stopPlayback env d).2 ∧ (stopPlayback env d).2.a2dpRole = .SOURCE) ∧
    (sessionInvariant (open_a2dp_source src d) ∧ (open_a2dp_source src d).a2dpRole = .SOURCE) ∧
    (sessionInvariant (close_audio_source src d).2 ∧
      (close_audio_source src d).2.a2dpRole = .SOURCE) ∧
    (sessionInvariant (d.setDeviceParameter env src param_id param).2 ∧
      (d.setDeviceParameter env src param_id param).2.a2dpRole = .SOURCE) := by
  refine ⟨?_, ?_, ?_, ?_, ?_, ?_⟩
  · exact (construct_session ld device supported disabled lib src0).1
  · exact hr ▸ startPlayback_session env d hi
  · exact hr ▸ stopPlayback_session env d hi
  · exact hr ▸ open_a2dp_source_session src d hi
  · exact hr ▸ close_audio_source_session src d hi
  · exact hr ▸ setDeviceParameter_session env src d param_id param hi hr

/-- C27 on the device that the constructor leaves for a source with the library
at hand: it satisfies the predicate in state CONNECTED, and the first
startPlayback takes it to STARTED with one session. -/
theorem C27_source_state_tracks_sessions_witness :
    sessionInvariant (BtA2dp.construct okLoader
      (sampleDevice .PAL_DEVICE_OUT_BLUETOOTH_A2DP .ENC .CODEC_TYPE_INVALID)
      true false nullLibs nullSourceLibs).2 ∧
    sessionInvariant (startPlayback okCollab (BtA2dp.construct okLoader
      (sampleDevice .PAL_DEVICE_OUT_BLUETOOTH_A2DP .ENC .CODEC_TYPE_INVALID)
      true false nullLibs nullSourceLibs).2).2 ∧
    (startPlayback okCollab (BtA2dp.construct okLoader
      (sampleDevice .PAL_DEVICE_OUT_BLUETOOTH_A2DP .ENC .CODEC_TYPE_INVALID)
      true false nullLibs nullSourceLibs).2).2.totalActiveSessionRequests = 1 :=
  have h := C27_source_state_tracks_sessions okCollab loadedSourceLibs
      (BtA2dp.construct okLoader
        (sampleDevice .PAL_DEVICE_OUT_BLUETOOTH_A2DP .ENC .CODEC_TYPE_INVALID)
        true false nullLibs nullSourceLibs).2
      .PAL_PARAM_ID_BT_A2DP_SUSPENDED ⟨true, false, true, false, false⟩
      okLoader (sampleDevice .PAL_DEVICE_OUT_BLUETOOTH_A2DP .ENC .CODEC_TYPE_INVALID)
      true false nullLibs nullSourceLibs
      (by unfold sessionInvariant; decide) (by decide)
  ⟨h.1, h.2.1.1, by decide⟩

/-! ## Running a list of steps -/

theorem runSteps_nil (env : Collab) (d : Bluetooth) : runSteps env [] d = (0, d) := rfl

theorem runSteps_resolve (env : Collab) (tag : ModuleTag) (rest : List PipelineStep)
    (d : Bluetooth) :
    runSteps env (.resolve tag :: rest) d =
      if (env.getMIID tag).1 ≠ 0 then ((env.getMIID tag).1, d.log (.getMIID tag))
      else runSteps env rest (d.log (.getMIID tag)) := by
  have e : ({ d with customPayload := d.customPayload ++ pushedPayloads [Event.getMIID tag],
                     trace := d.trace ++ [Event.getMIID tag] } : Bluetooth) =
      d.log (.getMIID tag) := by
    simp [pushedPayloads, pushes, Bluetooth.log]
  simp only [runSteps, PipelineStep.events, PipelineStep.status, e]

theorem runSteps_fixed (env : Collab) (t : ModuleTag) (k : PayloadKind) (out : BuilderOut)
    (rest : List PipelineStep) (d : Bluetooth) :
    runSteps env (.fixed t k out :: rest) d =
      if out.paramSize ≠ 0 then runSteps env rest (d.updateCustomPayload t k out)
      else (-EINVAL, d) := by
  by_cases h : out.paramSize = 0
  · simp [runSteps, PipelineStep.status, PipelineStep.events, h, pushedPayloads, pushes, EINVAL]
  · simp [runSteps, PipelineStep.status, PipelineStep.events, h, pushedPayloads, pushes,
      Bluetooth.updateCustomPayload]

theorem runSteps_custom (env : Collab) (t : ModuleTag) (pid : Nat) (out : BuilderOut)
    (rest : List PipelineStep) (d : Bluetooth) :
    runSteps env (.custom t pid out :: rest) d =
      match out.paramData with
      | none => (-ENOMEM, d)
      | some _ => runSteps env rest (d.updateCustomPayload t (.payloadCustomParam pid) out) := by
  cases h : out.paramData with
  | none => simp [runSteps, PipelineStep.status, PipelineStep.events, h, pushedPayloads, pushes, ENOMEM]
  | some x =>
    simp [runSteps, PipelineStep.status, PipelineStep.events, h, pushedPayloads, pushes,
      Bluetooth.updateCustomPayload]

theorem runSteps_append (env : Collab) :
    ∀ (a b : List PipelineStep) (d : Bluetooth),
      runSteps env (a ++ b) d =
        if (runSteps env a d).1 ≠ 0 then runSteps env a d
        else runSteps env b (runSteps env a d).2
  | [], b, d => by simp [runSteps]
  | s :: a, b, d => by
    simp only [List.cons_append, runSteps]
    by_cases h : s.status env = 0
    · simp only [h, ne_eq, not_true_eq_false, if_false]
      exact runSteps_append env a b _
    · simp [h]

theorem runPipeline_nil (env : Collab) (d : Bluetooth) :
    runPipeline env [] d = configure_done 0 d := by
  simp [runPipeline, runSteps]

theorem runPipeline_resolve (env : Collab) (tag : ModuleTag) (rest : List PipelineStep)
    (d : Bluetooth) :
    runPipeline env (.resolve tag :: rest) d =
      if (env.getMIID tag).1 ≠ 0 then ((env.getMIID tag).1, d.log (.getMIID tag))
      else runPipeline env rest (d.log (.getMIID tag)) := by
  unfold runPipeline
  rw [runSteps_resolve]
  by_cases h : (env.getMIID tag).1 = 0
  · simp [h]
  · simp [h]

theorem runPipeline_fixed (env : Collab) (t : ModuleTag) (k : PayloadKind) (out : BuilderOut)
    (rest : List PipelineStep) (d : Bluetooth) :
    runPipeline env (.fixed t k out :: rest) d =
      if out.paramSize ≠ 0 then runPipeline env rest (d.updateCustomPayload t k out)
      else (-EINVAL, d) := by
  unfold runPipeline
  rw [runSteps_fixed]
  by_cases h : out.paramSize = 0
  · simp [h, EINVAL]
  · simp [h]

theorem runPipeline_custom (env : Collab) (t : ModuleTag) (pid : Nat) (out : BuilderOut)
    (rest : List PipelineStep) (d : Bluetooth) :
    runPipeline env (.custom t pid out :: rest) d =
      match out.paramData with
      | none => (-ENOMEM, d)
      | some _ => runPipeline env rest (d.updateCustomPayload t (.payloadCustomParam pid) out) := by
  unfold runPipeline
  rw [runSteps_custom]
  cases h : out.paramData with
  | none => simp [ENOMEM]
  | some x => simp

theorem runPipeline_append (env : Collab) (a b : List PipelineStep) (d : Bluetooth) :
    runPipeline env (a ++ b) d =
      if (runSteps env a d).1 ≠ 0 then runSteps env a d
      else runPipeline env b (runSteps env a d).2 := by
  unfold runPipeline
  rw [runSteps_append]
  by_cases h : (runSteps env a d).1 = 0
  · simp [h]
  · simp [h]

theorem log_read (d : Bluetooth) (e : Event) :
    (d.log e).codecConfig = d.codecConfig ∧ (d.log e).codecInfo = d.codecInfo ∧
    (d.log e).deviceAttr_config = d.deviceAttr_config ∧ (d.log e).codecFormat = d.codecFormat ∧
    (d.log e).codecType = d.codecType ∧ (d.log e).isLC3MonoModeOn = d.isLC3MonoModeOn ∧
    (d.log e).isTwsMonoModeOn = d.isTwsMonoModeOn ∧ (d.log e).isAbrEnabled = d.isAbrEnabled :=
  ⟨rfl, rfl, rfl, rfl, rfl, rfl, rfl, rfl⟩

theorem push_read (d : Bluetooth) (t : ModuleTag) (k : PayloadKind) (o : BuilderOut) :
    (d.updateCustomPayload t k o).codecConfig = d.codecConfig ∧
    (d.updateCustomPayload t k o).codecInfo = d.codecInfo ∧
    (d.updateCustomPayload t k o).deviceAttr_config = d.deviceAttr_config ∧
    (d.updateCustomPayload t k o).codecFormat = d.codecFormat ∧
    (d.updateCustomPayload t k o).codecType = d.codecType ∧
    (d.updateCustomPayload t k o).isLC3MonoModeOn = d.isLC3MonoModeOn ∧
    (d.updateCustomPayload t k o).isTwsMonoModeOn = d.isTwsMonoModeOn ∧
    (d.updateCustomPayload t k o).isAbrEnabled = d.isAbrEnabled :=
  ⟨rfl, rfl, rfl, rfl, rfl, rfl, rfl, rfl⟩

theorem configurePcmCnv_steps (env : Collab) (d : Bluetooth) :
    configurePcmCnv env d =
      runPipeline env
        [ .resolve .BT_PCM_CONVERTER,
          .fixed .BT_PCM_CONVERTER .payloadPcmCnvConfig
            (env.payloadPcmCnvConfig (env.getMIID .BT_PCM_CONVERTER).2 d.codecConfig) ] d := by
  unfold configurePcmCnv
  simp only [runPipeline_resolve, runPipeline_fixed, runPipeline_nil, (log_read _ _).1]
  split_ifs with h1 h2
  · rfl
  · rw [not_not.1 h1]
  · rfl

theorem configureRat_steps (env : Collab) (d : Bluetooth) :
    configureRat env d = runPipeline env (specRatPcm env d.codecConfig) d := by
  unfold configureRat specRatPcm
  rw [runPipeline_resolve, runPipeline_fixed]
  simp only [(log_read _ _).1]
  split_ifs with h1 h2
  · rfl
  · rw [configurePcmCnv_steps]
    rfl
  · rfl

theorem configureCopV2Depack_steps (env : Collab) (d : Bluetooth) :
    configureCopV2Depack env d =
      runPipeline env
        [ .resolve .COP_DEPACKETIZER_V2,
          .fixed .COP_DEPACKETIZER_V2 (.payloadCopV2DepackConfig false)
            (env.payloadCopV2DepackConfig (env.getMIID .COP_DEPACKETIZER_V2).2 d.codecInfo false),
          .fixed .COP_DEPACKETIZER_V2 (.payloadCopV2DepackConfig true)
            (env.payloadCopV2DepackConfig (env.getMIID .COP_DEPACKETIZER_V2).2 d.codecInfo true) ]
        d := by
  unfold configureCopV2Depack
  simp only [runPipeline_resolve, runPipeline_fixed, runPipeline_nil, (log_read _ _).2.1,
    (push_read _ _ _ _).2.1]
  split_ifs with h1 h2 h3
  · rfl
  · rw [not_not.1 h1]
  · rfl
  · rfl

theorem configureCopV2Pack_steps (env : Collab) (d : Bluetooth) :
    configureCopV2Pack env d =
      runPipeline env
        ([ .resolve .COP_PACKETIZER_V2,
           .fixed .COP_PACKETIZER_V2 .payloadCopV2PackConfig
             (env.payloadCopV2PackConfig (env.getMIID .COP_PACKETIZER_V2).2 d.codecInfo),
           .fixed .COP_PACKETIZER_V2 .payloadCopPackConfig
             (env.payloadCopPackConfig (env.getMIID .COP_PACKETIZER_V2).2 d.deviceAttr_config) ] ++
          specRatPcm env d.codecConfig) d := by
  unfold configureCopV2Pack
  simp only [List.cons_append, List.nil_append, runPipeline_resolve, runPipeline_fixed,
    (log_read _ _).2.1, (log_read _ _).2.2.1, (push_read _ _ _ _).2.2.1]
  split_ifs with h1 h2 h3
  · rfl
  · rw [configureRat_steps]
    rfl
  · rfl
  · rfl

theorem configureCopV0Pack_steps (env : Collab) (d : Bluetooth) :
    configureCopV0Pack env d =
      runPipeline env
        ([ .resolve .COP_PACKETIZER_V0,
           .fixed .COP_PACKETIZER_V0 .payloadCopPackConfig
             (env.payloadCopPackConfig (env.getMIID .COP_PACKETIZER_V0).2 d.deviceAttr_config) ] ++
          specRatPcm env d.codecConfig) d := by
  unfold configureCopV0Pack
  simp only [List.cons_append, List.nil_append, runPipeline_resolve, runPipeline_fixed,
    (log_read _ _).2.2.1]
  split_ifs with h1 h2
  · rfl
  · rw [configureRat_steps]
    rfl
  · rfl

theorem configureCop_steps (env : Collab) (target : ModuleTag) (miid : Nat) (d : Bluetooth) :
    configureCop env target miid 0 d = runPipeline env (specCop env d target miid) d := by
  unfold configureCop specCop
  by_cases hl : d.codecFormat = .CODEC_TYPE_LC3
  · rw [if_pos hl, if_pos hl, runPipeline_fixed]
    by_cases hs : (env.payloadLC3Config miid d.isLC3MonoModeOn).paramSize = 0
    · rw [if_neg (not_not.2 hs), if_neg (not_not.2 hs)]
    · rw [if_pos hs, if_pos hs]
      dsimp only
      by_cases hd : d.codecType = .DEC
      · rw [if_pos (show (d.updateCustomPayload target .payloadLC3Config
          (env.payloadLC3Config miid d.isLC3MonoModeOn)).codecType = .DEC from hd), if_pos hd,
          configureCopV2Depack_steps]
        rfl
      · rw [if_neg (show ¬ (d.updateCustomPayload target .payloadLC3Config
          (env.payloadLC3Config miid d.isLC3MonoModeOn)).codecType = .DEC from hd), if_neg hd,
          configureCopV2Pack_steps]
        rfl
  · rw [if_neg hl, if_neg hl]
    by_cases hd : d.codecType = .DEC
    · rw [if_pos hd, if_pos hd, runPipeline_nil]
    · rw [if_neg hd, if_neg hd, configureCopV0Pack_steps]

theorem specCop_push (env : Collab) (d : Bluetooth) (t : ModuleTag) (k : PayloadKind)
    (o : BuilderOut) (target : ModuleTag) (miid : Nat) :
    specCop env (d.updateCustomPayload t k o) target miid = specCop env d target miid := rfl

theorem configureStatic_steps (env : Collab) (target : ModuleTag) (miid : Nat) (d : Bluetooth) :
    configureStatic env target miid 0 d = runPipeline env (specStatic env d target miid) d := by
  unfold configureStatic specStatic
  by_cases hs : d.codecFormat = .CODEC_TYPE_APTX_AD_SPEECH
  · rw [if_pos hs, if_pos hs, runPipeline_nil]
  · rw [if_neg hs, if_neg hs]
    by_cases ht : d.codecFormat = .CODEC_TYPE_APTX_DUAL_MONO ∨ d.codecFormat = .CODEC_TYPE_APTX_AD
    · rw [if_pos ht, if_pos ht, runPipeline_fixed]
      dsimp only
      by_cases hz : (env.payloadTWSConfig miid d.isTwsMonoModeOn d.codecFormat).paramSize = 0
      · rw [if_neg (not_not.2 hz), if_neg (not_not.2 hz)]
      · rw [if_pos hz, if_pos hz, configureCop_steps, specCop_push]
    · rw [if_neg ht, if_neg ht, configureCop_steps]

theorem pushBlocks_steps (env : Collab) (target : ModuleTag) (miid : Nat) :
    ∀ (blks : List custom_block_t) (d : Bluetooth),
      pushBlocks env target miid blks d = runSteps env (specBlocks env target miid blks) d
  | [], d => rfl
  | blk :: rest, d => by
    unfold pushBlocks
    simp only [specBlocks, List.map_cons]
    rw [runSteps_custom]
    dsimp only [blockOut]
    cases h : (env.payloadCustomParam blk.payload blk.payload_sz miid blk.param_id).paramData with
    | none => rfl
    | some x => exact pushBlocks_steps env target miid rest _

theorem runSteps_frame (env : Collab) :
    ∀ (steps : List PipelineStep) (d : Bluetooth), ∃ evs,
      (runSteps env steps d).2 =
        { d with customPayload := d.customPayload ++ pushedPayloads evs,
                 trace := d.trace ++ evs }
  | [], d => ⟨[], by simp [runSteps, pushedPayloads, pushes]⟩
  | s :: rest, d => by
    unfold runSteps
    dsimp only
    split_ifs
    · exact ⟨s.events env, rfl⟩
    · obtain ⟨evs, h⟩ := runSteps_frame env rest
        { d with customPayload := d.customPayload ++ pushedPayloads (s.events env),
                 trace := d.trace ++ s.events env }
      refine ⟨s.events env ++ evs, ?_⟩
      rw [h]
      simp [pushedPayloads, pushes_append]

theorem specStatic_frame (env : Collab) (d : Bluetooth) (evs : List Event)
    (target : ModuleTag) (miid : Nat) :
    specStatic env { d with customPayload := d.customPayload ++ pushedPayloads evs,
                            trace := d.trace ++ evs } target miid =
      specStatic env d target miid := rfl

theorem configureBlocks_steps (env : Collab) (target : ModuleTag) (miid : Nat)
    (out_buf : bt_enc_payload_t) (d : Bluetooth) :
    configureBlocks env target miid 0 out_buf d =
      runPipeline env (specBlocks env target miid out_buf.blocks ++ specStatic env d target miid)
        d := by
  unfold configureBlocks
  dsimp only
  rw [runPipeline_append, pushBlocks_steps]
  by_cases h : (runSteps env (specBlocks env target miid out_buf.blocks) d).1 = 0
  · rw [if_neg (not_not.2 h), if_neg (not_not.2 h), configureStatic_steps]
    obtain ⟨evs, he⟩ := runSteps_frame env (specBlocks env target miid out_buf.blocks) d
    rw [he, specStatic_frame]
  · rw [if_pos h, if_pos h]

theorem isPlaceholderEncoder_eq (d : Bluetooth) :
    isPlaceholderEncoder d = specNeedsReset d.codecFormat d.isAbrEnabled := by
  unfold isPlaceholderEncoder specNeedsReset
  cases d.codecFormat <;> cases d.isAbrEnabled <;> simp

theorem configurePlaceholder_steps (env : Collab) (target : ModuleTag) (miid : Nat)
    (out_buf : bt_enc_payload_t) (d : Bluetooth) :
    configurePlaceholder env target miid 0 out_buf d =
      runPipeline env (specPlaceholder env d out_buf target miid) d := by
  unfold configurePlaceholder specPlaceholder specReset
  rw [isPlaceholderEncoder_eq]
  by_cases h : specNeedsReset d.codecFormat d.isAbrEnabled = true
  · rw [if_pos h, if_pos h]
    simp only [List.cons_append, List.nil_append, List.append_assoc]
    rw [runPipeline_custom]
    cases h2 : (env.payloadCustomParam [] 0 miid PARAM_ID_RESET_PLACEHOLDER_MODULE).paramData with
    | none => rfl
    | some x =>
      dsimp only
      rw [configureBlocks_steps]
      rfl
  · rw [if_neg h, if_neg h, List.nil_append, configureBlocks_steps]

/-! ## What a run of steps leaves -/

theorem stepEvents_append (env : Collab) (a b : List PipelineStep) :
    stepEvents env (a ++ b) = stepEvents env a ++ stepEvents env b := by
  simp [stepEvents]

theorem stepEvents_cons (env : Collab) (s : PipelineStep) (rest : List PipelineStep) :
    stepEvents env (s :: rest) = s.events env ++ stepEvents env rest := by
  simp [stepEvents]

theorem stepPushes_append (env : Collab) (a b : List PipelineStep) :
    stepPushes env (a ++ b) = stepPushes env a ++ stepPushes env b := by
  simp [stepPushes, stepEvents_append, pushes_append]

theorem runSteps_ok (env : Collab) :
    ∀ (steps : List PipelineStep) (d : Bluetooth), (∀ s ∈ steps, s.status env = 0) →
      runSteps env steps d =
        (0, { d with customPayload := d.customPayload ++ pushedPayloads (stepEvents env steps),
                     trace := d.trace ++ stepEvents env steps })
  | [], d, _ => by simp [runSteps, stepEvents, pushedPayloads, pushes]
  | s :: rest, d, h => by
    have hs : s.status env = 0 := h s (List.mem_cons_self _ _)
    have hr := runSteps_ok env rest
      { d with customPayload := d.customPayload ++ pushedPayloads (s.events env),
               trace := d.trace ++ s.events env } (fun x hx => h x (List.mem_cons_of_mem _ hx))
    unfold runSteps
    dsimp only
    rw [if_neg (not_not.2 hs), hr]
    simp [stepEvents_cons, pushedPayloads, pushes_append]

theorem runSteps_fail (env : Collab) :
    ∀ (pre : List PipelineStep) (s : PipelineStep) (post : List PipelineStep) (d : Bluetooth),
      (∀ x ∈ pre, x.status env = 0) → s.status env ≠ 0 →
      runSteps env (pre ++ s :: post) d =
        (s.status env,
          { d with customPayload := d.customPayload ++ pushedPayloads (stepEvents env (pre ++ [s])),
                   trace := d.trace ++ stepEvents env (pre ++ [s]) })
  | [], s, post, d, _, hs => by
    simp only [List.nil_append, runSteps]
    rw [if_pos hs]
    simp [stepEvents]
  | p :: pre, s, post, d, h, hs => by
    have hp : p.status env = 0 := h p (List.mem_cons_self _ _)
    have hr := runSteps_fail env pre s post
      { d with customPayload := d.customPayload ++ pushedPayloads (p.events env),
               trace := d.trace ++ p.events env } (fun x hx => h x (List.mem_cons_of_mem _ hx)) hs
    rw [List.cons_append]
    unfold runSteps
    dsimp only
    rw [if_neg (not_not.2 hp), hr]
    simp [stepEvents_cons, pushedPayloads, pushes_append]

theorem steps_split (env : Collab) :
    ∀ steps : List PipelineStep, (∀ s ∈ steps, s.status env = 0) ∨
      ∃ pre s post, steps = pre ++ s :: post ∧ (∀ x ∈ pre, x.status env = 0) ∧ s.status env ≠ 0
  | [] => Or.inl (by simp)
  | s :: rest => by
    by_cases hs : s.status env = 0
    · rcases steps_split env rest with h | ⟨pre, x, post, e, hp, hx⟩
      · left
        intro y hy
        rcases List.mem_cons.1 hy with rfl | hy
        · exact hs
        · exact h y hy
      · right
        refine ⟨s :: pre, x, post, by rw [e]; rfl, ?_, hx⟩
        intro y hy
        rcases List.mem_cons.1 hy with rfl | hy
        · exact hs
        · exact hp y hy
    · right
      exact ⟨[], s, rest, rfl, by simp, hs⟩

theorem failed_step_pushes (env : Collab) (s : PipelineStep) (hs : s.status env ≠ 0) :
    pushes (s.events env) = [] := by
  cases s with
  | resolve tag => simp [PipelineStep.events, pushes]
  | custom t pid out => simp [PipelineStep.events, hs, pushes]
  | fixed t k out => simp [PipelineStep.events, hs, pushes]

theorem stepPushes_failed (env : Collab) (pre : List PipelineStep) (s : PipelineStep)
    (hs : s.status env ≠ 0) : stepPushes env (pre ++ [s]) = stepPushes env pre := by
  rw [stepPushes_append]
  simp [stepPushes, stepEvents, failed_step_pushes env s hs]

theorem runSteps_status_zero (env : Collab) (steps : List PipelineStep) (d : Bluetooth) :
    (runSteps env steps d).1 = 0 ↔ ∀ s ∈ steps, s.status env = 0 := by
  constructor
  · intro h
    rcases steps_split env steps with hall | ⟨pre, s, post, e, hp, hs⟩
    · exact hall
    · rw [e, runSteps_fail env pre s post d hp hs] at h
      exact absurd h hs
  · intro h
    rw [runSteps_ok env steps d h]

/-- A run of steps leaves the device with the calls of the steps it made; the
payloads it pushed are a prefix of those of the whole list, and all of them when
its status is 0. -/
theorem runSteps_pushes (env : Collab) (steps : List PipelineStep) (d : Bluetooth) :
    ∃ evs, (runSteps env steps d).2 =
        { d with customPayload := d.customPayload ++ pushedPayloads evs,
                 trace := d.trace ++ evs } ∧
      pushes evs <+: stepPushes env steps ∧
      ((runSteps env steps d).1 = 0 → evs = stepEvents env steps) := by
  rcases steps_split env steps with hall | ⟨pre, s, post, e, hp, hs⟩
  · rw [runSteps_ok env steps d hall]
    exact ⟨stepEvents env steps, rfl, List.prefix_refl _, fun _ => rfl⟩
  · rw [e, runSteps_fail env pre s post d hp hs]
    refine ⟨stepEvents env (pre ++ [s]), rfl, ?_, fun h => absurd h hs⟩
    show stepPushes env (pre ++ [s]) <+: stepPushes env (pre ++ s :: post)
    rw [stepPushes_failed env pre s hs, stepPushes_append]
    exact List.prefix_append _ _

theorem runPipeline_frame (env : Collab) (steps : List PipelineStep) (d : Bluetooth) :
    (runPipeline env steps d).1 = (runSteps env steps d).1 ∧
    (runPipeline env steps d).2.trace = (runSteps env steps d).2.trace ∧
    (runPipeline env steps d).2.codecConfig = (runSteps env steps d).2.codecConfig ∧
    (runPipeline env steps d).2.deviceAttr_config = (runSteps env steps d).2.deviceAttr_config ∧
    (runPipeline env steps d).2.isAbrEnabled = (runSteps env steps d).2.isAbrEnabled ∧
    (runPipeline env steps d).2.fixed = (runSteps env steps d).2.fixed := by
  unfold runPipeline
  split_ifs with h
  · exact ⟨h.symm, rfl, rfl, rfl, rfl, rfl⟩
  · exact ⟨rfl, rfl, rfl, rfl, rfl, rfl⟩

/-! ## The pass as a run of the pipeline of the specification -/

theorem specPlaceholder_log (env : Collab) (d : Bluetooth) (e : Event) (ob : bt_enc_payload_t)
    (t : ModuleTag) (m : Nat) :
    specPlaceholder env (d.log e) ob t m = specPlaceholder env d ob t m := rfl

/-- The steps of the specification read the device only through the members
that no step writes. -/
theorem specPipeline_congr (env : Collab) (d1 d2 : Bluetooth) (ob : bt_enc_payload_t)
    (h1 : d1.fixed = d2.fixed) (h2 : d1.codecConfig = d2.codecConfig)
    (h3 : d1.deviceAttr_config = d2.deviceAttr_config) (h4 : d1.isAbrEnabled = d2.isAbrEnabled) :
    specPipeline env d1 ob = specPipeline env d2 ob := by
  simp only [Bluetooth.fixed, Prod.mk.injEq] at h1
  obtain ⟨_, hf, hc, hi, hl, ht, _⟩ := h1
  simp only [specPipeline, specPlaceholder, specReset, specStatic, specCop, hf, hc, hi, hl, ht, h2,
    h3, h4]

/-- A pass either ends before the plugin is loaded, or it is the run of the
pipeline of the specification on the device as the plugin load left it. -/
theorem configure_pipeline (env : Collab) (d : Bluetooth) :
    (∃ st evs, st ≠ 0 ∧ Event.plugin_populate_payload 0 ∉ evs ∧ pushes evs = [] ∧
      configureA2dpEncoderDecoder env d =
        (st, { d with isConfigured := false, trace := d.trace ++ evs })) ∨
    (∃ pl evs, (∀ e ∈ evs, e.isPlugin = true) ∧
      pl.out_buf = pluginPackage env d.codecFormat d.codecType d.codecInfo ∧
      configureA2dpEncoderDecoder env d =
        runPipeline env (specPipeline env (afterLoad d pl evs) pl.out_buf) (afterLoad d pl evs)) := by
  have hpl : ∀ evs : List Event, (∀ e ∈ evs, e.isPlugin = true) → pushes evs = [] := by
    intro evs h
    unfold pushes
    rw [List.filterMap_eq_nil_iff]
    intro e he
    have := h e he
    cases e <;> simp_all [Event.isPlugin]
  rcases configure_cases env d with ⟨e, _⟩ | ⟨st, evs, hst, hpop, hev, _, e⟩ |
    ⟨pl, evs, hev, hpk, hm, e⟩ | ⟨pl, evs, hev, hpk, _, _, _, hm, _, e⟩
  · left
    exact ⟨-EINVAL, [.getActiveStream_l], by decide, by simp, by simp [pushes], e⟩
  · left
    refine ⟨st, [.getActiveStream_l] ++ evs, hst, ?_, ?_, ?_⟩
    · simpa using hpop
    · rw [pushes_append, hpl evs hev]
      simp [pushes]
    · rw [e, List.append_assoc]
  · right
    refine ⟨pl, evs, hev, hpk, ?_⟩
    rw [e, specPipeline, (afterLoad_frame d pl evs).2.2.1, runPipeline_resolve, if_pos hm]
  · right
    refine ⟨pl, evs, hev, hpk, ?_⟩
    rw [e, specPipeline, (afterLoad_frame d pl evs).2.2.1, runPipeline_resolve,
      if_neg (not_not.2 hm), hm, configurePlaceholder_steps, specPlaceholder_log]

theorem pipeline_ok (env : Collab) (plan : List PipelineStep) (d d0 : Bluetooth)
    (load : List Event) (ht : d0.trace = d.trace ++ load) (hall : ∀ s ∈ plan, s.status env = 0) :
    (runPipeline env plan d0).1 = 0 ∧
      passTrace d (runPipeline env plan d0).2 = load ++ stepEvents env plan := by
  obtain ⟨h1, h2, _⟩ := runPipeline_frame env plan d0
  rw [h1, runSteps_ok env plan d0 hall]
  refine ⟨rfl, passTrace_eq d (load ++ stepEvents env plan) ?_⟩
  rw [h2, runSteps_ok env plan d0 hall]
  show d0.trace ++ stepEvents env plan = _
  rw [ht, List.append_assoc]

theorem pipeline_fail (env : Collab) (pre : List PipelineStep) (s : PipelineStep)
    (post : List PipelineStep) (d d0 : Bluetooth) (load : List Event)
    (ht : d0.trace = d.trace ++ load) (hp : ∀ x ∈ pre, x.status env = 0)
    (hs : s.status env ≠ 0) :
    (runPipeline env (pre ++ s :: post) d0).1 = s.status env ∧
      passTrace d (runPipeline env (pre ++ s :: post) d0).2 =
        load ++ stepEvents env (pre ++ [s]) := by
  obtain ⟨h1, h2, _⟩ := runPipeline_frame env (pre ++ s :: post) d0
  rw [h1, runSteps_fail env pre s post d0 hp hs]
  refine ⟨rfl, passTrace_eq d (load ++ stepEvents env (pre ++ [s])) ?_⟩
  rw [h2, runSteps_fail env pre s post d0 hp hs]
  show d0.trace ++ stepEvents env (pre ++ [s]) = _
  rw [ht, List.append_assoc]

/-- A pass in which the plugin was loaded, or that returned 0, is the run of the
pipeline of the specification, read off the device it leaves, on a device whose
trace holds the calls before the placeholder module: none of them resolves a
module or pushes a payload. -/
theorem configure_run (env : Collab) (d : Bluetooth)
    (h : Event.plugin_populate_payload 0 ∈ passTrace d (configureA2dpEncoderDecoder env d).2 ∨
      (configureA2dpEncoderDecoder env d).1 = 0) :
    ∃ load d0, pushes load = [] ∧ resolvedTags load = [] ∧ d0.trace = d.trace ++ load ∧
      configureA2dpEncoderDecoder env d =
        runPipeline env
          (specPipeline env (configureA2dpEncoderDecoder env d).2
            (pluginPackage env d.codecFormat d.codecType d.codecInfo)) d0 := by
  rcases configure_pipeline env d with ⟨st, evs, hst, hpop, _, e⟩ | ⟨pl, evs, hev, hpk, e⟩
  · exfalso
    rcases h with h | h
    · rw [e] at h
      rw [passTrace_eq d evs rfl] at h
      exact hpop h
    · rw [e] at h
      exact hst h
  · have hl : pushes ([Event.getActiveStream_l] ++ evs) = [] ∧
        resolvedTags ([Event.getActiveStream_l] ++ evs) = [] := by
      constructor
      · unfold pushes
        rw [List.filterMap_eq_nil_iff]
        intro x hx
        rcases List.mem_append.1 hx with hx | hx
        · simp at hx
          rw [hx]
        · have := hev x hx
          cases x <;> simp_all [Event.isPlugin]
      · unfold resolvedTags
        rw [List.filterMap_eq_nil_iff]
        intro x hx
        rcases List.mem_append.1 hx with hx | hx
        · simp at hx
          rw [hx]
        · have := hev x hx
          cases x <;> simp_all [Event.isPlugin]
    refine ⟨[.getActiveStream_l] ++ evs, afterLoad d pl evs, hl.1, hl.2, ?_, ?_⟩
    · rw [(afterLoad_frame d pl evs).1, List.append_assoc]
    · obtain ⟨_, _, f2, f3, f4, f1⟩ := runPipeline_frame env
        (specPipeline env (afterLoad d pl evs) pl.out_buf) (afterLoad d pl evs)
      obtain ⟨x, hx⟩ := runSteps_frame env (specPipeline env (afterLoad d pl evs) pl.out_buf)
        (afterLoad d pl evs)
      rw [hx] at f1 f2 f3 f4
      have hc : specPipeline env (configureA2dpEncoderDecoder env d).2 pl.out_buf =
          specPipeline env (afterLoad d pl evs) pl.out_buf := by
        rw [e]
        exact specPipeline_congr env _ _ _ f1 f2 f3 f4
      rw [← hpk, hc]
      exact e

theorem specRatPcm_listed (env : Collab) (cfg : pal_media_config) :
    ∀ s ∈ specRatPcm env cfg, s.listed = true := by
  intro s hs
  simp only [specRatPcm, List.mem_cons, List.mem_singleton, List.not_mem_nil, or_false] at hs
  rcases hs with rfl | rfl | rfl | rfl <;> rfl

theorem specCop_listed (env : Collab) (d : Bluetooth) (t : ModuleTag) (m : Nat) :
    ∀ s ∈ specCop env d t m, s.listed = true := by
  have hrp := specRatPcm_listed env d.codecConfig
  intro s hs
  unfold specCop at hs
  split_ifs at hs
  · simp only [List.mem_cons, List.mem_singleton, List.not_mem_nil, or_false] at hs
    rcases hs with rfl | rfl | rfl | rfl <;> rfl
  · rcases List.mem_cons.1 hs with rfl | hs
    · rfl
    · rcases List.mem_append.1 hs with hs | hs
      · simp only [List.mem_cons, List.mem_singleton, List.not_mem_nil, or_false] at hs
        rcases hs with rfl | rfl | rfl <;> rfl
      · exact hrp s hs
  · simp at hs
  · rcases List.mem_append.1 hs with hs | hs
    · simp only [List.mem_cons, List.mem_singleton, List.not_mem_nil, or_false] at hs
      rcases hs with rfl | rfl <;> rfl
    · exact hrp s hs

theorem specPipeline_listed (env : Collab) (d : Bluetooth) (ob : bt_enc_payload_t) :
    ∀ s ∈ specPipeline env d ob, s.listed = true := by
  have hcop := specCop_listed env d (placeholderTag d.codecType)
    (env.getMIID (placeholderTag d.codecType)).2
  intro s hs
  unfold specPipeline specPlaceholder at hs
  rcases List.mem_cons.1 hs with rfl | hs
  · rfl
  rcases List.mem_append.1 hs with hs | hs
  · rcases List.mem_append.1 hs with hs | hs
    · unfold specReset at hs
      split_ifs at hs
      · rw [List.mem_singleton.1 hs]
        rfl
      · simp at hs
    · obtain ⟨blk, _, rfl⟩ := List.mem_map.1 hs
      rfl
  · unfold specStatic at hs
    split_ifs at hs
    · simp at hs
    · rcases List.mem_cons.1 hs with rfl | hs
      · rfl
      · exact hcop s hs
    · exact hcop s hs

/-- The builders of the steps of the specification: a step pushed as `fixed`
carries a payload of one of the eight builders other than payloadCustomParam. -/
theorem specPipeline_kinds (env : Collab) (d : Bluetooth) (ob : bt_enc_payload_t)
    (t : ModuleTag) (k : PayloadKind) (out : BuilderOut)
    (h : PipelineStep.fixed t k out ∈ specPipeline env d ob) :
    k ∈ [PayloadKind.payloadTWSConfig, .payloadLC3Config, .payloadCopV2DepackConfig false,
      .payloadCopV2DepackConfig true, .payloadCopV2PackConfig, .payloadCopPackConfig,
      .payloadRATConfig, .payloadPcmCnvConfig] := by
  have hl := specPipeline_listed env d ob _ h
  cases k with
  | payloadCustomParam pid => simp [PipelineStep.listed] at hl
  | payloadCopV2DepackConfig b => cases b <;> simp
  | _ => simp

/-! ## Empty payloads -/

/-- Claim C26, evaluated where it fails: payloadCustomParam returns null for
every call, the codec is LDAC (no placeholder reset), direction ENC. The first
plugin block is met with a null payload, and the pass returns -ENOMEM, not
-EINVAL; no payload is pushed. -/
theorem C26_counterexample :
    (configureA2dpEncoderDecoder nullCustomParamCollab
      (sampleDevice .PAL_DEVICE_OUT_BLUETOOTH_A2DP .ENC .CODEC_TYPE_LDAC)).1 = -ENOMEM ∧
    -ENOMEM ≠ -EINVAL ∧
    passTrace (sampleDevice .PAL_DEVICE_OUT_BLUETOOTH_A2DP .ENC .CODEC_TYPE_LDAC)
      (configureA2dpEncoderDecoder nullCustomParamCollab
        (sampleDevice .PAL_DEVICE_OUT_BLUETOOTH_A2DP .ENC .CODEC_TYPE_LDAC)).2 =
      [.getActiveStream_l, .dlopen "lib_bt_bundle.so", .dlsym_plugin_open,
        .plugin_open .CODEC_TYPE_LDAC .ENC, .plugin_populate_payload 0,
        .getMIID .BT_PLACEHOLDER_ENCODER] := by
  decide

/-- Claim C26, amended. In a pass that loaded the plugin, let the steps of the
specification before some step all succeed. If that step is the push of a payload
built by a builder other than payloadCustomParam (TWS toggle, LC3 toggle, either
depacketizer payload, either packetizer payload, RAT, PCM converter) and the
payload has size 0, the pass returns -EINVAL; if it is the push of a
payloadCustomParam payload (placeholder reset, plugin block) and the payload is
null, the pass returns -ENOMEM. In both cases the step is not skipped: the
payloads pushed in the pass are exactly those of the steps before it. The steps
of the first kind carry payloads of the eight builders named, and of no other. -/
theorem C26_empty_payload_fails (env : Collab) (d : Bluetooth)
    (hload : Event.plugin_populate_payload 0 ∈ passTrace d (configureA2dpEncoderDecoder env d).2)
    (pre post : List PipelineStep) (s : PipelineStep)
    (hplan : specPipeline env (configureA2dpEncoderDecoder env d).2
      (pluginPackage env d.codecFormat d.codecType d.codecInfo) = pre ++ s :: post)
    (hpre : ∀ x ∈ pre, x.status env = 0) :
    (∀ t k out, s = .fixed t k out → out.paramSize = 0 →
      (configureA2dpEncoderDecoder env d).1 = -EINVAL ∧
      pushes (passTrace d (configureA2dpEncoderDecoder env d).2) = stepPushes env pre) ∧
    (∀ t pid out, s = .custom t pid out → out.paramData = none →
      (configureA2dpEncoderDecoder env d).1 = -ENOMEM ∧
      pushes (passTrace d (configureA2dpEncoderDecoder env d).2) = stepPushes env pre) ∧
    (∀ t k out, PipelineStep.fixed t k out ∈ pre ++ s :: post →
      k ∈ [PayloadKind.payloadTWSConfig, .payloadLC3Config, .payloadCopV2DepackConfig false,
        .payloadCopV2DepackConfig true, .payloadCopV2PackConfig, .payloadCopPackConfig,
        .payloadRATConfig, .payloadPcmCnvConfig]) := by
  have hkinds : ∀ t k out, PipelineStep.fixed t k out ∈ pre ++ s :: post →
      k ∈ [PayloadKind.payloadTWSConfig, .payloadLC3Config, .payloadCopV2DepackConfig false,
        .payloadCopV2DepackConfig true, .payloadCopV2PackConfig, .payloadCopPackConfig,
        .payloadRATConfig, .payloadPcmCnvConfig] := by
    intro t k out hm
    rw [← hplan] at hm
    exact specPipeline_kinds env _ _ t k out hm
  obtain ⟨load, d0, hl, _, ht, e⟩ := configure_run env d (Or.inl hload)
  rw [hplan] at e
  have key : ∀ st : Int, st ≠ 0 → s.status env = st →
      (configureA2dpEncoderDecoder env d).1 = st ∧
      pushes (passTrace d (configureA2dpEncoderDecoder env d).2) = stepPushes env pre := by
    intro st hst hs
    have hs0 : s.status env ≠ 0 := by rw [hs]; exact hst
    obtain ⟨h1, h2⟩ := pipeline_fail env pre s post d d0 load ht hpre hs0
    rw [e, h1, h2, pushes_append, hl, List.nil_append]
    exact ⟨hs, stepPushes_failed env pre s hs0⟩
  refine ⟨?_, ?_, hkinds⟩
  · intro t k out hs hz
    exact key (-EINVAL) (by decide) (by rw [hs]; simp [PipelineStep.status, hz])
  · intro t pid out hs hz
    exact key (-ENOMEM) (by decide) (by rw [hs]; simp [PipelineStep.status, hz])

theorem C26_empty_payload_fails_witness :
    (configureA2dpEncoderDecoder emptyPcmCnvCollab
      (sampleDevice .PAL_DEVICE_OUT_BLUETOOTH_A2DP .ENC .CODEC_TYPE_SBC)).1 = -EINVAL ∧
    (pushes (passTrace (sampleDevice .PAL_DEVICE_OUT_BLUETOOTH_A2DP .ENC .CODEC_TYPE_SBC)
      (configureA2dpEncoderDecoder emptyPcmCnvCollab
        (sampleDevice .PAL_DEVICE_OUT_BLUETOOTH_A2DP .ENC .CODEC_TYPE_SBC)).2)).map
      (fun p => p.2.1) =
      [.payloadCustomParam PARAM_ID_RESET_PLACEHOLDER_MODULE, .payloadCustomParam 100,
        .payloadCopPackConfig, .payloadRATConfig] := by
  have h := (C26_empty_payload_fails emptyPcmCnvCollab
    (sampleDevice .PAL_DEVICE_OUT_BLUETOOTH_A2DP .ENC .CODEC_TYPE_SBC) (by decide)
    [ .resolve .BT_PLACEHOLDER_ENCODER,
      .custom .BT_PLACEHOLDER_ENCODER PARAM_ID_RESET_PLACEHOLDER_MODULE
        ⟨some [10, PARAM_ID_RESET_PLACEHOLDER_MODULE], 2⟩,
      .custom .BT_PLACEHOLDER_ENCODER 100 ⟨some [10, 100, 5], 3⟩,
      .resolve .COP_PACKETIZER_V0,
      .fixed .COP_PACKETIZER_V0 .payloadCopPackConfig ⟨some [14, 6, 48000], 3⟩,
      .resolve .RAT_RENDER,
      .fixed .RAT_RENDER .payloadRATConfig ⟨some [15, 7, 48000], 3⟩,
      .resolve .BT_PCM_CONVERTER ] []
    (.fixed .BT_PCM_CONVERTER .payloadPcmCnvConfig ⟨none, 0⟩) (by decide) (by decide)).1
    _ _ _ rfl rfl
  exact ⟨h.1, by decide⟩

/-! ## The placeholder reset -/

theorem pass_pushes_initial (env : Collab) (plan : List PipelineStep) (d d0 : Bluetooth)
    (load : List Event) (hl : pushes load = []) (ht : d0.trace = d.trace ++ load) :
    pushes (passTrace d (runPipeline env plan d0).2) <+: stepPushes env plan := by
  obtain ⟨_, h2, _⟩ := runPipeline_frame env plan d0
  obtain ⟨evs, he, hp, _⟩ := runSteps_pushes env plan d0
  have : passTrace d (runPipeline env plan d0).2 = load ++ evs := by
    refine passTrace_eq d (load ++ evs) ?_
    rw [h2, he]
    show d0.trace ++ evs = _
    rw [ht, List.append_assoc]
  rw [this, pushes_append, hl, List.nil_append]
  exact hp

/-- Claim C23, evaluated where it fails: payloadCustomParam returns null, the
codec is SBC in direction ENC. The pass reaches the placeholder module and the
format is one that needs the reset, yet no reset payload is pushed: the pass
ends with -ENOMEM. -/
theorem C23_counterexample :
    Event.getMIID .BT_PLACEHOLDER_ENCODER ∈
      passTrace (sampleDevice .PAL_DEVICE_OUT_BLUETOOTH_A2DP .ENC .CODEC_TYPE_SBC)
        (configureA2dpEncoderDecoder nullCustomParamCollab
          (sampleDevice .PAL_DEVICE_OUT_BLUETOOTH_A2DP .ENC .CODEC_TYPE_SBC)).2 ∧
    specNeedsReset .CODEC_TYPE_SBC
      (pluginPackage nullCustomParamCollab .CODEC_TYPE_SBC .ENC (some 50)).is_abr_enabled = true ∧
    pushes (passTrace (sampleDevice .PAL_DEVICE_OUT_BLUETOOTH_A2DP .ENC .CODEC_TYPE_SBC)
      (configureA2dpEncoderDecoder nullCustomParamCollab
        (sampleDevice .PAL_DEVICE_OUT_BLUETOOTH_A2DP .ENC .CODEC_TYPE_SBC)).2) = [] ∧
    (configureA2dpEncoderDecoder nullCustomParamCollab
      (sampleDevice .PAL_DEVICE_OUT_BLUETOOTH_A2DP .ENC .CODEC_TYPE_SBC)).1 = -ENOMEM := by
  decide

/-- Claim C23, amended. In every configuration pass that loaded the plugin and
resolved the placeholder module: when the codec format is none of LDAC,
aptX-Adaptive, aptX-Adaptive-Speech, LC3 and is not AAC with the adaptive-bitrate
flag reported by the plugin in this pass, and payloadCustomParam returns a
non-null reset payload, that payload is the first payload pushed, before any
plugin block; when it returns null the pass ends with -ENOMEM and pushes
nothing; for every other format the payloads pushed are a prefix of the plugin
blocks followed by the later steps, with no reset before them. -/
theorem C23_reset_iff_placeholder (env : Collab) (d : Bluetooth)
    (hload : Event.plugin_populate_payload 0 ∈ passTrace d (configureA2dpEncoderDecoder env d).2)
    (hres : (env.getMIID (placeholderTag d.codecType)).1 = 0) :
    (specNeedsReset d.codecFormat
        (pluginPackage env d.codecFormat d.codecType d.codecInfo).is_abr_enabled = true →
      (env.payloadCustomParam [] 0 (env.getMIID (placeholderTag d.codecType)).2
        PARAM_ID_RESET_PLACEHOLDER_MODULE).paramData ≠ none →
      ∃ rest, pushes (passTrace d (configureA2dpEncoderDecoder env d).2) =
        (placeholderTag d.codecType, .payloadCustomParam PARAM_ID_RESET_PLACEHOLDER_MODULE,
          env.payloadCustomParam [] 0 (env.getMIID (placeholderTag d.codecType)).2
            PARAM_ID_RESET_PLACEHOLDER_MODULE) :: rest ∧
        rest <+: stepPushes env
          (specBlocks env (placeholderTag d.codecType) (env.getMIID (placeholderTag d.codecType)).2
              (pluginPackage env d.codecFormat d.codecType d.codecInfo).blocks ++
            specStatic env (configureA2dpEncoderDecoder env d).2 (placeholderTag d.codecType)
              (env.getMIID (placeholderTag d.codecType)).2)) ∧
    (specNeedsReset d.codecFormat
        (pluginPackage env d.codecFormat d.codecType d.codecInfo).is_abr_enabled = true →
      (env.payloadCustomParam [] 0 (env.getMIID (placeholderTag d.codecType)).2
        PARAM_ID_RESET_PLACEHOLDER_MODULE).paramData = none →
      (configureA2dpEncoderDecoder env d).1 = -ENOMEM ∧
      pushes (passTrace d (configureA2dpEncoderDecoder env d).2) = []) ∧
    (specNeedsReset d.codecFormat
        (pluginPackage env d.codecFormat d.codecType d.codecInfo).is_abr_enabled = false →
      pushes (passTrace d (configureA2dpEncoderDecoder env d).2) <+: stepPushes env
        (specBlocks env (placeholderTag d.codecType) (env.getMIID (placeholderTag d.codecType)).2
            (pluginPackage env d.codecFormat d.codecType d.codecInfo).blocks ++
          specStatic env (configureA2dpEncoderDecoder env d).2 (placeholderTag d.codecType)
            (env.getMIID (placeholderTag d.codecType)).2)) := by
  rcases configure_pipeline env d with ⟨st, evs, hst, hpop, _, e⟩ | ⟨pl, evs, hev, hpk, e⟩
  · exfalso
    rw [e, passTrace_eq d evs rfl] at hload
    exact hpop hload
  obtain ⟨load, d0, hl, _, ht, e2⟩ := configure_run env d (Or.inl hload)
  obtain ⟨_, _, _, _, f4, f1⟩ := runPipeline_frame env
    (specPipeline env (afterLoad d pl evs) pl.out_buf) (afterLoad d pl evs)
  obtain ⟨x, hx⟩ := runSteps_frame env (specPipeline env (afterLoad d pl evs) pl.out_buf)
    (afterLoad d pl evs)
  rw [hx, ← e] at f1 f4
  have hfmt : (configureA2dpEncoderDecoder env d).2.codecFormat = d.codecFormat := by
    have := congrArg (fun p => p.2.1) f1
    exact this.trans (afterLoad_frame d pl evs).2.2.2.1
  have hct : (configureA2dpEncoderDecoder env d).2.codecType = d.codecType := by
    have := congrArg (fun p => p.2.2.1) f1
    exact this.trans (afterLoad_frame d pl evs).2.2.1
  have habr : (configureA2dpEncoderDecoder env d).2.isAbrEnabled =
      (pluginPackage env d.codecFormat d.codecType d.codecInfo).is_abr_enabled := by
    rw [← hpk]
    exact f4.trans (afterLoad_frame d pl evs).2.2.2.2.2.2.1
  have hplan : specPipeline env (configureA2dpEncoderDecoder env d).2
      (pluginPackage env d.codecFormat d.codecType d.codecInfo) =
      PipelineStep.resolve (placeholderTag d.codecType) ::
        (specReset env (configureA2dpEncoderDecoder env d).2 (placeholderTag d.codecType)
          (env.getMIID (placeholderTag d.codecType)).2 ++
        (specBlocks env (placeholderTag d.codecType) (env.getMIID (placeholderTag d.codecType)).2
            (pluginPackage env d.codecFormat d.codecType d.codecInfo).blocks ++
          specStatic env (configureA2dpEncoderDecoder env d).2 (placeholderTag d.codecType)
            (env.getMIID (placeholderTag d.codecType)).2)) := by
    simp only [specPipeline, specPlaceholder, hct, List.append_assoc]
  have e3 : configureA2dpEncoderDecoder env d =
      runPipeline env
        (specReset env (configureA2dpEncoderDecoder env d).2 (placeholderTag d.codecType)
          (env.getMIID (placeholderTag d.codecType)).2 ++
        (specBlocks env (placeholderTag d.codecType) (env.getMIID (placeholderTag d.codecType)).2
            (pluginPackage env d.codecFormat d.codecType d.codecInfo).blocks ++
          specStatic env (configureA2dpEncoderDecoder env d).2 (placeholderTag d.codecType)
            (env.getMIID (placeholderTag d.codecType)).2))
        (d0.log (.getMIID (placeholderTag d.codecType))) := by
    have := e2
    rw [hplan, runPipeline_resolve, if_neg (not_not.2 hres)] at this
    exact this
  have ht1 : (d0.log (.getMIID (placeholderTag d.codecType))).trace =
      d.trace ++ (load ++ [.getMIID (placeholderTag d.codecType)]) := by
    show d0.trace ++ _ = _
    rw [ht, List.append_assoc]
  have hl1 : pushes (load ++ [Event.getMIID (placeholderTag d.codecType)]) = [] := by
    rw [pushes_append, hl]
    rfl
  refine ⟨fun hn hd => ?_, fun hn hd => ?_, fun hn => ?_⟩
  · have hr : specReset env (configureA2dpEncoderDecoder env d).2 (placeholderTag d.codecType)
        (env.getMIID (placeholderTag d.codecType)).2 =
        [.custom (placeholderTag d.codecType) PARAM_ID_RESET_PLACEHOLDER_MODULE
          (env.payloadCustomParam [] 0 (env.getMIID (placeholderTag d.codecType)).2
            PARAM_ID_RESET_PLACEHOLDER_MODULE)] := by
      unfold specReset
      rw [hfmt, habr, if_pos hn]
    rw [hr, List.singleton_append, runPipeline_custom] at e3
    obtain ⟨y, hy⟩ := Option.ne_none_iff_exists.1 hd
    rw [← hy] at e3
    dsimp only at e3
    have hp := pass_pushes_initial env
      (specBlocks env (placeholderTag d.codecType) (env.getMIID (placeholderTag d.codecType)).2
          (pluginPackage env d.codecFormat d.codecType d.codecInfo).blocks ++
        specStatic env (configureA2dpEncoderDecoder env d).2 (placeholderTag d.codecType)
          (env.getMIID (placeholderTag d.codecType)).2)
      ((d0.log (.getMIID (placeholderTag d.codecType))).updateCustomPayload
        (placeholderTag d.codecType) (.payloadCustomParam PARAM_ID_RESET_PLACEHOLDER_MODULE)
        (env.payloadCustomParam [] 0 (env.getMIID (placeholderTag d.codecType)).2
          PARAM_ID_RESET_PLACEHOLDER_MODULE))
      ((d0.log (.getMIID (placeholderTag d.codecType))).updateCustomPayload
        (placeholderTag d.codecType) (.payloadCustomParam PARAM_ID_RESET_PLACEHOLDER_MODULE)
        (env.payloadCustomParam [] 0 (env.getMIID (placeholderTag d.codecType)).2
          PARAM_ID_RESET_PLACEHOLDER_MODULE)) [] rfl (by simp)
    rw [← e3] at hp
    obtain ⟨_, h2, _⟩ := runPipeline_frame env
      (specBlocks env (placeholderTag d.codecType) (env.getMIID (placeholderTag d.codecType)).2
          (pluginPackage env d.codecFormat d.codecType d.codecInfo).blocks ++
        specStatic env (configureA2dpEncoderDecoder env d).2 (placeholderTag d.codecType)
          (env.getMIID (placeholderTag d.codecType)).2)
      ((d0.log (.getMIID (placeholderTag d.codecType))).updateCustomPayload
        (placeholderTag d.codecType) (.payloadCustomParam PARAM_ID_RESET_PLACEHOLDER_MODULE)
        (env.payloadCustomParam [] 0 (env.getMIID (placeholderTag d.codecType)).2
          PARAM_ID_RESET_PLACEHOLDER_MODULE))
    obtain ⟨z, hz, _⟩ := runSteps_pushes env
      (specBlocks env (placeholderTag d.codecType) (env.getMIID (placeholderTag d.codecType)).2
          (pluginPackage env d.codecFormat d.codecType d.codecInfo).blocks ++
        specStatic env (configureA2dpEncoderDecoder env d).2 (placeholderTag d.codecType)
          (env.getMIID (placeholderTag d.codecType)).2)
      ((d0.log (.getMIID (placeholderTag d.codecType))).updateCustomPayload
        (placeholderTag d.codecType) (.payloadCustomParam PARAM_ID_RESET_PLACEHOLDER_MODULE)
        (env.payloadCustomParam [] 0 (env.getMIID (placeholderTag d.codecType)).2
          PARAM_ID_RESET_PLACEHOLDER_MODULE))
    rw [← e3, hz] at h2
    have htr : (configureA2dpEncoderDecoder env d).2.trace =
        d.trace ++ (load ++ [Event.getMIID (placeholderTag d.codecType)] ++
          [Event.updateCustomPayload (placeholderTag d.codecType)
            (.payloadCustomParam PARAM_ID_RESET_PLACEHOLDER_MODULE)
            (env.payloadCustomParam [] 0 (env.getMIID (placeholderTag d.codecType)).2
              PARAM_ID_RESET_PLACEHOLDER_MODULE)] ++ z) := by
      rw [h2]
      show ((d0.log (.getMIID (placeholderTag d.codecType))).trace ++ _) ++ z = _
      rw [ht1]
      simp
    have hpz : pushes z = pushes (passTrace
        ((d0.log (.getMIID (placeholderTag d.codecType))).updateCustomPayload
          (placeholderTag d.codecType) (.payloadCustomParam PARAM_ID_RESET_PLACEHOLDER_MODULE)
          (env.payloadCustomParam [] 0 (env.getMIID (placeholderTag d.codecType)).2
            PARAM_ID_RESET_PLACEHOLDER_MODULE))
        (configureA2dpEncoderDecoder env d).2) := by
      rw [passTrace_eq _ z h2]
    refine ⟨pushes z, ?_, by rw [hpz]; exact hp⟩
    rw [passTrace_eq d _ htr, pushes_append, pushes_append, hl1]
    rfl
  · have hr : specReset env (configureA2dpEncoderDecoder env d).2 (placeholderTag d.codecType)
        (env.getMIID (placeholderTag d.codecType)).2 =
        [.custom (placeholderTag d.codecType) PARAM_ID_RESET_PLACEHOLDER_MODULE
          (env.payloadCustomParam [] 0 (env.getMIID (placeholderTag d.codecType)).2
            PARAM_ID_RESET_PLACEHOLDER_MODULE)] := by
      unfold specReset
      rw [hfmt, habr, if_pos hn]
    rw [hr, List.singleton_append, runPipeline_custom, hd] at e3
    dsimp only at e3
    rw [e3]
    refine ⟨rfl, ?_⟩
    rw [passTrace_eq d _ ht1]
    exact hl1
  · have hr : specReset env (configureA2dpEncoderDecoder env d).2 (placeholderTag d.codecType)
        (env.getMIID (placeholderTag d.codecType)).2 = [] := by
      unfold specReset
      rw [hfmt, habr, hn]
      rfl
    rw [hr, List.nil_append] at e3
    have hp := pass_pushes_initial env
      (specBlocks env (placeholderTag d.codecType) (env.getMIID (placeholderTag d.codecType)).2
          (pluginPackage env d.codecFormat d.codecType d.codecInfo).blocks ++
        specStatic env (configureA2dpEncoderDecoder env d).2 (placeholderTag d.codecType)
          (env.getMIID (placeholderTag d.codecType)).2) d
      (d0.log (.getMIID (placeholderTag d.codecType)))
      (load ++ [.getMIID (placeholderTag d.codecType)]) hl1 ht1
    rw [← e3] at hp
    exact hp

theorem C23_reset_iff_placeholder_witness :
    ∃ rest, pushes (passTrace (sampleDevice .PAL_DEVICE_OUT_BLUETOOTH_A2DP .ENC .CODEC_TYPE_SBC)
      (configureA2dpEncoderDecoder okCollab
        (sampleDevice .PAL_DEVICE_OUT_BLUETOOTH_A2DP .ENC .CODEC_TYPE_SBC)).2) =
      (.BT_PLACEHOLDER_ENCODER, .payloadCustomParam PARAM_ID_RESET_PLACEHOLDER_MODULE,
        ⟨some [10, PARAM_ID_RESET_PLACEHOLDER_MODULE], 2⟩) :: rest :=
  ((C23_reset_iff_placeholder okCollab
    (sampleDevice .PAL_DEVICE_OUT_BLUETOOTH_A2DP .ENC .CODEC_TYPE_SBC) (by decide) (by decide)).1
    (by decide) (by decide)).imp fun _ h => h.1

/-! ## The payloads of a pass in which every call succeeds -/

theorem events_of_ok (env : Collab) (s : PipelineStep) (h : s.status env = 0) :
    s.events env =
      match s with
      | .resolve tag => [.getMIID tag]
      | .custom t pid out => [.updateCustomPayload t (.payloadCustomParam pid) out]
      | .fixed t k out => [.updateCustomPayload t k out] := by
  cases s with
  | resolve tag => rfl
  | custom t pid out => simp only [PipelineStep.events, h, if_true]
  | fixed t k out => simp only [PipelineStep.events, h, if_true]

theorem stepPushes_cons (env : Collab) (s : PipelineStep) (rest : List PipelineStep) :
    stepPushes env (s :: rest) = pushes (s.events env) ++ stepPushes env rest := by
  simp [stepPushes, stepEvents_cons, pushes_append]

theorem stepPushes_resolve (env : Collab) (tag : ModuleTag) (rest : List PipelineStep) :
    stepPushes env (.resolve tag :: rest) = stepPushes env rest := by
  rw [stepPushes_cons]
  rfl

theorem stepPushes_fixed (env : Collab) (t : ModuleTag) (k : PayloadKind) (out : BuilderOut)
    (rest : List PipelineStep) (h : out.paramSize ≠ 0) :
    stepPushes env (.fixed t k out :: rest) = (t, k, out) :: stepPushes env rest := by
  rw [stepPushes_cons]
  simp [PipelineStep.events, PipelineStep.status, h, pushes]

theorem stepPushes_custom (env : Collab) (t : ModuleTag) (pid : Nat) (out : BuilderOut)
    (rest : List PipelineStep) (h : out.paramData ≠ none) :
    stepPushes env (.custom t pid out :: rest) =
      (t, .payloadCustomParam pid, out) :: stepPushes env rest := by
  rw [stepPushes_cons]
  simp [PipelineStep.events, PipelineStep.status, h, pushes]

theorem stepPushes_nil (env : Collab) : stepPushes env [] = [] := rfl

theorem stepPushes_blocks (env : Collab) (t : ModuleTag) (m : Nat) :
    ∀ blks : List custom_block_t, (∀ blk ∈ blks, (blockOut env m blk).paramData ≠ none) →
      stepPushes env (specBlocks env t m blks) =
        blks.map fun blk => (t, PayloadKind.payloadCustomParam blk.param_id, blockOut env m blk)
  | [], _ => rfl
  | blk :: rest, h => by
    have hr := stepPushes_blocks env t m rest (fun b hb => h b (List.mem_cons_of_mem _ hb))
    simp only [specBlocks, List.map_cons] at hr ⊢
    rw [stepPushes_custom env t blk.param_id _ _ (h blk (List.mem_cons_self _ _)), hr]

theorem specRatPcm_ok (env : Collab) (cfg : pal_media_config)
    (hres : ∀ tag, (env.getMIID tag).1 = 0) (hb : env.buildersSucceed) :
    ∀ s ∈ specRatPcm env cfg, s.status env = 0 := by
  obtain ⟨_, _, _, _, _, _, hb7, hb8⟩ := hb
  intro s hs
  simp only [specRatPcm, List.mem_cons, List.mem_singleton, List.not_mem_nil, or_false] at hs
  rcases hs with rfl | rfl | rfl | rfl
  · exact hres _
  · simp [PipelineStep.status, (hb7 _ _).2]
  · exact hres _
  · simp [PipelineStep.status, (hb8 _ _).2]

theorem specCop_ok (env : Collab) (d : Bluetooth) (t : ModuleTag) (m : Nat)
    (hres : ∀ tag, (env.getMIID tag).1 = 0) (hb : env.buildersSucceed) :
    ∀ s ∈ specCop env d t m, s.status env = 0 := by
  have hrp := specRatPcm_ok env d.codecConfig hres hb
  obtain ⟨_, _, hb3, hb4, hb5, hb6, _, _⟩ := hb
  intro s hs
  unfold specCop at hs
  split_ifs at hs with h1 h2 h3
  · simp only [List.mem_cons, List.mem_singleton, List.not_mem_nil, or_false] at hs
    rcases hs with rfl | rfl | rfl | rfl
    · simp [PipelineStep.status, (hb3 _ _).2]
    · exact hres _
    · simp [PipelineStep.status, (hb4 _ _ _).2]
    · simp [PipelineStep.status, (hb4 _ _ _).2]
  · rcases List.mem_cons.1 hs with rfl | hs
    · simp [PipelineStep.status, (hb3 _ _).2]
    · rcases List.mem_append.1 hs with hs | hs
      · simp only [List.mem_cons, List.mem_singleton, List.not_mem_nil, or_false] at hs
        rcases hs with rfl | rfl | rfl
        · exact hres _
        · simp [PipelineStep.status, (hb5 _ _).2]
        · simp [PipelineStep.status, (hb6 _ _).2]
      · exact hrp s hs
  · simp at hs
  · rcases List.mem_append.1 hs with hs | hs
    · simp only [List.mem_cons, List.mem_singleton, List.not_mem_nil, or_false] at hs
      rcases hs with rfl | rfl
      · exact hres _
      · simp [PipelineStep.status, (hb6 _ _).2]
    · exact hrp s hs

theorem specPipeline_ok (env : Collab) (d : Bluetooth) (ob : bt_enc_payload_t)
    (hres : ∀ tag, (env.getMIID tag).1 = 0) (hb : env.buildersSucceed) :
    ∀ s ∈ specPipeline env d ob, s.status env = 0 := by
  have hcop := specCop_ok env d (placeholderTag d.codecType)
    (env.getMIID (placeholderTag d.codecType)).2 hres hb
  obtain ⟨hb1, hb2, _⟩ := hb
  intro s hs
  unfold specPipeline specPlaceholder at hs
  rcases List.mem_cons.1 hs with rfl | hs
  · exact hres _
  rcases List.mem_append.1 hs with hs | hs
  · rcases List.mem_append.1 hs with hs | hs
    · unfold specReset at hs
      split_ifs at hs
      · rw [List.mem_singleton.1 hs]
        simp [PipelineStep.status, (hb1 _ _ _ _).1]
      · simp at hs
    · obtain ⟨blk, _, rfl⟩ := List.mem_map.1 hs
      simp [PipelineStep.status, blockOut, (hb1 _ _ _ _).1]
  · unfold specStatic at hs
    split_ifs at hs
    · simp at hs
    · rcases List.mem_cons.1 hs with rfl | hs
      · simp [PipelineStep.status, (hb2 _ _ _).2]
      · exact hcop s hs
    · exact hcop s hs

/-- Claim C24: for every codec format other than LC3 and aptX-Adaptive-Speech
with direction ENC and every collaborator call succeeding, the pass returns 0 and
the payloads it pushes are exactly, in this order: the placeholder reset when the
codec uses the placeholder (isPlaceholderEncoder), each plugin block in the order
of the plugin, the TWS toggle for aptX dual mono and aptX-Adaptive, the
COP_PACKETIZER_V0 output-media-format payload built from the device attributes,
the RAT payload built from the codec configuration, and the PCM-converter
payload built from the same codec configuration. -/
theorem C24_enc_push_sequence (env : Collab) (d : Bluetooth)
    (hlc3 : d.codecFormat ≠ .CODEC_TYPE_LC3) (hsp : d.codecFormat ≠ .CODEC_TYPE_APTX_AD_SPEECH)
    (hdir : d.codecType = .ENC) (hok : env.pipelineSucceeds) :
    (configureA2dpEncoderDecoder env d).1 = 0 ∧
    pushes (passTrace d (configureA2dpEncoderDecoder env d).2) =
      (if isPlaceholderEncoder (configureA2dpEncoderDecoder env d).2 = true then
        [(ModuleTag.BT_PLACEHOLDER_ENCODER,
          PayloadKind.payloadCustomParam PARAM_ID_RESET_PLACEHOLDER_MODULE,
          env.payloadCustomParam [] 0 (env.getMIID .BT_PLACEHOLDER_ENCODER).2
            PARAM_ID_RESET_PLACEHOLDER_MODULE)]
       else []) ++
      ((pluginPackage env d.codecFormat d.codecType d.codecInfo).blocks.map fun blk =>
        (ModuleTag.BT_PLACEHOLDER_ENCODER, PayloadKind.payloadCustomParam blk.param_id,
          blockOut env (env.getMIID .BT_PLACEHOLDER_ENCODER).2 blk)) ++
      (if d.codecFormat = .CODEC_TYPE_APTX_DUAL_MONO ∨ d.codecFormat = .CODEC_TYPE_APTX_AD then
        [(ModuleTag.BT_PLACEHOLDER_ENCODER, PayloadKind.payloadTWSConfig,
          env.payloadTWSConfig (env.getMIID .BT_PLACEHOLDER_ENCODER).2 d.isTwsMonoModeOn
            d.codecFormat)]
       else []) ++
      [ (.COP_PACKETIZER_V0, .payloadCopPackConfig,
          env.payloadCopPackConfig (env.getMIID .COP_PACKETIZER_V0).2
            (configureA2dpEncoderDecoder env d).2.deviceAttr_config),
        (.RAT_RENDER, .payloadRATConfig,
          env.payloadRATConfig (env.getMIID .RAT_RENDER).2
            (configureA2dpEncoderDecoder env d).2.codecConfig),
        (.BT_PCM_CONVERTER, .payloadPcmCnvConfig,
          env.payloadPcmCnvConfig (env.getMIID .BT_PCM_CONVERTER).2
            (configureA2dpEncoderDecoder env d).2.codecConfig) ] := by
  have hz := configure_succeeds env d hok
  obtain ⟨_, _, _, hres, hb⟩ := hok
  obtain ⟨load, d0, hl, _, ht, e⟩ := configure_run env d (Or.inr hz)
  have hall := specPipeline_ok env (configureA2dpEncoderDecoder env d).2
    (pluginPackage env d.codecFormat d.codecType d.codecInfo) hres hb
  obtain ⟨_, h2⟩ := pipeline_ok env _ d d0 load ht hall
  rw [← e] at h2
  refine ⟨hz, ?_⟩
  have hfx := configure_fixed env d
  simp only [Bluetooth.fixed, Prod.mk.injEq] at hfx
  obtain ⟨_, hf, hc, _, _, htw, _⟩ := hfx
  obtain ⟨hb1, hb2, _, _, _, hb6, hb7, hb8⟩ := hb
  have htag : placeholderTag (configureA2dpEncoderDecoder env d).2.codecType =
      .BT_PLACEHOLDER_ENCODER := by
    rw [hc, hdir]
    rfl
  rw [h2, pushes_append, hl, List.nil_append]
  show stepPushes env _ = _
  unfold specPipeline specPlaceholder
  rw [htag, stepPushes_resolve, stepPushes_append, stepPushes_append,
    stepPushes_blocks env _ _ _ (fun blk _ => (hb1 _ _ _ _).1)]
  have hreset : stepPushes env (specReset env (configureA2dpEncoderDecoder env d).2
      .BT_PLACEHOLDER_ENCODER (env.getMIID .BT_PLACEHOLDER_ENCODER).2) =
      (if isPlaceholderEncoder (configureA2dpEncoderDecoder env d).2 = true then
        [(ModuleTag.BT_PLACEHOLDER_ENCODER,
          PayloadKind.payloadCustomParam PARAM_ID_RESET_PLACEHOLDER_MODULE,
          env.payloadCustomParam [] 0 (env.getMIID .BT_PLACEHOLDER_ENCODER).2
            PARAM_ID_RESET_PLACEHOLDER_MODULE)]
       else []) := by
    unfold specReset
    rw [isPlaceholderEncoder_eq]
    split_ifs
    · rw [stepPushes_custom env _ _ _ _ (hb1 _ _ _ _).1]
      rfl
    · rfl
  have hcop : stepPushes env (specCop env (configureA2dpEncoderDecoder env d).2
      .BT_PLACEHOLDER_ENCODER (env.getMIID .BT_PLACEHOLDER_ENCODER).2) =
      [ (.COP_PACKETIZER_V0, .payloadCopPackConfig,
          env.payloadCopPackConfig (env.getMIID .COP_PACKETIZER_V0).2
            (configureA2dpEncoderDecoder env d).2.deviceAttr_config),
        (.RAT_RENDER, .payloadRATConfig,
          env.payloadRATConfig (env.getMIID .RAT_RENDER).2
            (configureA2dpEncoderDecoder env d).2.codecConfig),
        (.BT_PCM_CONVERTER, .payloadPcmCnvConfig,
          env.payloadPcmCnvConfig (env.getMIID .BT_PCM_CONVERTER).2
            (configureA2dpEncoderDecoder env d).2.codecConfig) ] := by
    unfold specCop specRatPcm
    rw [if_neg (by rw [hf]; exact hlc3), if_neg (by rw [hc, hdir]; decide)]
    simp only [List.cons_append, List.nil_append]
    rw [stepPushes_resolve, stepPushes_fixed env _ _ _ _ (hb6 _ _).2, stepPushes_resolve,
      stepPushes_fixed env _ _ _ _ (hb7 _ _).2, stepPushes_resolve,
      stepPushes_fixed env _ _ _ _ (hb8 _ _).2, stepPushes_nil]
  have hstatic : stepPushes env (specStatic env (configureA2dpEncoderDecoder env d).2
      .BT_PLACEHOLDER_ENCODER (env.getMIID .BT_PLACEHOLDER_ENCODER).2) =
      (if d.codecFormat = .CODEC_TYPE_APTX_DUAL_MONO ∨ d.codecFormat = .CODEC_TYPE_APTX_AD then
        [(ModuleTag.BT_PLACEHOLDER_ENCODER, PayloadKind.payloadTWSConfig,
          env.payloadTWSConfig (env.getMIID .BT_PLACEHOLDER_ENCODER).2 d.isTwsMonoModeOn
            d.codecFormat)]
       else []) ++
      stepPushes env (specCop env (configureA2dpEncoderDecoder env d).2
        .BT_PLACEHOLDER_ENCODER (env.getMIID .BT_PLACEHOLDER_ENCODER).2) := by
    unfold specStatic
    rw [hf, htw, if_neg hsp]
    split_ifs
    · rw [stepPushes_fixed env _ _ _ _ (hb2 _ _ _).2]
      rfl
    · rfl
  rw [hreset, hstatic, hcop]
  simp only [List.append_assoc]

theorem C24_enc_push_sequence_witness :
    pushes (passTrace (sampleDevice .PAL_DEVICE_OUT_BLUETOOTH_A2DP .ENC .CODEC_TYPE_APTX_AD)
      (configureA2dpEncoderDecoder okCollab
        (sampleDevice .PAL_DEVICE_OUT_BLUETOOTH_A2DP .ENC .CODEC_TYPE_APTX_AD)).2) =
      [ (.BT_PLACEHOLDER_ENCODER, .payloadCustomParam 100, ⟨some [10, 100, 5], 3⟩),
        (.BT_PLACEHOLDER_ENCODER, .payloadTWSConfig, ⟨some [10, 1], 2⟩),
        (.COP_PACKETIZER_V0, .payloadCopPackConfig, ⟨some [14, 6, 96000], 3⟩),
        (.RAT_RENDER, .payloadRATConfig, ⟨some [15, 7, 48000], 3⟩),
        (.BT_PCM_CONVERTER, .payloadPcmCnvConfig, ⟨some [16, 8, 48000], 3⟩) ] :=
  (C24_enc_push_sequence okCollab
    (sampleDevice .PAL_DEVICE_OUT_BLUETOOTH_A2DP .ENC .CODEC_TYPE_APTX_AD) (by decide) (by decide)
    rfl okCollab_pipelineSucceeds).2.trans (by decide)

/-! ## RAT and PCM converter -/

theorem pushesTo_of_pushes_nil (t : ModuleTag) (l : List Event) (h : pushes l = []) :
    pushesTo t l = [] := by
  unfold pushes at h
  unfold pushesTo
  rw [List.filterMap_eq_nil_iff] at h ⊢
  intro x hx
  have hx2 := h x hx
  cases x <;> first | rfl | simp at hx2

theorem stepEvents_tags (env : Collab) (t : ModuleTag) :
    ∀ steps : List PipelineStep, (∀ s ∈ steps, s.tag ≠ t) →
      t ∉ resolvedTags (stepEvents env steps) ∧ pushesTo t (stepEvents env steps) = []
  | [], _ => by simp [stepEvents, resolvedTags, pushesTo]
  | s :: rest, h => by
    have hr := stepEvents_tags env t rest (fun x hx => h x (List.mem_cons_of_mem _ hx))
    have hs : s.tag ≠ t := h s (List.mem_cons_self _ _)
    rw [stepEvents_cons, resolvedTags_append, pushesTo_append, hr.2]
    have h1 : t ∉ resolvedTags (s.events env) ∧ pushesTo t (s.events env) = [] := by
      cases s with
      | resolve tag =>
        simp only [PipelineStep.tag] at hs
        simp [PipelineStep.events, resolvedTags, pushesTo, Ne.symm hs]
      | custom tg pid out =>
        simp only [PipelineStep.tag] at hs
        simp only [PipelineStep.events]
        split_ifs <;> simp [resolvedTags, pushesTo, hs]
      | fixed tg k out =>
        simp only [PipelineStep.tag] at hs
        simp only [PipelineStep.events]
        split_ifs <;> simp [resolvedTags, pushesTo, hs]
    refine ⟨?_, by rw [h1.2]; rfl⟩
    intro hm
    rcases List.mem_append.1 hm with hm | hm
    · exact h1.1 hm
    · exact hr.1 hm

theorem specPipeline_tags (env : Collab) (d : Bluetooth) (ob : bt_enc_payload_t)
    (h : d.codecFormat = .CODEC_TYPE_APTX_AD_SPEECH ∨ d.codecType = .DEC) :
    ∀ s ∈ specPipeline env d ob,
      s.tag = placeholderTag d.codecType ∨ s.tag = .COP_DEPACKETIZER_V2 := by
  intro s hs
  unfold specPipeline specPlaceholder at hs
  rcases List.mem_cons.1 hs with rfl | hs
  · exact Or.inl rfl
  rcases List.mem_append.1 hs with hs | hs
  · rcases List.mem_append.1 hs with hs | hs
    · unfold specReset at hs
      split_ifs at hs
      · rw [List.mem_singleton.1 hs]
        exact Or.inl rfl
      · simp at hs
    · obtain ⟨blk, _, rfl⟩ := List.mem_map.1 hs
      exact Or.inl rfl
  · have hcop : ∀ x ∈ specCop env d (placeholderTag d.codecType)
        (env.getMIID (placeholderTag d.codecType)).2, d.codecType = .DEC →
        x.tag = placeholderTag d.codecType ∨ x.tag = .COP_DEPACKETIZER_V2 := by
      intro x hx hd
      unfold specCop at hx
      rw [if_pos hd, if_pos hd] at hx
      split_ifs at hx
      · simp only [List.mem_cons, List.mem_singleton, List.not_mem_nil, or_false] at hx
        rcases hx with rfl | rfl | rfl | rfl
        · exact Or.inl rfl
        · exact Or.inr rfl
        · exact Or.inr rfl
        · exact Or.inr rfl
      · simp at hx
    unfold specStatic at hs
    split_ifs at hs with h1 h2
    · simp at hs
    · have hd : d.codecType = .DEC := h.resolve_left h1
      rcases List.mem_cons.1 hs with rfl | hs
      · exact Or.inl rfl
      · exact hcop s hs hd
    · exact hcop s hs (h.resolve_left h1)

theorem ends_cons {r : List PipelineStep} (x : PipelineStep) {l : List PipelineStep}
    (h : ∃ pre, l = pre ++ r) : ∃ pre, x :: l = pre ++ r := by
  obtain ⟨pre, e⟩ := h
  exact ⟨x :: pre, by rw [e, List.cons_append]⟩

theorem ends_append {r : List PipelineStep} (a : List PipelineStep) {l : List PipelineStep}
    (h : ∃ pre, l = pre ++ r) : ∃ pre, a ++ l = pre ++ r := by
  obtain ⟨pre, e⟩ := h
  exact ⟨a ++ pre, by rw [e, List.append_assoc]⟩

theorem specPipeline_ends (env : Collab) (d : Bluetooth) (ob : bt_enc_payload_t)
    (h1 : d.codecFormat ≠ .CODEC_TYPE_APTX_AD_SPEECH) (h2 : d.codecType ≠ .DEC) :
    ∃ pre, specPipeline env d ob = pre ++ specRatPcm env d.codecConfig := by
  have hcop : ∃ pre, specCop env d (placeholderTag d.codecType)
      (env.getMIID (placeholderTag d.codecType)).2 = pre ++ specRatPcm env d.codecConfig := by
    unfold specCop
    rw [if_neg h2, if_neg h2]
    split_ifs
    · exact ends_cons _ ⟨_, rfl⟩
    · exact ⟨_, rfl⟩
  have hst : ∃ pre, specStatic env d (placeholderTag d.codecType)
      (env.getMIID (placeholderTag d.codecType)).2 = pre ++ specRatPcm env d.codecConfig := by
    unfold specStatic
    rw [if_neg h1]
    split_ifs
    · exact ends_cons _ hcop
    · exact hcop
  unfold specPipeline specPlaceholder
  exact ends_cons _ (ends_append _ hst)

theorem stepEvents_ratPcm (env : Collab) (cfg : pal_media_config)
    (h : ∀ s ∈ specRatPcm env cfg, s.status env = 0) :
    stepEvents env (specRatPcm env cfg) =
      [ .getMIID .RAT_RENDER,
        .updateCustomPayload .RAT_RENDER .payloadRATConfig
          (env.payloadRATConfig (env.getMIID .RAT_RENDER).2 cfg),
        .getMIID .BT_PCM_CONVERTER,
        .updateCustomPayload .BT_PCM_CONVERTER .payloadPcmCnvConfig
          (env.payloadPcmCnvConfig (env.getMIID .BT_PCM_CONVERTER).2 cfg) ] := by
  have h2 := h (.fixed .RAT_RENDER .payloadRATConfig
    (env.payloadRATConfig (env.getMIID .RAT_RENDER).2 cfg)) (by simp [specRatPcm])
  have h4 := h (.fixed .BT_PCM_CONVERTER .payloadPcmCnvConfig
    (env.payloadPcmCnvConfig (env.getMIID .BT_PCM_CONVERTER).2 cfg)) (by simp [specRatPcm])
  simp only [specRatPcm, stepEvents_cons, events_of_ok env _ h2, events_of_ok env _ h4]
  rfl

/-- Claim C25, evaluated where it fails: SBC in direction DEC with every
collaborator succeeding. The pass returns 0 and resolves only the placeholder
decoder: RAT and PCM converter are skipped, although the codec is neither
aptX-Adaptive-Speech nor LC3. -/
theorem C25_counterexample :
    (configureA2dpEncoderDecoder okCollab
      (sampleDevice .PAL_DEVICE_IN_BLUETOOTH_A2DP .DEC .CODEC_TYPE_SBC)).1 = 0 ∧
    resolvedTags (passTrace (sampleDevice .PAL_DEVICE_IN_BLUETOOTH_A2DP .DEC .CODEC_TYPE_SBC)
      (configureA2dpEncoderDecoder okCollab
        (sampleDevice .PAL_DEVICE_IN_BLUETOOTH_A2DP .DEC .CODEC_TYPE_SBC)).2) =
      [.BT_PLACEHOLDER_DECODER] ∧
    (pushes (passTrace (sampleDevice .PAL_DEVICE_IN_BLUETOOTH_A2DP .DEC .CODEC_TYPE_SBC)
      (configureA2dpEncoderDecoder okCollab
        (sampleDevice .PAL_DEVICE_IN_BLUETOOTH_A2DP .DEC .CODEC_TYPE_SBC)).2)).map
      (fun p => p.1) = [.BT_PLACEHOLDER_DECODER, .BT_PLACEHOLDER_DECODER] := by
  decide

/-- Claim C25, amended: in every successful configuration pass, when the codec is
aptX-Adaptive-Speech or the direction is DEC, neither the RAT module nor the PCM
converter is resolved or pushed to; in every other case the pass ends with: RAT
resolved, its payload pushed, PCM converter resolved, its payload pushed, both
payloads built from the codec configuration. -/
theorem C25_rat_then_pcm_converter (env : Collab) (d : Bluetooth)
    (hz : (configureA2dpEncoderDecoder env d).1 = 0) :
    ((d.codecFormat = .CODEC_TYPE_APTX_AD_SPEECH ∨ d.codecType = .DEC) →
      ModuleTag.RAT_RENDER ∉ resolvedTags (passTrace d (configureA2dpEncoderDecoder env d).2) ∧
      ModuleTag.BT_PCM_CONVERTER ∉
        resolvedTags (passTrace d (configureA2dpEncoderDecoder env d).2) ∧
      pushesTo .RAT_RENDER (passTrace d (configureA2dpEncoderDecoder env d).2) = [] ∧
      pushesTo .BT_PCM_CONVERTER (passTrace d (configureA2dpEncoderDecoder env d).2) = []) ∧
    (¬(d.codecFormat = .CODEC_TYPE_APTX_AD_SPEECH ∨ d.codecType = .DEC) →
      ∃ pre, passTrace d (configureA2dpEncoderDecoder env d).2 =
        pre ++
          [ .getMIID .RAT_RENDER,
            .updateCustomPayload .RAT_RENDER .payloadRATConfig
              (env.payloadRATConfig (env.getMIID .RAT_RENDER).2
                (configureA2dpEncoderDecoder env d).2.codecConfig),
            .getMIID .BT_PCM_CONVERTER,
            .updateCustomPayload .BT_PCM_CONVERTER .payloadPcmCnvConfig
              (env.payloadPcmCnvConfig (env.getMIID .BT_PCM_CONVERTER).2
                (configureA2dpEncoderDecoder env d).2.codecConfig) ]) := by
  obtain ⟨load, d0, hl, hrl, ht, e⟩ := configure_run env d (Or.inr hz)
  have hall : ∀ s ∈ specPipeline env (configureA2dpEncoderDecoder env d).2
      (pluginPackage env d.codecFormat d.codecType d.codecInfo), s.status env = 0 := by
    have h1 := (runPipeline_frame env (specPipeline env (configureA2dpEncoderDecoder env d).2
      (pluginPackage env d.codecFormat d.codecType d.codecInfo)) d0).1
    rw [← e, hz] at h1
    exact (runSteps_status_zero env _ d0).1 h1.symm
  obtain ⟨_, h2⟩ := pipeline_ok env _ d d0 load ht hall
  rw [← e] at h2
  have hfx := configure_fixed env d
  simp only [Bluetooth.fixed, Prod.mk.injEq] at hfx
  obtain ⟨_, hf, hc, _⟩ := hfx
  constructor
  · intro hskip
    have htags := specPipeline_tags env (configureA2dpEncoderDecoder env d).2
      (pluginPackage env d.codecFormat d.codecType d.codecInfo) (by rw [hf, hc]; exact hskip)
    have hne : ∀ t : ModuleTag, t ≠ placeholderTag (configureA2dpEncoderDecoder env d).2.codecType →
        t ≠ .COP_DEPACKETIZER_V2 →
        t ∉ resolvedTags (passTrace d (configureA2dpEncoderDecoder env d).2) ∧
        pushesTo t (passTrace d (configureA2dpEncoderDecoder env d).2) = [] := by
      intro t n1 n2
      have hx := stepEvents_tags env t _ (fun s hs => by
        rcases htags s hs with h | h
        · rw [h]
          exact Ne.symm n1
        · rw [h]
          exact Ne.symm n2)
      have hlp : pushesTo t load = [] := pushesTo_of_pushes_nil t load hl
      rw [h2, resolvedTags_append, pushesTo_append, hrl, hlp]
      exact ⟨by simpa using hx.1, by simpa using hx.2⟩
    have hp1 : ModuleTag.RAT_RENDER ≠
        placeholderTag (configureA2dpEncoderDecoder env d).2.codecType := by
      cases (configureA2dpEncoderDecoder env d).2.codecType <;> simp [placeholderTag]
    have hp2 : ModuleTag.BT_PCM_CONVERTER ≠
        placeholderTag (configureA2dpEncoderDecoder env d).2.codecType := by
      cases (configureA2dpEncoderDecoder env d).2.codecType <;> simp [placeholderTag]
    exact ⟨(hne _ hp1 (by decide)).1, (hne _ hp2 (by decide)).1, (hne _ hp1 (by decide)).2,
      (hne _ hp2 (by decide)).2⟩
  · intro hn
    have hn1 : (configureA2dpEncoderDecoder env d).2.codecFormat ≠ .CODEC_TYPE_APTX_AD_SPEECH := by
      rw [hf]
      exact fun h => hn (Or.inl h)
    have hn2 : (configureA2dpEncoderDecoder env d).2.codecType ≠ .DEC := by
      rw [hc]
      exact fun h => hn (Or.inr h)
    obtain ⟨pre, hpre⟩ := specPipeline_ends env (configureA2dpEncoderDecoder env d).2
      (pluginPackage env d.codecFormat d.codecType d.codecInfo) hn1 hn2
    have hrp : ∀ s ∈ specRatPcm env (configureA2dpEncoderDecoder env d).2.codecConfig,
        s.status env = 0 := by
      intro s hs
      exact hall s (by rw [hpre]; exact List.mem_append_right _ hs)
    refine ⟨load ++ stepEvents env pre, ?_⟩
    rw [h2, hpre, stepEvents_append, stepEvents_ratPcm env _ hrp, List.append_assoc]

theorem C25_rat_then_pcm_converter_witness :
    ∃ pre, passTrace (sampleDevice .PAL_DEVICE_OUT_BLUETOOTH_A2DP .ENC .CODEC_TYPE_SBC)
      (configureA2dpEncoderDecoder okCollab
        (sampleDevice .PAL_DEVICE_OUT_BLUETOOTH_A2DP .ENC .CODEC_TYPE_SBC)).2 =
      pre ++
        [ .getMIID .RAT_RENDER,
          .updateCustomPayload .RAT_RENDER .payloadRATConfig
            (okCollab.payloadRATConfig (okCollab.getMIID .RAT_RENDER).2
              (configureA2dpEncoderDecoder okCollab
                (sampleDevice .PAL_DEVICE_OUT_BLUETOOTH_A2DP .ENC .CODEC_TYPE_SBC)).2.codecConfig),
          .getMIID .BT_PCM_CONVERTER,
          .updateCustomPayload .BT_PCM_CONVERTER .payloadPcmCnvConfig
            (okCollab.payloadPcmCnvConfig (okCollab.getMIID .BT_PCM_CONVERTER).2
              (configureA2dpEncoderDecoder okCollab
                (sampleDevice .PAL_DEVICE_OUT_BLUETOOTH_A2DP .ENC .CODEC_TYPE_SBC)).2.codecConfig) ] :=
  (C25_rat_then_pcm_converter okCollab
    (sampleDevice .PAL_DEVICE_OUT_BLUETOOTH_A2DP .ENC .CODEC_TYPE_SBC) (by decide)).2 (by decide)

end Arpal
